import Mathlib

/-!
Shallow embedding of the Predictive Tap-Hold (PTH) core of
`src/predictive_tap_hold/predictive_tap_hold.c` / `.h`, together with
theorems settling the frozen claims about it.

Modelling conventions:
* `uint16_t` values (timers, keycodes, durations) are `Nat`, reduced modulo
  `2 ^ 16` where the C code can overflow; `int16_t` values are `Int` obtained
  through an explicit `toInt16` conversion.
* The weakly-bound policy / predictor functions of the C file are collected in
  a `PthConfig` record; theorems quantify over the configuration unless a
  claim is about a specific default.
* HID-visible side effects (re-entrant `process_record` calls, `tap_code16`,
  `send_and_wait`, ...) are collected into a trace of `Emission`s; the inputs
  handed to the prediction functions are recorded as `Emission.predCall`.
* The preprocessor feature flags keep their default (undefined) state:
  `PTH_RESET_IMMEDIATELY_WHEN_TAP_CHOSEN`, `PTH_FAST_STREAK_TAP_ENABLE` and
  `PTH_FAST_STREAK_TAP_RESET_IMMEDIATELY` are off inside the state machine
  (the fast-streak eligibility predicate itself is embedded separately, as
  one claim is about it), and `TAPPING_TERM_PER_KEY`, `TAP_DANCE_ENABLE`,
  `COMBO_ENABLE`, `VIAL_ENABLE` are off.
* The two `float` weighted-average snapshot fields and the float decision
  trees are not embedded: they influence the machine only through the
  boolean / integer outputs of the prediction functions, which are opaque
  `PthConfig` parameters here.  Claims are about the *inputs* of those
  functions, which the embedding records exactly.
-/

namespace PTH

/-- Matrix position of a physical key (`keypos_t`). -/
structure KeyPos where
  col : Nat
  row : Nat
deriving DecidableEq, Repr

/-- Sentinel for an empty key position (`EMPTY_KEYPOS`). -/
def EMPTY_KEYPOS : KeyPos := ⟨0xFF, 0xFF⟩

/-- Tap information of a record (`tap_t`): `count = 0` means hold,
`count ≥ 1` tap. -/
structure TapInfo where
  interrupted : Bool
  count : Nat
deriving DecidableEq, Repr

/-- Key event (`keyevent_t`).  `isKey` models `IS_KEYEVENT`, i.e. whether the
event came from the matrix scan rather than a combo or tap dance. -/
structure KeyEvent where
  key : KeyPos
  pressed : Bool
  time : Nat
  isKey : Bool
deriving DecidableEq, Repr

/-- Key record (`keyrecord_t`). -/
structure KeyRecord where
  event : KeyEvent
  tap : TapInfo
deriving DecidableEq, Repr

/-- QMK keycode constant `KC_NO`. -/
def KC_NO : Nat := 0

/-- Maximum duration considered valid for timers (`MS_MAX_DUR_FOR_TIMERS`). -/
def MS_MAX_DUR_FOR_TIMERS : Nat := 4096

def PTH_MS_MAX_OVERLAP : Nat := 232
def PTH_MS_MIN_OVERLAP : Nat := 39

/-- Neutralization keycode `PTH_INSTANT_MOD_TAP_SUPPRESSION_KEY` (`KC_F23`). -/
def PTH_INSTANT_MOD_TAP_SUPPRESSION_KEY : Nat := 0x72

/-- Modular 16-bit difference `TIMER_DIFF_16(a, b)` of QMK. -/
def timerDiff16 (a b : Nat) : Nat := (a % 65536 + 65536 - b % 65536) % 65536

/-- Conversion of a `uint16_t` bit pattern to the `int16_t` it denotes
(two's complement), used where the C code assigns unsigned durations to
`int16_t` fields. -/
def toInt16 (n : Nat) : Int :=
  if n % 65536 < 32768 then (n % 65536 : Int) else (n % 65536 : Int) - 65536

/-- Complement of an 8-bit value (the C `~x` on a `uint8_t` result). -/
def compl8 (n : Nat) : Nat := 0xFF ^^^ (n &&& 0xFF)

/-- Sets the bit at `index` in `bitmask` to `is_set` (`change_bit`). -/
def change_bit (bitmask index : Nat) (is_set : Bool) : Nat :=
  (bitmask &&& compl8 (1 <<< index)) ||| ((if is_set then 1 else 0) <<< index)

def clear_bit (bitmask index : Nat) : Nat := bitmask &&& compl8 (1 <<< index)

def set_bit (bitmask index : Nat) : Nat := bitmask ||| (1 <<< index)

/-- Count of trailing zeros of an 8-bit value (`__builtin_ctz` on the uint8
promoted to int).  The C intrinsic is undefined at 0; every call site in the
embedding guards against 0, so the fallback value 8 is never observed. -/
def ctz8 (n : Nat) : Nat :=
  ((List.range 8).filter (fun i => n.testBit i)).headD 8

-- Keycode classification (QMK ranges; the repository only includes
-- `quantum.h`, so the ranges are those of the QMK keycodes the spec names:
-- mod-taps, layer-taps and the non-special swap-hands range).
def QK_MOD_TAP : Nat := 0x2000
def QK_MOD_TAP_MAX : Nat := 0x3FFF
def QK_LAYER_TAP : Nat := 0x4000
def QK_LAYER_TAP_MAX : Nat := 0x4FFF
def QK_SWAP_HANDS : Nat := 0x5600
def QK_SWAP_HANDS_MAX : Nat := 0x56FF
def QK_SWAP_HANDS_TOGGLE : Nat := 0x56F0
def QK_SWAP_HANDS_ONE_SHOT : Nat := 0x56F6

def IS_QK_MOD_TAP (kc : Nat) : Bool := QK_MOD_TAP ≤ kc && kc ≤ QK_MOD_TAP_MAX

def IS_QK_LAYER_TAP (kc : Nat) : Bool := QK_LAYER_TAP ≤ kc && kc ≤ QK_LAYER_TAP_MAX

def IS_SWAP_HANDS_KEYCODE (kc : Nat) : Bool :=
  QK_SWAP_HANDS_TOGGLE ≤ kc && kc ≤ QK_SWAP_HANDS_ONE_SHOT

/-- Embeds `pth_is_tap_hold_keycode`. -/
def pth_is_tap_hold_keycode (kc : Nat) : Bool :=
  (QK_MOD_TAP ≤ kc && kc ≤ QK_MOD_TAP_MAX) ||
  (QK_LAYER_TAP ≤ kc && kc ≤ QK_LAYER_TAP_MAX) ||
  ((QK_SWAP_HANDS ≤ kc && kc ≤ QK_SWAP_HANDS_MAX) && !IS_SWAP_HANDS_KEYCODE kc)

/-- Extracts a mod-tap's 5-bit packed mods (`QK_MOD_TAP_GET_MODS`). -/
def QK_MOD_TAP_GET_MODS (kc : Nat) : Nat := (kc >>> 8) &&& 0x1F

/-- Extracts a layer-tap's layer (`QK_LAYER_TAP_GET_LAYER`). -/
def QK_LAYER_TAP_GET_LAYER (kc : Nat) : Nat := (kc >>> 8) &&& 0xF

-- Side encoding -------------------------------------------------------------

def PTH_ATOM_LEFT : Nat := 0b00
def PTH_ATOM_RIGHT : Nat := 0b01
def PTH_ATOM_OPPOSITE : Nat := 0b10
def PTH_ATOM_SAME : Nat := 0b11

def PTH_GET_PTH_ATOM_SIDE (encoded : Nat) : Nat := (encoded >>> 2) &&& 0b11
def PTH_GET_OTHER_ATOM_SIDE (encoded : Nat) : Nat := encoded &&& 0b11
def PTH_GET_USER_BITS (encoded : Nat) : Nat := encoded &&& 0b11110000

def PTH_ENCODE_KEY_SIDES (pthRole otherRole : Nat) : Nat :=
  ((pthRole &&& 0b11) <<< 2) ||| (otherRole &&& 0b11)

def PTH_L : Nat := PTH_ENCODE_KEY_SIDES PTH_ATOM_LEFT PTH_ATOM_LEFT
def PTH_R : Nat := PTH_ENCODE_KEY_SIDES PTH_ATOM_RIGHT PTH_ATOM_RIGHT
def PTH_O : Nat := PTH_ENCODE_KEY_SIDES PTH_ATOM_OPPOSITE PTH_ATOM_OPPOSITE
def PTH_S : Nat := PTH_ENCODE_KEY_SIDES PTH_ATOM_SAME PTH_ATOM_SAME

/-- Embeds `is_same_side_as_pth`: the 16-entry truth table indexed by
`(pth_atom <<< 2) ||| other_atom`.  In the C code the PTH atom lives in the
global `pth_atomic_side`; here it is the first argument. -/
def is_same_side_as_pth (pth_atomic_side other_atomic_side : Nat) : Bool :=
  let index := (pth_atomic_side <<< 2) ||| other_atomic_side
  let truth_table := 0b1011100010101001
  (truth_table >>> index) &&& 1 = 1

/-- Modelled from the spec: the side-comparison rules as §3 of the spec
states them ("if `other=Opposite` → different; if `other=Same` → same; else
if `pth=Opposite` → different; else if `pth=Same` → same; else → same iff the
two absolute atoms are equal").  Used only to compare against the table-based
`is_same_side_as_pth` from the source. -/
def is_same_side_spec_rules (pth_atom other_atom : Nat) : Bool :=
  if other_atom = PTH_ATOM_OPPOSITE then false
  else if other_atom = PTH_ATOM_SAME then true
  else if pth_atom = PTH_ATOM_OPPOSITE then false
  else if pth_atom = PTH_ATOM_SAME then true
  else pth_atom = other_atom

-- Fast streak tap (PTH_FAST_STREAK_TAP_ENABLE) -------------------------------

-- QMK 8-bit mod masks: bit 0 LCTL, 1 LSFT, 2 LALT, 3 LGUI, 4 RCTL, 5 RSFT,
-- 6 RALT, 7 RGUI.
def MOD_MASK_CTRL : Nat := 0x11
def MOD_MASK_SHIFT : Nat := 0x22
def MOD_MASK_GUI : Nat := 0x88
def MOD_MASK_CG : Nat := MOD_MASK_CTRL ||| MOD_MASK_GUI
def MOD_BIT_LALT : Nat := 0x04
def MOD_BIT_RALT : Nat := 0x40

-- Basic HID keycodes used by the streak-eligibility switch.
def KC_A : Nat := 0x04
def KC_Z : Nat := 0x1D
def KC_SPC : Nat := 0x2C
def KC_SCLN : Nat := 0x33
def KC_COMM : Nat := 0x36
def KC_DOT : Nat := 0x37
def KC_SLSH : Nat := 0x38

/-- Embeds QMK's `get_tap_keycode`: the tap half of a mod-tap / layer-tap,
the keycode itself otherwise. -/
def get_tap_keycode (kc : Nat) : Nat :=
  if IS_QK_MOD_TAP kc || IS_QK_LAYER_TAP kc then kc &&& 0xFF else kc

/-- Embeds the default (weak) `pth_is_fast_streak_tap_key`.  The current
modifier state `mods` (the C reads `get_mods()`) is passed explicitly. -/
def pth_is_fast_streak_tap_key (mods keycode : Nat) : Bool :=
  if mods &&& (MOD_MASK_CG ||| MOD_BIT_LALT) ≠ 0 then false
  else
    let tap := get_tap_keycode keycode
    (KC_A ≤ tap && tap ≤ KC_Z) || tap = KC_SPC || tap = KC_DOT ||
      tap = KC_COMM || tap = KC_SCLN || tap = KC_SLSH

end PTH
namespace PTH

/-- Status of the PTH state machine (`pth_status_t`).  The C enum values are
`0..4` in declaration order. -/
inductive PthStatus where
  | idle
  | pressed
  | secondPressed
  | decidedTap
  | decidedHold
deriving DecidableEq, Repr

/-- Numeric value of a status, as the C enum has it; used to embed the
`pth_status >= PTH_DECIDED_TAP` comparisons. -/
def statusVal : PthStatus → Nat
  | .idle => 0
  | .pressed => 1
  | .secondPressed => 2
  | .decidedTap => 3
  | .decidedHold => 4

/-- Complete mutable state of the module: the static variables of
`predictive_tap_hold.c` (the two float weighted averages are not embedded,
see the header comment). -/
structure PthState where
  pth_status : PthStatus
  pth_prev_status : PthStatus
  pth_keycode : Nat
  pth_tap_code_instead_of_hold : Nat
  pth_record : KeyRecord
  pth_press_timer : Nat
  pth_press_timer_max_reached : Bool
  pth_atomic_side : Nat
  pth_side_user_bits : Nat
  pth_was_held_instantly : Bool
  second_was_held_instantly : Bool
  instant_layer_was_active : Bool
  layer_before_instant_layer_tap : Nat
  has_second : Bool
  second_record : KeyRecord
  second_keycode : Nat
  second_press_timer : Nat
  second_press_timer_max_reached : Bool
  second_is_tap_hold : Bool
  second_is_same_side_as_pth : Bool
  second_to_be_released : Bool
  timeout_for_forcing_choice : Int
  has_chosen_after_timeout_reached : Bool
  min_overlap_dur_for_hold : Nat
  pth_press_to_second_press_dur : Nat
  pth_press_to_second_release_dur : Nat
  pth_second_dur : Nat
  pth_second_press_to_third_press_dur : Nat
  pth_prev_prev_press_to_prev_press_dur : Int
  pth_prev_press_to_pth_press_dur : Int
  pth_prev_prev_overlap_dur : Int
  pth_prev_overlap_dur : Int
  key_release_before_pth_to_pth_press_dur : Nat
  prev_press_keycode : Nat
  cur_press_keycode : Nat
  down_count : Nat
  overlap_timer : Nat
  overlap_timer_max_reached : Bool
  press_to_press_timer : Nat
  press_to_press_timer_max_reached : Bool
  release_timer : Nat
  release_timer_max_reached : Bool
  prev_press_to_press_dur : Int
  cur_press_to_press_dur : Int
  prev_overlap_dur : Int
  cur_overlap_dur : Int
  release_as_tap_positions : Array KeyPos
  used_release_as_tap_positions_bitmask : Nat
  release_records : Array KeyRecord
  is_before_second_bitmask : Nat
  used_release_records_bitmask : Nat
  is_processing_record_due_to_pth : Bool
deriving Repr, DecidableEq

/-- Default (zero-initialized) record, used for the initial array contents. -/
def emptyRecord : KeyRecord := ⟨⟨⟨0, 0⟩, false, 0, true⟩, ⟨false, 0⟩⟩

/-- The initial values of the static state variables, after
`keyboard_post_init_predictive_tap_hold` ran at time `t0` (it backdates the
press-to-press and release timers so that the first event sees values far in
the past). -/
def initState (t0 : Nat) : PthState where
  pth_status := .idle
  pth_prev_status := .idle
  pth_keycode := KC_NO
  pth_tap_code_instead_of_hold := KC_NO
  pth_record := { emptyRecord with event := { emptyRecord.event with key := EMPTY_KEYPOS } }
  pth_press_timer := 0
  pth_press_timer_max_reached := false
  pth_atomic_side := 0
  pth_side_user_bits := 0
  pth_was_held_instantly := false
  second_was_held_instantly := false
  instant_layer_was_active := false
  layer_before_instant_layer_tap := 0
  has_second := false
  second_record := { emptyRecord with event := { emptyRecord.event with key := EMPTY_KEYPOS } }
  second_keycode := KC_NO
  second_press_timer := 0
  second_press_timer_max_reached := false
  second_is_tap_hold := false
  second_is_same_side_as_pth := false
  second_to_be_released := false
  timeout_for_forcing_choice := 0
  has_chosen_after_timeout_reached := false
  min_overlap_dur_for_hold := 0
  pth_press_to_second_press_dur := 0
  pth_press_to_second_release_dur := 0
  pth_second_dur := 0
  pth_second_press_to_third_press_dur := 0
  pth_prev_prev_press_to_prev_press_dur := -1
  pth_prev_press_to_pth_press_dur := -1
  pth_prev_prev_overlap_dur := -1
  pth_prev_overlap_dur := -1
  key_release_before_pth_to_pth_press_dur := 0
  prev_press_keycode := KC_NO
  cur_press_keycode := KC_NO
  down_count := 0
  overlap_timer := 0
  overlap_timer_max_reached := false
  press_to_press_timer := timerDiff16 t0 MS_MAX_DUR_FOR_TIMERS
  press_to_press_timer_max_reached := false
  release_timer := timerDiff16 t0 (MS_MAX_DUR_FOR_TIMERS - 100)
  release_timer_max_reached := false
  prev_press_to_press_dur := -1
  cur_press_to_press_dur := -1
  prev_overlap_dur := -1
  cur_overlap_dur := -1
  release_as_tap_positions := Array.mkArray 8 EMPTY_KEYPOS
  used_release_as_tap_positions_bitmask := 0
  release_records := Array.mkArray 8 emptyRecord
  is_before_second_bitmask := 0
  used_release_records_bitmask := 0
  is_processing_record_due_to_pth := false

/-- Embeds `reset_pth_state` (timers, caches and the prediction snapshot are
deliberately not reset by the C function). -/
def reset_pth_state (s : PthState) : PthState :=
  { s with
    pth_prev_status := s.pth_status
    pth_status := .idle
    pth_keycode := KC_NO
    pth_tap_code_instead_of_hold := KC_NO
    pth_record := { s.pth_record with event := { s.pth_record.event with key := EMPTY_KEYPOS } }
    pth_press_timer_max_reached := false
    pth_was_held_instantly := false
    second_was_held_instantly := false
    instant_layer_was_active := false
    layer_before_instant_layer_tap := 0
    has_second := false
    second_record := { s.second_record with event := { s.second_record.event with key := EMPTY_KEYPOS } }
    second_keycode := KC_NO
    second_press_timer_max_reached := false
    second_is_tap_hold := false
    second_to_be_released := false
    has_chosen_after_timeout_reached := false
    min_overlap_dur_for_hold := 0 }

/-- Snapshot of the duration values that the prediction functions read from
the global state; recorded at each prediction call. -/
structure PredInputs where
  pth_press_to_second_press_dur : Nat
  pth_press_to_second_release_dur : Nat
  pth_second_dur : Nat
  pth_second_press_to_third_press_dur : Nat
  key_release_before_pth_to_pth_press_dur : Nat
  pth_prev_prev_press_to_prev_press_dur : Int
  pth_prev_press_to_pth_press_dur : Int
  pth_prev_prev_overlap_dur : Int
  pth_prev_overlap_dur : Int
deriving DecidableEq, Repr

def predInputsOf (s : PthState) : PredInputs where
  pth_press_to_second_press_dur := s.pth_press_to_second_press_dur
  pth_press_to_second_release_dur := s.pth_press_to_second_release_dur
  pth_second_dur := s.pth_second_dur
  pth_second_press_to_third_press_dur := s.pth_second_press_to_third_press_dur
  key_release_before_pth_to_pth_press_dur := s.key_release_before_pth_to_pth_press_dur
  pth_prev_prev_press_to_prev_press_dur := s.pth_prev_prev_press_to_prev_press_dur
  pth_prev_press_to_pth_press_dur := s.pth_prev_press_to_pth_press_dur
  pth_prev_prev_overlap_dur := s.pth_prev_prev_overlap_dur
  pth_prev_overlap_dur := s.pth_prev_overlap_dur

/-- One externally visible action of the module:
* `record r`: a synthetic `process_record` call handed to QMK (via
  `process_record_with_new_time` or directly in the cache-overflow fallback);
* `regCode16` / `unregCode16` / `tapCode16`: the corresponding QMK calls;
* `sendWait`: a `send_and_wait()` guard;
* `predCall`: a call of one of the prediction functions, carrying the
  duration values supplied to it. -/
inductive Emission where
  | record (r : KeyRecord)
  | regCode16 (kc : Nat)
  | unregCode16 (kc : Nat)
  | tapCode16 (kc : Nat)
  | sendWait
  | predCall (inputs : PredInputs)
deriving DecidableEq, Repr

/-- The weakly-bound policy and prediction functions of the C file, plus the
external QMK services the module consults.  Policies that read global state
in C take the whole `PthState`. -/
structure PthConfig where
  get_side : KeyRecord → Nat
  mod_config : Nat → Nat
  should_hold_instantly : Nat → KeyRecord → Bool
  second_should_hold_instantly : Nat → KeyRecord → Bool
  should_choose_tap_when_second_is_same_side_press : PthState → Bool
  should_choose_tap_when_second_is_same_side_release : PthState → Bool
  get_timeout_for_forcing_choice : PthState → Int
  get_forced_choice_after_timeout : PthState → PthStatus
  should_neutralize_mods : Nat → Bool
  get_code_to_be_registered_instead_when_hold_chosen : PthState → Nat
  should_register_as_hold_when_same_side : Nat → KeyRecord → Bool
  predict_hold_when_third_press : PthState → Bool
  predict_hold_when_pth_release_after_second_press : PthState → Bool
  predict_hold_when_pth_release_after_second_release : PthState → Bool
  predict_min_overlap_for_hold_in_ms : PthState → Nat
  keycode_at_same_pos_in_layer : Nat → KeyPos → Nat
  layer_switch_get_layer : KeyPos → Nat

/-- Embeds `get_5_bit_mods_of_mod_tap` (`mod_config` is external QMK). -/
def get_5_bit_mods_of_mod_tap (cfg : PthConfig) (kc : Nat) : Nat :=
  cfg.mod_config (QK_MOD_TAP_GET_MODS kc)

/-- Embeds the static `should_neutralize_mods` helper. -/
def should_neutralize_mods (cfg : PthConfig) (keycode : Nat) (was_held_instantly : Bool) : Bool :=
  was_held_instantly && IS_QK_MOD_TAP keycode &&
    cfg.should_neutralize_mods (get_5_bit_mods_of_mod_tap cfg keycode)

/-- Embeds `is_record_same_side_as_pth` (reads the PTH atom from the state). -/
def is_record_same_side_as_pth (cfg : PthConfig) (s : PthState) (record : KeyRecord) : Bool :=
  is_same_side_as_pth s.pth_atomic_side (PTH_GET_OTHER_ATOM_SIDE (cfg.get_side record))

end PTH
namespace PTH

-- Record mutation helpers ----------------------------------------------------

/-- Embeds `set_record_to_tap`. -/
def set_record_to_tap (r : KeyRecord) : KeyRecord :=
  { r with tap := { interrupted := true, count := 1 } }

/-- Embeds `set_record_to_hold`. -/
def set_record_to_hold (r : KeyRecord) : KeyRecord :=
  { r with tap := { r.tap with count := 0 } }

/-- A record as it leaves `process_record_with_new_time` at time `now`. -/
def withNewTime (now : Nat) (r : KeyRecord) : KeyRecord :=
  { r with event := { r.event with time := now % 65536 } }

def withPressed (pressed : Bool) (r : KeyRecord) : KeyRecord :=
  { r with event := { r.event with pressed := pressed } }

-- Tap-release position set ---------------------------------------------------

/-- Loop body of `remove_pos_from_tap_releases`: walks the set bits of
`to_check` in ascending order (via count-trailing-zeros), returning the used
bitmask with the matching slot cleared, or `none` when `pos` is absent.
The fuel argument is 8, the number of slots. -/
def remove_pos_loop (positions : Array KeyPos) (pos : KeyPos) (used : Nat) :
    Nat → Nat → Option Nat
  | 0, _ => none
  | fuel + 1, to_check =>
    if to_check = 0 then none
    else
      let i := ctz8 to_check
      if positions.getD i EMPTY_KEYPOS = pos then some (clear_bit used i)
      else remove_pos_loop positions pos used fuel (clear_bit to_check i)

/-- Embeds `remove_pos_from_tap_releases`: `some s'` when the position was
found and removed, `none` when it was absent (the C function returns a bool
and mutates in place). -/
def remove_pos_from_tap_releases (s : PthState) (pos : KeyPos) : Option PthState :=
  match remove_pos_loop s.release_as_tap_positions pos
      s.used_release_as_tap_positions_bitmask 8 s.used_release_as_tap_positions_bitmask with
  | none => none
  | some used => some { s with used_release_as_tap_positions_bitmask := used }

/-- Embeds `add_pos_to_tap_releases`; on a full set the position is dropped
(the C function logs and returns). -/
def add_pos_to_tap_releases (s : PthState) (pos : KeyPos) : PthState :=
  let empty := compl8 s.used_release_as_tap_positions_bitmask
  if empty = 0 then s
  else
    let i := ctz8 empty
    { s with
      release_as_tap_positions := s.release_as_tap_positions.setD i pos
      used_release_as_tap_positions_bitmask := set_bit s.used_release_as_tap_positions_bitmask i }

-- Release-record cache -------------------------------------------------------

inductive ReleaseTime where
  | afterSecond
  | beforeSecond
deriving DecidableEq, Repr

/-- Embeds `get_to_be_released_bitmask` (the XOR trick of the C code reduces
to: select the bits of `is_before_second_bitmask` matching the requested
partition, then intersect with the used mask). -/
def get_to_be_released_bitmask (s : PthState) (rt : ReleaseTime) : Nat :=
  let same := if rt = .beforeSecond then s.is_before_second_bitmask
              else s.is_before_second_bitmask ^^^ 0xFF
  s.used_release_records_bitmask &&& same

/-- Loop of `process_release_records`: flushes the records selected by
`to_be_released` in ascending slot order, inserting one `sendWait` before the
first flush when `waited` starts out false.  `process_record_with_new_time`
stamps the stored record (the array element is passed by pointer in C, so the
array is updated too); the loop touches no other state, so only the array is
threaded. -/
def release_loop (now : Nat) :
    Nat → Nat → Bool → Array KeyRecord → Array KeyRecord × Bool × List Emission
  | 0, _, waited, arr => (arr, waited, [])
  | fuel + 1, to_be_released, waited, arr =>
    if to_be_released = 0 then (arr, waited, [])
    else
      let i := ctz8 to_be_released
      let pre : List Emission := if !waited then [.sendWait] else []
      let r := withNewTime now (arr.getD i emptyRecord)
      let arr := arr.setD i r
      let (arr, w, ems) := release_loop now fuel (clear_bit to_be_released i) true arr
      (arr, w, pre ++ [.record r] ++ ems)

/-- Embeds `process_release_records`.  Returns the updated state, the
`waited` result and the emissions. -/
def process_release_records (s : PthState) (rt : ReleaseTime)
    (wait_before_first : Bool) (now : Nat) : PthState × Bool × List Emission :=
  let mask := get_to_be_released_bitmask s rt
  if mask = 0 then (s, false, [])
  else
    let (arr, w, ems) := release_loop now 8 mask (!wait_before_first) s.release_records
    ({ s with
       used_release_records_bitmask := s.used_release_records_bitmask &&& compl8 mask
       release_records := arr }, w, ems)

def process_release_records_and_wait_before_first (s : PthState) (rt : ReleaseTime)
    (now : Nat) : PthState × Bool × List Emission :=
  process_release_records s rt true now

/-- Embeds `add_release_record`.  When the cache has a free slot the record
is stored.  When every slot is used, the C code calls `process_record(record)`
directly (the emitted event bypasses the reentrancy guard) and then — missing
an early return — falls through into `__builtin_ctz(0)`, which is undefined;
the resulting state is modelled as `none`. -/
def add_release_record (s : PthState) (record : KeyRecord) (rt : ReleaseTime) :
    List Emission × Option PthState :=
  let has_no_record := compl8 s.used_release_records_bitmask
  if has_no_record = 0 then ([.record record], none)
  else
    let i := ctz8 has_no_record
    let is_before := rt = .beforeSecond
    ([], some { s with
      release_records := s.release_records.setD i record
      is_before_second_bitmask := change_bit s.is_before_second_bitmask i is_before
      used_release_records_bitmask := set_bit s.used_release_records_bitmask i })

-- Synthetic register / unregister helpers -------------------------------------

/-- Applies `process_register_record_as_hold(&pth_record)`. -/
def registerPthAsHold (now : Nat) (s : PthState) : PthState × List Emission :=
  let r := withNewTime now (withPressed true (set_record_to_hold s.pth_record))
  ({ s with pth_record := r }, [.record r])

/-- Applies `process_unregister_record_as_hold(&pth_record)`. -/
def unregisterPthAsHold (now : Nat) (s : PthState) : PthState × List Emission :=
  let r := withNewTime now (withPressed false (set_record_to_hold s.pth_record))
  ({ s with pth_record := r }, [.record r])

/-- Applies `process_register_record_as_tap(&pth_record)`. -/
def registerPthAsTap (now : Nat) (s : PthState) : PthState × List Emission :=
  let r := withNewTime now (withPressed true (set_record_to_tap s.pth_record))
  ({ s with pth_record := r }, [.record r])

/-- Applies `process_unregister_record_as_tap(&pth_record)`. -/
def unregisterPthAsTap (now : Nat) (s : PthState) : PthState × List Emission :=
  let r := withNewTime now (withPressed false (set_record_to_tap s.pth_record))
  ({ s with pth_record := r }, [.record r])

/-- Applies `process_register_record_as_hold(&second_record)`. -/
def registerSecondAsHold (now : Nat) (s : PthState) : PthState × List Emission :=
  let r := withNewTime now (withPressed true (set_record_to_hold s.second_record))
  ({ s with second_record := r }, [.record r])

/-- Applies `process_unregister_record_as_hold(&second_record)`. -/
def unregisterSecondAsHold (now : Nat) (s : PthState) : PthState × List Emission :=
  let r := withNewTime now (withPressed false (set_record_to_hold s.second_record))
  ({ s with second_record := r }, [.record r])

/-- Applies `process_register_record(&second_record)`. -/
def registerSecond (now : Nat) (s : PthState) : PthState × List Emission :=
  let r := withNewTime now (withPressed true s.second_record)
  ({ s with second_record := r }, [.record r])

/-- Applies `process_unregister_record(&second_record)`. -/
def unregisterSecond (now : Nat) (s : PthState) : PthState × List Emission :=
  let r := withNewTime now (withPressed false s.second_record)
  ({ s with second_record := r }, [.record r])

/-- Embeds `register_pth_hold` (only called when the PTH was not held
instantly). -/
def register_pth_hold (cfg : PthConfig) (now : Nat) (s : PthState) :
    PthState × List Emission :=
  if s.pth_tap_code_instead_of_hold = KC_NO then
    let p := registerPthAsHold now s
    let s1 :=
      if p.1.has_second && !p.1.second_was_held_instantly && IS_QK_LAYER_TAP p.1.pth_keycode then
        let k := cfg.keycode_at_same_pos_in_layer (QK_LAYER_TAP_GET_LAYER p.1.pth_keycode)
                   p.1.second_record.event.key
        { p.1 with second_keycode := k, second_is_tap_hold := pth_is_tap_hold_keycode k }
      else p.1
    (s1, p.2)
  else (s, [.regCode16 s.pth_tap_code_instead_of_hold])

/-- Embeds `unregister_pth_hold`. -/
def unregister_pth_hold (now : Nat) (s : PthState) : PthState × List Emission :=
  if s.pth_tap_code_instead_of_hold = KC_NO then unregisterPthAsHold now s
  else (s, [.unregCode16 s.pth_tap_code_instead_of_hold])

end PTH
namespace PTH

-- Decision making -------------------------------------------------------------

/-- Stage of `make_decision_tap`: when an instantly held layer-tap PTH is
rolled back, the cached second keycode is re-resolved on the pre-switch
layer. -/
def mdt_relookup_second (cfg : PthConfig) (s : PthState) : PthState :=
  if IS_QK_LAYER_TAP s.pth_keycode then
    let k := cfg.keycode_at_same_pos_in_layer s.layer_before_instant_layer_tap
               s.second_record.event.key
    { s with second_keycode := k, second_is_tap_hold := pth_is_tap_hold_keycode k }
  else s

/-- Stage of `make_decision_tap`: undo the provisional instant holds of the
PTH and of the second key. -/
def mdt_undo_instant (cfg : PthConfig) (now : Nat) (s : PthState) :
    PthState × List Emission :=
  let p1 :=
    if s.pth_was_held_instantly then unregisterPthAsHold now (mdt_relookup_second cfg s)
    else (s, [])
  let p2 :=
    if p1.1.second_was_held_instantly then unregisterSecondAsHold now p1.1 else (p1.1, [])
  (p2.1, p1.2 ++ p2.2)

/-- Stage of `make_decision_tap`: mark the still-down second key so its later
release resolves as tap, and turn its record into a tap. -/
def mdt_adjust_second (s : PthState) : PthState :=
  if s.second_is_tap_hold then
    let s5a := if !s.second_to_be_released then
        add_pos_to_tap_releases s s.second_record.event.key
      else s
    { s5a with second_record := set_record_to_tap s5a.second_record }
  else s

/-- Stage of `make_decision_tap`: the part guarded by `has_second` — register
the second key, flush the after-second releases, and release the second if it
is physically up already. -/
def mdt_second_part (now : Nat) (s : PthState) : PthState × List Emission :=
  let p6 := registerSecond now (mdt_adjust_second s)
  let p7 := process_release_records_and_wait_before_first p6.1 .afterSecond now
  let p8 :=
    if p7.1.second_to_be_released then
      let pre : List Emission := if !p7.2.1 then [Emission.sendWait] else []
      let q := unregisterSecond now p7.1
      (q.1, pre ++ q.2)
    else (p7.1, ([] : List Emission))
  (p8.1, p6.2 ++ p7.2.2 ++ p8.2)

/-- Embeds `make_decision_tap` (as the composition of the stages above, in
the statement order of the C function). -/
def make_decision_tap (cfg : PthConfig) (now : Nat) (s : PthState) :
    PthState × List Emission :=
  if statusVal s.pth_status ≥ statusVal .decidedTap then (s, [])
  else
    let s0 := { s with pth_status := PthStatus.decidedTap }
    let ems0 : List Emission :=
      if should_neutralize_mods cfg s0.pth_keycode s0.pth_was_held_instantly ||
         should_neutralize_mods cfg s0.second_keycode s0.second_was_held_instantly then
        [.tapCode16 PTH_INSTANT_MOD_TAP_SUPPRESSION_KEY]
      else []
    let pA := mdt_undo_instant cfg now s0
    let pB := registerPthAsTap now pA.1
    let pC := process_release_records_and_wait_before_first pB.1 .beforeSecond now
    if !pC.1.has_second then (pC.1, ems0 ++ pA.2 ++ pB.2 ++ pC.2.2)
    else
      let pD := mdt_second_part now pC.1
      (pD.1, ems0 ++ pA.2 ++ pB.2 ++ pC.2.2 ++ pD.2)

/-- Stage of `make_decision_hold`: a tap-hold second key's record is turned
into a hold (same side, policy approving) or a tap (otherwise, also recording
the pending tap release). -/
def mdh_adjust_second (cfg : PthConfig) (s : PthState) : PthState :=
  if s.second_is_tap_hold then
    if s.second_is_same_side_as_pth &&
       cfg.should_register_as_hold_when_same_side s.second_keycode s.second_record then
      { s with second_record := set_record_to_hold s.second_record }
    else
      let s3a := if !s.second_to_be_released then
          add_pos_to_tap_releases s s.second_record.event.key
        else s
      { s3a with second_record := set_record_to_tap s3a.second_record }
  else s

/-- Stage of `make_decision_hold`: the part guarded by `has_second`. -/
def mdh_second_part (cfg : PthConfig) (now : Nat) (s : PthState) :
    PthState × List Emission :=
  let p3 :=
    if !s.second_was_held_instantly then registerSecond now (mdh_adjust_second cfg s)
    else (s, [])
  let p4 := process_release_records p3.1 .afterSecond p3.1.second_was_held_instantly now
  let p5 :=
    if p4.1.second_to_be_released then
      let pre : List Emission := if !p4.2.1 then [Emission.sendWait] else []
      let q := unregisterSecond now p4.1
      (q.1, pre ++ q.2)
    else (p4.1, ([] : List Emission))
  (p5.1, p3.2 ++ p4.2.2 ++ p5.2)

/-- Embeds `make_decision_hold` (as the composition of the stages above, in
the statement order of the C function). -/
def make_decision_hold (cfg : PthConfig) (now : Nat) (s : PthState) :
    PthState × List Emission :=
  if statusVal s.pth_status ≥ statusVal .decidedTap then (s, [])
  else
    let s0 := { s with pth_status := PthStatus.decidedHold }
    let p1 :=
      if !s0.pth_was_held_instantly then register_pth_hold cfg now s0 else (s0, [])
    let p2 := process_release_records p1.1 .beforeSecond p1.1.pth_was_held_instantly now
    if !p2.1.has_second then (p2.1, p1.2 ++ p2.2.2)
    else
      let p3 := mdh_second_part cfg now p2.1
      (p3.1, p1.2 ++ p2.2.2 ++ p3.2)

/-- Embeds `make_user_choice_or_not` (the
`PTH_RESET_IMMEDIATELY_WHEN_TAP_CHOSEN` block is not compiled by default). -/
def make_user_choice_or_not (cfg : PthConfig) (now : Nat) (s : PthState) :
    PthState × List Emission :=
  let s := { s with has_chosen_after_timeout_reached := true }
  match cfg.get_forced_choice_after_timeout s with
  | .decidedHold => make_decision_hold cfg now s
  | .decidedTap => make_decision_tap cfg now s
  | _ => (s, [])

-- Timing tracker ---------------------------------------------------------------

/-- Embeds `store_press_to_press_and_overlap_for_pth` (the two float
weighted-average assignments at its end are not embedded). -/
def store_press_to_press_and_overlap_for_pth (s : PthState) (now : Nat) : PthState :=
  let s := { s with
    pth_prev_prev_press_to_prev_press_dur := s.prev_press_to_press_dur
    pth_prev_press_to_pth_press_dur := s.cur_press_to_press_dur }
  let down_count_before_this := (s.down_count + 255) % 256
  let s := { s with
    pth_prev_prev_overlap_dur := s.prev_overlap_dur
    pth_prev_overlap_dur := s.cur_overlap_dur }
  if down_count_before_this = 1 then
    { s with
      pth_prev_prev_overlap_dur := s.pth_prev_overlap_dur
      pth_prev_overlap_dur := 0 }
  else if down_count_before_this ≥ 2 then
    { s with
      pth_prev_prev_overlap_dur := 0
      pth_prev_overlap_dur :=
        if s.overlap_timer_max_reached then (MS_MAX_DUR_FOR_TIMERS : Int)
        else toInt16 (timerDiff16 now s.overlap_timer) }
  else s

/-- Embeds `collect_new_press_to_press_and_overlap_duration`. -/
def collect_new_press_to_press_and_overlap_duration (s : PthState)
    (is_pressed : Bool) (cur_time : Nat) : PthState :=
  if is_pressed then
    let p_to_p_dur :=
      if s.press_to_press_timer_max_reached then MS_MAX_DUR_FOR_TIMERS
      else timerDiff16 cur_time s.press_to_press_timer
    let s := { s with
      prev_press_to_press_dur := s.cur_press_to_press_dur
      cur_press_to_press_dur := toInt16 p_to_p_dur
      press_to_press_timer := cur_time
      press_to_press_timer_max_reached := false
      down_count := (s.down_count + 1) % 256 }
    if s.down_count = 2 then
      { s with overlap_timer := cur_time, overlap_timer_max_reached := false }
    else s
  else
    let overlap :=
      if s.down_count ≥ 2 then
        if s.overlap_timer_max_reached then MS_MAX_DUR_FOR_TIMERS
        else timerDiff16 cur_time s.overlap_timer
      else 0
    { s with
      down_count := if s.down_count > 0 then s.down_count - 1 else s.down_count
      prev_overlap_dur := s.cur_overlap_dur
      cur_overlap_dur := toInt16 overlap
      overlap_timer := cur_time
      overlap_timer_max_reached := false
      release_timer := cur_time
      release_timer_max_reached := false }

end PTH
namespace PTH

-- State machine ---------------------------------------------------------------

/-- Result of one `switch` arm of the dispatcher: an explicit `return`, a
`break` falling through to the common tail, or undefined behavior (cache
overflow, see `add_release_record`). -/
inductive HandlerOut where
  | ret (pass_through : Bool) (s : PthState) (ems : List Emission)
  | fallthrough (s : PthState) (ems : List Emission)
  | undef
deriving Repr

/-- Second half of the `PTH_IDLE` press arm, from the fast-streak block
(not compiled by default) to the instant-hold decision. -/
def idle_press_tail (cfg : PthConfig) (now kc : Nat) (record : KeyRecord)
    (s : PthState) (ems : List Emission) : HandlerOut :=
  let held := s.pth_tap_code_instead_of_hold = KC_NO && cfg.should_hold_instantly kc record
  let s1 := { s with pth_was_held_instantly := held }
  if held then
    let s2 :=
      if IS_QK_LAYER_TAP kc then
        { s1 with
          instant_layer_was_active := true
          layer_before_instant_layer_tap := cfg.layer_switch_get_layer record.event.key }
      else s1
    let p := registerPthAsHold now s2
    .ret false p.1 (ems ++ p.2)
  else .ret false s1 ems

/-- Stage of the `PTH_IDLE` press arm: the new-PTH capture (status, record,
side, timing snapshot, alt tap code and forced-choice timeout lookups). -/
def idle_press_state (cfg : PthConfig) (now kc : Nat) (record : KeyRecord)
    (s : PthState) : PthState :=
  let s1 := { s with
    pth_status := PthStatus.pressed
    pth_press_timer := now
    pth_keycode := kc
    pth_record := record }
  let side := cfg.get_side record
  let s2 := { s1 with
    pth_side_user_bits := PTH_GET_USER_BITS side
    pth_atomic_side := PTH_GET_PTH_ATOM_SIDE side }
  let s3 := { s2 with
    key_release_before_pth_to_pth_press_dur :=
      if s2.release_timer_max_reached then MS_MAX_DUR_FOR_TIMERS
      else timerDiff16 now s2.release_timer }
  let s4 := store_press_to_press_and_overlap_for_pth s3 now
  let s5 := { s4 with
    pth_tap_code_instead_of_hold := cfg.get_code_to_be_registered_instead_when_hold_chosen s4 }
  { s5 with
    timeout_for_forcing_choice := cfg.get_timeout_for_forcing_choice s5 }

/-- Embeds the `PTH_IDLE` arm of the dispatcher switch. -/
def handle_idle (cfg : PthConfig) (now kc : Nat) (record : KeyRecord)
    (is_tap_hold : Bool) (s : PthState) : HandlerOut :=
  if record.event.pressed && is_tap_hold then
    let sP := idle_press_state cfg now kc record s
    if sP.timeout_for_forcing_choice = 0 then
      let p := make_user_choice_or_not cfg now sP
      if statusVal p.1.pth_status ≥ statusVal .decidedTap then .ret false p.1 p.2
      else idle_press_tail cfg now kc record p.1 p.2
    else idle_press_tail cfg now kc record sP []
  else .fallthrough s []

/-- Embeds the `PTH_PRESSED` arm of the dispatcher switch. -/
def handle_pressed (cfg : PthConfig) (now kc : Nat) (record : KeyRecord)
    (is_tap_hold : Bool) (s : PthState) : HandlerOut :=
  if record.event.pressed then
    let s := { s with
      pth_status := .secondPressed
      has_second := true
      second_press_timer := now
      second_keycode := kc
      second_record := record
      second_is_tap_hold := is_tap_hold
      second_is_same_side_as_pth := is_record_same_side_as_pth cfg s record }
    let s := { s with
      pth_press_to_second_press_dur :=
        if s.pth_press_timer_max_reached then MS_MAX_DUR_FOR_TIMERS
        else timerDiff16 now s.pth_press_timer }
    if s.pth_was_held_instantly && s.instant_layer_was_active && kc = KC_NO then
      let p := make_decision_tap cfg now s
      .ret false p.1 p.2
    else
      let p0 :=
        if s.second_is_tap_hold || !s.second_is_same_side_as_pth then
          ({ s with
             min_overlap_dur_for_hold :=
               min PTH_MS_MAX_OVERLAP (max PTH_MS_MIN_OVERLAP
                 (cfg.predict_min_overlap_for_hold_in_ms s % 65536)) },
           [Emission.predCall (predInputsOf s)])
        else (s, [])
      if !p0.1.second_is_same_side_as_pth then .ret false p0.1 p0.2
      else if cfg.should_choose_tap_when_second_is_same_side_press p0.1 then
        let p := make_decision_tap cfg now p0.1
        .ret false p.1 (p0.2 ++ p.2)
      else if p0.1.second_is_tap_hold && cfg.second_should_hold_instantly kc record then
        let s1 :=
          if !p0.1.instant_layer_was_active && IS_QK_LAYER_TAP kc then
            { p0.1 with
              layer_before_instant_layer_tap := cfg.layer_switch_get_layer record.event.key
              instant_layer_was_active := true }
          else p0.1
        let s2 := { s1 with second_was_held_instantly := true }
        let p := registerSecondAsHold now s2
        .ret false p.1 (p0.2 ++ p.2)
      else .ret false p0.1 p0.2
  else
    if record.event.key = s.pth_record.event.key then
      let p1 := make_decision_tap cfg now s
      let p2 := unregisterPthAsTap now p1.1
      .ret false (reset_pth_state p2.1) (p1.2 ++ [.sendWait] ++ p2.2)
    else
      match add_release_record s record .beforeSecond with
      | (_, none) => .undef
      | (_, some s) => .ret false s []

/-- Embeds the `PTH_SECOND_PRESSED` arm of the dispatcher switch. -/
def handle_second_pressed (cfg : PthConfig) (now kc : Nat) (record : KeyRecord)
    (is_tap_hold : Bool) (s : PthState) : HandlerOut :=
  if record.event.pressed then
    -- third key pressed
    let s := { s with
      pth_second_press_to_third_press_dur :=
        if s.second_press_timer_max_reached then MS_MAX_DUR_FOR_TIMERS
        else timerDiff16 now s.second_press_timer }
    let emsP : List Emission := [.predCall (predInputsOf s)]
    let hold := cfg.predict_hold_when_third_press s
    let q :=
      if hold then
        let p := make_decision_hold cfg now s
        (p.1, p.2, kc, is_tap_hold)
      else
        let p := make_decision_tap cfg now s
        if p.1.instant_layer_was_active then
          let k := cfg.keycode_at_same_pos_in_layer p.1.layer_before_instant_layer_tap
                     record.event.key
          (p.1, p.2, k, pth_is_tap_hold_keycode k)
        else (p.1, p.2, kc, is_tap_hold)
    let r :=
      if q.2.2.2 then
        if hold && is_record_same_side_as_pth cfg q.1 record &&
           cfg.should_register_as_hold_when_same_side q.2.2.1 record then
          (q.1, [Emission.record (withNewTime now (withPressed true (set_record_to_hold record)))])
        else
          (add_pos_to_tap_releases q.1 record.event.key,
           [Emission.record (withNewTime now (withPressed true (set_record_to_tap record)))])
      else
        (q.1, [Emission.record (withNewTime now record)])
    .ret false r.1 (emsP ++ q.2.1 ++ r.2)
  else
    if record.event.key = s.pth_record.event.key then
      -- PTH key released
      let (hold, emsP) :=
        if !s.second_is_same_side_as_pth then
          if s.second_to_be_released then
            (cfg.predict_hold_when_pth_release_after_second_release s,
             [Emission.predCall (predInputsOf s)])
          else
            (cfg.predict_hold_when_pth_release_after_second_press s,
             [Emission.predCall (predInputsOf s)])
        else (false, [])
      if hold then
        let p1 := make_decision_hold cfg now s
        let p2 := unregister_pth_hold now p1.1
        .ret false (reset_pth_state p2.1) (emsP ++ p1.2 ++ p2.2)
      else
        let p1 := make_decision_tap cfg now s
        let p2 := unregisterPthAsTap now p1.1
        .ret false (reset_pth_state p2.1) (emsP ++ p1.2 ++ [.sendWait] ++ p2.2)
    else if record.event.key = s.second_record.event.key then
      -- second key released
      let s1 := { s with second_to_be_released := true }
      if s1.second_is_same_side_as_pth &&
         cfg.should_choose_tap_when_second_is_same_side_release s1 then
        let p := make_decision_tap cfg now s1
        .ret false p.1 p.2
      else
        let s2 := { s1 with
          pth_press_to_second_release_dur :=
            if s1.pth_press_timer_max_reached then MS_MAX_DUR_FOR_TIMERS
            else timerDiff16 now s1.pth_press_timer }
        let s3 := { s2 with
          pth_second_dur :=
            if s2.second_press_timer_max_reached then MS_MAX_DUR_FOR_TIMERS
            else timerDiff16 now s2.second_press_timer }
        .ret false s3 []
    else
      match add_release_record s record .afterSecond with
      | (_, none) => .undef
      | (_, some s) => .ret false s []

/-- Embeds the `PTH_DECIDED_TAP` arm of the dispatcher switch. -/
def handle_decided_tap (now : Nat) (record : KeyRecord) (is_tap_hold : Bool)
    (s : PthState) : HandlerOut :=
  if record.event.pressed then
    if is_tap_hold then
      .ret false (add_pos_to_tap_releases s record.event.key)
        [.record (withNewTime now (withPressed true (set_record_to_tap record)))]
    else .fallthrough s []
  else
    if record.event.key = s.pth_record.event.key then
      let p := unregisterPthAsTap now s
      .ret false (reset_pth_state p.1) ([.sendWait] ++ p.2)
    else .fallthrough s []

/-- Embeds the `PTH_DECIDED_HOLD` arm of the dispatcher switch. -/
def handle_decided_hold (cfg : PthConfig) (now kc : Nat) (record : KeyRecord)
    (is_tap_hold : Bool) (s : PthState) : HandlerOut :=
  if record.event.pressed then
    if is_tap_hold then
      if is_record_same_side_as_pth cfg s record &&
         cfg.should_register_as_hold_when_same_side kc record then
        .ret false s [.record (withNewTime now (withPressed true (set_record_to_hold record)))]
      else
        .ret false (add_pos_to_tap_releases s record.event.key)
          [.record (withNewTime now (withPressed true (set_record_to_tap record)))]
    else .fallthrough s []
  else
    if record.event.key = s.pth_record.event.key then
      let p := unregister_pth_hold now s
      .ret false (reset_pth_state p.1) p.2
    else .fallthrough s []

end PTH
namespace PTH

/-- Dispatches the switch over `pth_status` and, on `break`, the common tail
of `process_record_predictive_tap_hold` (the conditional `send_and_wait` for
a release of the second key's position). -/
def dispatch_switch (cfg : PthConfig) (now kc : Nat) (record : KeyRecord)
    (is_tap_hold : Bool) (s : PthState) : Option (Bool × PthState × List Emission) :=
  let out :=
    match s.pth_status with
    | .idle => handle_idle cfg now kc record is_tap_hold s
    | .pressed => handle_pressed cfg now kc record is_tap_hold s
    | .secondPressed => handle_second_pressed cfg now kc record is_tap_hold s
    | .decidedTap => handle_decided_tap now record is_tap_hold s
    | .decidedHold => handle_decided_hold cfg now kc record is_tap_hold s
  match out with
  | .undef => none
  | .ret b s ems => some (b, s, ems)
  | .fallthrough s ems =>
    let tail : List Emission :=
      if !record.event.pressed && !s.second_was_held_instantly &&
         record.event.key = s.second_record.event.key then
        [.sendWait]
      else []
    some (true, s, ems ++ tail)

/-- Embeds `process_record_predictive_tap_hold`.  `now` is the value
`timer_read()` yields while the event is processed (the C code reads the
clock rather than the record's timestamp).  The result is the returned
bool, the successor state and the emission trace; `none` marks a run into
the cache-overflow undefined behavior. -/
def process_record_pth (cfg : PthConfig) (s : PthState) (now kc : Nat)
    (record : KeyRecord) : Option (Bool × PthState × List Emission) :=
  if s.is_processing_record_due_to_pth || !record.event.isKey then some (true, s, [])
  else
    let cur_time := now % 65536
    let cur_pos := record.event.key
    let cur_is_pressed := record.event.pressed
    let s := collect_new_press_to_press_and_overlap_duration s cur_is_pressed cur_time
    if cur_is_pressed then
      let s := { s with
        prev_press_keycode := s.cur_press_keycode
        cur_press_keycode := kc }
      dispatch_switch cfg cur_time kc record (pth_is_tap_hold_keycode kc) s
    else
      match remove_pos_from_tap_releases s cur_pos with
      | none => dispatch_switch cfg cur_time kc record (pth_is_tap_hold_keycode kc) s
      | some s =>
        if s.pth_status = .pressed ∨ s.pth_status = .secondPressed then
          dispatch_switch cfg cur_time kc (set_record_to_tap record)
            (pth_is_tap_hold_keycode kc) s
        else
          some (false, s,
            [.record (withNewTime cur_time (withPressed false (set_record_to_tap record)))])

/-- Stage of `housekeeping_task_predictive_tap_hold`: maintain the "maxed
out" flags of the three global timers (release, overlap, press-to-press). -/
def hk_update_global_flags (s : PthState) (cur_time : Nat) : PthState :=
  let s1 :=
    if !s.release_timer_max_reached &&
       timerDiff16 cur_time s.release_timer ≥ MS_MAX_DUR_FOR_TIMERS then
      { s with release_timer_max_reached := true }
    else s
  let s2 :=
    if !s1.overlap_timer_max_reached && s1.down_count ≥ 2 &&
       timerDiff16 cur_time s1.overlap_timer ≥ MS_MAX_DUR_FOR_TIMERS then
      { s1 with overlap_timer_max_reached := true }
    else s1
  if !s2.press_to_press_timer_max_reached &&
     timerDiff16 cur_time s2.press_to_press_timer ≥ MS_MAX_DUR_FOR_TIMERS then
    { s2 with press_to_press_timer_max_reached := true }
  else s2

/-- Stage of `housekeeping_task_predictive_tap_hold`: the pth-press-timer
checks (flag maintenance and the forced-choice timeout). -/
def hk_pth_press_part (cfg : PthConfig) (s : PthState) (cur_time : Nat) :
    PthState × List Emission :=
  if !s.pth_press_timer_max_reached then
    if timerDiff16 cur_time s.pth_press_timer ≥ MS_MAX_DUR_FOR_TIMERS then
      ({ s with pth_press_timer_max_reached := true }, [])
    else if !s.has_chosen_after_timeout_reached &&
            s.timeout_for_forcing_choice > 0 &&
            (timerDiff16 cur_time s.pth_press_timer : Int) ≥ s.timeout_for_forcing_choice then
      make_user_choice_or_not cfg cur_time s
    else (s, [])
  else (s, [])

/-- Stage of `housekeeping_task_predictive_tap_hold`: the part reached only
while a decision is pending (second-press-timer checks, then the pth-press
part). -/
def hk_pending_part (cfg : PthConfig) (s : PthState) (cur_time : Nat) :
    PthState × List Emission :=
  if !s.second_press_timer_max_reached && s.pth_status = .secondPressed &&
     s.min_overlap_dur_for_hold > 0 &&
     timerDiff16 cur_time s.second_press_timer ≥ s.min_overlap_dur_for_hold then
    make_decision_hold cfg cur_time s
  else
    let s2 :=
      if !s.second_press_timer_max_reached && s.pth_status = .secondPressed &&
         !(s.min_overlap_dur_for_hold > 0 &&
           timerDiff16 cur_time s.second_press_timer ≥ s.min_overlap_dur_for_hold) &&
         timerDiff16 cur_time s.second_press_timer ≥ MS_MAX_DUR_FOR_TIMERS then
        { s with second_press_timer_max_reached := true }
      else s
    hk_pth_press_part cfg s2 cur_time

/-- Embeds `housekeeping_task_predictive_tap_hold` (as the composition of
the stages above, in the statement order of the C function). -/
def housekeeping_task (cfg : PthConfig) (s : PthState) (now0 : Nat) :
    PthState × List Emission :=
  let cur_time := now0 % 65536
  let sg := hk_update_global_flags s cur_time
  if sg.pth_status = .idle ∨ statusVal sg.pth_status ≥ statusVal .decidedTap then (sg, [])
  else hk_pending_part cfg sg cur_time

-- Step semantics ----------------------------------------------------------------

/-- One entry into the module: a matrix event handed to the dispatcher
(`now` models `timer_read()` during processing) or a housekeeping tick. -/
inductive PthInput where
  | key (now kc : Nat) (record : KeyRecord)
  | tick (now : Nat)
deriving Repr

/-- One step of the two entry points; `none` marks undefined behavior. -/
def stepOpt (cfg : PthConfig) (s : PthState) : PthInput → Option (PthState × List Emission)
  | .key now kc record =>
    match process_record_pth cfg s now kc record with
    | none => none
    | some (_, s, ems) => some (s, ems)
  | .tick now => some (housekeeping_task cfg s now)

/-- Runs a list of inputs, collecting all emissions. -/
def runOpt (cfg : PthConfig) (s : PthState) :
    List PthInput → Option (PthState × List Emission)
  | [] => some (s, [])
  | input :: rest =>
    match stepOpt cfg s input with
    | none => none
    | some (s, ems) =>
      match runOpt cfg s rest with
      | none => none
      | some (s2, ems2) => some (s2, ems ++ ems2)

end PTH
namespace PTH

-- Concrete configuration used for witnesses and counterexamples ----------------

/-- A concrete configuration: rows 0 of the matrix are left-hand keys, rows 1
right-hand; the policy hooks follow the default weak implementations of the C
file (no caps word, no active modifiers, so the default instant-hold predicate
returns true); the prediction outputs are fixed values, which the claims do
not depend on. -/
def testCfg : PthConfig where
  get_side := fun r => if r.event.key.row = 0 then PTH_L else PTH_R
  mod_config := fun m => m
  should_hold_instantly := fun _ _ => true
  second_should_hold_instantly := fun _ _ => true
  should_choose_tap_when_second_is_same_side_press := fun s => !s.second_is_tap_hold
  should_choose_tap_when_second_is_same_side_release := fun _ => true
  get_timeout_for_forcing_choice := fun _ => 700
  get_forced_choice_after_timeout := fun s => if s.has_second then .idle else .decidedHold
  should_neutralize_mods := fun mods => mods &&& 0b11 = 0
  get_code_to_be_registered_instead_when_hold_chosen := fun _ => KC_NO
  should_register_as_hold_when_same_side := fun _ _ => true
  predict_hold_when_third_press := fun _ => false
  predict_hold_when_pth_release_after_second_press := fun _ => false
  predict_hold_when_pth_release_after_second_release := fun _ => false
  predict_min_overlap_for_hold_in_ms := fun _ => 100
  keycode_at_same_pos_in_layer := fun _ _ => KC_A
  layer_switch_get_layer := fun _ => 0

/-- The `testCfg` variant whose instant-hold policies decline (as the default
predicate does when, for example, matching modifiers are already active). -/
def testCfgNoInstant : PthConfig :=
  { testCfg with
    should_hold_instantly := fun _ _ => false
    second_should_hold_instantly := fun _ _ => false }

/-- A left-hand matrix position. -/
def posL : KeyPos := ⟨2, 0⟩

/-- Another left-hand matrix position. -/
def posL2 : KeyPos := ⟨3, 0⟩

/-- A right-hand matrix position. -/
def posR : KeyPos := ⟨2, 1⟩

/-- A pressed matrix key record at a position and time. -/
def pressRec (pos : KeyPos) (t : Nat) : KeyRecord := ⟨⟨pos, true, t, true⟩, ⟨false, 0⟩⟩

/-- A released matrix key record at a position and time. -/
def releaseRec (pos : KeyPos) (t : Nat) : KeyRecord := ⟨⟨pos, false, t, true⟩, ⟨false, 0⟩⟩

/-- A mod-tap keycode: `LCTL_T(KC_A)` (`0x2000 | (MOD_LCTL << 8) | KC_A`). -/
def KC_MT_CTL_A : Nat := 0x2104

/-- A layer-tap keycode: `LT(1, KC_A)`. -/
def KC_LT_1_A : Nat := 0x4104

end PTH
namespace PTH

-- Record helper projections ----------------------------------------------------

@[simp] theorem withNewTime_key (now : Nat) (r : KeyRecord) :
    (withNewTime now r).event.key = r.event.key := rfl

@[simp] theorem withNewTime_pressed (now : Nat) (r : KeyRecord) :
    (withNewTime now r).event.pressed = r.event.pressed := rfl

@[simp] theorem withNewTime_tap (now : Nat) (r : KeyRecord) :
    (withNewTime now r).tap = r.tap := rfl

@[simp] theorem withPressed_key (b : Bool) (r : KeyRecord) :
    (withPressed b r).event.key = r.event.key := rfl

@[simp] theorem withPressed_pressed (b : Bool) (r : KeyRecord) :
    (withPressed b r).event.pressed = b := rfl

@[simp] theorem withPressed_tap (b : Bool) (r : KeyRecord) :
    (withPressed b r).tap = r.tap := rfl

@[simp] theorem set_record_to_tap_key (r : KeyRecord) :
    (set_record_to_tap r).event.key = r.event.key := rfl

@[simp] theorem set_record_to_tap_pressed (r : KeyRecord) :
    (set_record_to_tap r).event.pressed = r.event.pressed := rfl

@[simp] theorem set_record_to_tap_count (r : KeyRecord) :
    (set_record_to_tap r).tap.count = 1 := rfl

@[simp] theorem set_record_to_hold_key (r : KeyRecord) :
    (set_record_to_hold r).event.key = r.event.key := rfl

@[simp] theorem set_record_to_hold_pressed (r : KeyRecord) :
    (set_record_to_hold r).event.pressed = r.event.pressed := rfl

@[simp] theorem set_record_to_hold_count (r : KeyRecord) :
    (set_record_to_hold r).tap.count = 0 := rfl

-- Synthetic register helpers as explicit record updates -------------------------

@[simp] theorem registerPthAsHold_fst (now : Nat) (s : PthState) :
    (registerPthAsHold now s).1 =
      { s with pth_record := withNewTime now (withPressed true (set_record_to_hold s.pth_record)) } := rfl

@[simp] theorem unregisterPthAsHold_fst (now : Nat) (s : PthState) :
    (unregisterPthAsHold now s).1 =
      { s with pth_record := withNewTime now (withPressed false (set_record_to_hold s.pth_record)) } := rfl

@[simp] theorem registerPthAsTap_fst (now : Nat) (s : PthState) :
    (registerPthAsTap now s).1 =
      { s with pth_record := withNewTime now (withPressed true (set_record_to_tap s.pth_record)) } := rfl

@[simp] theorem unregisterPthAsTap_fst (now : Nat) (s : PthState) :
    (unregisterPthAsTap now s).1 =
      { s with pth_record := withNewTime now (withPressed false (set_record_to_tap s.pth_record)) } := rfl

@[simp] theorem registerSecondAsHold_fst (now : Nat) (s : PthState) :
    (registerSecondAsHold now s).1 =
      { s with second_record := withNewTime now (withPressed true (set_record_to_hold s.second_record)) } := rfl

@[simp] theorem unregisterSecondAsHold_fst (now : Nat) (s : PthState) :
    (unregisterSecondAsHold now s).1 =
      { s with second_record := withNewTime now (withPressed false (set_record_to_hold s.second_record)) } := rfl

@[simp] theorem registerSecond_fst (now : Nat) (s : PthState) :
    (registerSecond now s).1 =
      { s with second_record := withNewTime now (withPressed true s.second_record) } := rfl

@[simp] theorem unregisterSecond_fst (now : Nat) (s : PthState) :
    (unregisterSecond now s).1 =
      { s with second_record := withNewTime now (withPressed false s.second_record) } := rfl

@[simp] theorem registerPthAsHold_snd (now : Nat) (s : PthState) :
    (registerPthAsHold now s).2 =
      [Emission.record (withNewTime now (withPressed true (set_record_to_hold s.pth_record)))] := rfl

@[simp] theorem unregisterPthAsHold_snd (now : Nat) (s : PthState) :
    (unregisterPthAsHold now s).2 =
      [Emission.record (withNewTime now (withPressed false (set_record_to_hold s.pth_record)))] := rfl

@[simp] theorem registerPthAsTap_snd (now : Nat) (s : PthState) :
    (registerPthAsTap now s).2 =
      [Emission.record (withNewTime now (withPressed true (set_record_to_tap s.pth_record)))] := rfl

@[simp] theorem unregisterPthAsTap_snd (now : Nat) (s : PthState) :
    (unregisterPthAsTap now s).2 =
      [Emission.record (withNewTime now (withPressed false (set_record_to_tap s.pth_record)))] := rfl

@[simp] theorem registerSecondAsHold_snd (now : Nat) (s : PthState) :
    (registerSecondAsHold now s).2 =
      [Emission.record (withNewTime now (withPressed true (set_record_to_hold s.second_record)))] := rfl

@[simp] theorem unregisterSecondAsHold_snd (now : Nat) (s : PthState) :
    (unregisterSecondAsHold now s).2 =
      [Emission.record (withNewTime now (withPressed false (set_record_to_hold s.second_record)))] := rfl

@[simp] theorem registerSecond_snd (now : Nat) (s : PthState) :
    (registerSecond now s).2 =
      [Emission.record (withNewTime now (withPressed true s.second_record))] := rfl

@[simp] theorem unregisterSecond_snd (now : Nat) (s : PthState) :
    (unregisterSecond now s).2 =
      [Emission.record (withNewTime now (withPressed false s.second_record))] := rfl

-- Shape lemmas: which fields each operation can touch ---------------------------

@[simp] theorem prr_wait_eq (s : PthState) (rt : ReleaseTime) (now : Nat) :
    process_release_records_and_wait_before_first s rt now =
      process_release_records s rt true now := rfl

/-- The release-record flush only touches the cache bitmask and the cache
array. -/
theorem prr_shape (s : PthState) (rt : ReleaseTime) (w : Bool) (now : Nat) :
    ∃ u a, (process_release_records s rt w now).1 =
      { s with used_release_records_bitmask := u, release_records := a } := by
  unfold process_release_records
  dsimp only
  by_cases h : get_to_be_released_bitmask s rt = 0
  · rw [if_pos h]
    exact ⟨s.used_release_records_bitmask, s.release_records, rfl⟩
  · rw [if_neg h]
    rcases hr : release_loop now 8 (get_to_be_released_bitmask s rt) (!w) s.release_records
      with ⟨a, w2, e⟩
    exact ⟨_, _, rfl⟩

/-- Adding a tap-release position only touches the position array and its
bitmask. -/
theorem apt_shape (s : PthState) (pos : KeyPos) :
    ∃ a u, add_pos_to_tap_releases s pos =
      { s with release_as_tap_positions := a, used_release_as_tap_positions_bitmask := u } := by
  unfold add_pos_to_tap_releases
  dsimp only
  split
  · exact ⟨s.release_as_tap_positions, s.used_release_as_tap_positions_bitmask, rfl⟩
  · exact ⟨_, _, rfl⟩

/-- Removing a tap-release position only touches its bitmask. -/
theorem rpt_shape (s : PthState) (pos : KeyPos) (s2 : PthState)
    (h : remove_pos_from_tap_releases s pos = some s2) :
    ∃ u, s2 = { s with used_release_as_tap_positions_bitmask := u } := by
  unfold remove_pos_from_tap_releases at h
  rcases hr : remove_pos_loop s.release_as_tap_positions pos
      s.used_release_as_tap_positions_bitmask 8 s.used_release_as_tap_positions_bitmask with
    _ | u
  · rw [hr] at h
    exact absurd h (by simp)
  · rw [hr] at h
    simp only [Option.some.injEq] at h
    exact ⟨u, h.symm⟩

/-- Caching a release record (in the defined case) only touches the cache
array and the two cache bitmasks. -/
theorem arr_shape (s : PthState) (record : KeyRecord) (rt : ReleaseTime) (s2 : PthState)
    (e : List Emission) (h : add_release_record s record rt = (e, some s2)) :
    ∃ a b u, s2 = { s with release_records := a, is_before_second_bitmask := b,
                           used_release_records_bitmask := u } := by
  unfold add_release_record at h
  dsimp only at h
  split at h
  · simp at h
  · simp only [Prod.mk.injEq, Option.some.injEq] at h
    exact ⟨_, _, _, h.2.symm⟩

/-- The register-hold emitter only touches the PTH record and the re-resolved
second keycode fields; the PTH key position is untouched. -/
theorem rph_shape (cfg : PthConfig) (now : Nat) (s : PthState) :
    ∃ pr k th, (register_pth_hold cfg now s).1 =
        { s with pth_record := pr, second_keycode := k, second_is_tap_hold := th } ∧
      pr.event.key = s.pth_record.event.key := by
  unfold register_pth_hold
  dsimp only
  split
  · split
    · exact ⟨_, _, _, rfl, rfl⟩
    · exact ⟨_, s.second_keycode, s.second_is_tap_hold, rfl, rfl⟩
  · exact ⟨s.pth_record, s.second_keycode, s.second_is_tap_hold, rfl, rfl⟩

/-- The unregister-hold emitter only touches the PTH record; the PTH key
position is untouched. -/
theorem uph_shape (now : Nat) (s : PthState) :
    ∃ pr, (unregister_pth_hold now s).1 = { s with pth_record := pr } ∧
      pr.event.key = s.pth_record.event.key := by
  unfold unregister_pth_hold
  split
  · exact ⟨_, rfl, rfl⟩
  · exact ⟨s.pth_record, rfl, rfl⟩

end PTH
namespace PTH

@[simp] theorem prr_pth_status (s : PthState) (rt : ReleaseTime) (w : Bool) (now : Nat) :
    (process_release_records s rt w now).1.pth_status = s.pth_status :=
  by obtain ⟨u, a, h⟩ := prr_shape s rt w now; rw [h]

@[simp] theorem prr_pth_prev_status (s : PthState) (rt : ReleaseTime) (w : Bool) (now : Nat) :
    (process_release_records s rt w now).1.pth_prev_status = s.pth_prev_status :=
  by obtain ⟨u, a, h⟩ := prr_shape s rt w now; rw [h]

@[simp] theorem prr_pth_keycode (s : PthState) (rt : ReleaseTime) (w : Bool) (now : Nat) :
    (process_release_records s rt w now).1.pth_keycode = s.pth_keycode :=
  by obtain ⟨u, a, h⟩ := prr_shape s rt w now; rw [h]

@[simp] theorem prr_pth_tap_code_instead_of_hold (s : PthState) (rt : ReleaseTime) (w : Bool) (now : Nat) :
    (process_release_records s rt w now).1.pth_tap_code_instead_of_hold = s.pth_tap_code_instead_of_hold :=
  by obtain ⟨u, a, h⟩ := prr_shape s rt w now; rw [h]

@[simp] theorem prr_pth_record (s : PthState) (rt : ReleaseTime) (w : Bool) (now : Nat) :
    (process_release_records s rt w now).1.pth_record = s.pth_record :=
  by obtain ⟨u, a, h⟩ := prr_shape s rt w now; rw [h]

@[simp] theorem prr_pth_press_timer (s : PthState) (rt : ReleaseTime) (w : Bool) (now : Nat) :
    (process_release_records s rt w now).1.pth_press_timer = s.pth_press_timer :=
  by obtain ⟨u, a, h⟩ := prr_shape s rt w now; rw [h]

@[simp] theorem prr_pth_press_timer_max_reached (s : PthState) (rt : ReleaseTime) (w : Bool) (now : Nat) :
    (process_release_records s rt w now).1.pth_press_timer_max_reached = s.pth_press_timer_max_reached :=
  by obtain ⟨u, a, h⟩ := prr_shape s rt w now; rw [h]

@[simp] theorem prr_pth_atomic_side (s : PthState) (rt : ReleaseTime) (w : Bool) (now : Nat) :
    (process_release_records s rt w now).1.pth_atomic_side = s.pth_atomic_side :=
  by obtain ⟨u, a, h⟩ := prr_shape s rt w now; rw [h]

@[simp] theorem prr_pth_side_user_bits (s : PthState) (rt : ReleaseTime) (w : Bool) (now : Nat) :
    (process_release_records s rt w now).1.pth_side_user_bits = s.pth_side_user_bits :=
  by obtain ⟨u, a, h⟩ := prr_shape s rt w now; rw [h]

@[simp] theorem prr_pth_was_held_instantly (s : PthState) (rt : ReleaseTime) (w : Bool) (now : Nat) :
    (process_release_records s rt w now).1.pth_was_held_instantly = s.pth_was_held_instantly :=
  by obtain ⟨u, a, h⟩ := prr_shape s rt w now; rw [h]

@[simp] theorem prr_second_was_held_instantly (s : PthState) (rt : ReleaseTime) (w : Bool) (now : Nat) :
    (process_release_records s rt w now).1.second_was_held_instantly = s.second_was_held_instantly :=
  by obtain ⟨u, a, h⟩ := prr_shape s rt w now; rw [h]

@[simp] theorem prr_instant_layer_was_active (s : PthState) (rt : ReleaseTime) (w : Bool) (now : Nat) :
    (process_release_records s rt w now).1.instant_layer_was_active = s.instant_layer_was_active :=
  by obtain ⟨u, a, h⟩ := prr_shape s rt w now; rw [h]

@[simp] theorem prr_layer_before_instant_layer_tap (s : PthState) (rt : ReleaseTime) (w : Bool) (now : Nat) :
    (process_release_records s rt w now).1.layer_before_instant_layer_tap = s.layer_before_instant_layer_tap :=
  by obtain ⟨u, a, h⟩ := prr_shape s rt w now; rw [h]

@[simp] theorem prr_has_second (s : PthState) (rt : ReleaseTime) (w : Bool) (now : Nat) :
    (process_release_records s rt w now).1.has_second = s.has_second :=
  by obtain ⟨u, a, h⟩ := prr_shape s rt w now; rw [h]

@[simp] theorem prr_second_record (s : PthState) (rt : ReleaseTime) (w : Bool) (now : Nat) :
    (process_release_records s rt w now).1.second_record = s.second_record :=
  by obtain ⟨u, a, h⟩ := prr_shape s rt w now; rw [h]

@[simp] theorem prr_second_keycode (s : PthState) (rt : ReleaseTime) (w : Bool) (now : Nat) :
    (process_release_records s rt w now).1.second_keycode = s.second_keycode :=
  by obtain ⟨u, a, h⟩ := prr_shape s rt w now; rw [h]

@[simp] theorem prr_second_press_timer (s : PthState) (rt : ReleaseTime) (w : Bool) (now : Nat) :
    (process_release_records s rt w now).1.second_press_timer = s.second_press_timer :=
  by obtain ⟨u, a, h⟩ := prr_shape s rt w now; rw [h]

@[simp] theorem prr_second_press_timer_max_reached (s : PthState) (rt : ReleaseTime) (w : Bool) (now : Nat) :
    (process_release_records s rt w now).1.second_press_timer_max_reached = s.second_press_timer_max_reached :=
  by obtain ⟨u, a, h⟩ := prr_shape s rt w now; rw [h]

@[simp] theorem prr_second_is_tap_hold (s : PthState) (rt : ReleaseTime) (w : Bool) (now : Nat) :
    (process_release_records s rt w now).1.second_is_tap_hold = s.second_is_tap_hold :=
  by obtain ⟨u, a, h⟩ := prr_shape s rt w now; rw [h]

@[simp] theorem prr_second_is_same_side_as_pth (s : PthState) (rt : ReleaseTime) (w : Bool) (now : Nat) :
    (process_release_records s rt w now).1.second_is_same_side_as_pth = s.second_is_same_side_as_pth :=
  by obtain ⟨u, a, h⟩ := prr_shape s rt w now; rw [h]

@[simp] theorem prr_second_to_be_released (s : PthState) (rt : ReleaseTime) (w : Bool) (now : Nat) :
    (process_release_records s rt w now).1.second_to_be_released = s.second_to_be_released :=
  by obtain ⟨u, a, h⟩ := prr_shape s rt w now; rw [h]

@[simp] theorem prr_timeout_for_forcing_choice (s : PthState) (rt : ReleaseTime) (w : Bool) (now : Nat) :
    (process_release_records s rt w now).1.timeout_for_forcing_choice = s.timeout_for_forcing_choice :=
  by obtain ⟨u, a, h⟩ := prr_shape s rt w now; rw [h]

@[simp] theorem prr_has_chosen_after_timeout_reached (s : PthState) (rt : ReleaseTime) (w : Bool) (now : Nat) :
    (process_release_records s rt w now).1.has_chosen_after_timeout_reached = s.has_chosen_after_timeout_reached :=
  by obtain ⟨u, a, h⟩ := prr_shape s rt w now; rw [h]

@[simp] theorem prr_min_overlap_dur_for_hold (s : PthState) (rt : ReleaseTime) (w : Bool) (now : Nat) :
    (process_release_records s rt w now).1.min_overlap_dur_for_hold = s.min_overlap_dur_for_hold :=
  by obtain ⟨u, a, h⟩ := prr_shape s rt w now; rw [h]

@[simp] theorem prr_pth_press_to_second_press_dur (s : PthState) (rt : ReleaseTime) (w : Bool) (now : Nat) :
    (process_release_records s rt w now).1.pth_press_to_second_press_dur = s.pth_press_to_second_press_dur :=
  by obtain ⟨u, a, h⟩ := prr_shape s rt w now; rw [h]

@[simp] theorem prr_pth_press_to_second_release_dur (s : PthState) (rt : ReleaseTime) (w : Bool) (now : Nat) :
    (process_release_records s rt w now).1.pth_press_to_second_release_dur = s.pth_press_to_second_release_dur :=
  by obtain ⟨u, a, h⟩ := prr_shape s rt w now; rw [h]

@[simp] theorem prr_pth_second_dur (s : PthState) (rt : ReleaseTime) (w : Bool) (now : Nat) :
    (process_release_records s rt w now).1.pth_second_dur = s.pth_second_dur :=
  by obtain ⟨u, a, h⟩ := prr_shape s rt w now; rw [h]

@[simp] theorem prr_pth_second_press_to_third_press_dur (s : PthState) (rt : ReleaseTime) (w : Bool) (now : Nat) :
    (process_release_records s rt w now).1.pth_second_press_to_third_press_dur = s.pth_second_press_to_third_press_dur :=
  by obtain ⟨u, a, h⟩ := prr_shape s rt w now; rw [h]

@[simp] theorem prr_pth_prev_prev_press_to_prev_press_dur (s : PthState) (rt : ReleaseTime) (w : Bool) (now : Nat) :
    (process_release_records s rt w now).1.pth_prev_prev_press_to_prev_press_dur = s.pth_prev_prev_press_to_prev_press_dur :=
  by obtain ⟨u, a, h⟩ := prr_shape s rt w now; rw [h]

@[simp] theorem prr_pth_prev_press_to_pth_press_dur (s : PthState) (rt : ReleaseTime) (w : Bool) (now : Nat) :
    (process_release_records s rt w now).1.pth_prev_press_to_pth_press_dur = s.pth_prev_press_to_pth_press_dur :=
  by obtain ⟨u, a, h⟩ := prr_shape s rt w now; rw [h]

@[simp] theorem prr_pth_prev_prev_overlap_dur (s : PthState) (rt : ReleaseTime) (w : Bool) (now : Nat) :
    (process_release_records s rt w now).1.pth_prev_prev_overlap_dur = s.pth_prev_prev_overlap_dur :=
  by obtain ⟨u, a, h⟩ := prr_shape s rt w now; rw [h]

@[simp] theorem prr_pth_prev_overlap_dur (s : PthState) (rt : ReleaseTime) (w : Bool) (now : Nat) :
    (process_release_records s rt w now).1.pth_prev_overlap_dur = s.pth_prev_overlap_dur :=
  by obtain ⟨u, a, h⟩ := prr_shape s rt w now; rw [h]

@[simp] theorem prr_key_release_before_pth_to_pth_press_dur (s : PthState) (rt : ReleaseTime) (w : Bool) (now : Nat) :
    (process_release_records s rt w now).1.key_release_before_pth_to_pth_press_dur = s.key_release_before_pth_to_pth_press_dur :=
  by obtain ⟨u, a, h⟩ := prr_shape s rt w now; rw [h]

@[simp] theorem prr_prev_press_keycode (s : PthState) (rt : ReleaseTime) (w : Bool) (now : Nat) :
    (process_release_records s rt w now).1.prev_press_keycode = s.prev_press_keycode :=
  by obtain ⟨u, a, h⟩ := prr_shape s rt w now; rw [h]

@[simp] theorem prr_cur_press_keycode (s : PthState) (rt : ReleaseTime) (w : Bool) (now : Nat) :
    (process_release_records s rt w now).1.cur_press_keycode = s.cur_press_keycode :=
  by obtain ⟨u, a, h⟩ := prr_shape s rt w now; rw [h]

@[simp] theorem prr_down_count (s : PthState) (rt : ReleaseTime) (w : Bool) (now : Nat) :
    (process_release_records s rt w now).1.down_count = s.down_count :=
  by obtain ⟨u, a, h⟩ := prr_shape s rt w now; rw [h]

@[simp] theorem prr_overlap_timer (s : PthState) (rt : ReleaseTime) (w : Bool) (now : Nat) :
    (process_release_records s rt w now).1.overlap_timer = s.overlap_timer :=
  by obtain ⟨u, a, h⟩ := prr_shape s rt w now; rw [h]

@[simp] theorem prr_overlap_timer_max_reached (s : PthState) (rt : ReleaseTime) (w : Bool) (now : Nat) :
    (process_release_records s rt w now).1.overlap_timer_max_reached = s.overlap_timer_max_reached :=
  by obtain ⟨u, a, h⟩ := prr_shape s rt w now; rw [h]

@[simp] theorem prr_press_to_press_timer (s : PthState) (rt : ReleaseTime) (w : Bool) (now : Nat) :
    (process_release_records s rt w now).1.press_to_press_timer = s.press_to_press_timer :=
  by obtain ⟨u, a, h⟩ := prr_shape s rt w now; rw [h]

@[simp] theorem prr_press_to_press_timer_max_reached (s : PthState) (rt : ReleaseTime) (w : Bool) (now : Nat) :
    (process_release_records s rt w now).1.press_to_press_timer_max_reached = s.press_to_press_timer_max_reached :=
  by obtain ⟨u, a, h⟩ := prr_shape s rt w now; rw [h]

@[simp] theorem prr_release_timer (s : PthState) (rt : ReleaseTime) (w : Bool) (now : Nat) :
    (process_release_records s rt w now).1.release_timer = s.release_timer :=
  by obtain ⟨u, a, h⟩ := prr_shape s rt w now; rw [h]

@[simp] theorem prr_release_timer_max_reached (s : PthState) (rt : ReleaseTime) (w : Bool) (now : Nat) :
    (process_release_records s rt w now).1.release_timer_max_reached = s.release_timer_max_reached :=
  by obtain ⟨u, a, h⟩ := prr_shape s rt w now; rw [h]

@[simp] theorem prr_prev_press_to_press_dur (s : PthState) (rt : ReleaseTime) (w : Bool) (now : Nat) :
    (process_release_records s rt w now).1.prev_press_to_press_dur = s.prev_press_to_press_dur :=
  by obtain ⟨u, a, h⟩ := prr_shape s rt w now; rw [h]

@[simp] theorem prr_cur_press_to_press_dur (s : PthState) (rt : ReleaseTime) (w : Bool) (now : Nat) :
    (process_release_records s rt w now).1.cur_press_to_press_dur = s.cur_press_to_press_dur :=
  by obtain ⟨u, a, h⟩ := prr_shape s rt w now; rw [h]

@[simp] theorem prr_prev_overlap_dur (s : PthState) (rt : ReleaseTime) (w : Bool) (now : Nat) :
    (process_release_records s rt w now).1.prev_overlap_dur = s.prev_overlap_dur :=
  by obtain ⟨u, a, h⟩ := prr_shape s rt w now; rw [h]

@[simp] theorem prr_cur_overlap_dur (s : PthState) (rt : ReleaseTime) (w : Bool) (now : Nat) :
    (process_release_records s rt w now).1.cur_overlap_dur = s.cur_overlap_dur :=
  by obtain ⟨u, a, h⟩ := prr_shape s rt w now; rw [h]

@[simp] theorem prr_release_as_tap_positions (s : PthState) (rt : ReleaseTime) (w : Bool) (now : Nat) :
    (process_release_records s rt w now).1.release_as_tap_positions = s.release_as_tap_positions :=
  by obtain ⟨u, a, h⟩ := prr_shape s rt w now; rw [h]

@[simp] theorem prr_used_release_as_tap_positions_bitmask (s : PthState) (rt : ReleaseTime) (w : Bool) (now : Nat) :
    (process_release_records s rt w now).1.used_release_as_tap_positions_bitmask = s.used_release_as_tap_positions_bitmask :=
  by obtain ⟨u, a, h⟩ := prr_shape s rt w now; rw [h]

@[simp] theorem prr_is_before_second_bitmask (s : PthState) (rt : ReleaseTime) (w : Bool) (now : Nat) :
    (process_release_records s rt w now).1.is_before_second_bitmask = s.is_before_second_bitmask :=
  by obtain ⟨u, a, h⟩ := prr_shape s rt w now; rw [h]

@[simp] theorem prr_is_processing_record_due_to_pth (s : PthState) (rt : ReleaseTime) (w : Bool) (now : Nat) :
    (process_release_records s rt w now).1.is_processing_record_due_to_pth = s.is_processing_record_due_to_pth :=
  by obtain ⟨u, a, h⟩ := prr_shape s rt w now; rw [h]

@[simp] theorem apt_pth_status (s : PthState) (pos : KeyPos) :
    (add_pos_to_tap_releases s pos).pth_status = s.pth_status :=
  by obtain ⟨a, u, h⟩ := apt_shape s pos; rw [h]

@[simp] theorem apt_pth_prev_status (s : PthState) (pos : KeyPos) :
    (add_pos_to_tap_releases s pos).pth_prev_status = s.pth_prev_status :=
  by obtain ⟨a, u, h⟩ := apt_shape s pos; rw [h]

@[simp] theorem apt_pth_keycode (s : PthState) (pos : KeyPos) :
    (add_pos_to_tap_releases s pos).pth_keycode = s.pth_keycode :=
  by obtain ⟨a, u, h⟩ := apt_shape s pos; rw [h]

@[simp] theorem apt_pth_tap_code_instead_of_hold (s : PthState) (pos : KeyPos) :
    (add_pos_to_tap_releases s pos).pth_tap_code_instead_of_hold = s.pth_tap_code_instead_of_hold :=
  by obtain ⟨a, u, h⟩ := apt_shape s pos; rw [h]

@[simp] theorem apt_pth_record (s : PthState) (pos : KeyPos) :
    (add_pos_to_tap_releases s pos).pth_record = s.pth_record :=
  by obtain ⟨a, u, h⟩ := apt_shape s pos; rw [h]

@[simp] theorem apt_pth_press_timer (s : PthState) (pos : KeyPos) :
    (add_pos_to_tap_releases s pos).pth_press_timer = s.pth_press_timer :=
  by obtain ⟨a, u, h⟩ := apt_shape s pos; rw [h]

@[simp] theorem apt_pth_press_timer_max_reached (s : PthState) (pos : KeyPos) :
    (add_pos_to_tap_releases s pos).pth_press_timer_max_reached = s.pth_press_timer_max_reached :=
  by obtain ⟨a, u, h⟩ := apt_shape s pos; rw [h]

@[simp] theorem apt_pth_atomic_side (s : PthState) (pos : KeyPos) :
    (add_pos_to_tap_releases s pos).pth_atomic_side = s.pth_atomic_side :=
  by obtain ⟨a, u, h⟩ := apt_shape s pos; rw [h]

@[simp] theorem apt_pth_side_user_bits (s : PthState) (pos : KeyPos) :
    (add_pos_to_tap_releases s pos).pth_side_user_bits = s.pth_side_user_bits :=
  by obtain ⟨a, u, h⟩ := apt_shape s pos; rw [h]

@[simp] theorem apt_pth_was_held_instantly (s : PthState) (pos : KeyPos) :
    (add_pos_to_tap_releases s pos).pth_was_held_instantly = s.pth_was_held_instantly :=
  by obtain ⟨a, u, h⟩ := apt_shape s pos; rw [h]

@[simp] theorem apt_second_was_held_instantly (s : PthState) (pos : KeyPos) :
    (add_pos_to_tap_releases s pos).second_was_held_instantly = s.second_was_held_instantly :=
  by obtain ⟨a, u, h⟩ := apt_shape s pos; rw [h]

@[simp] theorem apt_instant_layer_was_active (s : PthState) (pos : KeyPos) :
    (add_pos_to_tap_releases s pos).instant_layer_was_active = s.instant_layer_was_active :=
  by obtain ⟨a, u, h⟩ := apt_shape s pos; rw [h]

@[simp] theorem apt_layer_before_instant_layer_tap (s : PthState) (pos : KeyPos) :
    (add_pos_to_tap_releases s pos).layer_before_instant_layer_tap = s.layer_before_instant_layer_tap :=
  by obtain ⟨a, u, h⟩ := apt_shape s pos; rw [h]

@[simp] theorem apt_has_second (s : PthState) (pos : KeyPos) :
    (add_pos_to_tap_releases s pos).has_second = s.has_second :=
  by obtain ⟨a, u, h⟩ := apt_shape s pos; rw [h]

@[simp] theorem apt_second_record (s : PthState) (pos : KeyPos) :
    (add_pos_to_tap_releases s pos).second_record = s.second_record :=
  by obtain ⟨a, u, h⟩ := apt_shape s pos; rw [h]

@[simp] theorem apt_second_keycode (s : PthState) (pos : KeyPos) :
    (add_pos_to_tap_releases s pos).second_keycode = s.second_keycode :=
  by obtain ⟨a, u, h⟩ := apt_shape s pos; rw [h]

@[simp] theorem apt_second_press_timer (s : PthState) (pos : KeyPos) :
    (add_pos_to_tap_releases s pos).second_press_timer = s.second_press_timer :=
  by obtain ⟨a, u, h⟩ := apt_shape s pos; rw [h]

@[simp] theorem apt_second_press_timer_max_reached (s : PthState) (pos : KeyPos) :
    (add_pos_to_tap_releases s pos).second_press_timer_max_reached = s.second_press_timer_max_reached :=
  by obtain ⟨a, u, h⟩ := apt_shape s pos; rw [h]

@[simp] theorem apt_second_is_tap_hold (s : PthState) (pos : KeyPos) :
    (add_pos_to_tap_releases s pos).second_is_tap_hold = s.second_is_tap_hold :=
  by obtain ⟨a, u, h⟩ := apt_shape s pos; rw [h]

@[simp] theorem apt_second_is_same_side_as_pth (s : PthState) (pos : KeyPos) :
    (add_pos_to_tap_releases s pos).second_is_same_side_as_pth = s.second_is_same_side_as_pth :=
  by obtain ⟨a, u, h⟩ := apt_shape s pos; rw [h]

@[simp] theorem apt_second_to_be_released (s : PthState) (pos : KeyPos) :
    (add_pos_to_tap_releases s pos).second_to_be_released = s.second_to_be_released :=
  by obtain ⟨a, u, h⟩ := apt_shape s pos; rw [h]

@[simp] theorem apt_timeout_for_forcing_choice (s : PthState) (pos : KeyPos) :
    (add_pos_to_tap_releases s pos).timeout_for_forcing_choice = s.timeout_for_forcing_choice :=
  by obtain ⟨a, u, h⟩ := apt_shape s pos; rw [h]

@[simp] theorem apt_has_chosen_after_timeout_reached (s : PthState) (pos : KeyPos) :
    (add_pos_to_tap_releases s pos).has_chosen_after_timeout_reached = s.has_chosen_after_timeout_reached :=
  by obtain ⟨a, u, h⟩ := apt_shape s pos; rw [h]

@[simp] theorem apt_min_overlap_dur_for_hold (s : PthState) (pos : KeyPos) :
    (add_pos_to_tap_releases s pos).min_overlap_dur_for_hold = s.min_overlap_dur_for_hold :=
  by obtain ⟨a, u, h⟩ := apt_shape s pos; rw [h]

@[simp] theorem apt_pth_press_to_second_press_dur (s : PthState) (pos : KeyPos) :
    (add_pos_to_tap_releases s pos).pth_press_to_second_press_dur = s.pth_press_to_second_press_dur :=
  by obtain ⟨a, u, h⟩ := apt_shape s pos; rw [h]

@[simp] theorem apt_pth_press_to_second_release_dur (s : PthState) (pos : KeyPos) :
    (add_pos_to_tap_releases s pos).pth_press_to_second_release_dur = s.pth_press_to_second_release_dur :=
  by obtain ⟨a, u, h⟩ := apt_shape s pos; rw [h]

@[simp] theorem apt_pth_second_dur (s : PthState) (pos : KeyPos) :
    (add_pos_to_tap_releases s pos).pth_second_dur = s.pth_second_dur :=
  by obtain ⟨a, u, h⟩ := apt_shape s pos; rw [h]

@[simp] theorem apt_pth_second_press_to_third_press_dur (s : PthState) (pos : KeyPos) :
    (add_pos_to_tap_releases s pos).pth_second_press_to_third_press_dur = s.pth_second_press_to_third_press_dur :=
  by obtain ⟨a, u, h⟩ := apt_shape s pos; rw [h]

@[simp] theorem apt_pth_prev_prev_press_to_prev_press_dur (s : PthState) (pos : KeyPos) :
    (add_pos_to_tap_releases s pos).pth_prev_prev_press_to_prev_press_dur = s.pth_prev_prev_press_to_prev_press_dur :=
  by obtain ⟨a, u, h⟩ := apt_shape s pos; rw [h]

@[simp] theorem apt_pth_prev_press_to_pth_press_dur (s : PthState) (pos : KeyPos) :
    (add_pos_to_tap_releases s pos).pth_prev_press_to_pth_press_dur = s.pth_prev_press_to_pth_press_dur :=
  by obtain ⟨a, u, h⟩ := apt_shape s pos; rw [h]

@[simp] theorem apt_pth_prev_prev_overlap_dur (s : PthState) (pos : KeyPos) :
    (add_pos_to_tap_releases s pos).pth_prev_prev_overlap_dur = s.pth_prev_prev_overlap_dur :=
  by obtain ⟨a, u, h⟩ := apt_shape s pos; rw [h]

@[simp] theorem apt_pth_prev_overlap_dur (s : PthState) (pos : KeyPos) :
    (add_pos_to_tap_releases s pos).pth_prev_overlap_dur = s.pth_prev_overlap_dur :=
  by obtain ⟨a, u, h⟩ := apt_shape s pos; rw [h]

@[simp] theorem apt_key_release_before_pth_to_pth_press_dur (s : PthState) (pos : KeyPos) :
    (add_pos_to_tap_releases s pos).key_release_before_pth_to_pth_press_dur = s.key_release_before_pth_to_pth_press_dur :=
  by obtain ⟨a, u, h⟩ := apt_shape s pos; rw [h]

@[simp] theorem apt_prev_press_keycode (s : PthState) (pos : KeyPos) :
    (add_pos_to_tap_releases s pos).prev_press_keycode = s.prev_press_keycode :=
  by obtain ⟨a, u, h⟩ := apt_shape s pos; rw [h]

@[simp] theorem apt_cur_press_keycode (s : PthState) (pos : KeyPos) :
    (add_pos_to_tap_releases s pos).cur_press_keycode = s.cur_press_keycode :=
  by obtain ⟨a, u, h⟩ := apt_shape s pos; rw [h]

@[simp] theorem apt_down_count (s : PthState) (pos : KeyPos) :
    (add_pos_to_tap_releases s pos).down_count = s.down_count :=
  by obtain ⟨a, u, h⟩ := apt_shape s pos; rw [h]

@[simp] theorem apt_overlap_timer (s : PthState) (pos : KeyPos) :
    (add_pos_to_tap_releases s pos).overlap_timer = s.overlap_timer :=
  by obtain ⟨a, u, h⟩ := apt_shape s pos; rw [h]

@[simp] theorem apt_overlap_timer_max_reached (s : PthState) (pos : KeyPos) :
    (add_pos_to_tap_releases s pos).overlap_timer_max_reached = s.overlap_timer_max_reached :=
  by obtain ⟨a, u, h⟩ := apt_shape s pos; rw [h]

@[simp] theorem apt_press_to_press_timer (s : PthState) (pos : KeyPos) :
    (add_pos_to_tap_releases s pos).press_to_press_timer = s.press_to_press_timer :=
  by obtain ⟨a, u, h⟩ := apt_shape s pos; rw [h]

@[simp] theorem apt_press_to_press_timer_max_reached (s : PthState) (pos : KeyPos) :
    (add_pos_to_tap_releases s pos).press_to_press_timer_max_reached = s.press_to_press_timer_max_reached :=
  by obtain ⟨a, u, h⟩ := apt_shape s pos; rw [h]

@[simp] theorem apt_release_timer (s : PthState) (pos : KeyPos) :
    (add_pos_to_tap_releases s pos).release_timer = s.release_timer :=
  by obtain ⟨a, u, h⟩ := apt_shape s pos; rw [h]

@[simp] theorem apt_release_timer_max_reached (s : PthState) (pos : KeyPos) :
    (add_pos_to_tap_releases s pos).release_timer_max_reached = s.release_timer_max_reached :=
  by obtain ⟨a, u, h⟩ := apt_shape s pos; rw [h]

@[simp] theorem apt_prev_press_to_press_dur (s : PthState) (pos : KeyPos) :
    (add_pos_to_tap_releases s pos).prev_press_to_press_dur = s.prev_press_to_press_dur :=
  by obtain ⟨a, u, h⟩ := apt_shape s pos; rw [h]

@[simp] theorem apt_cur_press_to_press_dur (s : PthState) (pos : KeyPos) :
    (add_pos_to_tap_releases s pos).cur_press_to_press_dur = s.cur_press_to_press_dur :=
  by obtain ⟨a, u, h⟩ := apt_shape s pos; rw [h]

@[simp] theorem apt_prev_overlap_dur (s : PthState) (pos : KeyPos) :
    (add_pos_to_tap_releases s pos).prev_overlap_dur = s.prev_overlap_dur :=
  by obtain ⟨a, u, h⟩ := apt_shape s pos; rw [h]

@[simp] theorem apt_cur_overlap_dur (s : PthState) (pos : KeyPos) :
    (add_pos_to_tap_releases s pos).cur_overlap_dur = s.cur_overlap_dur :=
  by obtain ⟨a, u, h⟩ := apt_shape s pos; rw [h]

@[simp] theorem apt_release_records (s : PthState) (pos : KeyPos) :
    (add_pos_to_tap_releases s pos).release_records = s.release_records :=
  by obtain ⟨a, u, h⟩ := apt_shape s pos; rw [h]

@[simp] theorem apt_is_before_second_bitmask (s : PthState) (pos : KeyPos) :
    (add_pos_to_tap_releases s pos).is_before_second_bitmask = s.is_before_second_bitmask :=
  by obtain ⟨a, u, h⟩ := apt_shape s pos; rw [h]

@[simp] theorem apt_used_release_records_bitmask (s : PthState) (pos : KeyPos) :
    (add_pos_to_tap_releases s pos).used_release_records_bitmask = s.used_release_records_bitmask :=
  by obtain ⟨a, u, h⟩ := apt_shape s pos; rw [h]

@[simp] theorem apt_is_processing_record_due_to_pth (s : PthState) (pos : KeyPos) :
    (add_pos_to_tap_releases s pos).is_processing_record_due_to_pth = s.is_processing_record_due_to_pth :=
  by obtain ⟨a, u, h⟩ := apt_shape s pos; rw [h]

@[simp] theorem rph_pth_status (cfg : PthConfig) (now : Nat) (s : PthState) :
    (register_pth_hold cfg now s).1.pth_status = s.pth_status :=
  by obtain ⟨pr, k, th, h, hk⟩ := rph_shape cfg now s; rw [h]

@[simp] theorem rph_pth_prev_status (cfg : PthConfig) (now : Nat) (s : PthState) :
    (register_pth_hold cfg now s).1.pth_prev_status = s.pth_prev_status :=
  by obtain ⟨pr, k, th, h, hk⟩ := rph_shape cfg now s; rw [h]

@[simp] theorem rph_pth_keycode (cfg : PthConfig) (now : Nat) (s : PthState) :
    (register_pth_hold cfg now s).1.pth_keycode = s.pth_keycode :=
  by obtain ⟨pr, k, th, h, hk⟩ := rph_shape cfg now s; rw [h]

@[simp] theorem rph_pth_tap_code_instead_of_hold (cfg : PthConfig) (now : Nat) (s : PthState) :
    (register_pth_hold cfg now s).1.pth_tap_code_instead_of_hold = s.pth_tap_code_instead_of_hold :=
  by obtain ⟨pr, k, th, h, hk⟩ := rph_shape cfg now s; rw [h]

@[simp] theorem rph_pth_press_timer (cfg : PthConfig) (now : Nat) (s : PthState) :
    (register_pth_hold cfg now s).1.pth_press_timer = s.pth_press_timer :=
  by obtain ⟨pr, k, th, h, hk⟩ := rph_shape cfg now s; rw [h]

@[simp] theorem rph_pth_press_timer_max_reached (cfg : PthConfig) (now : Nat) (s : PthState) :
    (register_pth_hold cfg now s).1.pth_press_timer_max_reached = s.pth_press_timer_max_reached :=
  by obtain ⟨pr, k, th, h, hk⟩ := rph_shape cfg now s; rw [h]

@[simp] theorem rph_pth_atomic_side (cfg : PthConfig) (now : Nat) (s : PthState) :
    (register_pth_hold cfg now s).1.pth_atomic_side = s.pth_atomic_side :=
  by obtain ⟨pr, k, th, h, hk⟩ := rph_shape cfg now s; rw [h]

@[simp] theorem rph_pth_side_user_bits (cfg : PthConfig) (now : Nat) (s : PthState) :
    (register_pth_hold cfg now s).1.pth_side_user_bits = s.pth_side_user_bits :=
  by obtain ⟨pr, k, th, h, hk⟩ := rph_shape cfg now s; rw [h]

@[simp] theorem rph_pth_was_held_instantly (cfg : PthConfig) (now : Nat) (s : PthState) :
    (register_pth_hold cfg now s).1.pth_was_held_instantly = s.pth_was_held_instantly :=
  by obtain ⟨pr, k, th, h, hk⟩ := rph_shape cfg now s; rw [h]

@[simp] theorem rph_second_was_held_instantly (cfg : PthConfig) (now : Nat) (s : PthState) :
    (register_pth_hold cfg now s).1.second_was_held_instantly = s.second_was_held_instantly :=
  by obtain ⟨pr, k, th, h, hk⟩ := rph_shape cfg now s; rw [h]

@[simp] theorem rph_instant_layer_was_active (cfg : PthConfig) (now : Nat) (s : PthState) :
    (register_pth_hold cfg now s).1.instant_layer_was_active = s.instant_layer_was_active :=
  by obtain ⟨pr, k, th, h, hk⟩ := rph_shape cfg now s; rw [h]

@[simp] theorem rph_layer_before_instant_layer_tap (cfg : PthConfig) (now : Nat) (s : PthState) :
    (register_pth_hold cfg now s).1.layer_before_instant_layer_tap = s.layer_before_instant_layer_tap :=
  by obtain ⟨pr, k, th, h, hk⟩ := rph_shape cfg now s; rw [h]

@[simp] theorem rph_has_second (cfg : PthConfig) (now : Nat) (s : PthState) :
    (register_pth_hold cfg now s).1.has_second = s.has_second :=
  by obtain ⟨pr, k, th, h, hk⟩ := rph_shape cfg now s; rw [h]

@[simp] theorem rph_second_record (cfg : PthConfig) (now : Nat) (s : PthState) :
    (register_pth_hold cfg now s).1.second_record = s.second_record :=
  by obtain ⟨pr, k, th, h, hk⟩ := rph_shape cfg now s; rw [h]

@[simp] theorem rph_second_press_timer (cfg : PthConfig) (now : Nat) (s : PthState) :
    (register_pth_hold cfg now s).1.second_press_timer = s.second_press_timer :=
  by obtain ⟨pr, k, th, h, hk⟩ := rph_shape cfg now s; rw [h]

@[simp] theorem rph_second_press_timer_max_reached (cfg : PthConfig) (now : Nat) (s : PthState) :
    (register_pth_hold cfg now s).1.second_press_timer_max_reached = s.second_press_timer_max_reached :=
  by obtain ⟨pr, k, th, h, hk⟩ := rph_shape cfg now s; rw [h]

@[simp] theorem rph_second_is_same_side_as_pth (cfg : PthConfig) (now : Nat) (s : PthState) :
    (register_pth_hold cfg now s).1.second_is_same_side_as_pth = s.second_is_same_side_as_pth :=
  by obtain ⟨pr, k, th, h, hk⟩ := rph_shape cfg now s; rw [h]

@[simp] theorem rph_second_to_be_released (cfg : PthConfig) (now : Nat) (s : PthState) :
    (register_pth_hold cfg now s).1.second_to_be_released = s.second_to_be_released :=
  by obtain ⟨pr, k, th, h, hk⟩ := rph_shape cfg now s; rw [h]

@[simp] theorem rph_timeout_for_forcing_choice (cfg : PthConfig) (now : Nat) (s : PthState) :
    (register_pth_hold cfg now s).1.timeout_for_forcing_choice = s.timeout_for_forcing_choice :=
  by obtain ⟨pr, k, th, h, hk⟩ := rph_shape cfg now s; rw [h]

@[simp] theorem rph_has_chosen_after_timeout_reached (cfg : PthConfig) (now : Nat) (s : PthState) :
    (register_pth_hold cfg now s).1.has_chosen_after_timeout_reached = s.has_chosen_after_timeout_reached :=
  by obtain ⟨pr, k, th, h, hk⟩ := rph_shape cfg now s; rw [h]

@[simp] theorem rph_min_overlap_dur_for_hold (cfg : PthConfig) (now : Nat) (s : PthState) :
    (register_pth_hold cfg now s).1.min_overlap_dur_for_hold = s.min_overlap_dur_for_hold :=
  by obtain ⟨pr, k, th, h, hk⟩ := rph_shape cfg now s; rw [h]

@[simp] theorem rph_pth_press_to_second_press_dur (cfg : PthConfig) (now : Nat) (s : PthState) :
    (register_pth_hold cfg now s).1.pth_press_to_second_press_dur = s.pth_press_to_second_press_dur :=
  by obtain ⟨pr, k, th, h, hk⟩ := rph_shape cfg now s; rw [h]

@[simp] theorem rph_pth_press_to_second_release_dur (cfg : PthConfig) (now : Nat) (s : PthState) :
    (register_pth_hold cfg now s).1.pth_press_to_second_release_dur = s.pth_press_to_second_release_dur :=
  by obtain ⟨pr, k, th, h, hk⟩ := rph_shape cfg now s; rw [h]

@[simp] theorem rph_pth_second_dur (cfg : PthConfig) (now : Nat) (s : PthState) :
    (register_pth_hold cfg now s).1.pth_second_dur = s.pth_second_dur :=
  by obtain ⟨pr, k, th, h, hk⟩ := rph_shape cfg now s; rw [h]

@[simp] theorem rph_pth_second_press_to_third_press_dur (cfg : PthConfig) (now : Nat) (s : PthState) :
    (register_pth_hold cfg now s).1.pth_second_press_to_third_press_dur = s.pth_second_press_to_third_press_dur :=
  by obtain ⟨pr, k, th, h, hk⟩ := rph_shape cfg now s; rw [h]

@[simp] theorem rph_pth_prev_prev_press_to_prev_press_dur (cfg : PthConfig) (now : Nat) (s : PthState) :
    (register_pth_hold cfg now s).1.pth_prev_prev_press_to_prev_press_dur = s.pth_prev_prev_press_to_prev_press_dur :=
  by obtain ⟨pr, k, th, h, hk⟩ := rph_shape cfg now s; rw [h]

@[simp] theorem rph_pth_prev_press_to_pth_press_dur (cfg : PthConfig) (now : Nat) (s : PthState) :
    (register_pth_hold cfg now s).1.pth_prev_press_to_pth_press_dur = s.pth_prev_press_to_pth_press_dur :=
  by obtain ⟨pr, k, th, h, hk⟩ := rph_shape cfg now s; rw [h]

@[simp] theorem rph_pth_prev_prev_overlap_dur (cfg : PthConfig) (now : Nat) (s : PthState) :
    (register_pth_hold cfg now s).1.pth_prev_prev_overlap_dur = s.pth_prev_prev_overlap_dur :=
  by obtain ⟨pr, k, th, h, hk⟩ := rph_shape cfg now s; rw [h]

@[simp] theorem rph_pth_prev_overlap_dur (cfg : PthConfig) (now : Nat) (s : PthState) :
    (register_pth_hold cfg now s).1.pth_prev_overlap_dur = s.pth_prev_overlap_dur :=
  by obtain ⟨pr, k, th, h, hk⟩ := rph_shape cfg now s; rw [h]

@[simp] theorem rph_key_release_before_pth_to_pth_press_dur (cfg : PthConfig) (now : Nat) (s : PthState) :
    (register_pth_hold cfg now s).1.key_release_before_pth_to_pth_press_dur = s.key_release_before_pth_to_pth_press_dur :=
  by obtain ⟨pr, k, th, h, hk⟩ := rph_shape cfg now s; rw [h]

@[simp] theorem rph_prev_press_keycode (cfg : PthConfig) (now : Nat) (s : PthState) :
    (register_pth_hold cfg now s).1.prev_press_keycode = s.prev_press_keycode :=
  by obtain ⟨pr, k, th, h, hk⟩ := rph_shape cfg now s; rw [h]

@[simp] theorem rph_cur_press_keycode (cfg : PthConfig) (now : Nat) (s : PthState) :
    (register_pth_hold cfg now s).1.cur_press_keycode = s.cur_press_keycode :=
  by obtain ⟨pr, k, th, h, hk⟩ := rph_shape cfg now s; rw [h]

@[simp] theorem rph_down_count (cfg : PthConfig) (now : Nat) (s : PthState) :
    (register_pth_hold cfg now s).1.down_count = s.down_count :=
  by obtain ⟨pr, k, th, h, hk⟩ := rph_shape cfg now s; rw [h]

@[simp] theorem rph_overlap_timer (cfg : PthConfig) (now : Nat) (s : PthState) :
    (register_pth_hold cfg now s).1.overlap_timer = s.overlap_timer :=
  by obtain ⟨pr, k, th, h, hk⟩ := rph_shape cfg now s; rw [h]

@[simp] theorem rph_overlap_timer_max_reached (cfg : PthConfig) (now : Nat) (s : PthState) :
    (register_pth_hold cfg now s).1.overlap_timer_max_reached = s.overlap_timer_max_reached :=
  by obtain ⟨pr, k, th, h, hk⟩ := rph_shape cfg now s; rw [h]

@[simp] theorem rph_press_to_press_timer (cfg : PthConfig) (now : Nat) (s : PthState) :
    (register_pth_hold cfg now s).1.press_to_press_timer = s.press_to_press_timer :=
  by obtain ⟨pr, k, th, h, hk⟩ := rph_shape cfg now s; rw [h]

@[simp] theorem rph_press_to_press_timer_max_reached (cfg : PthConfig) (now : Nat) (s : PthState) :
    (register_pth_hold cfg now s).1.press_to_press_timer_max_reached = s.press_to_press_timer_max_reached :=
  by obtain ⟨pr, k, th, h, hk⟩ := rph_shape cfg now s; rw [h]

@[simp] theorem rph_release_timer (cfg : PthConfig) (now : Nat) (s : PthState) :
    (register_pth_hold cfg now s).1.release_timer = s.release_timer :=
  by obtain ⟨pr, k, th, h, hk⟩ := rph_shape cfg now s; rw [h]

@[simp] theorem rph_release_timer_max_reached (cfg : PthConfig) (now : Nat) (s : PthState) :
    (register_pth_hold cfg now s).1.release_timer_max_reached = s.release_timer_max_reached :=
  by obtain ⟨pr, k, th, h, hk⟩ := rph_shape cfg now s; rw [h]

@[simp] theorem rph_prev_press_to_press_dur (cfg : PthConfig) (now : Nat) (s : PthState) :
    (register_pth_hold cfg now s).1.prev_press_to_press_dur = s.prev_press_to_press_dur :=
  by obtain ⟨pr, k, th, h, hk⟩ := rph_shape cfg now s; rw [h]

@[simp] theorem rph_cur_press_to_press_dur (cfg : PthConfig) (now : Nat) (s : PthState) :
    (register_pth_hold cfg now s).1.cur_press_to_press_dur = s.cur_press_to_press_dur :=
  by obtain ⟨pr, k, th, h, hk⟩ := rph_shape cfg now s; rw [h]

@[simp] theorem rph_prev_overlap_dur (cfg : PthConfig) (now : Nat) (s : PthState) :
    (register_pth_hold cfg now s).1.prev_overlap_dur = s.prev_overlap_dur :=
  by obtain ⟨pr, k, th, h, hk⟩ := rph_shape cfg now s; rw [h]

@[simp] theorem rph_cur_overlap_dur (cfg : PthConfig) (now : Nat) (s : PthState) :
    (register_pth_hold cfg now s).1.cur_overlap_dur = s.cur_overlap_dur :=
  by obtain ⟨pr, k, th, h, hk⟩ := rph_shape cfg now s; rw [h]

@[simp] theorem rph_release_as_tap_positions (cfg : PthConfig) (now : Nat) (s : PthState) :
    (register_pth_hold cfg now s).1.release_as_tap_positions = s.release_as_tap_positions :=
  by obtain ⟨pr, k, th, h, hk⟩ := rph_shape cfg now s; rw [h]

@[simp] theorem rph_used_release_as_tap_positions_bitmask (cfg : PthConfig) (now : Nat) (s : PthState) :
    (register_pth_hold cfg now s).1.used_release_as_tap_positions_bitmask = s.used_release_as_tap_positions_bitmask :=
  by obtain ⟨pr, k, th, h, hk⟩ := rph_shape cfg now s; rw [h]

@[simp] theorem rph_release_records (cfg : PthConfig) (now : Nat) (s : PthState) :
    (register_pth_hold cfg now s).1.release_records = s.release_records :=
  by obtain ⟨pr, k, th, h, hk⟩ := rph_shape cfg now s; rw [h]

@[simp] theorem rph_is_before_second_bitmask (cfg : PthConfig) (now : Nat) (s : PthState) :
    (register_pth_hold cfg now s).1.is_before_second_bitmask = s.is_before_second_bitmask :=
  by obtain ⟨pr, k, th, h, hk⟩ := rph_shape cfg now s; rw [h]

@[simp] theorem rph_used_release_records_bitmask (cfg : PthConfig) (now : Nat) (s : PthState) :
    (register_pth_hold cfg now s).1.used_release_records_bitmask = s.used_release_records_bitmask :=
  by obtain ⟨pr, k, th, h, hk⟩ := rph_shape cfg now s; rw [h]

@[simp] theorem rph_is_processing_record_due_to_pth (cfg : PthConfig) (now : Nat) (s : PthState) :
    (register_pth_hold cfg now s).1.is_processing_record_due_to_pth = s.is_processing_record_due_to_pth :=
  by obtain ⟨pr, k, th, h, hk⟩ := rph_shape cfg now s; rw [h]

@[simp] theorem uph_pth_status (now : Nat) (s : PthState) :
    (unregister_pth_hold now s).1.pth_status = s.pth_status :=
  by obtain ⟨pr, h, hk⟩ := uph_shape now s; rw [h]

@[simp] theorem uph_pth_prev_status (now : Nat) (s : PthState) :
    (unregister_pth_hold now s).1.pth_prev_status = s.pth_prev_status :=
  by obtain ⟨pr, h, hk⟩ := uph_shape now s; rw [h]

@[simp] theorem uph_pth_keycode (now : Nat) (s : PthState) :
    (unregister_pth_hold now s).1.pth_keycode = s.pth_keycode :=
  by obtain ⟨pr, h, hk⟩ := uph_shape now s; rw [h]

@[simp] theorem uph_pth_tap_code_instead_of_hold (now : Nat) (s : PthState) :
    (unregister_pth_hold now s).1.pth_tap_code_instead_of_hold = s.pth_tap_code_instead_of_hold :=
  by obtain ⟨pr, h, hk⟩ := uph_shape now s; rw [h]

@[simp] theorem uph_pth_press_timer (now : Nat) (s : PthState) :
    (unregister_pth_hold now s).1.pth_press_timer = s.pth_press_timer :=
  by obtain ⟨pr, h, hk⟩ := uph_shape now s; rw [h]

@[simp] theorem uph_pth_press_timer_max_reached (now : Nat) (s : PthState) :
    (unregister_pth_hold now s).1.pth_press_timer_max_reached = s.pth_press_timer_max_reached :=
  by obtain ⟨pr, h, hk⟩ := uph_shape now s; rw [h]

@[simp] theorem uph_pth_atomic_side (now : Nat) (s : PthState) :
    (unregister_pth_hold now s).1.pth_atomic_side = s.pth_atomic_side :=
  by obtain ⟨pr, h, hk⟩ := uph_shape now s; rw [h]

@[simp] theorem uph_pth_side_user_bits (now : Nat) (s : PthState) :
    (unregister_pth_hold now s).1.pth_side_user_bits = s.pth_side_user_bits :=
  by obtain ⟨pr, h, hk⟩ := uph_shape now s; rw [h]

@[simp] theorem uph_pth_was_held_instantly (now : Nat) (s : PthState) :
    (unregister_pth_hold now s).1.pth_was_held_instantly = s.pth_was_held_instantly :=
  by obtain ⟨pr, h, hk⟩ := uph_shape now s; rw [h]

@[simp] theorem uph_second_was_held_instantly (now : Nat) (s : PthState) :
    (unregister_pth_hold now s).1.second_was_held_instantly = s.second_was_held_instantly :=
  by obtain ⟨pr, h, hk⟩ := uph_shape now s; rw [h]

@[simp] theorem uph_instant_layer_was_active (now : Nat) (s : PthState) :
    (unregister_pth_hold now s).1.instant_layer_was_active = s.instant_layer_was_active :=
  by obtain ⟨pr, h, hk⟩ := uph_shape now s; rw [h]

@[simp] theorem uph_layer_before_instant_layer_tap (now : Nat) (s : PthState) :
    (unregister_pth_hold now s).1.layer_before_instant_layer_tap = s.layer_before_instant_layer_tap :=
  by obtain ⟨pr, h, hk⟩ := uph_shape now s; rw [h]

@[simp] theorem uph_has_second (now : Nat) (s : PthState) :
    (unregister_pth_hold now s).1.has_second = s.has_second :=
  by obtain ⟨pr, h, hk⟩ := uph_shape now s; rw [h]

@[simp] theorem uph_second_record (now : Nat) (s : PthState) :
    (unregister_pth_hold now s).1.second_record = s.second_record :=
  by obtain ⟨pr, h, hk⟩ := uph_shape now s; rw [h]

@[simp] theorem uph_second_keycode (now : Nat) (s : PthState) :
    (unregister_pth_hold now s).1.second_keycode = s.second_keycode :=
  by obtain ⟨pr, h, hk⟩ := uph_shape now s; rw [h]

@[simp] theorem uph_second_press_timer (now : Nat) (s : PthState) :
    (unregister_pth_hold now s).1.second_press_timer = s.second_press_timer :=
  by obtain ⟨pr, h, hk⟩ := uph_shape now s; rw [h]

@[simp] theorem uph_second_press_timer_max_reached (now : Nat) (s : PthState) :
    (unregister_pth_hold now s).1.second_press_timer_max_reached = s.second_press_timer_max_reached :=
  by obtain ⟨pr, h, hk⟩ := uph_shape now s; rw [h]

@[simp] theorem uph_second_is_tap_hold (now : Nat) (s : PthState) :
    (unregister_pth_hold now s).1.second_is_tap_hold = s.second_is_tap_hold :=
  by obtain ⟨pr, h, hk⟩ := uph_shape now s; rw [h]

@[simp] theorem uph_second_is_same_side_as_pth (now : Nat) (s : PthState) :
    (unregister_pth_hold now s).1.second_is_same_side_as_pth = s.second_is_same_side_as_pth :=
  by obtain ⟨pr, h, hk⟩ := uph_shape now s; rw [h]

@[simp] theorem uph_second_to_be_released (now : Nat) (s : PthState) :
    (unregister_pth_hold now s).1.second_to_be_released = s.second_to_be_released :=
  by obtain ⟨pr, h, hk⟩ := uph_shape now s; rw [h]

@[simp] theorem uph_timeout_for_forcing_choice (now : Nat) (s : PthState) :
    (unregister_pth_hold now s).1.timeout_for_forcing_choice = s.timeout_for_forcing_choice :=
  by obtain ⟨pr, h, hk⟩ := uph_shape now s; rw [h]

@[simp] theorem uph_has_chosen_after_timeout_reached (now : Nat) (s : PthState) :
    (unregister_pth_hold now s).1.has_chosen_after_timeout_reached = s.has_chosen_after_timeout_reached :=
  by obtain ⟨pr, h, hk⟩ := uph_shape now s; rw [h]

@[simp] theorem uph_min_overlap_dur_for_hold (now : Nat) (s : PthState) :
    (unregister_pth_hold now s).1.min_overlap_dur_for_hold = s.min_overlap_dur_for_hold :=
  by obtain ⟨pr, h, hk⟩ := uph_shape now s; rw [h]

@[simp] theorem uph_pth_press_to_second_press_dur (now : Nat) (s : PthState) :
    (unregister_pth_hold now s).1.pth_press_to_second_press_dur = s.pth_press_to_second_press_dur :=
  by obtain ⟨pr, h, hk⟩ := uph_shape now s; rw [h]

@[simp] theorem uph_pth_press_to_second_release_dur (now : Nat) (s : PthState) :
    (unregister_pth_hold now s).1.pth_press_to_second_release_dur = s.pth_press_to_second_release_dur :=
  by obtain ⟨pr, h, hk⟩ := uph_shape now s; rw [h]

@[simp] theorem uph_pth_second_dur (now : Nat) (s : PthState) :
    (unregister_pth_hold now s).1.pth_second_dur = s.pth_second_dur :=
  by obtain ⟨pr, h, hk⟩ := uph_shape now s; rw [h]

@[simp] theorem uph_pth_second_press_to_third_press_dur (now : Nat) (s : PthState) :
    (unregister_pth_hold now s).1.pth_second_press_to_third_press_dur = s.pth_second_press_to_third_press_dur :=
  by obtain ⟨pr, h, hk⟩ := uph_shape now s; rw [h]

@[simp] theorem uph_pth_prev_prev_press_to_prev_press_dur (now : Nat) (s : PthState) :
    (unregister_pth_hold now s).1.pth_prev_prev_press_to_prev_press_dur = s.pth_prev_prev_press_to_prev_press_dur :=
  by obtain ⟨pr, h, hk⟩ := uph_shape now s; rw [h]

@[simp] theorem uph_pth_prev_press_to_pth_press_dur (now : Nat) (s : PthState) :
    (unregister_pth_hold now s).1.pth_prev_press_to_pth_press_dur = s.pth_prev_press_to_pth_press_dur :=
  by obtain ⟨pr, h, hk⟩ := uph_shape now s; rw [h]

@[simp] theorem uph_pth_prev_prev_overlap_dur (now : Nat) (s : PthState) :
    (unregister_pth_hold now s).1.pth_prev_prev_overlap_dur = s.pth_prev_prev_overlap_dur :=
  by obtain ⟨pr, h, hk⟩ := uph_shape now s; rw [h]

@[simp] theorem uph_pth_prev_overlap_dur (now : Nat) (s : PthState) :
    (unregister_pth_hold now s).1.pth_prev_overlap_dur = s.pth_prev_overlap_dur :=
  by obtain ⟨pr, h, hk⟩ := uph_shape now s; rw [h]

@[simp] theorem uph_key_release_before_pth_to_pth_press_dur (now : Nat) (s : PthState) :
    (unregister_pth_hold now s).1.key_release_before_pth_to_pth_press_dur = s.key_release_before_pth_to_pth_press_dur :=
  by obtain ⟨pr, h, hk⟩ := uph_shape now s; rw [h]

@[simp] theorem uph_prev_press_keycode (now : Nat) (s : PthState) :
    (unregister_pth_hold now s).1.prev_press_keycode = s.prev_press_keycode :=
  by obtain ⟨pr, h, hk⟩ := uph_shape now s; rw [h]

@[simp] theorem uph_cur_press_keycode (now : Nat) (s : PthState) :
    (unregister_pth_hold now s).1.cur_press_keycode = s.cur_press_keycode :=
  by obtain ⟨pr, h, hk⟩ := uph_shape now s; rw [h]

@[simp] theorem uph_down_count (now : Nat) (s : PthState) :
    (unregister_pth_hold now s).1.down_count = s.down_count :=
  by obtain ⟨pr, h, hk⟩ := uph_shape now s; rw [h]

@[simp] theorem uph_overlap_timer (now : Nat) (s : PthState) :
    (unregister_pth_hold now s).1.overlap_timer = s.overlap_timer :=
  by obtain ⟨pr, h, hk⟩ := uph_shape now s; rw [h]

@[simp] theorem uph_overlap_timer_max_reached (now : Nat) (s : PthState) :
    (unregister_pth_hold now s).1.overlap_timer_max_reached = s.overlap_timer_max_reached :=
  by obtain ⟨pr, h, hk⟩ := uph_shape now s; rw [h]

@[simp] theorem uph_press_to_press_timer (now : Nat) (s : PthState) :
    (unregister_pth_hold now s).1.press_to_press_timer = s.press_to_press_timer :=
  by obtain ⟨pr, h, hk⟩ := uph_shape now s; rw [h]

@[simp] theorem uph_press_to_press_timer_max_reached (now : Nat) (s : PthState) :
    (unregister_pth_hold now s).1.press_to_press_timer_max_reached = s.press_to_press_timer_max_reached :=
  by obtain ⟨pr, h, hk⟩ := uph_shape now s; rw [h]

@[simp] theorem uph_release_timer (now : Nat) (s : PthState) :
    (unregister_pth_hold now s).1.release_timer = s.release_timer :=
  by obtain ⟨pr, h, hk⟩ := uph_shape now s; rw [h]

@[simp] theorem uph_release_timer_max_reached (now : Nat) (s : PthState) :
    (unregister_pth_hold now s).1.release_timer_max_reached = s.release_timer_max_reached :=
  by obtain ⟨pr, h, hk⟩ := uph_shape now s; rw [h]

@[simp] theorem uph_prev_press_to_press_dur (now : Nat) (s : PthState) :
    (unregister_pth_hold now s).1.prev_press_to_press_dur = s.prev_press_to_press_dur :=
  by obtain ⟨pr, h, hk⟩ := uph_shape now s; rw [h]

@[simp] theorem uph_cur_press_to_press_dur (now : Nat) (s : PthState) :
    (unregister_pth_hold now s).1.cur_press_to_press_dur = s.cur_press_to_press_dur :=
  by obtain ⟨pr, h, hk⟩ := uph_shape now s; rw [h]

@[simp] theorem uph_prev_overlap_dur (now : Nat) (s : PthState) :
    (unregister_pth_hold now s).1.prev_overlap_dur = s.prev_overlap_dur :=
  by obtain ⟨pr, h, hk⟩ := uph_shape now s; rw [h]

@[simp] theorem uph_cur_overlap_dur (now : Nat) (s : PthState) :
    (unregister_pth_hold now s).1.cur_overlap_dur = s.cur_overlap_dur :=
  by obtain ⟨pr, h, hk⟩ := uph_shape now s; rw [h]

@[simp] theorem uph_release_as_tap_positions (now : Nat) (s : PthState) :
    (unregister_pth_hold now s).1.release_as_tap_positions = s.release_as_tap_positions :=
  by obtain ⟨pr, h, hk⟩ := uph_shape now s; rw [h]

@[simp] theorem uph_used_release_as_tap_positions_bitmask (now : Nat) (s : PthState) :
    (unregister_pth_hold now s).1.used_release_as_tap_positions_bitmask = s.used_release_as_tap_positions_bitmask :=
  by obtain ⟨pr, h, hk⟩ := uph_shape now s; rw [h]

@[simp] theorem uph_release_records (now : Nat) (s : PthState) :
    (unregister_pth_hold now s).1.release_records = s.release_records :=
  by obtain ⟨pr, h, hk⟩ := uph_shape now s; rw [h]

@[simp] theorem uph_is_before_second_bitmask (now : Nat) (s : PthState) :
    (unregister_pth_hold now s).1.is_before_second_bitmask = s.is_before_second_bitmask :=
  by obtain ⟨pr, h, hk⟩ := uph_shape now s; rw [h]

@[simp] theorem uph_used_release_records_bitmask (now : Nat) (s : PthState) :
    (unregister_pth_hold now s).1.used_release_records_bitmask = s.used_release_records_bitmask :=
  by obtain ⟨pr, h, hk⟩ := uph_shape now s; rw [h]

@[simp] theorem uph_is_processing_record_due_to_pth (now : Nat) (s : PthState) :
    (unregister_pth_hold now s).1.is_processing_record_due_to_pth = s.is_processing_record_due_to_pth :=
  by obtain ⟨pr, h, hk⟩ := uph_shape now s; rw [h]

@[simp] theorem collect_pth_status (s : PthState) (b : Bool) (t : Nat) :
    (collect_new_press_to_press_and_overlap_duration s b t).pth_status = s.pth_status :=
  by unfold collect_new_press_to_press_and_overlap_duration; dsimp only; split_ifs <;> rfl

@[simp] theorem collect_pth_prev_status (s : PthState) (b : Bool) (t : Nat) :
    (collect_new_press_to_press_and_overlap_duration s b t).pth_prev_status = s.pth_prev_status :=
  by unfold collect_new_press_to_press_and_overlap_duration; dsimp only; split_ifs <;> rfl

@[simp] theorem collect_pth_keycode (s : PthState) (b : Bool) (t : Nat) :
    (collect_new_press_to_press_and_overlap_duration s b t).pth_keycode = s.pth_keycode :=
  by unfold collect_new_press_to_press_and_overlap_duration; dsimp only; split_ifs <;> rfl

@[simp] theorem collect_pth_tap_code_instead_of_hold (s : PthState) (b : Bool) (t : Nat) :
    (collect_new_press_to_press_and_overlap_duration s b t).pth_tap_code_instead_of_hold = s.pth_tap_code_instead_of_hold :=
  by unfold collect_new_press_to_press_and_overlap_duration; dsimp only; split_ifs <;> rfl

@[simp] theorem collect_pth_record (s : PthState) (b : Bool) (t : Nat) :
    (collect_new_press_to_press_and_overlap_duration s b t).pth_record = s.pth_record :=
  by unfold collect_new_press_to_press_and_overlap_duration; dsimp only; split_ifs <;> rfl

@[simp] theorem collect_pth_press_timer (s : PthState) (b : Bool) (t : Nat) :
    (collect_new_press_to_press_and_overlap_duration s b t).pth_press_timer = s.pth_press_timer :=
  by unfold collect_new_press_to_press_and_overlap_duration; dsimp only; split_ifs <;> rfl

@[simp] theorem collect_pth_press_timer_max_reached (s : PthState) (b : Bool) (t : Nat) :
    (collect_new_press_to_press_and_overlap_duration s b t).pth_press_timer_max_reached = s.pth_press_timer_max_reached :=
  by unfold collect_new_press_to_press_and_overlap_duration; dsimp only; split_ifs <;> rfl

@[simp] theorem collect_pth_atomic_side (s : PthState) (b : Bool) (t : Nat) :
    (collect_new_press_to_press_and_overlap_duration s b t).pth_atomic_side = s.pth_atomic_side :=
  by unfold collect_new_press_to_press_and_overlap_duration; dsimp only; split_ifs <;> rfl

@[simp] theorem collect_pth_side_user_bits (s : PthState) (b : Bool) (t : Nat) :
    (collect_new_press_to_press_and_overlap_duration s b t).pth_side_user_bits = s.pth_side_user_bits :=
  by unfold collect_new_press_to_press_and_overlap_duration; dsimp only; split_ifs <;> rfl

@[simp] theorem collect_pth_was_held_instantly (s : PthState) (b : Bool) (t : Nat) :
    (collect_new_press_to_press_and_overlap_duration s b t).pth_was_held_instantly = s.pth_was_held_instantly :=
  by unfold collect_new_press_to_press_and_overlap_duration; dsimp only; split_ifs <;> rfl

@[simp] theorem collect_second_was_held_instantly (s : PthState) (b : Bool) (t : Nat) :
    (collect_new_press_to_press_and_overlap_duration s b t).second_was_held_instantly = s.second_was_held_instantly :=
  by unfold collect_new_press_to_press_and_overlap_duration; dsimp only; split_ifs <;> rfl

@[simp] theorem collect_instant_layer_was_active (s : PthState) (b : Bool) (t : Nat) :
    (collect_new_press_to_press_and_overlap_duration s b t).instant_layer_was_active = s.instant_layer_was_active :=
  by unfold collect_new_press_to_press_and_overlap_duration; dsimp only; split_ifs <;> rfl

@[simp] theorem collect_layer_before_instant_layer_tap (s : PthState) (b : Bool) (t : Nat) :
    (collect_new_press_to_press_and_overlap_duration s b t).layer_before_instant_layer_tap = s.layer_before_instant_layer_tap :=
  by unfold collect_new_press_to_press_and_overlap_duration; dsimp only; split_ifs <;> rfl

@[simp] theorem collect_has_second (s : PthState) (b : Bool) (t : Nat) :
    (collect_new_press_to_press_and_overlap_duration s b t).has_second = s.has_second :=
  by unfold collect_new_press_to_press_and_overlap_duration; dsimp only; split_ifs <;> rfl

@[simp] theorem collect_second_record (s : PthState) (b : Bool) (t : Nat) :
    (collect_new_press_to_press_and_overlap_duration s b t).second_record = s.second_record :=
  by unfold collect_new_press_to_press_and_overlap_duration; dsimp only; split_ifs <;> rfl

@[simp] theorem collect_second_keycode (s : PthState) (b : Bool) (t : Nat) :
    (collect_new_press_to_press_and_overlap_duration s b t).second_keycode = s.second_keycode :=
  by unfold collect_new_press_to_press_and_overlap_duration; dsimp only; split_ifs <;> rfl

@[simp] theorem collect_second_press_timer (s : PthState) (b : Bool) (t : Nat) :
    (collect_new_press_to_press_and_overlap_duration s b t).second_press_timer = s.second_press_timer :=
  by unfold collect_new_press_to_press_and_overlap_duration; dsimp only; split_ifs <;> rfl

@[simp] theorem collect_second_press_timer_max_reached (s : PthState) (b : Bool) (t : Nat) :
    (collect_new_press_to_press_and_overlap_duration s b t).second_press_timer_max_reached = s.second_press_timer_max_reached :=
  by unfold collect_new_press_to_press_and_overlap_duration; dsimp only; split_ifs <;> rfl

@[simp] theorem collect_second_is_tap_hold (s : PthState) (b : Bool) (t : Nat) :
    (collect_new_press_to_press_and_overlap_duration s b t).second_is_tap_hold = s.second_is_tap_hold :=
  by unfold collect_new_press_to_press_and_overlap_duration; dsimp only; split_ifs <;> rfl

@[simp] theorem collect_second_is_same_side_as_pth (s : PthState) (b : Bool) (t : Nat) :
    (collect_new_press_to_press_and_overlap_duration s b t).second_is_same_side_as_pth = s.second_is_same_side_as_pth :=
  by unfold collect_new_press_to_press_and_overlap_duration; dsimp only; split_ifs <;> rfl

@[simp] theorem collect_second_to_be_released (s : PthState) (b : Bool) (t : Nat) :
    (collect_new_press_to_press_and_overlap_duration s b t).second_to_be_released = s.second_to_be_released :=
  by unfold collect_new_press_to_press_and_overlap_duration; dsimp only; split_ifs <;> rfl

@[simp] theorem collect_timeout_for_forcing_choice (s : PthState) (b : Bool) (t : Nat) :
    (collect_new_press_to_press_and_overlap_duration s b t).timeout_for_forcing_choice = s.timeout_for_forcing_choice :=
  by unfold collect_new_press_to_press_and_overlap_duration; dsimp only; split_ifs <;> rfl

@[simp] theorem collect_has_chosen_after_timeout_reached (s : PthState) (b : Bool) (t : Nat) :
    (collect_new_press_to_press_and_overlap_duration s b t).has_chosen_after_timeout_reached = s.has_chosen_after_timeout_reached :=
  by unfold collect_new_press_to_press_and_overlap_duration; dsimp only; split_ifs <;> rfl

@[simp] theorem collect_min_overlap_dur_for_hold (s : PthState) (b : Bool) (t : Nat) :
    (collect_new_press_to_press_and_overlap_duration s b t).min_overlap_dur_for_hold = s.min_overlap_dur_for_hold :=
  by unfold collect_new_press_to_press_and_overlap_duration; dsimp only; split_ifs <;> rfl

@[simp] theorem collect_pth_press_to_second_press_dur (s : PthState) (b : Bool) (t : Nat) :
    (collect_new_press_to_press_and_overlap_duration s b t).pth_press_to_second_press_dur = s.pth_press_to_second_press_dur :=
  by unfold collect_new_press_to_press_and_overlap_duration; dsimp only; split_ifs <;> rfl

@[simp] theorem collect_pth_press_to_second_release_dur (s : PthState) (b : Bool) (t : Nat) :
    (collect_new_press_to_press_and_overlap_duration s b t).pth_press_to_second_release_dur = s.pth_press_to_second_release_dur :=
  by unfold collect_new_press_to_press_and_overlap_duration; dsimp only; split_ifs <;> rfl

@[simp] theorem collect_pth_second_dur (s : PthState) (b : Bool) (t : Nat) :
    (collect_new_press_to_press_and_overlap_duration s b t).pth_second_dur = s.pth_second_dur :=
  by unfold collect_new_press_to_press_and_overlap_duration; dsimp only; split_ifs <;> rfl

@[simp] theorem collect_pth_second_press_to_third_press_dur (s : PthState) (b : Bool) (t : Nat) :
    (collect_new_press_to_press_and_overlap_duration s b t).pth_second_press_to_third_press_dur = s.pth_second_press_to_third_press_dur :=
  by unfold collect_new_press_to_press_and_overlap_duration; dsimp only; split_ifs <;> rfl

@[simp] theorem collect_pth_prev_prev_press_to_prev_press_dur (s : PthState) (b : Bool) (t : Nat) :
    (collect_new_press_to_press_and_overlap_duration s b t).pth_prev_prev_press_to_prev_press_dur = s.pth_prev_prev_press_to_prev_press_dur :=
  by unfold collect_new_press_to_press_and_overlap_duration; dsimp only; split_ifs <;> rfl

@[simp] theorem collect_pth_prev_press_to_pth_press_dur (s : PthState) (b : Bool) (t : Nat) :
    (collect_new_press_to_press_and_overlap_duration s b t).pth_prev_press_to_pth_press_dur = s.pth_prev_press_to_pth_press_dur :=
  by unfold collect_new_press_to_press_and_overlap_duration; dsimp only; split_ifs <;> rfl

@[simp] theorem collect_pth_prev_prev_overlap_dur (s : PthState) (b : Bool) (t : Nat) :
    (collect_new_press_to_press_and_overlap_duration s b t).pth_prev_prev_overlap_dur = s.pth_prev_prev_overlap_dur :=
  by unfold collect_new_press_to_press_and_overlap_duration; dsimp only; split_ifs <;> rfl

@[simp] theorem collect_pth_prev_overlap_dur (s : PthState) (b : Bool) (t : Nat) :
    (collect_new_press_to_press_and_overlap_duration s b t).pth_prev_overlap_dur = s.pth_prev_overlap_dur :=
  by unfold collect_new_press_to_press_and_overlap_duration; dsimp only; split_ifs <;> rfl

@[simp] theorem collect_key_release_before_pth_to_pth_press_dur (s : PthState) (b : Bool) (t : Nat) :
    (collect_new_press_to_press_and_overlap_duration s b t).key_release_before_pth_to_pth_press_dur = s.key_release_before_pth_to_pth_press_dur :=
  by unfold collect_new_press_to_press_and_overlap_duration; dsimp only; split_ifs <;> rfl

@[simp] theorem collect_prev_press_keycode (s : PthState) (b : Bool) (t : Nat) :
    (collect_new_press_to_press_and_overlap_duration s b t).prev_press_keycode = s.prev_press_keycode :=
  by unfold collect_new_press_to_press_and_overlap_duration; dsimp only; split_ifs <;> rfl

@[simp] theorem collect_cur_press_keycode (s : PthState) (b : Bool) (t : Nat) :
    (collect_new_press_to_press_and_overlap_duration s b t).cur_press_keycode = s.cur_press_keycode :=
  by unfold collect_new_press_to_press_and_overlap_duration; dsimp only; split_ifs <;> rfl

@[simp] theorem collect_release_as_tap_positions (s : PthState) (b : Bool) (t : Nat) :
    (collect_new_press_to_press_and_overlap_duration s b t).release_as_tap_positions = s.release_as_tap_positions :=
  by unfold collect_new_press_to_press_and_overlap_duration; dsimp only; split_ifs <;> rfl

@[simp] theorem collect_used_release_as_tap_positions_bitmask (s : PthState) (b : Bool) (t : Nat) :
    (collect_new_press_to_press_and_overlap_duration s b t).used_release_as_tap_positions_bitmask = s.used_release_as_tap_positions_bitmask :=
  by unfold collect_new_press_to_press_and_overlap_duration; dsimp only; split_ifs <;> rfl

@[simp] theorem collect_release_records (s : PthState) (b : Bool) (t : Nat) :
    (collect_new_press_to_press_and_overlap_duration s b t).release_records = s.release_records :=
  by unfold collect_new_press_to_press_and_overlap_duration; dsimp only; split_ifs <;> rfl

@[simp] theorem collect_is_before_second_bitmask (s : PthState) (b : Bool) (t : Nat) :
    (collect_new_press_to_press_and_overlap_duration s b t).is_before_second_bitmask = s.is_before_second_bitmask :=
  by unfold collect_new_press_to_press_and_overlap_duration; dsimp only; split_ifs <;> rfl

@[simp] theorem collect_used_release_records_bitmask (s : PthState) (b : Bool) (t : Nat) :
    (collect_new_press_to_press_and_overlap_duration s b t).used_release_records_bitmask = s.used_release_records_bitmask :=
  by unfold collect_new_press_to_press_and_overlap_duration; dsimp only; split_ifs <;> rfl

@[simp] theorem collect_is_processing_record_due_to_pth (s : PthState) (b : Bool) (t : Nat) :
    (collect_new_press_to_press_and_overlap_duration s b t).is_processing_record_due_to_pth = s.is_processing_record_due_to_pth :=
  by unfold collect_new_press_to_press_and_overlap_duration; dsimp only; split_ifs <;> rfl

@[simp] theorem store_pth_status (s : PthState) (now : Nat) :
    (store_press_to_press_and_overlap_for_pth s now).pth_status = s.pth_status :=
  by unfold store_press_to_press_and_overlap_for_pth; dsimp only; split_ifs <;> rfl

@[simp] theorem store_pth_prev_status (s : PthState) (now : Nat) :
    (store_press_to_press_and_overlap_for_pth s now).pth_prev_status = s.pth_prev_status :=
  by unfold store_press_to_press_and_overlap_for_pth; dsimp only; split_ifs <;> rfl

@[simp] theorem store_pth_keycode (s : PthState) (now : Nat) :
    (store_press_to_press_and_overlap_for_pth s now).pth_keycode = s.pth_keycode :=
  by unfold store_press_to_press_and_overlap_for_pth; dsimp only; split_ifs <;> rfl

@[simp] theorem store_pth_tap_code_instead_of_hold (s : PthState) (now : Nat) :
    (store_press_to_press_and_overlap_for_pth s now).pth_tap_code_instead_of_hold = s.pth_tap_code_instead_of_hold :=
  by unfold store_press_to_press_and_overlap_for_pth; dsimp only; split_ifs <;> rfl

@[simp] theorem store_pth_record (s : PthState) (now : Nat) :
    (store_press_to_press_and_overlap_for_pth s now).pth_record = s.pth_record :=
  by unfold store_press_to_press_and_overlap_for_pth; dsimp only; split_ifs <;> rfl

@[simp] theorem store_pth_press_timer (s : PthState) (now : Nat) :
    (store_press_to_press_and_overlap_for_pth s now).pth_press_timer = s.pth_press_timer :=
  by unfold store_press_to_press_and_overlap_for_pth; dsimp only; split_ifs <;> rfl

@[simp] theorem store_pth_press_timer_max_reached (s : PthState) (now : Nat) :
    (store_press_to_press_and_overlap_for_pth s now).pth_press_timer_max_reached = s.pth_press_timer_max_reached :=
  by unfold store_press_to_press_and_overlap_for_pth; dsimp only; split_ifs <;> rfl

@[simp] theorem store_pth_atomic_side (s : PthState) (now : Nat) :
    (store_press_to_press_and_overlap_for_pth s now).pth_atomic_side = s.pth_atomic_side :=
  by unfold store_press_to_press_and_overlap_for_pth; dsimp only; split_ifs <;> rfl

@[simp] theorem store_pth_side_user_bits (s : PthState) (now : Nat) :
    (store_press_to_press_and_overlap_for_pth s now).pth_side_user_bits = s.pth_side_user_bits :=
  by unfold store_press_to_press_and_overlap_for_pth; dsimp only; split_ifs <;> rfl

@[simp] theorem store_pth_was_held_instantly (s : PthState) (now : Nat) :
    (store_press_to_press_and_overlap_for_pth s now).pth_was_held_instantly = s.pth_was_held_instantly :=
  by unfold store_press_to_press_and_overlap_for_pth; dsimp only; split_ifs <;> rfl

@[simp] theorem store_second_was_held_instantly (s : PthState) (now : Nat) :
    (store_press_to_press_and_overlap_for_pth s now).second_was_held_instantly = s.second_was_held_instantly :=
  by unfold store_press_to_press_and_overlap_for_pth; dsimp only; split_ifs <;> rfl

@[simp] theorem store_instant_layer_was_active (s : PthState) (now : Nat) :
    (store_press_to_press_and_overlap_for_pth s now).instant_layer_was_active = s.instant_layer_was_active :=
  by unfold store_press_to_press_and_overlap_for_pth; dsimp only; split_ifs <;> rfl

@[simp] theorem store_layer_before_instant_layer_tap (s : PthState) (now : Nat) :
    (store_press_to_press_and_overlap_for_pth s now).layer_before_instant_layer_tap = s.layer_before_instant_layer_tap :=
  by unfold store_press_to_press_and_overlap_for_pth; dsimp only; split_ifs <;> rfl

@[simp] theorem store_has_second (s : PthState) (now : Nat) :
    (store_press_to_press_and_overlap_for_pth s now).has_second = s.has_second :=
  by unfold store_press_to_press_and_overlap_for_pth; dsimp only; split_ifs <;> rfl

@[simp] theorem store_second_record (s : PthState) (now : Nat) :
    (store_press_to_press_and_overlap_for_pth s now).second_record = s.second_record :=
  by unfold store_press_to_press_and_overlap_for_pth; dsimp only; split_ifs <;> rfl

@[simp] theorem store_second_keycode (s : PthState) (now : Nat) :
    (store_press_to_press_and_overlap_for_pth s now).second_keycode = s.second_keycode :=
  by unfold store_press_to_press_and_overlap_for_pth; dsimp only; split_ifs <;> rfl

@[simp] theorem store_second_press_timer (s : PthState) (now : Nat) :
    (store_press_to_press_and_overlap_for_pth s now).second_press_timer = s.second_press_timer :=
  by unfold store_press_to_press_and_overlap_for_pth; dsimp only; split_ifs <;> rfl

@[simp] theorem store_second_press_timer_max_reached (s : PthState) (now : Nat) :
    (store_press_to_press_and_overlap_for_pth s now).second_press_timer_max_reached = s.second_press_timer_max_reached :=
  by unfold store_press_to_press_and_overlap_for_pth; dsimp only; split_ifs <;> rfl

@[simp] theorem store_second_is_tap_hold (s : PthState) (now : Nat) :
    (store_press_to_press_and_overlap_for_pth s now).second_is_tap_hold = s.second_is_tap_hold :=
  by unfold store_press_to_press_and_overlap_for_pth; dsimp only; split_ifs <;> rfl

@[simp] theorem store_second_is_same_side_as_pth (s : PthState) (now : Nat) :
    (store_press_to_press_and_overlap_for_pth s now).second_is_same_side_as_pth = s.second_is_same_side_as_pth :=
  by unfold store_press_to_press_and_overlap_for_pth; dsimp only; split_ifs <;> rfl

@[simp] theorem store_second_to_be_released (s : PthState) (now : Nat) :
    (store_press_to_press_and_overlap_for_pth s now).second_to_be_released = s.second_to_be_released :=
  by unfold store_press_to_press_and_overlap_for_pth; dsimp only; split_ifs <;> rfl

@[simp] theorem store_timeout_for_forcing_choice (s : PthState) (now : Nat) :
    (store_press_to_press_and_overlap_for_pth s now).timeout_for_forcing_choice = s.timeout_for_forcing_choice :=
  by unfold store_press_to_press_and_overlap_for_pth; dsimp only; split_ifs <;> rfl

@[simp] theorem store_has_chosen_after_timeout_reached (s : PthState) (now : Nat) :
    (store_press_to_press_and_overlap_for_pth s now).has_chosen_after_timeout_reached = s.has_chosen_after_timeout_reached :=
  by unfold store_press_to_press_and_overlap_for_pth; dsimp only; split_ifs <;> rfl

@[simp] theorem store_min_overlap_dur_for_hold (s : PthState) (now : Nat) :
    (store_press_to_press_and_overlap_for_pth s now).min_overlap_dur_for_hold = s.min_overlap_dur_for_hold :=
  by unfold store_press_to_press_and_overlap_for_pth; dsimp only; split_ifs <;> rfl

@[simp] theorem store_pth_press_to_second_press_dur (s : PthState) (now : Nat) :
    (store_press_to_press_and_overlap_for_pth s now).pth_press_to_second_press_dur = s.pth_press_to_second_press_dur :=
  by unfold store_press_to_press_and_overlap_for_pth; dsimp only; split_ifs <;> rfl

@[simp] theorem store_pth_press_to_second_release_dur (s : PthState) (now : Nat) :
    (store_press_to_press_and_overlap_for_pth s now).pth_press_to_second_release_dur = s.pth_press_to_second_release_dur :=
  by unfold store_press_to_press_and_overlap_for_pth; dsimp only; split_ifs <;> rfl

@[simp] theorem store_pth_second_dur (s : PthState) (now : Nat) :
    (store_press_to_press_and_overlap_for_pth s now).pth_second_dur = s.pth_second_dur :=
  by unfold store_press_to_press_and_overlap_for_pth; dsimp only; split_ifs <;> rfl

@[simp] theorem store_pth_second_press_to_third_press_dur (s : PthState) (now : Nat) :
    (store_press_to_press_and_overlap_for_pth s now).pth_second_press_to_third_press_dur = s.pth_second_press_to_third_press_dur :=
  by unfold store_press_to_press_and_overlap_for_pth; dsimp only; split_ifs <;> rfl

@[simp] theorem store_key_release_before_pth_to_pth_press_dur (s : PthState) (now : Nat) :
    (store_press_to_press_and_overlap_for_pth s now).key_release_before_pth_to_pth_press_dur = s.key_release_before_pth_to_pth_press_dur :=
  by unfold store_press_to_press_and_overlap_for_pth; dsimp only; split_ifs <;> rfl

@[simp] theorem store_prev_press_keycode (s : PthState) (now : Nat) :
    (store_press_to_press_and_overlap_for_pth s now).prev_press_keycode = s.prev_press_keycode :=
  by unfold store_press_to_press_and_overlap_for_pth; dsimp only; split_ifs <;> rfl

@[simp] theorem store_cur_press_keycode (s : PthState) (now : Nat) :
    (store_press_to_press_and_overlap_for_pth s now).cur_press_keycode = s.cur_press_keycode :=
  by unfold store_press_to_press_and_overlap_for_pth; dsimp only; split_ifs <;> rfl

@[simp] theorem store_down_count (s : PthState) (now : Nat) :
    (store_press_to_press_and_overlap_for_pth s now).down_count = s.down_count :=
  by unfold store_press_to_press_and_overlap_for_pth; dsimp only; split_ifs <;> rfl

@[simp] theorem store_overlap_timer (s : PthState) (now : Nat) :
    (store_press_to_press_and_overlap_for_pth s now).overlap_timer = s.overlap_timer :=
  by unfold store_press_to_press_and_overlap_for_pth; dsimp only; split_ifs <;> rfl

@[simp] theorem store_overlap_timer_max_reached (s : PthState) (now : Nat) :
    (store_press_to_press_and_overlap_for_pth s now).overlap_timer_max_reached = s.overlap_timer_max_reached :=
  by unfold store_press_to_press_and_overlap_for_pth; dsimp only; split_ifs <;> rfl

@[simp] theorem store_press_to_press_timer (s : PthState) (now : Nat) :
    (store_press_to_press_and_overlap_for_pth s now).press_to_press_timer = s.press_to_press_timer :=
  by unfold store_press_to_press_and_overlap_for_pth; dsimp only; split_ifs <;> rfl

@[simp] theorem store_press_to_press_timer_max_reached (s : PthState) (now : Nat) :
    (store_press_to_press_and_overlap_for_pth s now).press_to_press_timer_max_reached = s.press_to_press_timer_max_reached :=
  by unfold store_press_to_press_and_overlap_for_pth; dsimp only; split_ifs <;> rfl

@[simp] theorem store_release_timer (s : PthState) (now : Nat) :
    (store_press_to_press_and_overlap_for_pth s now).release_timer = s.release_timer :=
  by unfold store_press_to_press_and_overlap_for_pth; dsimp only; split_ifs <;> rfl

@[simp] theorem store_release_timer_max_reached (s : PthState) (now : Nat) :
    (store_press_to_press_and_overlap_for_pth s now).release_timer_max_reached = s.release_timer_max_reached :=
  by unfold store_press_to_press_and_overlap_for_pth; dsimp only; split_ifs <;> rfl

@[simp] theorem store_prev_press_to_press_dur (s : PthState) (now : Nat) :
    (store_press_to_press_and_overlap_for_pth s now).prev_press_to_press_dur = s.prev_press_to_press_dur :=
  by unfold store_press_to_press_and_overlap_for_pth; dsimp only; split_ifs <;> rfl

@[simp] theorem store_cur_press_to_press_dur (s : PthState) (now : Nat) :
    (store_press_to_press_and_overlap_for_pth s now).cur_press_to_press_dur = s.cur_press_to_press_dur :=
  by unfold store_press_to_press_and_overlap_for_pth; dsimp only; split_ifs <;> rfl

@[simp] theorem store_prev_overlap_dur (s : PthState) (now : Nat) :
    (store_press_to_press_and_overlap_for_pth s now).prev_overlap_dur = s.prev_overlap_dur :=
  by unfold store_press_to_press_and_overlap_for_pth; dsimp only; split_ifs <;> rfl

@[simp] theorem store_cur_overlap_dur (s : PthState) (now : Nat) :
    (store_press_to_press_and_overlap_for_pth s now).cur_overlap_dur = s.cur_overlap_dur :=
  by unfold store_press_to_press_and_overlap_for_pth; dsimp only; split_ifs <;> rfl

@[simp] theorem store_release_as_tap_positions (s : PthState) (now : Nat) :
    (store_press_to_press_and_overlap_for_pth s now).release_as_tap_positions = s.release_as_tap_positions :=
  by unfold store_press_to_press_and_overlap_for_pth; dsimp only; split_ifs <;> rfl

@[simp] theorem store_used_release_as_tap_positions_bitmask (s : PthState) (now : Nat) :
    (store_press_to_press_and_overlap_for_pth s now).used_release_as_tap_positions_bitmask = s.used_release_as_tap_positions_bitmask :=
  by unfold store_press_to_press_and_overlap_for_pth; dsimp only; split_ifs <;> rfl

@[simp] theorem store_release_records (s : PthState) (now : Nat) :
    (store_press_to_press_and_overlap_for_pth s now).release_records = s.release_records :=
  by unfold store_press_to_press_and_overlap_for_pth; dsimp only; split_ifs <;> rfl

@[simp] theorem store_is_before_second_bitmask (s : PthState) (now : Nat) :
    (store_press_to_press_and_overlap_for_pth s now).is_before_second_bitmask = s.is_before_second_bitmask :=
  by unfold store_press_to_press_and_overlap_for_pth; dsimp only; split_ifs <;> rfl

@[simp] theorem store_used_release_records_bitmask (s : PthState) (now : Nat) :
    (store_press_to_press_and_overlap_for_pth s now).used_release_records_bitmask = s.used_release_records_bitmask :=
  by unfold store_press_to_press_and_overlap_for_pth; dsimp only; split_ifs <;> rfl

@[simp] theorem store_is_processing_record_due_to_pth (s : PthState) (now : Nat) :
    (store_press_to_press_and_overlap_for_pth s now).is_processing_record_due_to_pth = s.is_processing_record_due_to_pth :=
  by unfold store_press_to_press_and_overlap_for_pth; dsimp only; split_ifs <;> rfl

end PTH
namespace PTH

@[simp] theorem mrl_pth_status (cfg : PthConfig) (s : PthState) :
    (mdt_relookup_second cfg s).pth_status = s.pth_status :=
  by unfold mdt_relookup_second; dsimp only; split_ifs <;> rfl

@[simp] theorem mrl_pth_prev_status (cfg : PthConfig) (s : PthState) :
    (mdt_relookup_second cfg s).pth_prev_status = s.pth_prev_status :=
  by unfold mdt_relookup_second; dsimp only; split_ifs <;> rfl

@[simp] theorem mrl_pth_keycode (cfg : PthConfig) (s : PthState) :
    (mdt_relookup_second cfg s).pth_keycode = s.pth_keycode :=
  by unfold mdt_relookup_second; dsimp only; split_ifs <;> rfl

@[simp] theorem mrl_pth_tap_code_instead_of_hold (cfg : PthConfig) (s : PthState) :
    (mdt_relookup_second cfg s).pth_tap_code_instead_of_hold = s.pth_tap_code_instead_of_hold :=
  by unfold mdt_relookup_second; dsimp only; split_ifs <;> rfl

@[simp] theorem mrl_pth_record (cfg : PthConfig) (s : PthState) :
    (mdt_relookup_second cfg s).pth_record = s.pth_record :=
  by unfold mdt_relookup_second; dsimp only; split_ifs <;> rfl

@[simp] theorem mrl_pth_press_timer (cfg : PthConfig) (s : PthState) :
    (mdt_relookup_second cfg s).pth_press_timer = s.pth_press_timer :=
  by unfold mdt_relookup_second; dsimp only; split_ifs <;> rfl

@[simp] theorem mrl_pth_press_timer_max_reached (cfg : PthConfig) (s : PthState) :
    (mdt_relookup_second cfg s).pth_press_timer_max_reached = s.pth_press_timer_max_reached :=
  by unfold mdt_relookup_second; dsimp only; split_ifs <;> rfl

@[simp] theorem mrl_pth_atomic_side (cfg : PthConfig) (s : PthState) :
    (mdt_relookup_second cfg s).pth_atomic_side = s.pth_atomic_side :=
  by unfold mdt_relookup_second; dsimp only; split_ifs <;> rfl

@[simp] theorem mrl_pth_side_user_bits (cfg : PthConfig) (s : PthState) :
    (mdt_relookup_second cfg s).pth_side_user_bits = s.pth_side_user_bits :=
  by unfold mdt_relookup_second; dsimp only; split_ifs <;> rfl

@[simp] theorem mrl_pth_was_held_instantly (cfg : PthConfig) (s : PthState) :
    (mdt_relookup_second cfg s).pth_was_held_instantly = s.pth_was_held_instantly :=
  by unfold mdt_relookup_second; dsimp only; split_ifs <;> rfl

@[simp] theorem mrl_second_was_held_instantly (cfg : PthConfig) (s : PthState) :
    (mdt_relookup_second cfg s).second_was_held_instantly = s.second_was_held_instantly :=
  by unfold mdt_relookup_second; dsimp only; split_ifs <;> rfl

@[simp] theorem mrl_instant_layer_was_active (cfg : PthConfig) (s : PthState) :
    (mdt_relookup_second cfg s).instant_layer_was_active = s.instant_layer_was_active :=
  by unfold mdt_relookup_second; dsimp only; split_ifs <;> rfl

@[simp] theorem mrl_layer_before_instant_layer_tap (cfg : PthConfig) (s : PthState) :
    (mdt_relookup_second cfg s).layer_before_instant_layer_tap = s.layer_before_instant_layer_tap :=
  by unfold mdt_relookup_second; dsimp only; split_ifs <;> rfl

@[simp] theorem mrl_has_second (cfg : PthConfig) (s : PthState) :
    (mdt_relookup_second cfg s).has_second = s.has_second :=
  by unfold mdt_relookup_second; dsimp only; split_ifs <;> rfl

@[simp] theorem mrl_second_record (cfg : PthConfig) (s : PthState) :
    (mdt_relookup_second cfg s).second_record = s.second_record :=
  by unfold mdt_relookup_second; dsimp only; split_ifs <;> rfl

@[simp] theorem mrl_second_press_timer (cfg : PthConfig) (s : PthState) :
    (mdt_relookup_second cfg s).second_press_timer = s.second_press_timer :=
  by unfold mdt_relookup_second; dsimp only; split_ifs <;> rfl

@[simp] theorem mrl_second_press_timer_max_reached (cfg : PthConfig) (s : PthState) :
    (mdt_relookup_second cfg s).second_press_timer_max_reached = s.second_press_timer_max_reached :=
  by unfold mdt_relookup_second; dsimp only; split_ifs <;> rfl

@[simp] theorem mrl_second_is_same_side_as_pth (cfg : PthConfig) (s : PthState) :
    (mdt_relookup_second cfg s).second_is_same_side_as_pth = s.second_is_same_side_as_pth :=
  by unfold mdt_relookup_second; dsimp only; split_ifs <;> rfl

@[simp] theorem mrl_second_to_be_released (cfg : PthConfig) (s : PthState) :
    (mdt_relookup_second cfg s).second_to_be_released = s.second_to_be_released :=
  by unfold mdt_relookup_second; dsimp only; split_ifs <;> rfl

@[simp] theorem mrl_timeout_for_forcing_choice (cfg : PthConfig) (s : PthState) :
    (mdt_relookup_second cfg s).timeout_for_forcing_choice = s.timeout_for_forcing_choice :=
  by unfold mdt_relookup_second; dsimp only; split_ifs <;> rfl

@[simp] theorem mrl_has_chosen_after_timeout_reached (cfg : PthConfig) (s : PthState) :
    (mdt_relookup_second cfg s).has_chosen_after_timeout_reached = s.has_chosen_after_timeout_reached :=
  by unfold mdt_relookup_second; dsimp only; split_ifs <;> rfl

@[simp] theorem mrl_min_overlap_dur_for_hold (cfg : PthConfig) (s : PthState) :
    (mdt_relookup_second cfg s).min_overlap_dur_for_hold = s.min_overlap_dur_for_hold :=
  by unfold mdt_relookup_second; dsimp only; split_ifs <;> rfl

@[simp] theorem mrl_pth_press_to_second_press_dur (cfg : PthConfig) (s : PthState) :
    (mdt_relookup_second cfg s).pth_press_to_second_press_dur = s.pth_press_to_second_press_dur :=
  by unfold mdt_relookup_second; dsimp only; split_ifs <;> rfl

@[simp] theorem mrl_pth_press_to_second_release_dur (cfg : PthConfig) (s : PthState) :
    (mdt_relookup_second cfg s).pth_press_to_second_release_dur = s.pth_press_to_second_release_dur :=
  by unfold mdt_relookup_second; dsimp only; split_ifs <;> rfl

@[simp] theorem mrl_pth_second_dur (cfg : PthConfig) (s : PthState) :
    (mdt_relookup_second cfg s).pth_second_dur = s.pth_second_dur :=
  by unfold mdt_relookup_second; dsimp only; split_ifs <;> rfl

@[simp] theorem mrl_pth_second_press_to_third_press_dur (cfg : PthConfig) (s : PthState) :
    (mdt_relookup_second cfg s).pth_second_press_to_third_press_dur = s.pth_second_press_to_third_press_dur :=
  by unfold mdt_relookup_second; dsimp only; split_ifs <;> rfl

@[simp] theorem mrl_pth_prev_prev_press_to_prev_press_dur (cfg : PthConfig) (s : PthState) :
    (mdt_relookup_second cfg s).pth_prev_prev_press_to_prev_press_dur = s.pth_prev_prev_press_to_prev_press_dur :=
  by unfold mdt_relookup_second; dsimp only; split_ifs <;> rfl

@[simp] theorem mrl_pth_prev_press_to_pth_press_dur (cfg : PthConfig) (s : PthState) :
    (mdt_relookup_second cfg s).pth_prev_press_to_pth_press_dur = s.pth_prev_press_to_pth_press_dur :=
  by unfold mdt_relookup_second; dsimp only; split_ifs <;> rfl

@[simp] theorem mrl_pth_prev_prev_overlap_dur (cfg : PthConfig) (s : PthState) :
    (mdt_relookup_second cfg s).pth_prev_prev_overlap_dur = s.pth_prev_prev_overlap_dur :=
  by unfold mdt_relookup_second; dsimp only; split_ifs <;> rfl

@[simp] theorem mrl_pth_prev_overlap_dur (cfg : PthConfig) (s : PthState) :
    (mdt_relookup_second cfg s).pth_prev_overlap_dur = s.pth_prev_overlap_dur :=
  by unfold mdt_relookup_second; dsimp only; split_ifs <;> rfl

@[simp] theorem mrl_key_release_before_pth_to_pth_press_dur (cfg : PthConfig) (s : PthState) :
    (mdt_relookup_second cfg s).key_release_before_pth_to_pth_press_dur = s.key_release_before_pth_to_pth_press_dur :=
  by unfold mdt_relookup_second; dsimp only; split_ifs <;> rfl

@[simp] theorem mrl_prev_press_keycode (cfg : PthConfig) (s : PthState) :
    (mdt_relookup_second cfg s).prev_press_keycode = s.prev_press_keycode :=
  by unfold mdt_relookup_second; dsimp only; split_ifs <;> rfl

@[simp] theorem mrl_cur_press_keycode (cfg : PthConfig) (s : PthState) :
    (mdt_relookup_second cfg s).cur_press_keycode = s.cur_press_keycode :=
  by unfold mdt_relookup_second; dsimp only; split_ifs <;> rfl

@[simp] theorem mrl_down_count (cfg : PthConfig) (s : PthState) :
    (mdt_relookup_second cfg s).down_count = s.down_count :=
  by unfold mdt_relookup_second; dsimp only; split_ifs <;> rfl

@[simp] theorem mrl_overlap_timer (cfg : PthConfig) (s : PthState) :
    (mdt_relookup_second cfg s).overlap_timer = s.overlap_timer :=
  by unfold mdt_relookup_second; dsimp only; split_ifs <;> rfl

@[simp] theorem mrl_overlap_timer_max_reached (cfg : PthConfig) (s : PthState) :
    (mdt_relookup_second cfg s).overlap_timer_max_reached = s.overlap_timer_max_reached :=
  by unfold mdt_relookup_second; dsimp only; split_ifs <;> rfl

@[simp] theorem mrl_press_to_press_timer (cfg : PthConfig) (s : PthState) :
    (mdt_relookup_second cfg s).press_to_press_timer = s.press_to_press_timer :=
  by unfold mdt_relookup_second; dsimp only; split_ifs <;> rfl

@[simp] theorem mrl_press_to_press_timer_max_reached (cfg : PthConfig) (s : PthState) :
    (mdt_relookup_second cfg s).press_to_press_timer_max_reached = s.press_to_press_timer_max_reached :=
  by unfold mdt_relookup_second; dsimp only; split_ifs <;> rfl

@[simp] theorem mrl_release_timer (cfg : PthConfig) (s : PthState) :
    (mdt_relookup_second cfg s).release_timer = s.release_timer :=
  by unfold mdt_relookup_second; dsimp only; split_ifs <;> rfl

@[simp] theorem mrl_release_timer_max_reached (cfg : PthConfig) (s : PthState) :
    (mdt_relookup_second cfg s).release_timer_max_reached = s.release_timer_max_reached :=
  by unfold mdt_relookup_second; dsimp only; split_ifs <;> rfl

@[simp] theorem mrl_prev_press_to_press_dur (cfg : PthConfig) (s : PthState) :
    (mdt_relookup_second cfg s).prev_press_to_press_dur = s.prev_press_to_press_dur :=
  by unfold mdt_relookup_second; dsimp only; split_ifs <;> rfl

@[simp] theorem mrl_cur_press_to_press_dur (cfg : PthConfig) (s : PthState) :
    (mdt_relookup_second cfg s).cur_press_to_press_dur = s.cur_press_to_press_dur :=
  by unfold mdt_relookup_second; dsimp only; split_ifs <;> rfl

@[simp] theorem mrl_prev_overlap_dur (cfg : PthConfig) (s : PthState) :
    (mdt_relookup_second cfg s).prev_overlap_dur = s.prev_overlap_dur :=
  by unfold mdt_relookup_second; dsimp only; split_ifs <;> rfl

@[simp] theorem mrl_cur_overlap_dur (cfg : PthConfig) (s : PthState) :
    (mdt_relookup_second cfg s).cur_overlap_dur = s.cur_overlap_dur :=
  by unfold mdt_relookup_second; dsimp only; split_ifs <;> rfl

@[simp] theorem mrl_release_as_tap_positions (cfg : PthConfig) (s : PthState) :
    (mdt_relookup_second cfg s).release_as_tap_positions = s.release_as_tap_positions :=
  by unfold mdt_relookup_second; dsimp only; split_ifs <;> rfl

@[simp] theorem mrl_used_release_as_tap_positions_bitmask (cfg : PthConfig) (s : PthState) :
    (mdt_relookup_second cfg s).used_release_as_tap_positions_bitmask = s.used_release_as_tap_positions_bitmask :=
  by unfold mdt_relookup_second; dsimp only; split_ifs <;> rfl

@[simp] theorem mrl_release_records (cfg : PthConfig) (s : PthState) :
    (mdt_relookup_second cfg s).release_records = s.release_records :=
  by unfold mdt_relookup_second; dsimp only; split_ifs <;> rfl

@[simp] theorem mrl_is_before_second_bitmask (cfg : PthConfig) (s : PthState) :
    (mdt_relookup_second cfg s).is_before_second_bitmask = s.is_before_second_bitmask :=
  by unfold mdt_relookup_second; dsimp only; split_ifs <;> rfl

@[simp] theorem mrl_used_release_records_bitmask (cfg : PthConfig) (s : PthState) :
    (mdt_relookup_second cfg s).used_release_records_bitmask = s.used_release_records_bitmask :=
  by unfold mdt_relookup_second; dsimp only; split_ifs <;> rfl

@[simp] theorem mrl_is_processing_record_due_to_pth (cfg : PthConfig) (s : PthState) :
    (mdt_relookup_second cfg s).is_processing_record_due_to_pth = s.is_processing_record_due_to_pth :=
  by unfold mdt_relookup_second; dsimp only; split_ifs <;> rfl

@[simp] theorem mui_pth_status (cfg : PthConfig) (now : Nat) (s : PthState) :
    (mdt_undo_instant cfg now s).1.pth_status = s.pth_status :=
  by unfold mdt_undo_instant; dsimp only; split_ifs <;> simp

@[simp] theorem mui_pth_prev_status (cfg : PthConfig) (now : Nat) (s : PthState) :
    (mdt_undo_instant cfg now s).1.pth_prev_status = s.pth_prev_status :=
  by unfold mdt_undo_instant; dsimp only; split_ifs <;> simp

@[simp] theorem mui_pth_keycode (cfg : PthConfig) (now : Nat) (s : PthState) :
    (mdt_undo_instant cfg now s).1.pth_keycode = s.pth_keycode :=
  by unfold mdt_undo_instant; dsimp only; split_ifs <;> simp

@[simp] theorem mui_pth_tap_code_instead_of_hold (cfg : PthConfig) (now : Nat) (s : PthState) :
    (mdt_undo_instant cfg now s).1.pth_tap_code_instead_of_hold = s.pth_tap_code_instead_of_hold :=
  by unfold mdt_undo_instant; dsimp only; split_ifs <;> simp

@[simp] theorem mui_pth_press_timer (cfg : PthConfig) (now : Nat) (s : PthState) :
    (mdt_undo_instant cfg now s).1.pth_press_timer = s.pth_press_timer :=
  by unfold mdt_undo_instant; dsimp only; split_ifs <;> simp

@[simp] theorem mui_pth_press_timer_max_reached (cfg : PthConfig) (now : Nat) (s : PthState) :
    (mdt_undo_instant cfg now s).1.pth_press_timer_max_reached = s.pth_press_timer_max_reached :=
  by unfold mdt_undo_instant; dsimp only; split_ifs <;> simp

@[simp] theorem mui_pth_atomic_side (cfg : PthConfig) (now : Nat) (s : PthState) :
    (mdt_undo_instant cfg now s).1.pth_atomic_side = s.pth_atomic_side :=
  by unfold mdt_undo_instant; dsimp only; split_ifs <;> simp

@[simp] theorem mui_pth_side_user_bits (cfg : PthConfig) (now : Nat) (s : PthState) :
    (mdt_undo_instant cfg now s).1.pth_side_user_bits = s.pth_side_user_bits :=
  by unfold mdt_undo_instant; dsimp only; split_ifs <;> simp

@[simp] theorem mui_pth_was_held_instantly (cfg : PthConfig) (now : Nat) (s : PthState) :
    (mdt_undo_instant cfg now s).1.pth_was_held_instantly = s.pth_was_held_instantly :=
  by unfold mdt_undo_instant; dsimp only; split_ifs <;> simp

@[simp] theorem mui_second_was_held_instantly (cfg : PthConfig) (now : Nat) (s : PthState) :
    (mdt_undo_instant cfg now s).1.second_was_held_instantly = s.second_was_held_instantly :=
  by unfold mdt_undo_instant; dsimp only; split_ifs <;> simp

@[simp] theorem mui_instant_layer_was_active (cfg : PthConfig) (now : Nat) (s : PthState) :
    (mdt_undo_instant cfg now s).1.instant_layer_was_active = s.instant_layer_was_active :=
  by unfold mdt_undo_instant; dsimp only; split_ifs <;> simp

@[simp] theorem mui_layer_before_instant_layer_tap (cfg : PthConfig) (now : Nat) (s : PthState) :
    (mdt_undo_instant cfg now s).1.layer_before_instant_layer_tap = s.layer_before_instant_layer_tap :=
  by unfold mdt_undo_instant; dsimp only; split_ifs <;> simp

@[simp] theorem mui_has_second (cfg : PthConfig) (now : Nat) (s : PthState) :
    (mdt_undo_instant cfg now s).1.has_second = s.has_second :=
  by unfold mdt_undo_instant; dsimp only; split_ifs <;> simp

@[simp] theorem mui_second_press_timer (cfg : PthConfig) (now : Nat) (s : PthState) :
    (mdt_undo_instant cfg now s).1.second_press_timer = s.second_press_timer :=
  by unfold mdt_undo_instant; dsimp only; split_ifs <;> simp

@[simp] theorem mui_second_press_timer_max_reached (cfg : PthConfig) (now : Nat) (s : PthState) :
    (mdt_undo_instant cfg now s).1.second_press_timer_max_reached = s.second_press_timer_max_reached :=
  by unfold mdt_undo_instant; dsimp only; split_ifs <;> simp

@[simp] theorem mui_second_is_same_side_as_pth (cfg : PthConfig) (now : Nat) (s : PthState) :
    (mdt_undo_instant cfg now s).1.second_is_same_side_as_pth = s.second_is_same_side_as_pth :=
  by unfold mdt_undo_instant; dsimp only; split_ifs <;> simp

@[simp] theorem mui_second_to_be_released (cfg : PthConfig) (now : Nat) (s : PthState) :
    (mdt_undo_instant cfg now s).1.second_to_be_released = s.second_to_be_released :=
  by unfold mdt_undo_instant; dsimp only; split_ifs <;> simp

@[simp] theorem mui_timeout_for_forcing_choice (cfg : PthConfig) (now : Nat) (s : PthState) :
    (mdt_undo_instant cfg now s).1.timeout_for_forcing_choice = s.timeout_for_forcing_choice :=
  by unfold mdt_undo_instant; dsimp only; split_ifs <;> simp

@[simp] theorem mui_has_chosen_after_timeout_reached (cfg : PthConfig) (now : Nat) (s : PthState) :
    (mdt_undo_instant cfg now s).1.has_chosen_after_timeout_reached = s.has_chosen_after_timeout_reached :=
  by unfold mdt_undo_instant; dsimp only; split_ifs <;> simp

@[simp] theorem mui_min_overlap_dur_for_hold (cfg : PthConfig) (now : Nat) (s : PthState) :
    (mdt_undo_instant cfg now s).1.min_overlap_dur_for_hold = s.min_overlap_dur_for_hold :=
  by unfold mdt_undo_instant; dsimp only; split_ifs <;> simp

@[simp] theorem mui_pth_press_to_second_press_dur (cfg : PthConfig) (now : Nat) (s : PthState) :
    (mdt_undo_instant cfg now s).1.pth_press_to_second_press_dur = s.pth_press_to_second_press_dur :=
  by unfold mdt_undo_instant; dsimp only; split_ifs <;> simp

@[simp] theorem mui_pth_press_to_second_release_dur (cfg : PthConfig) (now : Nat) (s : PthState) :
    (mdt_undo_instant cfg now s).1.pth_press_to_second_release_dur = s.pth_press_to_second_release_dur :=
  by unfold mdt_undo_instant; dsimp only; split_ifs <;> simp

@[simp] theorem mui_pth_second_dur (cfg : PthConfig) (now : Nat) (s : PthState) :
    (mdt_undo_instant cfg now s).1.pth_second_dur = s.pth_second_dur :=
  by unfold mdt_undo_instant; dsimp only; split_ifs <;> simp

@[simp] theorem mui_pth_second_press_to_third_press_dur (cfg : PthConfig) (now : Nat) (s : PthState) :
    (mdt_undo_instant cfg now s).1.pth_second_press_to_third_press_dur = s.pth_second_press_to_third_press_dur :=
  by unfold mdt_undo_instant; dsimp only; split_ifs <;> simp

@[simp] theorem mui_pth_prev_prev_press_to_prev_press_dur (cfg : PthConfig) (now : Nat) (s : PthState) :
    (mdt_undo_instant cfg now s).1.pth_prev_prev_press_to_prev_press_dur = s.pth_prev_prev_press_to_prev_press_dur :=
  by unfold mdt_undo_instant; dsimp only; split_ifs <;> simp

@[simp] theorem mui_pth_prev_press_to_pth_press_dur (cfg : PthConfig) (now : Nat) (s : PthState) :
    (mdt_undo_instant cfg now s).1.pth_prev_press_to_pth_press_dur = s.pth_prev_press_to_pth_press_dur :=
  by unfold mdt_undo_instant; dsimp only; split_ifs <;> simp

@[simp] theorem mui_pth_prev_prev_overlap_dur (cfg : PthConfig) (now : Nat) (s : PthState) :
    (mdt_undo_instant cfg now s).1.pth_prev_prev_overlap_dur = s.pth_prev_prev_overlap_dur :=
  by unfold mdt_undo_instant; dsimp only; split_ifs <;> simp

@[simp] theorem mui_pth_prev_overlap_dur (cfg : PthConfig) (now : Nat) (s : PthState) :
    (mdt_undo_instant cfg now s).1.pth_prev_overlap_dur = s.pth_prev_overlap_dur :=
  by unfold mdt_undo_instant; dsimp only; split_ifs <;> simp

@[simp] theorem mui_key_release_before_pth_to_pth_press_dur (cfg : PthConfig) (now : Nat) (s : PthState) :
    (mdt_undo_instant cfg now s).1.key_release_before_pth_to_pth_press_dur = s.key_release_before_pth_to_pth_press_dur :=
  by unfold mdt_undo_instant; dsimp only; split_ifs <;> simp

@[simp] theorem mui_prev_press_keycode (cfg : PthConfig) (now : Nat) (s : PthState) :
    (mdt_undo_instant cfg now s).1.prev_press_keycode = s.prev_press_keycode :=
  by unfold mdt_undo_instant; dsimp only; split_ifs <;> simp

@[simp] theorem mui_cur_press_keycode (cfg : PthConfig) (now : Nat) (s : PthState) :
    (mdt_undo_instant cfg now s).1.cur_press_keycode = s.cur_press_keycode :=
  by unfold mdt_undo_instant; dsimp only; split_ifs <;> simp

@[simp] theorem mui_down_count (cfg : PthConfig) (now : Nat) (s : PthState) :
    (mdt_undo_instant cfg now s).1.down_count = s.down_count :=
  by unfold mdt_undo_instant; dsimp only; split_ifs <;> simp

@[simp] theorem mui_overlap_timer (cfg : PthConfig) (now : Nat) (s : PthState) :
    (mdt_undo_instant cfg now s).1.overlap_timer = s.overlap_timer :=
  by unfold mdt_undo_instant; dsimp only; split_ifs <;> simp

@[simp] theorem mui_overlap_timer_max_reached (cfg : PthConfig) (now : Nat) (s : PthState) :
    (mdt_undo_instant cfg now s).1.overlap_timer_max_reached = s.overlap_timer_max_reached :=
  by unfold mdt_undo_instant; dsimp only; split_ifs <;> simp

@[simp] theorem mui_press_to_press_timer (cfg : PthConfig) (now : Nat) (s : PthState) :
    (mdt_undo_instant cfg now s).1.press_to_press_timer = s.press_to_press_timer :=
  by unfold mdt_undo_instant; dsimp only; split_ifs <;> simp

@[simp] theorem mui_press_to_press_timer_max_reached (cfg : PthConfig) (now : Nat) (s : PthState) :
    (mdt_undo_instant cfg now s).1.press_to_press_timer_max_reached = s.press_to_press_timer_max_reached :=
  by unfold mdt_undo_instant; dsimp only; split_ifs <;> simp

@[simp] theorem mui_release_timer (cfg : PthConfig) (now : Nat) (s : PthState) :
    (mdt_undo_instant cfg now s).1.release_timer = s.release_timer :=
  by unfold mdt_undo_instant; dsimp only; split_ifs <;> simp

@[simp] theorem mui_release_timer_max_reached (cfg : PthConfig) (now : Nat) (s : PthState) :
    (mdt_undo_instant cfg now s).1.release_timer_max_reached = s.release_timer_max_reached :=
  by unfold mdt_undo_instant; dsimp only; split_ifs <;> simp

@[simp] theorem mui_prev_press_to_press_dur (cfg : PthConfig) (now : Nat) (s : PthState) :
    (mdt_undo_instant cfg now s).1.prev_press_to_press_dur = s.prev_press_to_press_dur :=
  by unfold mdt_undo_instant; dsimp only; split_ifs <;> simp

@[simp] theorem mui_cur_press_to_press_dur (cfg : PthConfig) (now : Nat) (s : PthState) :
    (mdt_undo_instant cfg now s).1.cur_press_to_press_dur = s.cur_press_to_press_dur :=
  by unfold mdt_undo_instant; dsimp only; split_ifs <;> simp

@[simp] theorem mui_prev_overlap_dur (cfg : PthConfig) (now : Nat) (s : PthState) :
    (mdt_undo_instant cfg now s).1.prev_overlap_dur = s.prev_overlap_dur :=
  by unfold mdt_undo_instant; dsimp only; split_ifs <;> simp

@[simp] theorem mui_cur_overlap_dur (cfg : PthConfig) (now : Nat) (s : PthState) :
    (mdt_undo_instant cfg now s).1.cur_overlap_dur = s.cur_overlap_dur :=
  by unfold mdt_undo_instant; dsimp only; split_ifs <;> simp

@[simp] theorem mui_release_as_tap_positions (cfg : PthConfig) (now : Nat) (s : PthState) :
    (mdt_undo_instant cfg now s).1.release_as_tap_positions = s.release_as_tap_positions :=
  by unfold mdt_undo_instant; dsimp only; split_ifs <;> simp

@[simp] theorem mui_used_release_as_tap_positions_bitmask (cfg : PthConfig) (now : Nat) (s : PthState) :
    (mdt_undo_instant cfg now s).1.used_release_as_tap_positions_bitmask = s.used_release_as_tap_positions_bitmask :=
  by unfold mdt_undo_instant; dsimp only; split_ifs <;> simp

@[simp] theorem mui_release_records (cfg : PthConfig) (now : Nat) (s : PthState) :
    (mdt_undo_instant cfg now s).1.release_records = s.release_records :=
  by unfold mdt_undo_instant; dsimp only; split_ifs <;> simp

@[simp] theorem mui_is_before_second_bitmask (cfg : PthConfig) (now : Nat) (s : PthState) :
    (mdt_undo_instant cfg now s).1.is_before_second_bitmask = s.is_before_second_bitmask :=
  by unfold mdt_undo_instant; dsimp only; split_ifs <;> simp

@[simp] theorem mui_used_release_records_bitmask (cfg : PthConfig) (now : Nat) (s : PthState) :
    (mdt_undo_instant cfg now s).1.used_release_records_bitmask = s.used_release_records_bitmask :=
  by unfold mdt_undo_instant; dsimp only; split_ifs <;> simp

@[simp] theorem mui_is_processing_record_due_to_pth (cfg : PthConfig) (now : Nat) (s : PthState) :
    (mdt_undo_instant cfg now s).1.is_processing_record_due_to_pth = s.is_processing_record_due_to_pth :=
  by unfold mdt_undo_instant; dsimp only; split_ifs <;> simp

@[simp] theorem mas_pth_status (s : PthState) :
    (mdt_adjust_second s).pth_status = s.pth_status :=
  by unfold mdt_adjust_second; dsimp only; split_ifs <;> simp

@[simp] theorem mas_pth_prev_status (s : PthState) :
    (mdt_adjust_second s).pth_prev_status = s.pth_prev_status :=
  by unfold mdt_adjust_second; dsimp only; split_ifs <;> simp

@[simp] theorem mas_pth_keycode (s : PthState) :
    (mdt_adjust_second s).pth_keycode = s.pth_keycode :=
  by unfold mdt_adjust_second; dsimp only; split_ifs <;> simp

@[simp] theorem mas_pth_tap_code_instead_of_hold (s : PthState) :
    (mdt_adjust_second s).pth_tap_code_instead_of_hold = s.pth_tap_code_instead_of_hold :=
  by unfold mdt_adjust_second; dsimp only; split_ifs <;> simp

@[simp] theorem mas_pth_record (s : PthState) :
    (mdt_adjust_second s).pth_record = s.pth_record :=
  by unfold mdt_adjust_second; dsimp only; split_ifs <;> simp

@[simp] theorem mas_pth_press_timer (s : PthState) :
    (mdt_adjust_second s).pth_press_timer = s.pth_press_timer :=
  by unfold mdt_adjust_second; dsimp only; split_ifs <;> simp

@[simp] theorem mas_pth_press_timer_max_reached (s : PthState) :
    (mdt_adjust_second s).pth_press_timer_max_reached = s.pth_press_timer_max_reached :=
  by unfold mdt_adjust_second; dsimp only; split_ifs <;> simp

@[simp] theorem mas_pth_atomic_side (s : PthState) :
    (mdt_adjust_second s).pth_atomic_side = s.pth_atomic_side :=
  by unfold mdt_adjust_second; dsimp only; split_ifs <;> simp

@[simp] theorem mas_pth_side_user_bits (s : PthState) :
    (mdt_adjust_second s).pth_side_user_bits = s.pth_side_user_bits :=
  by unfold mdt_adjust_second; dsimp only; split_ifs <;> simp

@[simp] theorem mas_pth_was_held_instantly (s : PthState) :
    (mdt_adjust_second s).pth_was_held_instantly = s.pth_was_held_instantly :=
  by unfold mdt_adjust_second; dsimp only; split_ifs <;> simp

@[simp] theorem mas_second_was_held_instantly (s : PthState) :
    (mdt_adjust_second s).second_was_held_instantly = s.second_was_held_instantly :=
  by unfold mdt_adjust_second; dsimp only; split_ifs <;> simp

@[simp] theorem mas_instant_layer_was_active (s : PthState) :
    (mdt_adjust_second s).instant_layer_was_active = s.instant_layer_was_active :=
  by unfold mdt_adjust_second; dsimp only; split_ifs <;> simp

@[simp] theorem mas_layer_before_instant_layer_tap (s : PthState) :
    (mdt_adjust_second s).layer_before_instant_layer_tap = s.layer_before_instant_layer_tap :=
  by unfold mdt_adjust_second; dsimp only; split_ifs <;> simp

@[simp] theorem mas_has_second (s : PthState) :
    (mdt_adjust_second s).has_second = s.has_second :=
  by unfold mdt_adjust_second; dsimp only; split_ifs <;> simp

@[simp] theorem mas_second_keycode (s : PthState) :
    (mdt_adjust_second s).second_keycode = s.second_keycode :=
  by unfold mdt_adjust_second; dsimp only; split_ifs <;> simp

@[simp] theorem mas_second_press_timer (s : PthState) :
    (mdt_adjust_second s).second_press_timer = s.second_press_timer :=
  by unfold mdt_adjust_second; dsimp only; split_ifs <;> simp

@[simp] theorem mas_second_press_timer_max_reached (s : PthState) :
    (mdt_adjust_second s).second_press_timer_max_reached = s.second_press_timer_max_reached :=
  by unfold mdt_adjust_second; dsimp only; split_ifs <;> simp

@[simp] theorem mas_second_is_tap_hold (s : PthState) :
    (mdt_adjust_second s).second_is_tap_hold = s.second_is_tap_hold :=
  by unfold mdt_adjust_second; dsimp only; split_ifs <;> simp

@[simp] theorem mas_second_is_same_side_as_pth (s : PthState) :
    (mdt_adjust_second s).second_is_same_side_as_pth = s.second_is_same_side_as_pth :=
  by unfold mdt_adjust_second; dsimp only; split_ifs <;> simp

@[simp] theorem mas_second_to_be_released (s : PthState) :
    (mdt_adjust_second s).second_to_be_released = s.second_to_be_released :=
  by unfold mdt_adjust_second; dsimp only; split_ifs <;> simp

@[simp] theorem mas_timeout_for_forcing_choice (s : PthState) :
    (mdt_adjust_second s).timeout_for_forcing_choice = s.timeout_for_forcing_choice :=
  by unfold mdt_adjust_second; dsimp only; split_ifs <;> simp

@[simp] theorem mas_has_chosen_after_timeout_reached (s : PthState) :
    (mdt_adjust_second s).has_chosen_after_timeout_reached = s.has_chosen_after_timeout_reached :=
  by unfold mdt_adjust_second; dsimp only; split_ifs <;> simp

@[simp] theorem mas_min_overlap_dur_for_hold (s : PthState) :
    (mdt_adjust_second s).min_overlap_dur_for_hold = s.min_overlap_dur_for_hold :=
  by unfold mdt_adjust_second; dsimp only; split_ifs <;> simp

@[simp] theorem mas_pth_press_to_second_press_dur (s : PthState) :
    (mdt_adjust_second s).pth_press_to_second_press_dur = s.pth_press_to_second_press_dur :=
  by unfold mdt_adjust_second; dsimp only; split_ifs <;> simp

@[simp] theorem mas_pth_press_to_second_release_dur (s : PthState) :
    (mdt_adjust_second s).pth_press_to_second_release_dur = s.pth_press_to_second_release_dur :=
  by unfold mdt_adjust_second; dsimp only; split_ifs <;> simp

@[simp] theorem mas_pth_second_dur (s : PthState) :
    (mdt_adjust_second s).pth_second_dur = s.pth_second_dur :=
  by unfold mdt_adjust_second; dsimp only; split_ifs <;> simp

@[simp] theorem mas_pth_second_press_to_third_press_dur (s : PthState) :
    (mdt_adjust_second s).pth_second_press_to_third_press_dur = s.pth_second_press_to_third_press_dur :=
  by unfold mdt_adjust_second; dsimp only; split_ifs <;> simp

@[simp] theorem mas_pth_prev_prev_press_to_prev_press_dur (s : PthState) :
    (mdt_adjust_second s).pth_prev_prev_press_to_prev_press_dur = s.pth_prev_prev_press_to_prev_press_dur :=
  by unfold mdt_adjust_second; dsimp only; split_ifs <;> simp

@[simp] theorem mas_pth_prev_press_to_pth_press_dur (s : PthState) :
    (mdt_adjust_second s).pth_prev_press_to_pth_press_dur = s.pth_prev_press_to_pth_press_dur :=
  by unfold mdt_adjust_second; dsimp only; split_ifs <;> simp

@[simp] theorem mas_pth_prev_prev_overlap_dur (s : PthState) :
    (mdt_adjust_second s).pth_prev_prev_overlap_dur = s.pth_prev_prev_overlap_dur :=
  by unfold mdt_adjust_second; dsimp only; split_ifs <;> simp

@[simp] theorem mas_pth_prev_overlap_dur (s : PthState) :
    (mdt_adjust_second s).pth_prev_overlap_dur = s.pth_prev_overlap_dur :=
  by unfold mdt_adjust_second; dsimp only; split_ifs <;> simp

@[simp] theorem mas_key_release_before_pth_to_pth_press_dur (s : PthState) :
    (mdt_adjust_second s).key_release_before_pth_to_pth_press_dur = s.key_release_before_pth_to_pth_press_dur :=
  by unfold mdt_adjust_second; dsimp only; split_ifs <;> simp

@[simp] theorem mas_prev_press_keycode (s : PthState) :
    (mdt_adjust_second s).prev_press_keycode = s.prev_press_keycode :=
  by unfold mdt_adjust_second; dsimp only; split_ifs <;> simp

@[simp] theorem mas_cur_press_keycode (s : PthState) :
    (mdt_adjust_second s).cur_press_keycode = s.cur_press_keycode :=
  by unfold mdt_adjust_second; dsimp only; split_ifs <;> simp

@[simp] theorem mas_down_count (s : PthState) :
    (mdt_adjust_second s).down_count = s.down_count :=
  by unfold mdt_adjust_second; dsimp only; split_ifs <;> simp

@[simp] theorem mas_overlap_timer (s : PthState) :
    (mdt_adjust_second s).overlap_timer = s.overlap_timer :=
  by unfold mdt_adjust_second; dsimp only; split_ifs <;> simp

@[simp] theorem mas_overlap_timer_max_reached (s : PthState) :
    (mdt_adjust_second s).overlap_timer_max_reached = s.overlap_timer_max_reached :=
  by unfold mdt_adjust_second; dsimp only; split_ifs <;> simp

@[simp] theorem mas_press_to_press_timer (s : PthState) :
    (mdt_adjust_second s).press_to_press_timer = s.press_to_press_timer :=
  by unfold mdt_adjust_second; dsimp only; split_ifs <;> simp

@[simp] theorem mas_press_to_press_timer_max_reached (s : PthState) :
    (mdt_adjust_second s).press_to_press_timer_max_reached = s.press_to_press_timer_max_reached :=
  by unfold mdt_adjust_second; dsimp only; split_ifs <;> simp

@[simp] theorem mas_release_timer (s : PthState) :
    (mdt_adjust_second s).release_timer = s.release_timer :=
  by unfold mdt_adjust_second; dsimp only; split_ifs <;> simp

@[simp] theorem mas_release_timer_max_reached (s : PthState) :
    (mdt_adjust_second s).release_timer_max_reached = s.release_timer_max_reached :=
  by unfold mdt_adjust_second; dsimp only; split_ifs <;> simp

@[simp] theorem mas_prev_press_to_press_dur (s : PthState) :
    (mdt_adjust_second s).prev_press_to_press_dur = s.prev_press_to_press_dur :=
  by unfold mdt_adjust_second; dsimp only; split_ifs <;> simp

@[simp] theorem mas_cur_press_to_press_dur (s : PthState) :
    (mdt_adjust_second s).cur_press_to_press_dur = s.cur_press_to_press_dur :=
  by unfold mdt_adjust_second; dsimp only; split_ifs <;> simp

@[simp] theorem mas_prev_overlap_dur (s : PthState) :
    (mdt_adjust_second s).prev_overlap_dur = s.prev_overlap_dur :=
  by unfold mdt_adjust_second; dsimp only; split_ifs <;> simp

@[simp] theorem mas_cur_overlap_dur (s : PthState) :
    (mdt_adjust_second s).cur_overlap_dur = s.cur_overlap_dur :=
  by unfold mdt_adjust_second; dsimp only; split_ifs <;> simp

@[simp] theorem mas_release_records (s : PthState) :
    (mdt_adjust_second s).release_records = s.release_records :=
  by unfold mdt_adjust_second; dsimp only; split_ifs <;> simp

@[simp] theorem mas_is_before_second_bitmask (s : PthState) :
    (mdt_adjust_second s).is_before_second_bitmask = s.is_before_second_bitmask :=
  by unfold mdt_adjust_second; dsimp only; split_ifs <;> simp

@[simp] theorem mas_used_release_records_bitmask (s : PthState) :
    (mdt_adjust_second s).used_release_records_bitmask = s.used_release_records_bitmask :=
  by unfold mdt_adjust_second; dsimp only; split_ifs <;> simp

@[simp] theorem mas_is_processing_record_due_to_pth (s : PthState) :
    (mdt_adjust_second s).is_processing_record_due_to_pth = s.is_processing_record_due_to_pth :=
  by unfold mdt_adjust_second; dsimp only; split_ifs <;> simp

@[simp] theorem msp_pth_status (now : Nat) (s : PthState) :
    (mdt_second_part now s).1.pth_status = s.pth_status :=
  by unfold mdt_second_part; dsimp only; split_ifs <;> simp

@[simp] theorem msp_pth_prev_status (now : Nat) (s : PthState) :
    (mdt_second_part now s).1.pth_prev_status = s.pth_prev_status :=
  by unfold mdt_second_part; dsimp only; split_ifs <;> simp

@[simp] theorem msp_pth_keycode (now : Nat) (s : PthState) :
    (mdt_second_part now s).1.pth_keycode = s.pth_keycode :=
  by unfold mdt_second_part; dsimp only; split_ifs <;> simp

@[simp] theorem msp_pth_tap_code_instead_of_hold (now : Nat) (s : PthState) :
    (mdt_second_part now s).1.pth_tap_code_instead_of_hold = s.pth_tap_code_instead_of_hold :=
  by unfold mdt_second_part; dsimp only; split_ifs <;> simp

@[simp] theorem msp_pth_record (now : Nat) (s : PthState) :
    (mdt_second_part now s).1.pth_record = s.pth_record :=
  by unfold mdt_second_part; dsimp only; split_ifs <;> simp

@[simp] theorem msp_pth_press_timer (now : Nat) (s : PthState) :
    (mdt_second_part now s).1.pth_press_timer = s.pth_press_timer :=
  by unfold mdt_second_part; dsimp only; split_ifs <;> simp

@[simp] theorem msp_pth_press_timer_max_reached (now : Nat) (s : PthState) :
    (mdt_second_part now s).1.pth_press_timer_max_reached = s.pth_press_timer_max_reached :=
  by unfold mdt_second_part; dsimp only; split_ifs <;> simp

@[simp] theorem msp_pth_atomic_side (now : Nat) (s : PthState) :
    (mdt_second_part now s).1.pth_atomic_side = s.pth_atomic_side :=
  by unfold mdt_second_part; dsimp only; split_ifs <;> simp

@[simp] theorem msp_pth_side_user_bits (now : Nat) (s : PthState) :
    (mdt_second_part now s).1.pth_side_user_bits = s.pth_side_user_bits :=
  by unfold mdt_second_part; dsimp only; split_ifs <;> simp

@[simp] theorem msp_pth_was_held_instantly (now : Nat) (s : PthState) :
    (mdt_second_part now s).1.pth_was_held_instantly = s.pth_was_held_instantly :=
  by unfold mdt_second_part; dsimp only; split_ifs <;> simp

@[simp] theorem msp_second_was_held_instantly (now : Nat) (s : PthState) :
    (mdt_second_part now s).1.second_was_held_instantly = s.second_was_held_instantly :=
  by unfold mdt_second_part; dsimp only; split_ifs <;> simp

@[simp] theorem msp_instant_layer_was_active (now : Nat) (s : PthState) :
    (mdt_second_part now s).1.instant_layer_was_active = s.instant_layer_was_active :=
  by unfold mdt_second_part; dsimp only; split_ifs <;> simp

@[simp] theorem msp_layer_before_instant_layer_tap (now : Nat) (s : PthState) :
    (mdt_second_part now s).1.layer_before_instant_layer_tap = s.layer_before_instant_layer_tap :=
  by unfold mdt_second_part; dsimp only; split_ifs <;> simp

@[simp] theorem msp_has_second (now : Nat) (s : PthState) :
    (mdt_second_part now s).1.has_second = s.has_second :=
  by unfold mdt_second_part; dsimp only; split_ifs <;> simp

@[simp] theorem msp_second_keycode (now : Nat) (s : PthState) :
    (mdt_second_part now s).1.second_keycode = s.second_keycode :=
  by unfold mdt_second_part; dsimp only; split_ifs <;> simp

@[simp] theorem msp_second_press_timer (now : Nat) (s : PthState) :
    (mdt_second_part now s).1.second_press_timer = s.second_press_timer :=
  by unfold mdt_second_part; dsimp only; split_ifs <;> simp

@[simp] theorem msp_second_press_timer_max_reached (now : Nat) (s : PthState) :
    (mdt_second_part now s).1.second_press_timer_max_reached = s.second_press_timer_max_reached :=
  by unfold mdt_second_part; dsimp only; split_ifs <;> simp

@[simp] theorem msp_second_is_tap_hold (now : Nat) (s : PthState) :
    (mdt_second_part now s).1.second_is_tap_hold = s.second_is_tap_hold :=
  by unfold mdt_second_part; dsimp only; split_ifs <;> simp

@[simp] theorem msp_second_is_same_side_as_pth (now : Nat) (s : PthState) :
    (mdt_second_part now s).1.second_is_same_side_as_pth = s.second_is_same_side_as_pth :=
  by unfold mdt_second_part; dsimp only; split_ifs <;> simp

@[simp] theorem msp_second_to_be_released (now : Nat) (s : PthState) :
    (mdt_second_part now s).1.second_to_be_released = s.second_to_be_released :=
  by unfold mdt_second_part; dsimp only; split_ifs <;> simp

@[simp] theorem msp_timeout_for_forcing_choice (now : Nat) (s : PthState) :
    (mdt_second_part now s).1.timeout_for_forcing_choice = s.timeout_for_forcing_choice :=
  by unfold mdt_second_part; dsimp only; split_ifs <;> simp

@[simp] theorem msp_has_chosen_after_timeout_reached (now : Nat) (s : PthState) :
    (mdt_second_part now s).1.has_chosen_after_timeout_reached = s.has_chosen_after_timeout_reached :=
  by unfold mdt_second_part; dsimp only; split_ifs <;> simp

@[simp] theorem msp_min_overlap_dur_for_hold (now : Nat) (s : PthState) :
    (mdt_second_part now s).1.min_overlap_dur_for_hold = s.min_overlap_dur_for_hold :=
  by unfold mdt_second_part; dsimp only; split_ifs <;> simp

@[simp] theorem msp_pth_press_to_second_press_dur (now : Nat) (s : PthState) :
    (mdt_second_part now s).1.pth_press_to_second_press_dur = s.pth_press_to_second_press_dur :=
  by unfold mdt_second_part; dsimp only; split_ifs <;> simp

@[simp] theorem msp_pth_press_to_second_release_dur (now : Nat) (s : PthState) :
    (mdt_second_part now s).1.pth_press_to_second_release_dur = s.pth_press_to_second_release_dur :=
  by unfold mdt_second_part; dsimp only; split_ifs <;> simp

@[simp] theorem msp_pth_second_dur (now : Nat) (s : PthState) :
    (mdt_second_part now s).1.pth_second_dur = s.pth_second_dur :=
  by unfold mdt_second_part; dsimp only; split_ifs <;> simp

@[simp] theorem msp_pth_second_press_to_third_press_dur (now : Nat) (s : PthState) :
    (mdt_second_part now s).1.pth_second_press_to_third_press_dur = s.pth_second_press_to_third_press_dur :=
  by unfold mdt_second_part; dsimp only; split_ifs <;> simp

@[simp] theorem msp_pth_prev_prev_press_to_prev_press_dur (now : Nat) (s : PthState) :
    (mdt_second_part now s).1.pth_prev_prev_press_to_prev_press_dur = s.pth_prev_prev_press_to_prev_press_dur :=
  by unfold mdt_second_part; dsimp only; split_ifs <;> simp

@[simp] theorem msp_pth_prev_press_to_pth_press_dur (now : Nat) (s : PthState) :
    (mdt_second_part now s).1.pth_prev_press_to_pth_press_dur = s.pth_prev_press_to_pth_press_dur :=
  by unfold mdt_second_part; dsimp only; split_ifs <;> simp

@[simp] theorem msp_pth_prev_prev_overlap_dur (now : Nat) (s : PthState) :
    (mdt_second_part now s).1.pth_prev_prev_overlap_dur = s.pth_prev_prev_overlap_dur :=
  by unfold mdt_second_part; dsimp only; split_ifs <;> simp

@[simp] theorem msp_pth_prev_overlap_dur (now : Nat) (s : PthState) :
    (mdt_second_part now s).1.pth_prev_overlap_dur = s.pth_prev_overlap_dur :=
  by unfold mdt_second_part; dsimp only; split_ifs <;> simp

@[simp] theorem msp_key_release_before_pth_to_pth_press_dur (now : Nat) (s : PthState) :
    (mdt_second_part now s).1.key_release_before_pth_to_pth_press_dur = s.key_release_before_pth_to_pth_press_dur :=
  by unfold mdt_second_part; dsimp only; split_ifs <;> simp

@[simp] theorem msp_prev_press_keycode (now : Nat) (s : PthState) :
    (mdt_second_part now s).1.prev_press_keycode = s.prev_press_keycode :=
  by unfold mdt_second_part; dsimp only; split_ifs <;> simp

@[simp] theorem msp_cur_press_keycode (now : Nat) (s : PthState) :
    (mdt_second_part now s).1.cur_press_keycode = s.cur_press_keycode :=
  by unfold mdt_second_part; dsimp only; split_ifs <;> simp

@[simp] theorem msp_down_count (now : Nat) (s : PthState) :
    (mdt_second_part now s).1.down_count = s.down_count :=
  by unfold mdt_second_part; dsimp only; split_ifs <;> simp

@[simp] theorem msp_overlap_timer (now : Nat) (s : PthState) :
    (mdt_second_part now s).1.overlap_timer = s.overlap_timer :=
  by unfold mdt_second_part; dsimp only; split_ifs <;> simp

@[simp] theorem msp_overlap_timer_max_reached (now : Nat) (s : PthState) :
    (mdt_second_part now s).1.overlap_timer_max_reached = s.overlap_timer_max_reached :=
  by unfold mdt_second_part; dsimp only; split_ifs <;> simp

@[simp] theorem msp_press_to_press_timer (now : Nat) (s : PthState) :
    (mdt_second_part now s).1.press_to_press_timer = s.press_to_press_timer :=
  by unfold mdt_second_part; dsimp only; split_ifs <;> simp

@[simp] theorem msp_press_to_press_timer_max_reached (now : Nat) (s : PthState) :
    (mdt_second_part now s).1.press_to_press_timer_max_reached = s.press_to_press_timer_max_reached :=
  by unfold mdt_second_part; dsimp only; split_ifs <;> simp

@[simp] theorem msp_release_timer (now : Nat) (s : PthState) :
    (mdt_second_part now s).1.release_timer = s.release_timer :=
  by unfold mdt_second_part; dsimp only; split_ifs <;> simp

@[simp] theorem msp_release_timer_max_reached (now : Nat) (s : PthState) :
    (mdt_second_part now s).1.release_timer_max_reached = s.release_timer_max_reached :=
  by unfold mdt_second_part; dsimp only; split_ifs <;> simp

@[simp] theorem msp_prev_press_to_press_dur (now : Nat) (s : PthState) :
    (mdt_second_part now s).1.prev_press_to_press_dur = s.prev_press_to_press_dur :=
  by unfold mdt_second_part; dsimp only; split_ifs <;> simp

@[simp] theorem msp_cur_press_to_press_dur (now : Nat) (s : PthState) :
    (mdt_second_part now s).1.cur_press_to_press_dur = s.cur_press_to_press_dur :=
  by unfold mdt_second_part; dsimp only; split_ifs <;> simp

@[simp] theorem msp_prev_overlap_dur (now : Nat) (s : PthState) :
    (mdt_second_part now s).1.prev_overlap_dur = s.prev_overlap_dur :=
  by unfold mdt_second_part; dsimp only; split_ifs <;> simp

@[simp] theorem msp_cur_overlap_dur (now : Nat) (s : PthState) :
    (mdt_second_part now s).1.cur_overlap_dur = s.cur_overlap_dur :=
  by unfold mdt_second_part; dsimp only; split_ifs <;> simp

@[simp] theorem msp_is_before_second_bitmask (now : Nat) (s : PthState) :
    (mdt_second_part now s).1.is_before_second_bitmask = s.is_before_second_bitmask :=
  by unfold mdt_second_part; dsimp only; split_ifs <;> simp

@[simp] theorem msp_is_processing_record_due_to_pth (now : Nat) (s : PthState) :
    (mdt_second_part now s).1.is_processing_record_due_to_pth = s.is_processing_record_due_to_pth :=
  by unfold mdt_second_part; dsimp only; split_ifs <;> simp

@[simp] theorem mha_pth_status (cfg : PthConfig) (s : PthState) :
    (mdh_adjust_second cfg s).pth_status = s.pth_status :=
  by unfold mdh_adjust_second; dsimp only; split_ifs <;> simp

@[simp] theorem mha_pth_prev_status (cfg : PthConfig) (s : PthState) :
    (mdh_adjust_second cfg s).pth_prev_status = s.pth_prev_status :=
  by unfold mdh_adjust_second; dsimp only; split_ifs <;> simp

@[simp] theorem mha_pth_keycode (cfg : PthConfig) (s : PthState) :
    (mdh_adjust_second cfg s).pth_keycode = s.pth_keycode :=
  by unfold mdh_adjust_second; dsimp only; split_ifs <;> simp

@[simp] theorem mha_pth_tap_code_instead_of_hold (cfg : PthConfig) (s : PthState) :
    (mdh_adjust_second cfg s).pth_tap_code_instead_of_hold = s.pth_tap_code_instead_of_hold :=
  by unfold mdh_adjust_second; dsimp only; split_ifs <;> simp

@[simp] theorem mha_pth_record (cfg : PthConfig) (s : PthState) :
    (mdh_adjust_second cfg s).pth_record = s.pth_record :=
  by unfold mdh_adjust_second; dsimp only; split_ifs <;> simp

@[simp] theorem mha_pth_press_timer (cfg : PthConfig) (s : PthState) :
    (mdh_adjust_second cfg s).pth_press_timer = s.pth_press_timer :=
  by unfold mdh_adjust_second; dsimp only; split_ifs <;> simp

@[simp] theorem mha_pth_press_timer_max_reached (cfg : PthConfig) (s : PthState) :
    (mdh_adjust_second cfg s).pth_press_timer_max_reached = s.pth_press_timer_max_reached :=
  by unfold mdh_adjust_second; dsimp only; split_ifs <;> simp

@[simp] theorem mha_pth_atomic_side (cfg : PthConfig) (s : PthState) :
    (mdh_adjust_second cfg s).pth_atomic_side = s.pth_atomic_side :=
  by unfold mdh_adjust_second; dsimp only; split_ifs <;> simp

@[simp] theorem mha_pth_side_user_bits (cfg : PthConfig) (s : PthState) :
    (mdh_adjust_second cfg s).pth_side_user_bits = s.pth_side_user_bits :=
  by unfold mdh_adjust_second; dsimp only; split_ifs <;> simp

@[simp] theorem mha_pth_was_held_instantly (cfg : PthConfig) (s : PthState) :
    (mdh_adjust_second cfg s).pth_was_held_instantly = s.pth_was_held_instantly :=
  by unfold mdh_adjust_second; dsimp only; split_ifs <;> simp

@[simp] theorem mha_second_was_held_instantly (cfg : PthConfig) (s : PthState) :
    (mdh_adjust_second cfg s).second_was_held_instantly = s.second_was_held_instantly :=
  by unfold mdh_adjust_second; dsimp only; split_ifs <;> simp

@[simp] theorem mha_instant_layer_was_active (cfg : PthConfig) (s : PthState) :
    (mdh_adjust_second cfg s).instant_layer_was_active = s.instant_layer_was_active :=
  by unfold mdh_adjust_second; dsimp only; split_ifs <;> simp

@[simp] theorem mha_layer_before_instant_layer_tap (cfg : PthConfig) (s : PthState) :
    (mdh_adjust_second cfg s).layer_before_instant_layer_tap = s.layer_before_instant_layer_tap :=
  by unfold mdh_adjust_second; dsimp only; split_ifs <;> simp

@[simp] theorem mha_has_second (cfg : PthConfig) (s : PthState) :
    (mdh_adjust_second cfg s).has_second = s.has_second :=
  by unfold mdh_adjust_second; dsimp only; split_ifs <;> simp

@[simp] theorem mha_second_keycode (cfg : PthConfig) (s : PthState) :
    (mdh_adjust_second cfg s).second_keycode = s.second_keycode :=
  by unfold mdh_adjust_second; dsimp only; split_ifs <;> simp

@[simp] theorem mha_second_press_timer (cfg : PthConfig) (s : PthState) :
    (mdh_adjust_second cfg s).second_press_timer = s.second_press_timer :=
  by unfold mdh_adjust_second; dsimp only; split_ifs <;> simp

@[simp] theorem mha_second_press_timer_max_reached (cfg : PthConfig) (s : PthState) :
    (mdh_adjust_second cfg s).second_press_timer_max_reached = s.second_press_timer_max_reached :=
  by unfold mdh_adjust_second; dsimp only; split_ifs <;> simp

@[simp] theorem mha_second_is_tap_hold (cfg : PthConfig) (s : PthState) :
    (mdh_adjust_second cfg s).second_is_tap_hold = s.second_is_tap_hold :=
  by unfold mdh_adjust_second; dsimp only; split_ifs <;> simp

@[simp] theorem mha_second_is_same_side_as_pth (cfg : PthConfig) (s : PthState) :
    (mdh_adjust_second cfg s).second_is_same_side_as_pth = s.second_is_same_side_as_pth :=
  by unfold mdh_adjust_second; dsimp only; split_ifs <;> simp

@[simp] theorem mha_second_to_be_released (cfg : PthConfig) (s : PthState) :
    (mdh_adjust_second cfg s).second_to_be_released = s.second_to_be_released :=
  by unfold mdh_adjust_second; dsimp only; split_ifs <;> simp

@[simp] theorem mha_timeout_for_forcing_choice (cfg : PthConfig) (s : PthState) :
    (mdh_adjust_second cfg s).timeout_for_forcing_choice = s.timeout_for_forcing_choice :=
  by unfold mdh_adjust_second; dsimp only; split_ifs <;> simp

@[simp] theorem mha_has_chosen_after_timeout_reached (cfg : PthConfig) (s : PthState) :
    (mdh_adjust_second cfg s).has_chosen_after_timeout_reached = s.has_chosen_after_timeout_reached :=
  by unfold mdh_adjust_second; dsimp only; split_ifs <;> simp

@[simp] theorem mha_min_overlap_dur_for_hold (cfg : PthConfig) (s : PthState) :
    (mdh_adjust_second cfg s).min_overlap_dur_for_hold = s.min_overlap_dur_for_hold :=
  by unfold mdh_adjust_second; dsimp only; split_ifs <;> simp

@[simp] theorem mha_pth_press_to_second_press_dur (cfg : PthConfig) (s : PthState) :
    (mdh_adjust_second cfg s).pth_press_to_second_press_dur = s.pth_press_to_second_press_dur :=
  by unfold mdh_adjust_second; dsimp only; split_ifs <;> simp

@[simp] theorem mha_pth_press_to_second_release_dur (cfg : PthConfig) (s : PthState) :
    (mdh_adjust_second cfg s).pth_press_to_second_release_dur = s.pth_press_to_second_release_dur :=
  by unfold mdh_adjust_second; dsimp only; split_ifs <;> simp

@[simp] theorem mha_pth_second_dur (cfg : PthConfig) (s : PthState) :
    (mdh_adjust_second cfg s).pth_second_dur = s.pth_second_dur :=
  by unfold mdh_adjust_second; dsimp only; split_ifs <;> simp

@[simp] theorem mha_pth_second_press_to_third_press_dur (cfg : PthConfig) (s : PthState) :
    (mdh_adjust_second cfg s).pth_second_press_to_third_press_dur = s.pth_second_press_to_third_press_dur :=
  by unfold mdh_adjust_second; dsimp only; split_ifs <;> simp

@[simp] theorem mha_pth_prev_prev_press_to_prev_press_dur (cfg : PthConfig) (s : PthState) :
    (mdh_adjust_second cfg s).pth_prev_prev_press_to_prev_press_dur = s.pth_prev_prev_press_to_prev_press_dur :=
  by unfold mdh_adjust_second; dsimp only; split_ifs <;> simp

@[simp] theorem mha_pth_prev_press_to_pth_press_dur (cfg : PthConfig) (s : PthState) :
    (mdh_adjust_second cfg s).pth_prev_press_to_pth_press_dur = s.pth_prev_press_to_pth_press_dur :=
  by unfold mdh_adjust_second; dsimp only; split_ifs <;> simp

@[simp] theorem mha_pth_prev_prev_overlap_dur (cfg : PthConfig) (s : PthState) :
    (mdh_adjust_second cfg s).pth_prev_prev_overlap_dur = s.pth_prev_prev_overlap_dur :=
  by unfold mdh_adjust_second; dsimp only; split_ifs <;> simp

@[simp] theorem mha_pth_prev_overlap_dur (cfg : PthConfig) (s : PthState) :
    (mdh_adjust_second cfg s).pth_prev_overlap_dur = s.pth_prev_overlap_dur :=
  by unfold mdh_adjust_second; dsimp only; split_ifs <;> simp

@[simp] theorem mha_key_release_before_pth_to_pth_press_dur (cfg : PthConfig) (s : PthState) :
    (mdh_adjust_second cfg s).key_release_before_pth_to_pth_press_dur = s.key_release_before_pth_to_pth_press_dur :=
  by unfold mdh_adjust_second; dsimp only; split_ifs <;> simp

@[simp] theorem mha_prev_press_keycode (cfg : PthConfig) (s : PthState) :
    (mdh_adjust_second cfg s).prev_press_keycode = s.prev_press_keycode :=
  by unfold mdh_adjust_second; dsimp only; split_ifs <;> simp

@[simp] theorem mha_cur_press_keycode (cfg : PthConfig) (s : PthState) :
    (mdh_adjust_second cfg s).cur_press_keycode = s.cur_press_keycode :=
  by unfold mdh_adjust_second; dsimp only; split_ifs <;> simp

@[simp] theorem mha_down_count (cfg : PthConfig) (s : PthState) :
    (mdh_adjust_second cfg s).down_count = s.down_count :=
  by unfold mdh_adjust_second; dsimp only; split_ifs <;> simp

@[simp] theorem mha_overlap_timer (cfg : PthConfig) (s : PthState) :
    (mdh_adjust_second cfg s).overlap_timer = s.overlap_timer :=
  by unfold mdh_adjust_second; dsimp only; split_ifs <;> simp

@[simp] theorem mha_overlap_timer_max_reached (cfg : PthConfig) (s : PthState) :
    (mdh_adjust_second cfg s).overlap_timer_max_reached = s.overlap_timer_max_reached :=
  by unfold mdh_adjust_second; dsimp only; split_ifs <;> simp

@[simp] theorem mha_press_to_press_timer (cfg : PthConfig) (s : PthState) :
    (mdh_adjust_second cfg s).press_to_press_timer = s.press_to_press_timer :=
  by unfold mdh_adjust_second; dsimp only; split_ifs <;> simp

@[simp] theorem mha_press_to_press_timer_max_reached (cfg : PthConfig) (s : PthState) :
    (mdh_adjust_second cfg s).press_to_press_timer_max_reached = s.press_to_press_timer_max_reached :=
  by unfold mdh_adjust_second; dsimp only; split_ifs <;> simp

@[simp] theorem mha_release_timer (cfg : PthConfig) (s : PthState) :
    (mdh_adjust_second cfg s).release_timer = s.release_timer :=
  by unfold mdh_adjust_second; dsimp only; split_ifs <;> simp

@[simp] theorem mha_release_timer_max_reached (cfg : PthConfig) (s : PthState) :
    (mdh_adjust_second cfg s).release_timer_max_reached = s.release_timer_max_reached :=
  by unfold mdh_adjust_second; dsimp only; split_ifs <;> simp

@[simp] theorem mha_prev_press_to_press_dur (cfg : PthConfig) (s : PthState) :
    (mdh_adjust_second cfg s).prev_press_to_press_dur = s.prev_press_to_press_dur :=
  by unfold mdh_adjust_second; dsimp only; split_ifs <;> simp

@[simp] theorem mha_cur_press_to_press_dur (cfg : PthConfig) (s : PthState) :
    (mdh_adjust_second cfg s).cur_press_to_press_dur = s.cur_press_to_press_dur :=
  by unfold mdh_adjust_second; dsimp only; split_ifs <;> simp

@[simp] theorem mha_prev_overlap_dur (cfg : PthConfig) (s : PthState) :
    (mdh_adjust_second cfg s).prev_overlap_dur = s.prev_overlap_dur :=
  by unfold mdh_adjust_second; dsimp only; split_ifs <;> simp

@[simp] theorem mha_cur_overlap_dur (cfg : PthConfig) (s : PthState) :
    (mdh_adjust_second cfg s).cur_overlap_dur = s.cur_overlap_dur :=
  by unfold mdh_adjust_second; dsimp only; split_ifs <;> simp

@[simp] theorem mha_release_records (cfg : PthConfig) (s : PthState) :
    (mdh_adjust_second cfg s).release_records = s.release_records :=
  by unfold mdh_adjust_second; dsimp only; split_ifs <;> simp

@[simp] theorem mha_is_before_second_bitmask (cfg : PthConfig) (s : PthState) :
    (mdh_adjust_second cfg s).is_before_second_bitmask = s.is_before_second_bitmask :=
  by unfold mdh_adjust_second; dsimp only; split_ifs <;> simp

@[simp] theorem mha_used_release_records_bitmask (cfg : PthConfig) (s : PthState) :
    (mdh_adjust_second cfg s).used_release_records_bitmask = s.used_release_records_bitmask :=
  by unfold mdh_adjust_second; dsimp only; split_ifs <;> simp

@[simp] theorem mha_is_processing_record_due_to_pth (cfg : PthConfig) (s : PthState) :
    (mdh_adjust_second cfg s).is_processing_record_due_to_pth = s.is_processing_record_due_to_pth :=
  by unfold mdh_adjust_second; dsimp only; split_ifs <;> simp

@[simp] theorem mhp_pth_status (cfg : PthConfig) (now : Nat) (s : PthState) :
    (mdh_second_part cfg now s).1.pth_status = s.pth_status :=
  by unfold mdh_second_part; dsimp only; split_ifs <;> simp

@[simp] theorem mhp_pth_prev_status (cfg : PthConfig) (now : Nat) (s : PthState) :
    (mdh_second_part cfg now s).1.pth_prev_status = s.pth_prev_status :=
  by unfold mdh_second_part; dsimp only; split_ifs <;> simp

@[simp] theorem mhp_pth_keycode (cfg : PthConfig) (now : Nat) (s : PthState) :
    (mdh_second_part cfg now s).1.pth_keycode = s.pth_keycode :=
  by unfold mdh_second_part; dsimp only; split_ifs <;> simp

@[simp] theorem mhp_pth_tap_code_instead_of_hold (cfg : PthConfig) (now : Nat) (s : PthState) :
    (mdh_second_part cfg now s).1.pth_tap_code_instead_of_hold = s.pth_tap_code_instead_of_hold :=
  by unfold mdh_second_part; dsimp only; split_ifs <;> simp

@[simp] theorem mhp_pth_record (cfg : PthConfig) (now : Nat) (s : PthState) :
    (mdh_second_part cfg now s).1.pth_record = s.pth_record :=
  by unfold mdh_second_part; dsimp only; split_ifs <;> simp

@[simp] theorem mhp_pth_press_timer (cfg : PthConfig) (now : Nat) (s : PthState) :
    (mdh_second_part cfg now s).1.pth_press_timer = s.pth_press_timer :=
  by unfold mdh_second_part; dsimp only; split_ifs <;> simp

@[simp] theorem mhp_pth_press_timer_max_reached (cfg : PthConfig) (now : Nat) (s : PthState) :
    (mdh_second_part cfg now s).1.pth_press_timer_max_reached = s.pth_press_timer_max_reached :=
  by unfold mdh_second_part; dsimp only; split_ifs <;> simp

@[simp] theorem mhp_pth_atomic_side (cfg : PthConfig) (now : Nat) (s : PthState) :
    (mdh_second_part cfg now s).1.pth_atomic_side = s.pth_atomic_side :=
  by unfold mdh_second_part; dsimp only; split_ifs <;> simp

@[simp] theorem mhp_pth_side_user_bits (cfg : PthConfig) (now : Nat) (s : PthState) :
    (mdh_second_part cfg now s).1.pth_side_user_bits = s.pth_side_user_bits :=
  by unfold mdh_second_part; dsimp only; split_ifs <;> simp

@[simp] theorem mhp_pth_was_held_instantly (cfg : PthConfig) (now : Nat) (s : PthState) :
    (mdh_second_part cfg now s).1.pth_was_held_instantly = s.pth_was_held_instantly :=
  by unfold mdh_second_part; dsimp only; split_ifs <;> simp

@[simp] theorem mhp_second_was_held_instantly (cfg : PthConfig) (now : Nat) (s : PthState) :
    (mdh_second_part cfg now s).1.second_was_held_instantly = s.second_was_held_instantly :=
  by unfold mdh_second_part; dsimp only; split_ifs <;> simp

@[simp] theorem mhp_instant_layer_was_active (cfg : PthConfig) (now : Nat) (s : PthState) :
    (mdh_second_part cfg now s).1.instant_layer_was_active = s.instant_layer_was_active :=
  by unfold mdh_second_part; dsimp only; split_ifs <;> simp

@[simp] theorem mhp_layer_before_instant_layer_tap (cfg : PthConfig) (now : Nat) (s : PthState) :
    (mdh_second_part cfg now s).1.layer_before_instant_layer_tap = s.layer_before_instant_layer_tap :=
  by unfold mdh_second_part; dsimp only; split_ifs <;> simp

@[simp] theorem mhp_has_second (cfg : PthConfig) (now : Nat) (s : PthState) :
    (mdh_second_part cfg now s).1.has_second = s.has_second :=
  by unfold mdh_second_part; dsimp only; split_ifs <;> simp

@[simp] theorem mhp_second_keycode (cfg : PthConfig) (now : Nat) (s : PthState) :
    (mdh_second_part cfg now s).1.second_keycode = s.second_keycode :=
  by unfold mdh_second_part; dsimp only; split_ifs <;> simp

@[simp] theorem mhp_second_press_timer (cfg : PthConfig) (now : Nat) (s : PthState) :
    (mdh_second_part cfg now s).1.second_press_timer = s.second_press_timer :=
  by unfold mdh_second_part; dsimp only; split_ifs <;> simp

@[simp] theorem mhp_second_press_timer_max_reached (cfg : PthConfig) (now : Nat) (s : PthState) :
    (mdh_second_part cfg now s).1.second_press_timer_max_reached = s.second_press_timer_max_reached :=
  by unfold mdh_second_part; dsimp only; split_ifs <;> simp

@[simp] theorem mhp_second_is_tap_hold (cfg : PthConfig) (now : Nat) (s : PthState) :
    (mdh_second_part cfg now s).1.second_is_tap_hold = s.second_is_tap_hold :=
  by unfold mdh_second_part; dsimp only; split_ifs <;> simp

@[simp] theorem mhp_second_is_same_side_as_pth (cfg : PthConfig) (now : Nat) (s : PthState) :
    (mdh_second_part cfg now s).1.second_is_same_side_as_pth = s.second_is_same_side_as_pth :=
  by unfold mdh_second_part; dsimp only; split_ifs <;> simp

@[simp] theorem mhp_second_to_be_released (cfg : PthConfig) (now : Nat) (s : PthState) :
    (mdh_second_part cfg now s).1.second_to_be_released = s.second_to_be_released :=
  by unfold mdh_second_part; dsimp only; split_ifs <;> simp

@[simp] theorem mhp_timeout_for_forcing_choice (cfg : PthConfig) (now : Nat) (s : PthState) :
    (mdh_second_part cfg now s).1.timeout_for_forcing_choice = s.timeout_for_forcing_choice :=
  by unfold mdh_second_part; dsimp only; split_ifs <;> simp

@[simp] theorem mhp_has_chosen_after_timeout_reached (cfg : PthConfig) (now : Nat) (s : PthState) :
    (mdh_second_part cfg now s).1.has_chosen_after_timeout_reached = s.has_chosen_after_timeout_reached :=
  by unfold mdh_second_part; dsimp only; split_ifs <;> simp

@[simp] theorem mhp_min_overlap_dur_for_hold (cfg : PthConfig) (now : Nat) (s : PthState) :
    (mdh_second_part cfg now s).1.min_overlap_dur_for_hold = s.min_overlap_dur_for_hold :=
  by unfold mdh_second_part; dsimp only; split_ifs <;> simp

@[simp] theorem mhp_pth_press_to_second_press_dur (cfg : PthConfig) (now : Nat) (s : PthState) :
    (mdh_second_part cfg now s).1.pth_press_to_second_press_dur = s.pth_press_to_second_press_dur :=
  by unfold mdh_second_part; dsimp only; split_ifs <;> simp

@[simp] theorem mhp_pth_press_to_second_release_dur (cfg : PthConfig) (now : Nat) (s : PthState) :
    (mdh_second_part cfg now s).1.pth_press_to_second_release_dur = s.pth_press_to_second_release_dur :=
  by unfold mdh_second_part; dsimp only; split_ifs <;> simp

@[simp] theorem mhp_pth_second_dur (cfg : PthConfig) (now : Nat) (s : PthState) :
    (mdh_second_part cfg now s).1.pth_second_dur = s.pth_second_dur :=
  by unfold mdh_second_part; dsimp only; split_ifs <;> simp

@[simp] theorem mhp_pth_second_press_to_third_press_dur (cfg : PthConfig) (now : Nat) (s : PthState) :
    (mdh_second_part cfg now s).1.pth_second_press_to_third_press_dur = s.pth_second_press_to_third_press_dur :=
  by unfold mdh_second_part; dsimp only; split_ifs <;> simp

@[simp] theorem mhp_pth_prev_prev_press_to_prev_press_dur (cfg : PthConfig) (now : Nat) (s : PthState) :
    (mdh_second_part cfg now s).1.pth_prev_prev_press_to_prev_press_dur = s.pth_prev_prev_press_to_prev_press_dur :=
  by unfold mdh_second_part; dsimp only; split_ifs <;> simp

@[simp] theorem mhp_pth_prev_press_to_pth_press_dur (cfg : PthConfig) (now : Nat) (s : PthState) :
    (mdh_second_part cfg now s).1.pth_prev_press_to_pth_press_dur = s.pth_prev_press_to_pth_press_dur :=
  by unfold mdh_second_part; dsimp only; split_ifs <;> simp

@[simp] theorem mhp_pth_prev_prev_overlap_dur (cfg : PthConfig) (now : Nat) (s : PthState) :
    (mdh_second_part cfg now s).1.pth_prev_prev_overlap_dur = s.pth_prev_prev_overlap_dur :=
  by unfold mdh_second_part; dsimp only; split_ifs <;> simp

@[simp] theorem mhp_pth_prev_overlap_dur (cfg : PthConfig) (now : Nat) (s : PthState) :
    (mdh_second_part cfg now s).1.pth_prev_overlap_dur = s.pth_prev_overlap_dur :=
  by unfold mdh_second_part; dsimp only; split_ifs <;> simp

@[simp] theorem mhp_key_release_before_pth_to_pth_press_dur (cfg : PthConfig) (now : Nat) (s : PthState) :
    (mdh_second_part cfg now s).1.key_release_before_pth_to_pth_press_dur = s.key_release_before_pth_to_pth_press_dur :=
  by unfold mdh_second_part; dsimp only; split_ifs <;> simp

@[simp] theorem mhp_prev_press_keycode (cfg : PthConfig) (now : Nat) (s : PthState) :
    (mdh_second_part cfg now s).1.prev_press_keycode = s.prev_press_keycode :=
  by unfold mdh_second_part; dsimp only; split_ifs <;> simp

@[simp] theorem mhp_cur_press_keycode (cfg : PthConfig) (now : Nat) (s : PthState) :
    (mdh_second_part cfg now s).1.cur_press_keycode = s.cur_press_keycode :=
  by unfold mdh_second_part; dsimp only; split_ifs <;> simp

@[simp] theorem mhp_down_count (cfg : PthConfig) (now : Nat) (s : PthState) :
    (mdh_second_part cfg now s).1.down_count = s.down_count :=
  by unfold mdh_second_part; dsimp only; split_ifs <;> simp

@[simp] theorem mhp_overlap_timer (cfg : PthConfig) (now : Nat) (s : PthState) :
    (mdh_second_part cfg now s).1.overlap_timer = s.overlap_timer :=
  by unfold mdh_second_part; dsimp only; split_ifs <;> simp

@[simp] theorem mhp_overlap_timer_max_reached (cfg : PthConfig) (now : Nat) (s : PthState) :
    (mdh_second_part cfg now s).1.overlap_timer_max_reached = s.overlap_timer_max_reached :=
  by unfold mdh_second_part; dsimp only; split_ifs <;> simp

@[simp] theorem mhp_press_to_press_timer (cfg : PthConfig) (now : Nat) (s : PthState) :
    (mdh_second_part cfg now s).1.press_to_press_timer = s.press_to_press_timer :=
  by unfold mdh_second_part; dsimp only; split_ifs <;> simp

@[simp] theorem mhp_press_to_press_timer_max_reached (cfg : PthConfig) (now : Nat) (s : PthState) :
    (mdh_second_part cfg now s).1.press_to_press_timer_max_reached = s.press_to_press_timer_max_reached :=
  by unfold mdh_second_part; dsimp only; split_ifs <;> simp

@[simp] theorem mhp_release_timer (cfg : PthConfig) (now : Nat) (s : PthState) :
    (mdh_second_part cfg now s).1.release_timer = s.release_timer :=
  by unfold mdh_second_part; dsimp only; split_ifs <;> simp

@[simp] theorem mhp_release_timer_max_reached (cfg : PthConfig) (now : Nat) (s : PthState) :
    (mdh_second_part cfg now s).1.release_timer_max_reached = s.release_timer_max_reached :=
  by unfold mdh_second_part; dsimp only; split_ifs <;> simp

@[simp] theorem mhp_prev_press_to_press_dur (cfg : PthConfig) (now : Nat) (s : PthState) :
    (mdh_second_part cfg now s).1.prev_press_to_press_dur = s.prev_press_to_press_dur :=
  by unfold mdh_second_part; dsimp only; split_ifs <;> simp

@[simp] theorem mhp_cur_press_to_press_dur (cfg : PthConfig) (now : Nat) (s : PthState) :
    (mdh_second_part cfg now s).1.cur_press_to_press_dur = s.cur_press_to_press_dur :=
  by unfold mdh_second_part; dsimp only; split_ifs <;> simp

@[simp] theorem mhp_prev_overlap_dur (cfg : PthConfig) (now : Nat) (s : PthState) :
    (mdh_second_part cfg now s).1.prev_overlap_dur = s.prev_overlap_dur :=
  by unfold mdh_second_part; dsimp only; split_ifs <;> simp

@[simp] theorem mhp_cur_overlap_dur (cfg : PthConfig) (now : Nat) (s : PthState) :
    (mdh_second_part cfg now s).1.cur_overlap_dur = s.cur_overlap_dur :=
  by unfold mdh_second_part; dsimp only; split_ifs <;> simp

@[simp] theorem mhp_is_before_second_bitmask (cfg : PthConfig) (now : Nat) (s : PthState) :
    (mdh_second_part cfg now s).1.is_before_second_bitmask = s.is_before_second_bitmask :=
  by unfold mdh_second_part; dsimp only; split_ifs <;> simp

@[simp] theorem mhp_is_processing_record_due_to_pth (cfg : PthConfig) (now : Nat) (s : PthState) :
    (mdh_second_part cfg now s).1.is_processing_record_due_to_pth = s.is_processing_record_due_to_pth :=
  by unfold mdh_second_part; dsimp only; split_ifs <;> simp

@[simp] theorem mdt_pth_prev_status (cfg : PthConfig) (now : Nat) (s : PthState) :
    (make_decision_tap cfg now s).1.pth_prev_status = s.pth_prev_status :=
  by rw [make_decision_tap]; dsimp only; split_ifs <;> simp

@[simp] theorem mdt_pth_keycode (cfg : PthConfig) (now : Nat) (s : PthState) :
    (make_decision_tap cfg now s).1.pth_keycode = s.pth_keycode :=
  by rw [make_decision_tap]; dsimp only; split_ifs <;> simp

@[simp] theorem mdt_pth_tap_code_instead_of_hold (cfg : PthConfig) (now : Nat) (s : PthState) :
    (make_decision_tap cfg now s).1.pth_tap_code_instead_of_hold = s.pth_tap_code_instead_of_hold :=
  by rw [make_decision_tap]; dsimp only; split_ifs <;> simp

@[simp] theorem mdt_pth_press_timer (cfg : PthConfig) (now : Nat) (s : PthState) :
    (make_decision_tap cfg now s).1.pth_press_timer = s.pth_press_timer :=
  by rw [make_decision_tap]; dsimp only; split_ifs <;> simp

@[simp] theorem mdt_pth_press_timer_max_reached (cfg : PthConfig) (now : Nat) (s : PthState) :
    (make_decision_tap cfg now s).1.pth_press_timer_max_reached = s.pth_press_timer_max_reached :=
  by rw [make_decision_tap]; dsimp only; split_ifs <;> simp

@[simp] theorem mdt_pth_atomic_side (cfg : PthConfig) (now : Nat) (s : PthState) :
    (make_decision_tap cfg now s).1.pth_atomic_side = s.pth_atomic_side :=
  by rw [make_decision_tap]; dsimp only; split_ifs <;> simp

@[simp] theorem mdt_pth_side_user_bits (cfg : PthConfig) (now : Nat) (s : PthState) :
    (make_decision_tap cfg now s).1.pth_side_user_bits = s.pth_side_user_bits :=
  by rw [make_decision_tap]; dsimp only; split_ifs <;> simp

@[simp] theorem mdt_pth_was_held_instantly (cfg : PthConfig) (now : Nat) (s : PthState) :
    (make_decision_tap cfg now s).1.pth_was_held_instantly = s.pth_was_held_instantly :=
  by rw [make_decision_tap]; dsimp only; split_ifs <;> simp

@[simp] theorem mdt_second_was_held_instantly (cfg : PthConfig) (now : Nat) (s : PthState) :
    (make_decision_tap cfg now s).1.second_was_held_instantly = s.second_was_held_instantly :=
  by rw [make_decision_tap]; dsimp only; split_ifs <;> simp

@[simp] theorem mdt_instant_layer_was_active (cfg : PthConfig) (now : Nat) (s : PthState) :
    (make_decision_tap cfg now s).1.instant_layer_was_active = s.instant_layer_was_active :=
  by rw [make_decision_tap]; dsimp only; split_ifs <;> simp

@[simp] theorem mdt_layer_before_instant_layer_tap (cfg : PthConfig) (now : Nat) (s : PthState) :
    (make_decision_tap cfg now s).1.layer_before_instant_layer_tap = s.layer_before_instant_layer_tap :=
  by rw [make_decision_tap]; dsimp only; split_ifs <;> simp

@[simp] theorem mdt_has_second (cfg : PthConfig) (now : Nat) (s : PthState) :
    (make_decision_tap cfg now s).1.has_second = s.has_second :=
  by rw [make_decision_tap]; dsimp only; split_ifs <;> simp

@[simp] theorem mdt_second_press_timer (cfg : PthConfig) (now : Nat) (s : PthState) :
    (make_decision_tap cfg now s).1.second_press_timer = s.second_press_timer :=
  by rw [make_decision_tap]; dsimp only; split_ifs <;> simp

@[simp] theorem mdt_second_press_timer_max_reached (cfg : PthConfig) (now : Nat) (s : PthState) :
    (make_decision_tap cfg now s).1.second_press_timer_max_reached = s.second_press_timer_max_reached :=
  by rw [make_decision_tap]; dsimp only; split_ifs <;> simp

@[simp] theorem mdt_second_is_same_side_as_pth (cfg : PthConfig) (now : Nat) (s : PthState) :
    (make_decision_tap cfg now s).1.second_is_same_side_as_pth = s.second_is_same_side_as_pth :=
  by rw [make_decision_tap]; dsimp only; split_ifs <;> simp

@[simp] theorem mdt_second_to_be_released (cfg : PthConfig) (now : Nat) (s : PthState) :
    (make_decision_tap cfg now s).1.second_to_be_released = s.second_to_be_released :=
  by rw [make_decision_tap]; dsimp only; split_ifs <;> simp

@[simp] theorem mdt_timeout_for_forcing_choice (cfg : PthConfig) (now : Nat) (s : PthState) :
    (make_decision_tap cfg now s).1.timeout_for_forcing_choice = s.timeout_for_forcing_choice :=
  by rw [make_decision_tap]; dsimp only; split_ifs <;> simp

@[simp] theorem mdt_has_chosen_after_timeout_reached (cfg : PthConfig) (now : Nat) (s : PthState) :
    (make_decision_tap cfg now s).1.has_chosen_after_timeout_reached = s.has_chosen_after_timeout_reached :=
  by rw [make_decision_tap]; dsimp only; split_ifs <;> simp

@[simp] theorem mdt_min_overlap_dur_for_hold (cfg : PthConfig) (now : Nat) (s : PthState) :
    (make_decision_tap cfg now s).1.min_overlap_dur_for_hold = s.min_overlap_dur_for_hold :=
  by rw [make_decision_tap]; dsimp only; split_ifs <;> simp

@[simp] theorem mdt_pth_press_to_second_press_dur (cfg : PthConfig) (now : Nat) (s : PthState) :
    (make_decision_tap cfg now s).1.pth_press_to_second_press_dur = s.pth_press_to_second_press_dur :=
  by rw [make_decision_tap]; dsimp only; split_ifs <;> simp

@[simp] theorem mdt_pth_press_to_second_release_dur (cfg : PthConfig) (now : Nat) (s : PthState) :
    (make_decision_tap cfg now s).1.pth_press_to_second_release_dur = s.pth_press_to_second_release_dur :=
  by rw [make_decision_tap]; dsimp only; split_ifs <;> simp

@[simp] theorem mdt_pth_second_dur (cfg : PthConfig) (now : Nat) (s : PthState) :
    (make_decision_tap cfg now s).1.pth_second_dur = s.pth_second_dur :=
  by rw [make_decision_tap]; dsimp only; split_ifs <;> simp

@[simp] theorem mdt_pth_second_press_to_third_press_dur (cfg : PthConfig) (now : Nat) (s : PthState) :
    (make_decision_tap cfg now s).1.pth_second_press_to_third_press_dur = s.pth_second_press_to_third_press_dur :=
  by rw [make_decision_tap]; dsimp only; split_ifs <;> simp

@[simp] theorem mdt_pth_prev_prev_press_to_prev_press_dur (cfg : PthConfig) (now : Nat) (s : PthState) :
    (make_decision_tap cfg now s).1.pth_prev_prev_press_to_prev_press_dur = s.pth_prev_prev_press_to_prev_press_dur :=
  by rw [make_decision_tap]; dsimp only; split_ifs <;> simp

@[simp] theorem mdt_pth_prev_press_to_pth_press_dur (cfg : PthConfig) (now : Nat) (s : PthState) :
    (make_decision_tap cfg now s).1.pth_prev_press_to_pth_press_dur = s.pth_prev_press_to_pth_press_dur :=
  by rw [make_decision_tap]; dsimp only; split_ifs <;> simp

@[simp] theorem mdt_pth_prev_prev_overlap_dur (cfg : PthConfig) (now : Nat) (s : PthState) :
    (make_decision_tap cfg now s).1.pth_prev_prev_overlap_dur = s.pth_prev_prev_overlap_dur :=
  by rw [make_decision_tap]; dsimp only; split_ifs <;> simp

@[simp] theorem mdt_pth_prev_overlap_dur (cfg : PthConfig) (now : Nat) (s : PthState) :
    (make_decision_tap cfg now s).1.pth_prev_overlap_dur = s.pth_prev_overlap_dur :=
  by rw [make_decision_tap]; dsimp only; split_ifs <;> simp

@[simp] theorem mdt_key_release_before_pth_to_pth_press_dur (cfg : PthConfig) (now : Nat) (s : PthState) :
    (make_decision_tap cfg now s).1.key_release_before_pth_to_pth_press_dur = s.key_release_before_pth_to_pth_press_dur :=
  by rw [make_decision_tap]; dsimp only; split_ifs <;> simp

@[simp] theorem mdt_prev_press_keycode (cfg : PthConfig) (now : Nat) (s : PthState) :
    (make_decision_tap cfg now s).1.prev_press_keycode = s.prev_press_keycode :=
  by rw [make_decision_tap]; dsimp only; split_ifs <;> simp

@[simp] theorem mdt_cur_press_keycode (cfg : PthConfig) (now : Nat) (s : PthState) :
    (make_decision_tap cfg now s).1.cur_press_keycode = s.cur_press_keycode :=
  by rw [make_decision_tap]; dsimp only; split_ifs <;> simp

@[simp] theorem mdt_down_count (cfg : PthConfig) (now : Nat) (s : PthState) :
    (make_decision_tap cfg now s).1.down_count = s.down_count :=
  by rw [make_decision_tap]; dsimp only; split_ifs <;> simp

@[simp] theorem mdt_overlap_timer (cfg : PthConfig) (now : Nat) (s : PthState) :
    (make_decision_tap cfg now s).1.overlap_timer = s.overlap_timer :=
  by rw [make_decision_tap]; dsimp only; split_ifs <;> simp

@[simp] theorem mdt_overlap_timer_max_reached (cfg : PthConfig) (now : Nat) (s : PthState) :
    (make_decision_tap cfg now s).1.overlap_timer_max_reached = s.overlap_timer_max_reached :=
  by rw [make_decision_tap]; dsimp only; split_ifs <;> simp

@[simp] theorem mdt_press_to_press_timer (cfg : PthConfig) (now : Nat) (s : PthState) :
    (make_decision_tap cfg now s).1.press_to_press_timer = s.press_to_press_timer :=
  by rw [make_decision_tap]; dsimp only; split_ifs <;> simp

@[simp] theorem mdt_press_to_press_timer_max_reached (cfg : PthConfig) (now : Nat) (s : PthState) :
    (make_decision_tap cfg now s).1.press_to_press_timer_max_reached = s.press_to_press_timer_max_reached :=
  by rw [make_decision_tap]; dsimp only; split_ifs <;> simp

@[simp] theorem mdt_release_timer (cfg : PthConfig) (now : Nat) (s : PthState) :
    (make_decision_tap cfg now s).1.release_timer = s.release_timer :=
  by rw [make_decision_tap]; dsimp only; split_ifs <;> simp

@[simp] theorem mdt_release_timer_max_reached (cfg : PthConfig) (now : Nat) (s : PthState) :
    (make_decision_tap cfg now s).1.release_timer_max_reached = s.release_timer_max_reached :=
  by rw [make_decision_tap]; dsimp only; split_ifs <;> simp

@[simp] theorem mdt_prev_press_to_press_dur (cfg : PthConfig) (now : Nat) (s : PthState) :
    (make_decision_tap cfg now s).1.prev_press_to_press_dur = s.prev_press_to_press_dur :=
  by rw [make_decision_tap]; dsimp only; split_ifs <;> simp

@[simp] theorem mdt_cur_press_to_press_dur (cfg : PthConfig) (now : Nat) (s : PthState) :
    (make_decision_tap cfg now s).1.cur_press_to_press_dur = s.cur_press_to_press_dur :=
  by rw [make_decision_tap]; dsimp only; split_ifs <;> simp

@[simp] theorem mdt_prev_overlap_dur (cfg : PthConfig) (now : Nat) (s : PthState) :
    (make_decision_tap cfg now s).1.prev_overlap_dur = s.prev_overlap_dur :=
  by rw [make_decision_tap]; dsimp only; split_ifs <;> simp

@[simp] theorem mdt_cur_overlap_dur (cfg : PthConfig) (now : Nat) (s : PthState) :
    (make_decision_tap cfg now s).1.cur_overlap_dur = s.cur_overlap_dur :=
  by rw [make_decision_tap]; dsimp only; split_ifs <;> simp

@[simp] theorem mdt_is_before_second_bitmask (cfg : PthConfig) (now : Nat) (s : PthState) :
    (make_decision_tap cfg now s).1.is_before_second_bitmask = s.is_before_second_bitmask :=
  by rw [make_decision_tap]; dsimp only; split_ifs <;> simp

@[simp] theorem mdt_is_processing_record_due_to_pth (cfg : PthConfig) (now : Nat) (s : PthState) :
    (make_decision_tap cfg now s).1.is_processing_record_due_to_pth = s.is_processing_record_due_to_pth :=
  by rw [make_decision_tap]; dsimp only; split_ifs <;> simp

@[simp] theorem mdh_pth_prev_status (cfg : PthConfig) (now : Nat) (s : PthState) :
    (make_decision_hold cfg now s).1.pth_prev_status = s.pth_prev_status :=
  by rw [make_decision_hold]; dsimp only; split_ifs <;> simp

@[simp] theorem mdh_pth_keycode (cfg : PthConfig) (now : Nat) (s : PthState) :
    (make_decision_hold cfg now s).1.pth_keycode = s.pth_keycode :=
  by rw [make_decision_hold]; dsimp only; split_ifs <;> simp

@[simp] theorem mdh_pth_tap_code_instead_of_hold (cfg : PthConfig) (now : Nat) (s : PthState) :
    (make_decision_hold cfg now s).1.pth_tap_code_instead_of_hold = s.pth_tap_code_instead_of_hold :=
  by rw [make_decision_hold]; dsimp only; split_ifs <;> simp

@[simp] theorem mdh_pth_press_timer (cfg : PthConfig) (now : Nat) (s : PthState) :
    (make_decision_hold cfg now s).1.pth_press_timer = s.pth_press_timer :=
  by rw [make_decision_hold]; dsimp only; split_ifs <;> simp

@[simp] theorem mdh_pth_press_timer_max_reached (cfg : PthConfig) (now : Nat) (s : PthState) :
    (make_decision_hold cfg now s).1.pth_press_timer_max_reached = s.pth_press_timer_max_reached :=
  by rw [make_decision_hold]; dsimp only; split_ifs <;> simp

@[simp] theorem mdh_pth_atomic_side (cfg : PthConfig) (now : Nat) (s : PthState) :
    (make_decision_hold cfg now s).1.pth_atomic_side = s.pth_atomic_side :=
  by rw [make_decision_hold]; dsimp only; split_ifs <;> simp

@[simp] theorem mdh_pth_side_user_bits (cfg : PthConfig) (now : Nat) (s : PthState) :
    (make_decision_hold cfg now s).1.pth_side_user_bits = s.pth_side_user_bits :=
  by rw [make_decision_hold]; dsimp only; split_ifs <;> simp

@[simp] theorem mdh_pth_was_held_instantly (cfg : PthConfig) (now : Nat) (s : PthState) :
    (make_decision_hold cfg now s).1.pth_was_held_instantly = s.pth_was_held_instantly :=
  by rw [make_decision_hold]; dsimp only; split_ifs <;> simp

@[simp] theorem mdh_second_was_held_instantly (cfg : PthConfig) (now : Nat) (s : PthState) :
    (make_decision_hold cfg now s).1.second_was_held_instantly = s.second_was_held_instantly :=
  by rw [make_decision_hold]; dsimp only; split_ifs <;> simp

@[simp] theorem mdh_instant_layer_was_active (cfg : PthConfig) (now : Nat) (s : PthState) :
    (make_decision_hold cfg now s).1.instant_layer_was_active = s.instant_layer_was_active :=
  by rw [make_decision_hold]; dsimp only; split_ifs <;> simp

@[simp] theorem mdh_layer_before_instant_layer_tap (cfg : PthConfig) (now : Nat) (s : PthState) :
    (make_decision_hold cfg now s).1.layer_before_instant_layer_tap = s.layer_before_instant_layer_tap :=
  by rw [make_decision_hold]; dsimp only; split_ifs <;> simp

@[simp] theorem mdh_has_second (cfg : PthConfig) (now : Nat) (s : PthState) :
    (make_decision_hold cfg now s).1.has_second = s.has_second :=
  by rw [make_decision_hold]; dsimp only; split_ifs <;> simp

@[simp] theorem mdh_second_press_timer (cfg : PthConfig) (now : Nat) (s : PthState) :
    (make_decision_hold cfg now s).1.second_press_timer = s.second_press_timer :=
  by rw [make_decision_hold]; dsimp only; split_ifs <;> simp

@[simp] theorem mdh_second_press_timer_max_reached (cfg : PthConfig) (now : Nat) (s : PthState) :
    (make_decision_hold cfg now s).1.second_press_timer_max_reached = s.second_press_timer_max_reached :=
  by rw [make_decision_hold]; dsimp only; split_ifs <;> simp

@[simp] theorem mdh_second_is_same_side_as_pth (cfg : PthConfig) (now : Nat) (s : PthState) :
    (make_decision_hold cfg now s).1.second_is_same_side_as_pth = s.second_is_same_side_as_pth :=
  by rw [make_decision_hold]; dsimp only; split_ifs <;> simp

@[simp] theorem mdh_second_to_be_released (cfg : PthConfig) (now : Nat) (s : PthState) :
    (make_decision_hold cfg now s).1.second_to_be_released = s.second_to_be_released :=
  by rw [make_decision_hold]; dsimp only; split_ifs <;> simp

@[simp] theorem mdh_timeout_for_forcing_choice (cfg : PthConfig) (now : Nat) (s : PthState) :
    (make_decision_hold cfg now s).1.timeout_for_forcing_choice = s.timeout_for_forcing_choice :=
  by rw [make_decision_hold]; dsimp only; split_ifs <;> simp

@[simp] theorem mdh_has_chosen_after_timeout_reached (cfg : PthConfig) (now : Nat) (s : PthState) :
    (make_decision_hold cfg now s).1.has_chosen_after_timeout_reached = s.has_chosen_after_timeout_reached :=
  by rw [make_decision_hold]; dsimp only; split_ifs <;> simp

@[simp] theorem mdh_min_overlap_dur_for_hold (cfg : PthConfig) (now : Nat) (s : PthState) :
    (make_decision_hold cfg now s).1.min_overlap_dur_for_hold = s.min_overlap_dur_for_hold :=
  by rw [make_decision_hold]; dsimp only; split_ifs <;> simp

@[simp] theorem mdh_pth_press_to_second_press_dur (cfg : PthConfig) (now : Nat) (s : PthState) :
    (make_decision_hold cfg now s).1.pth_press_to_second_press_dur = s.pth_press_to_second_press_dur :=
  by rw [make_decision_hold]; dsimp only; split_ifs <;> simp

@[simp] theorem mdh_pth_press_to_second_release_dur (cfg : PthConfig) (now : Nat) (s : PthState) :
    (make_decision_hold cfg now s).1.pth_press_to_second_release_dur = s.pth_press_to_second_release_dur :=
  by rw [make_decision_hold]; dsimp only; split_ifs <;> simp

@[simp] theorem mdh_pth_second_dur (cfg : PthConfig) (now : Nat) (s : PthState) :
    (make_decision_hold cfg now s).1.pth_second_dur = s.pth_second_dur :=
  by rw [make_decision_hold]; dsimp only; split_ifs <;> simp

@[simp] theorem mdh_pth_second_press_to_third_press_dur (cfg : PthConfig) (now : Nat) (s : PthState) :
    (make_decision_hold cfg now s).1.pth_second_press_to_third_press_dur = s.pth_second_press_to_third_press_dur :=
  by rw [make_decision_hold]; dsimp only; split_ifs <;> simp

@[simp] theorem mdh_pth_prev_prev_press_to_prev_press_dur (cfg : PthConfig) (now : Nat) (s : PthState) :
    (make_decision_hold cfg now s).1.pth_prev_prev_press_to_prev_press_dur = s.pth_prev_prev_press_to_prev_press_dur :=
  by rw [make_decision_hold]; dsimp only; split_ifs <;> simp

@[simp] theorem mdh_pth_prev_press_to_pth_press_dur (cfg : PthConfig) (now : Nat) (s : PthState) :
    (make_decision_hold cfg now s).1.pth_prev_press_to_pth_press_dur = s.pth_prev_press_to_pth_press_dur :=
  by rw [make_decision_hold]; dsimp only; split_ifs <;> simp

@[simp] theorem mdh_pth_prev_prev_overlap_dur (cfg : PthConfig) (now : Nat) (s : PthState) :
    (make_decision_hold cfg now s).1.pth_prev_prev_overlap_dur = s.pth_prev_prev_overlap_dur :=
  by rw [make_decision_hold]; dsimp only; split_ifs <;> simp

@[simp] theorem mdh_pth_prev_overlap_dur (cfg : PthConfig) (now : Nat) (s : PthState) :
    (make_decision_hold cfg now s).1.pth_prev_overlap_dur = s.pth_prev_overlap_dur :=
  by rw [make_decision_hold]; dsimp only; split_ifs <;> simp

@[simp] theorem mdh_key_release_before_pth_to_pth_press_dur (cfg : PthConfig) (now : Nat) (s : PthState) :
    (make_decision_hold cfg now s).1.key_release_before_pth_to_pth_press_dur = s.key_release_before_pth_to_pth_press_dur :=
  by rw [make_decision_hold]; dsimp only; split_ifs <;> simp

@[simp] theorem mdh_prev_press_keycode (cfg : PthConfig) (now : Nat) (s : PthState) :
    (make_decision_hold cfg now s).1.prev_press_keycode = s.prev_press_keycode :=
  by rw [make_decision_hold]; dsimp only; split_ifs <;> simp

@[simp] theorem mdh_cur_press_keycode (cfg : PthConfig) (now : Nat) (s : PthState) :
    (make_decision_hold cfg now s).1.cur_press_keycode = s.cur_press_keycode :=
  by rw [make_decision_hold]; dsimp only; split_ifs <;> simp

@[simp] theorem mdh_down_count (cfg : PthConfig) (now : Nat) (s : PthState) :
    (make_decision_hold cfg now s).1.down_count = s.down_count :=
  by rw [make_decision_hold]; dsimp only; split_ifs <;> simp

@[simp] theorem mdh_overlap_timer (cfg : PthConfig) (now : Nat) (s : PthState) :
    (make_decision_hold cfg now s).1.overlap_timer = s.overlap_timer :=
  by rw [make_decision_hold]; dsimp only; split_ifs <;> simp

@[simp] theorem mdh_overlap_timer_max_reached (cfg : PthConfig) (now : Nat) (s : PthState) :
    (make_decision_hold cfg now s).1.overlap_timer_max_reached = s.overlap_timer_max_reached :=
  by rw [make_decision_hold]; dsimp only; split_ifs <;> simp

@[simp] theorem mdh_press_to_press_timer (cfg : PthConfig) (now : Nat) (s : PthState) :
    (make_decision_hold cfg now s).1.press_to_press_timer = s.press_to_press_timer :=
  by rw [make_decision_hold]; dsimp only; split_ifs <;> simp

@[simp] theorem mdh_press_to_press_timer_max_reached (cfg : PthConfig) (now : Nat) (s : PthState) :
    (make_decision_hold cfg now s).1.press_to_press_timer_max_reached = s.press_to_press_timer_max_reached :=
  by rw [make_decision_hold]; dsimp only; split_ifs <;> simp

@[simp] theorem mdh_release_timer (cfg : PthConfig) (now : Nat) (s : PthState) :
    (make_decision_hold cfg now s).1.release_timer = s.release_timer :=
  by rw [make_decision_hold]; dsimp only; split_ifs <;> simp

@[simp] theorem mdh_release_timer_max_reached (cfg : PthConfig) (now : Nat) (s : PthState) :
    (make_decision_hold cfg now s).1.release_timer_max_reached = s.release_timer_max_reached :=
  by rw [make_decision_hold]; dsimp only; split_ifs <;> simp

@[simp] theorem mdh_prev_press_to_press_dur (cfg : PthConfig) (now : Nat) (s : PthState) :
    (make_decision_hold cfg now s).1.prev_press_to_press_dur = s.prev_press_to_press_dur :=
  by rw [make_decision_hold]; dsimp only; split_ifs <;> simp

@[simp] theorem mdh_cur_press_to_press_dur (cfg : PthConfig) (now : Nat) (s : PthState) :
    (make_decision_hold cfg now s).1.cur_press_to_press_dur = s.cur_press_to_press_dur :=
  by rw [make_decision_hold]; dsimp only; split_ifs <;> simp

@[simp] theorem mdh_prev_overlap_dur (cfg : PthConfig) (now : Nat) (s : PthState) :
    (make_decision_hold cfg now s).1.prev_overlap_dur = s.prev_overlap_dur :=
  by rw [make_decision_hold]; dsimp only; split_ifs <;> simp

@[simp] theorem mdh_cur_overlap_dur (cfg : PthConfig) (now : Nat) (s : PthState) :
    (make_decision_hold cfg now s).1.cur_overlap_dur = s.cur_overlap_dur :=
  by rw [make_decision_hold]; dsimp only; split_ifs <;> simp

@[simp] theorem mdh_is_before_second_bitmask (cfg : PthConfig) (now : Nat) (s : PthState) :
    (make_decision_hold cfg now s).1.is_before_second_bitmask = s.is_before_second_bitmask :=
  by rw [make_decision_hold]; dsimp only; split_ifs <;> simp

@[simp] theorem mdh_is_processing_record_due_to_pth (cfg : PthConfig) (now : Nat) (s : PthState) :
    (make_decision_hold cfg now s).1.is_processing_record_due_to_pth = s.is_processing_record_due_to_pth :=
  by rw [make_decision_hold]; dsimp only; split_ifs <;> simp

@[simp] theorem muc_pth_prev_status (cfg : PthConfig) (now : Nat) (s : PthState) :
    (make_user_choice_or_not cfg now s).1.pth_prev_status = s.pth_prev_status :=
  by unfold make_user_choice_or_not; dsimp only; cases cfg.get_forced_choice_after_timeout { s with has_chosen_after_timeout_reached := true } <;> simp

@[simp] theorem muc_pth_keycode (cfg : PthConfig) (now : Nat) (s : PthState) :
    (make_user_choice_or_not cfg now s).1.pth_keycode = s.pth_keycode :=
  by unfold make_user_choice_or_not; dsimp only; cases cfg.get_forced_choice_after_timeout { s with has_chosen_after_timeout_reached := true } <;> simp

@[simp] theorem muc_pth_tap_code_instead_of_hold (cfg : PthConfig) (now : Nat) (s : PthState) :
    (make_user_choice_or_not cfg now s).1.pth_tap_code_instead_of_hold = s.pth_tap_code_instead_of_hold :=
  by unfold make_user_choice_or_not; dsimp only; cases cfg.get_forced_choice_after_timeout { s with has_chosen_after_timeout_reached := true } <;> simp

@[simp] theorem muc_pth_press_timer (cfg : PthConfig) (now : Nat) (s : PthState) :
    (make_user_choice_or_not cfg now s).1.pth_press_timer = s.pth_press_timer :=
  by unfold make_user_choice_or_not; dsimp only; cases cfg.get_forced_choice_after_timeout { s with has_chosen_after_timeout_reached := true } <;> simp

@[simp] theorem muc_pth_press_timer_max_reached (cfg : PthConfig) (now : Nat) (s : PthState) :
    (make_user_choice_or_not cfg now s).1.pth_press_timer_max_reached = s.pth_press_timer_max_reached :=
  by unfold make_user_choice_or_not; dsimp only; cases cfg.get_forced_choice_after_timeout { s with has_chosen_after_timeout_reached := true } <;> simp

@[simp] theorem muc_pth_atomic_side (cfg : PthConfig) (now : Nat) (s : PthState) :
    (make_user_choice_or_not cfg now s).1.pth_atomic_side = s.pth_atomic_side :=
  by unfold make_user_choice_or_not; dsimp only; cases cfg.get_forced_choice_after_timeout { s with has_chosen_after_timeout_reached := true } <;> simp

@[simp] theorem muc_pth_side_user_bits (cfg : PthConfig) (now : Nat) (s : PthState) :
    (make_user_choice_or_not cfg now s).1.pth_side_user_bits = s.pth_side_user_bits :=
  by unfold make_user_choice_or_not; dsimp only; cases cfg.get_forced_choice_after_timeout { s with has_chosen_after_timeout_reached := true } <;> simp

@[simp] theorem muc_pth_was_held_instantly (cfg : PthConfig) (now : Nat) (s : PthState) :
    (make_user_choice_or_not cfg now s).1.pth_was_held_instantly = s.pth_was_held_instantly :=
  by unfold make_user_choice_or_not; dsimp only; cases cfg.get_forced_choice_after_timeout { s with has_chosen_after_timeout_reached := true } <;> simp

@[simp] theorem muc_second_was_held_instantly (cfg : PthConfig) (now : Nat) (s : PthState) :
    (make_user_choice_or_not cfg now s).1.second_was_held_instantly = s.second_was_held_instantly :=
  by unfold make_user_choice_or_not; dsimp only; cases cfg.get_forced_choice_after_timeout { s with has_chosen_after_timeout_reached := true } <;> simp

@[simp] theorem muc_instant_layer_was_active (cfg : PthConfig) (now : Nat) (s : PthState) :
    (make_user_choice_or_not cfg now s).1.instant_layer_was_active = s.instant_layer_was_active :=
  by unfold make_user_choice_or_not; dsimp only; cases cfg.get_forced_choice_after_timeout { s with has_chosen_after_timeout_reached := true } <;> simp

@[simp] theorem muc_layer_before_instant_layer_tap (cfg : PthConfig) (now : Nat) (s : PthState) :
    (make_user_choice_or_not cfg now s).1.layer_before_instant_layer_tap = s.layer_before_instant_layer_tap :=
  by unfold make_user_choice_or_not; dsimp only; cases cfg.get_forced_choice_after_timeout { s with has_chosen_after_timeout_reached := true } <;> simp

@[simp] theorem muc_has_second (cfg : PthConfig) (now : Nat) (s : PthState) :
    (make_user_choice_or_not cfg now s).1.has_second = s.has_second :=
  by unfold make_user_choice_or_not; dsimp only; cases cfg.get_forced_choice_after_timeout { s with has_chosen_after_timeout_reached := true } <;> simp

@[simp] theorem muc_second_press_timer (cfg : PthConfig) (now : Nat) (s : PthState) :
    (make_user_choice_or_not cfg now s).1.second_press_timer = s.second_press_timer :=
  by unfold make_user_choice_or_not; dsimp only; cases cfg.get_forced_choice_after_timeout { s with has_chosen_after_timeout_reached := true } <;> simp

@[simp] theorem muc_second_press_timer_max_reached (cfg : PthConfig) (now : Nat) (s : PthState) :
    (make_user_choice_or_not cfg now s).1.second_press_timer_max_reached = s.second_press_timer_max_reached :=
  by unfold make_user_choice_or_not; dsimp only; cases cfg.get_forced_choice_after_timeout { s with has_chosen_after_timeout_reached := true } <;> simp

@[simp] theorem muc_second_is_same_side_as_pth (cfg : PthConfig) (now : Nat) (s : PthState) :
    (make_user_choice_or_not cfg now s).1.second_is_same_side_as_pth = s.second_is_same_side_as_pth :=
  by unfold make_user_choice_or_not; dsimp only; cases cfg.get_forced_choice_after_timeout { s with has_chosen_after_timeout_reached := true } <;> simp

@[simp] theorem muc_second_to_be_released (cfg : PthConfig) (now : Nat) (s : PthState) :
    (make_user_choice_or_not cfg now s).1.second_to_be_released = s.second_to_be_released :=
  by unfold make_user_choice_or_not; dsimp only; cases cfg.get_forced_choice_after_timeout { s with has_chosen_after_timeout_reached := true } <;> simp

@[simp] theorem muc_timeout_for_forcing_choice (cfg : PthConfig) (now : Nat) (s : PthState) :
    (make_user_choice_or_not cfg now s).1.timeout_for_forcing_choice = s.timeout_for_forcing_choice :=
  by unfold make_user_choice_or_not; dsimp only; cases cfg.get_forced_choice_after_timeout { s with has_chosen_after_timeout_reached := true } <;> simp

@[simp] theorem muc_min_overlap_dur_for_hold (cfg : PthConfig) (now : Nat) (s : PthState) :
    (make_user_choice_or_not cfg now s).1.min_overlap_dur_for_hold = s.min_overlap_dur_for_hold :=
  by unfold make_user_choice_or_not; dsimp only; cases cfg.get_forced_choice_after_timeout { s with has_chosen_after_timeout_reached := true } <;> simp

@[simp] theorem muc_pth_press_to_second_press_dur (cfg : PthConfig) (now : Nat) (s : PthState) :
    (make_user_choice_or_not cfg now s).1.pth_press_to_second_press_dur = s.pth_press_to_second_press_dur :=
  by unfold make_user_choice_or_not; dsimp only; cases cfg.get_forced_choice_after_timeout { s with has_chosen_after_timeout_reached := true } <;> simp

@[simp] theorem muc_pth_press_to_second_release_dur (cfg : PthConfig) (now : Nat) (s : PthState) :
    (make_user_choice_or_not cfg now s).1.pth_press_to_second_release_dur = s.pth_press_to_second_release_dur :=
  by unfold make_user_choice_or_not; dsimp only; cases cfg.get_forced_choice_after_timeout { s with has_chosen_after_timeout_reached := true } <;> simp

@[simp] theorem muc_pth_second_dur (cfg : PthConfig) (now : Nat) (s : PthState) :
    (make_user_choice_or_not cfg now s).1.pth_second_dur = s.pth_second_dur :=
  by unfold make_user_choice_or_not; dsimp only; cases cfg.get_forced_choice_after_timeout { s with has_chosen_after_timeout_reached := true } <;> simp

@[simp] theorem muc_pth_second_press_to_third_press_dur (cfg : PthConfig) (now : Nat) (s : PthState) :
    (make_user_choice_or_not cfg now s).1.pth_second_press_to_third_press_dur = s.pth_second_press_to_third_press_dur :=
  by unfold make_user_choice_or_not; dsimp only; cases cfg.get_forced_choice_after_timeout { s with has_chosen_after_timeout_reached := true } <;> simp

@[simp] theorem muc_pth_prev_prev_press_to_prev_press_dur (cfg : PthConfig) (now : Nat) (s : PthState) :
    (make_user_choice_or_not cfg now s).1.pth_prev_prev_press_to_prev_press_dur = s.pth_prev_prev_press_to_prev_press_dur :=
  by unfold make_user_choice_or_not; dsimp only; cases cfg.get_forced_choice_after_timeout { s with has_chosen_after_timeout_reached := true } <;> simp

@[simp] theorem muc_pth_prev_press_to_pth_press_dur (cfg : PthConfig) (now : Nat) (s : PthState) :
    (make_user_choice_or_not cfg now s).1.pth_prev_press_to_pth_press_dur = s.pth_prev_press_to_pth_press_dur :=
  by unfold make_user_choice_or_not; dsimp only; cases cfg.get_forced_choice_after_timeout { s with has_chosen_after_timeout_reached := true } <;> simp

@[simp] theorem muc_pth_prev_prev_overlap_dur (cfg : PthConfig) (now : Nat) (s : PthState) :
    (make_user_choice_or_not cfg now s).1.pth_prev_prev_overlap_dur = s.pth_prev_prev_overlap_dur :=
  by unfold make_user_choice_or_not; dsimp only; cases cfg.get_forced_choice_after_timeout { s with has_chosen_after_timeout_reached := true } <;> simp

@[simp] theorem muc_pth_prev_overlap_dur (cfg : PthConfig) (now : Nat) (s : PthState) :
    (make_user_choice_or_not cfg now s).1.pth_prev_overlap_dur = s.pth_prev_overlap_dur :=
  by unfold make_user_choice_or_not; dsimp only; cases cfg.get_forced_choice_after_timeout { s with has_chosen_after_timeout_reached := true } <;> simp

@[simp] theorem muc_key_release_before_pth_to_pth_press_dur (cfg : PthConfig) (now : Nat) (s : PthState) :
    (make_user_choice_or_not cfg now s).1.key_release_before_pth_to_pth_press_dur = s.key_release_before_pth_to_pth_press_dur :=
  by unfold make_user_choice_or_not; dsimp only; cases cfg.get_forced_choice_after_timeout { s with has_chosen_after_timeout_reached := true } <;> simp

@[simp] theorem muc_prev_press_keycode (cfg : PthConfig) (now : Nat) (s : PthState) :
    (make_user_choice_or_not cfg now s).1.prev_press_keycode = s.prev_press_keycode :=
  by unfold make_user_choice_or_not; dsimp only; cases cfg.get_forced_choice_after_timeout { s with has_chosen_after_timeout_reached := true } <;> simp

@[simp] theorem muc_cur_press_keycode (cfg : PthConfig) (now : Nat) (s : PthState) :
    (make_user_choice_or_not cfg now s).1.cur_press_keycode = s.cur_press_keycode :=
  by unfold make_user_choice_or_not; dsimp only; cases cfg.get_forced_choice_after_timeout { s with has_chosen_after_timeout_reached := true } <;> simp

@[simp] theorem muc_down_count (cfg : PthConfig) (now : Nat) (s : PthState) :
    (make_user_choice_or_not cfg now s).1.down_count = s.down_count :=
  by unfold make_user_choice_or_not; dsimp only; cases cfg.get_forced_choice_after_timeout { s with has_chosen_after_timeout_reached := true } <;> simp

@[simp] theorem muc_overlap_timer (cfg : PthConfig) (now : Nat) (s : PthState) :
    (make_user_choice_or_not cfg now s).1.overlap_timer = s.overlap_timer :=
  by unfold make_user_choice_or_not; dsimp only; cases cfg.get_forced_choice_after_timeout { s with has_chosen_after_timeout_reached := true } <;> simp

@[simp] theorem muc_overlap_timer_max_reached (cfg : PthConfig) (now : Nat) (s : PthState) :
    (make_user_choice_or_not cfg now s).1.overlap_timer_max_reached = s.overlap_timer_max_reached :=
  by unfold make_user_choice_or_not; dsimp only; cases cfg.get_forced_choice_after_timeout { s with has_chosen_after_timeout_reached := true } <;> simp

@[simp] theorem muc_press_to_press_timer (cfg : PthConfig) (now : Nat) (s : PthState) :
    (make_user_choice_or_not cfg now s).1.press_to_press_timer = s.press_to_press_timer :=
  by unfold make_user_choice_or_not; dsimp only; cases cfg.get_forced_choice_after_timeout { s with has_chosen_after_timeout_reached := true } <;> simp

@[simp] theorem muc_press_to_press_timer_max_reached (cfg : PthConfig) (now : Nat) (s : PthState) :
    (make_user_choice_or_not cfg now s).1.press_to_press_timer_max_reached = s.press_to_press_timer_max_reached :=
  by unfold make_user_choice_or_not; dsimp only; cases cfg.get_forced_choice_after_timeout { s with has_chosen_after_timeout_reached := true } <;> simp

@[simp] theorem muc_release_timer (cfg : PthConfig) (now : Nat) (s : PthState) :
    (make_user_choice_or_not cfg now s).1.release_timer = s.release_timer :=
  by unfold make_user_choice_or_not; dsimp only; cases cfg.get_forced_choice_after_timeout { s with has_chosen_after_timeout_reached := true } <;> simp

@[simp] theorem muc_release_timer_max_reached (cfg : PthConfig) (now : Nat) (s : PthState) :
    (make_user_choice_or_not cfg now s).1.release_timer_max_reached = s.release_timer_max_reached :=
  by unfold make_user_choice_or_not; dsimp only; cases cfg.get_forced_choice_after_timeout { s with has_chosen_after_timeout_reached := true } <;> simp

@[simp] theorem muc_prev_press_to_press_dur (cfg : PthConfig) (now : Nat) (s : PthState) :
    (make_user_choice_or_not cfg now s).1.prev_press_to_press_dur = s.prev_press_to_press_dur :=
  by unfold make_user_choice_or_not; dsimp only; cases cfg.get_forced_choice_after_timeout { s with has_chosen_after_timeout_reached := true } <;> simp

@[simp] theorem muc_cur_press_to_press_dur (cfg : PthConfig) (now : Nat) (s : PthState) :
    (make_user_choice_or_not cfg now s).1.cur_press_to_press_dur = s.cur_press_to_press_dur :=
  by unfold make_user_choice_or_not; dsimp only; cases cfg.get_forced_choice_after_timeout { s with has_chosen_after_timeout_reached := true } <;> simp

@[simp] theorem muc_prev_overlap_dur (cfg : PthConfig) (now : Nat) (s : PthState) :
    (make_user_choice_or_not cfg now s).1.prev_overlap_dur = s.prev_overlap_dur :=
  by unfold make_user_choice_or_not; dsimp only; cases cfg.get_forced_choice_after_timeout { s with has_chosen_after_timeout_reached := true } <;> simp

@[simp] theorem muc_cur_overlap_dur (cfg : PthConfig) (now : Nat) (s : PthState) :
    (make_user_choice_or_not cfg now s).1.cur_overlap_dur = s.cur_overlap_dur :=
  by unfold make_user_choice_or_not; dsimp only; cases cfg.get_forced_choice_after_timeout { s with has_chosen_after_timeout_reached := true } <;> simp

@[simp] theorem muc_is_before_second_bitmask (cfg : PthConfig) (now : Nat) (s : PthState) :
    (make_user_choice_or_not cfg now s).1.is_before_second_bitmask = s.is_before_second_bitmask :=
  by unfold make_user_choice_or_not; dsimp only; cases cfg.get_forced_choice_after_timeout { s with has_chosen_after_timeout_reached := true } <;> simp

@[simp] theorem muc_is_processing_record_due_to_pth (cfg : PthConfig) (now : Nat) (s : PthState) :
    (make_user_choice_or_not cfg now s).1.is_processing_record_due_to_pth = s.is_processing_record_due_to_pth :=
  by unfold make_user_choice_or_not; dsimp only; cases cfg.get_forced_choice_after_timeout { s with has_chosen_after_timeout_reached := true } <;> simp

end PTH
namespace PTH

-- Key-position preservation through the decision stages -------------------------

@[simp] theorem mui_pth_key (cfg : PthConfig) (now : Nat) (s : PthState) :
    (mdt_undo_instant cfg now s).1.pth_record.event.key = s.pth_record.event.key := by
  unfold mdt_undo_instant; dsimp only; split_ifs <;> simp

@[simp] theorem mui_second_key (cfg : PthConfig) (now : Nat) (s : PthState) :
    (mdt_undo_instant cfg now s).1.second_record.event.key = s.second_record.event.key := by
  unfold mdt_undo_instant; dsimp only; split_ifs <;> simp

@[simp] theorem mas_second_key (s : PthState) :
    (mdt_adjust_second s).second_record.event.key = s.second_record.event.key := by
  unfold mdt_adjust_second; dsimp only; split_ifs <;> simp

@[simp] theorem msp_second_key (now : Nat) (s : PthState) :
    (mdt_second_part now s).1.second_record.event.key = s.second_record.event.key := by
  unfold mdt_second_part; dsimp only; split_ifs <;> simp

@[simp] theorem mha_second_key (cfg : PthConfig) (s : PthState) :
    (mdh_adjust_second cfg s).second_record.event.key = s.second_record.event.key := by
  unfold mdh_adjust_second; dsimp only; split_ifs <;> simp

@[simp] theorem mhp_second_key (cfg : PthConfig) (now : Nat) (s : PthState) :
    (mdh_second_part cfg now s).1.second_record.event.key = s.second_record.event.key := by
  unfold mdh_second_part; dsimp only; split_ifs <;> simp

@[simp] theorem mdt_pth_key (cfg : PthConfig) (now : Nat) (s : PthState) :
    (make_decision_tap cfg now s).1.pth_record.event.key = s.pth_record.event.key := by
  rw [make_decision_tap]; dsimp only; split_ifs <;> simp

@[simp] theorem mdt_second_key (cfg : PthConfig) (now : Nat) (s : PthState) :
    (make_decision_tap cfg now s).1.second_record.event.key = s.second_record.event.key := by
  rw [make_decision_tap]; dsimp only; split_ifs <;> simp

@[simp] theorem mdh_pth_key (cfg : PthConfig) (now : Nat) (s : PthState) :
    (make_decision_hold cfg now s).1.pth_record.event.key = s.pth_record.event.key := by
  rw [make_decision_hold]; dsimp only; split_ifs <;> (try simp)
  · obtain ⟨pr, k, th, h, hk⟩ := rph_shape cfg now { s with pth_status := PthStatus.decidedHold }
    simp [h, hk]
  · obtain ⟨pr, k, th, h, hk⟩ := rph_shape cfg now { s with pth_status := PthStatus.decidedHold }
    simp [h, hk]

@[simp] theorem mdh_second_key (cfg : PthConfig) (now : Nat) (s : PthState) :
    (make_decision_hold cfg now s).1.second_record.event.key = s.second_record.event.key := by
  rw [make_decision_hold]; dsimp only; split_ifs <;> (try simp)

@[simp] theorem muc_pth_key (cfg : PthConfig) (now : Nat) (s : PthState) :
    (make_user_choice_or_not cfg now s).1.pth_record.event.key = s.pth_record.event.key := by
  unfold make_user_choice_or_not; dsimp only
  cases cfg.get_forced_choice_after_timeout
    { s with has_chosen_after_timeout_reached := true } <;> simp

@[simp] theorem muc_second_key (cfg : PthConfig) (now : Nat) (s : PthState) :
    (make_user_choice_or_not cfg now s).1.second_record.event.key = s.second_record.event.key := by
  unfold make_user_choice_or_not; dsimp only
  cases cfg.get_forced_choice_after_timeout
    { s with has_chosen_after_timeout_reached := true } <;> simp

-- Status characterization of the decision functions -----------------------------

theorem mdt_status (cfg : PthConfig) (now : Nat) (s : PthState) :
    (make_decision_tap cfg now s).1.pth_status =
      if statusVal s.pth_status ≥ statusVal .decidedTap then s.pth_status
      else .decidedTap := by
  rw [make_decision_tap]; dsimp only; split_ifs <;> simp

theorem mdh_status (cfg : PthConfig) (now : Nat) (s : PthState) :
    (make_decision_hold cfg now s).1.pth_status =
      if statusVal s.pth_status ≥ statusVal .decidedTap then s.pth_status
      else .decidedHold := by
  rw [make_decision_hold]; dsimp only; split_ifs <;> simp

theorem muc_status (cfg : PthConfig) (now : Nat) (s : PthState) :
    (make_user_choice_or_not cfg now s).1.pth_status = s.pth_status ∨
    (make_user_choice_or_not cfg now s).1.pth_status = .decidedTap ∨
    (make_user_choice_or_not cfg now s).1.pth_status = .decidedHold := by
  unfold make_user_choice_or_not; dsimp only
  cases cfg.get_forced_choice_after_timeout
      { s with has_chosen_after_timeout_reached := true } <;>
    simp only [mdt_status, mdh_status] <;> first | tauto | (split_ifs <;> tauto)

end PTH
namespace PTH

-- Claim C4 ---------------------------------------------------------------------

/-- C4: for every pair of 2-bit atoms (with Left=00, Right=01, Opposite=10,
Same=11), the 16-entry truth table `is_same_side_as_pth` returns exactly what
the spec rules prescribe: different when other=Opposite; same when
other=Same; otherwise different when pth=Opposite; otherwise same when
pth=Same; otherwise same exactly when the two absolute atoms are equal. -/
theorem side_table_matches_spec_rules :
    ∀ pth_atom other_atom : Nat, pth_atom < 4 → other_atom < 4 →
      is_same_side_as_pth pth_atom other_atom = is_same_side_spec_rules pth_atom other_atom := by
  intro p o hp ho
  interval_cases p <;> interval_cases o <;> decide

/-- Witness for C4 at the concrete pair (Opposite, Right). -/
theorem side_table_matches_spec_rules_witness :
    PTH_ATOM_OPPOSITE < 4 ∧ PTH_ATOM_RIGHT < 4 ∧
      is_same_side_as_pth PTH_ATOM_OPPOSITE PTH_ATOM_RIGHT =
        is_same_side_spec_rules PTH_ATOM_OPPOSITE PTH_ATOM_RIGHT :=
  ⟨by decide, by decide,
   side_table_matches_spec_rules PTH_ATOM_OPPOSITE PTH_ATOM_RIGHT (by decide) (by decide)⟩

-- Claim C9 ---------------------------------------------------------------------

/-- C9 counterexample: right Alt (`MOD_BIT_RALT`) is a modifier other than
Shift, yet with it as the only active modifier the default
`pth_is_fast_streak_tap_key` still returns true for `KC_A` — the guard only
checks Ctrl, GUI and left Alt. -/
theorem fast_streak_ralt_counterexample :
    pth_is_fast_streak_tap_key MOD_BIT_RALT KC_A = true ∧
      MOD_BIT_RALT &&& MOD_MASK_SHIFT = 0 ∧ MOD_BIT_RALT ≠ 0 := by decide

/-- C9 (amended): with `PTH_FAST_STREAK_TAP_ENABLE`, the default
`pth_is_fast_streak_tap_key` returns false for every keycode whenever a
modifier other than Shift or right Alt is active (the guard mask
`MOD_MASK_CG | MOD_BIT_LALT` is exactly the complement of Shift and right
Alt in the 8-bit modifier byte). -/
theorem fast_streak_needs_shift_or_ralt_only :
    ∀ mods keycode : Nat,
      mods &&& compl8 (MOD_MASK_SHIFT ||| MOD_BIT_RALT) ≠ 0 →
      pth_is_fast_streak_tap_key mods keycode = false := by
  intro mods kc h
  unfold pth_is_fast_streak_tap_key
  rw [(by decide :
    MOD_MASK_CG ||| MOD_BIT_LALT = compl8 (MOD_MASK_SHIFT ||| MOD_BIT_RALT))]
  exact if_pos h

/-- Witness for C9 at left GUI held together with `KC_A`. -/
theorem fast_streak_needs_shift_or_ralt_only_witness :
    (0x08 : Nat) &&& compl8 (MOD_MASK_SHIFT ||| MOD_BIT_RALT) ≠ 0 ∧
      pth_is_fast_streak_tap_key 0x08 KC_A = false :=
  ⟨by decide, fast_streak_needs_shift_or_ralt_only 0x08 KC_A (by decide)⟩

-- Claim C2 ---------------------------------------------------------------------

/-- C2 (code bug): when every release-cache slot is used,
`add_release_record` does process the event immediately (the direct
`process_record(record)` call, recorded as the emission), but the missing
early return then lets it run into `__builtin_ctz(0)` — undefined — and
mutate the cache slot and bitmasks; the embedding maps that continuation to
`none`. -/
theorem add_release_record_full_cache :
    ∀ (s : PthState) (record : KeyRecord) (rt : ReleaseTime),
      s.used_release_records_bitmask = 0xFF →
      add_release_record s record rt = ([Emission.record record], none) := by
  intro s record rt h
  unfold add_release_record
  dsimp only
  rw [h]
  rw [if_pos (by decide : compl8 0xFF = 0)]

/-- Witness for C2 at a concrete full cache. -/
theorem add_release_record_full_cache_witness :
    ({ initState 0 with used_release_records_bitmask := 0xFF } :
        PthState).used_release_records_bitmask = 0xFF ∧
      add_release_record { initState 0 with used_release_records_bitmask := 0xFF }
          emptyRecord .beforeSecond = ([Emission.record emptyRecord], none) :=
  ⟨rfl, add_release_record_full_cache _ emptyRecord .beforeSecond rfl⟩

-- Claim C8 ---------------------------------------------------------------------

/-- C8: whenever the reentrancy flag `is_processing_record_due_to_pth` is
set, `process_record_predictive_tap_hold` returns true and leaves the whole
state unchanged, emitting nothing. -/
theorem reentrant_event_passes_through_unchanged :
    ∀ (cfg : PthConfig) (s : PthState) (now kc : Nat) (record : KeyRecord),
      s.is_processing_record_due_to_pth = true →
      process_record_pth cfg s now kc record = some (true, s, []) := by
  intro cfg s now kc record h
  unfold process_record_pth
  rw [if_pos (by simp [h])]

/-- Witness for C8 at a concrete state with the flag set. -/
theorem reentrant_event_passes_through_unchanged_witness :
    ({ initState 0 with is_processing_record_due_to_pth := true } :
        PthState).is_processing_record_due_to_pth = true ∧
      process_record_pth testCfg
          { initState 0 with is_processing_record_due_to_pth := true } 5 KC_A
          (pressRec posL 5) =
        some (true, { initState 0 with is_processing_record_due_to_pth := true }, []) :=
  ⟨rfl, reentrant_event_passes_through_unchanged testCfg _ 5 KC_A (pressRec posL 5) rfl⟩

end PTH
namespace PTH

@[simp] theorem hkg_pth_status (s : PthState) (t : Nat) :
    (hk_update_global_flags s t).pth_status = s.pth_status :=
  by unfold hk_update_global_flags; dsimp only; split_ifs <;> rfl

@[simp] theorem hkg_pth_prev_status (s : PthState) (t : Nat) :
    (hk_update_global_flags s t).pth_prev_status = s.pth_prev_status :=
  by unfold hk_update_global_flags; dsimp only; split_ifs <;> rfl

@[simp] theorem hkg_pth_keycode (s : PthState) (t : Nat) :
    (hk_update_global_flags s t).pth_keycode = s.pth_keycode :=
  by unfold hk_update_global_flags; dsimp only; split_ifs <;> rfl

@[simp] theorem hkg_pth_tap_code_instead_of_hold (s : PthState) (t : Nat) :
    (hk_update_global_flags s t).pth_tap_code_instead_of_hold = s.pth_tap_code_instead_of_hold :=
  by unfold hk_update_global_flags; dsimp only; split_ifs <;> rfl

@[simp] theorem hkg_pth_record (s : PthState) (t : Nat) :
    (hk_update_global_flags s t).pth_record = s.pth_record :=
  by unfold hk_update_global_flags; dsimp only; split_ifs <;> rfl

@[simp] theorem hkg_pth_press_timer (s : PthState) (t : Nat) :
    (hk_update_global_flags s t).pth_press_timer = s.pth_press_timer :=
  by unfold hk_update_global_flags; dsimp only; split_ifs <;> rfl

@[simp] theorem hkg_pth_press_timer_max_reached (s : PthState) (t : Nat) :
    (hk_update_global_flags s t).pth_press_timer_max_reached = s.pth_press_timer_max_reached :=
  by unfold hk_update_global_flags; dsimp only; split_ifs <;> rfl

@[simp] theorem hkg_pth_atomic_side (s : PthState) (t : Nat) :
    (hk_update_global_flags s t).pth_atomic_side = s.pth_atomic_side :=
  by unfold hk_update_global_flags; dsimp only; split_ifs <;> rfl

@[simp] theorem hkg_pth_side_user_bits (s : PthState) (t : Nat) :
    (hk_update_global_flags s t).pth_side_user_bits = s.pth_side_user_bits :=
  by unfold hk_update_global_flags; dsimp only; split_ifs <;> rfl

@[simp] theorem hkg_pth_was_held_instantly (s : PthState) (t : Nat) :
    (hk_update_global_flags s t).pth_was_held_instantly = s.pth_was_held_instantly :=
  by unfold hk_update_global_flags; dsimp only; split_ifs <;> rfl

@[simp] theorem hkg_second_was_held_instantly (s : PthState) (t : Nat) :
    (hk_update_global_flags s t).second_was_held_instantly = s.second_was_held_instantly :=
  by unfold hk_update_global_flags; dsimp only; split_ifs <;> rfl

@[simp] theorem hkg_instant_layer_was_active (s : PthState) (t : Nat) :
    (hk_update_global_flags s t).instant_layer_was_active = s.instant_layer_was_active :=
  by unfold hk_update_global_flags; dsimp only; split_ifs <;> rfl

@[simp] theorem hkg_layer_before_instant_layer_tap (s : PthState) (t : Nat) :
    (hk_update_global_flags s t).layer_before_instant_layer_tap = s.layer_before_instant_layer_tap :=
  by unfold hk_update_global_flags; dsimp only; split_ifs <;> rfl

@[simp] theorem hkg_has_second (s : PthState) (t : Nat) :
    (hk_update_global_flags s t).has_second = s.has_second :=
  by unfold hk_update_global_flags; dsimp only; split_ifs <;> rfl

@[simp] theorem hkg_second_record (s : PthState) (t : Nat) :
    (hk_update_global_flags s t).second_record = s.second_record :=
  by unfold hk_update_global_flags; dsimp only; split_ifs <;> rfl

@[simp] theorem hkg_second_keycode (s : PthState) (t : Nat) :
    (hk_update_global_flags s t).second_keycode = s.second_keycode :=
  by unfold hk_update_global_flags; dsimp only; split_ifs <;> rfl

@[simp] theorem hkg_second_press_timer (s : PthState) (t : Nat) :
    (hk_update_global_flags s t).second_press_timer = s.second_press_timer :=
  by unfold hk_update_global_flags; dsimp only; split_ifs <;> rfl

@[simp] theorem hkg_second_press_timer_max_reached (s : PthState) (t : Nat) :
    (hk_update_global_flags s t).second_press_timer_max_reached = s.second_press_timer_max_reached :=
  by unfold hk_update_global_flags; dsimp only; split_ifs <;> rfl

@[simp] theorem hkg_second_is_tap_hold (s : PthState) (t : Nat) :
    (hk_update_global_flags s t).second_is_tap_hold = s.second_is_tap_hold :=
  by unfold hk_update_global_flags; dsimp only; split_ifs <;> rfl

@[simp] theorem hkg_second_is_same_side_as_pth (s : PthState) (t : Nat) :
    (hk_update_global_flags s t).second_is_same_side_as_pth = s.second_is_same_side_as_pth :=
  by unfold hk_update_global_flags; dsimp only; split_ifs <;> rfl

@[simp] theorem hkg_second_to_be_released (s : PthState) (t : Nat) :
    (hk_update_global_flags s t).second_to_be_released = s.second_to_be_released :=
  by unfold hk_update_global_flags; dsimp only; split_ifs <;> rfl

@[simp] theorem hkg_timeout_for_forcing_choice (s : PthState) (t : Nat) :
    (hk_update_global_flags s t).timeout_for_forcing_choice = s.timeout_for_forcing_choice :=
  by unfold hk_update_global_flags; dsimp only; split_ifs <;> rfl

@[simp] theorem hkg_has_chosen_after_timeout_reached (s : PthState) (t : Nat) :
    (hk_update_global_flags s t).has_chosen_after_timeout_reached = s.has_chosen_after_timeout_reached :=
  by unfold hk_update_global_flags; dsimp only; split_ifs <;> rfl

@[simp] theorem hkg_min_overlap_dur_for_hold (s : PthState) (t : Nat) :
    (hk_update_global_flags s t).min_overlap_dur_for_hold = s.min_overlap_dur_for_hold :=
  by unfold hk_update_global_flags; dsimp only; split_ifs <;> rfl

@[simp] theorem hkg_pth_press_to_second_press_dur (s : PthState) (t : Nat) :
    (hk_update_global_flags s t).pth_press_to_second_press_dur = s.pth_press_to_second_press_dur :=
  by unfold hk_update_global_flags; dsimp only; split_ifs <;> rfl

@[simp] theorem hkg_pth_press_to_second_release_dur (s : PthState) (t : Nat) :
    (hk_update_global_flags s t).pth_press_to_second_release_dur = s.pth_press_to_second_release_dur :=
  by unfold hk_update_global_flags; dsimp only; split_ifs <;> rfl

@[simp] theorem hkg_pth_second_dur (s : PthState) (t : Nat) :
    (hk_update_global_flags s t).pth_second_dur = s.pth_second_dur :=
  by unfold hk_update_global_flags; dsimp only; split_ifs <;> rfl

@[simp] theorem hkg_pth_second_press_to_third_press_dur (s : PthState) (t : Nat) :
    (hk_update_global_flags s t).pth_second_press_to_third_press_dur = s.pth_second_press_to_third_press_dur :=
  by unfold hk_update_global_flags; dsimp only; split_ifs <;> rfl

@[simp] theorem hkg_pth_prev_prev_press_to_prev_press_dur (s : PthState) (t : Nat) :
    (hk_update_global_flags s t).pth_prev_prev_press_to_prev_press_dur = s.pth_prev_prev_press_to_prev_press_dur :=
  by unfold hk_update_global_flags; dsimp only; split_ifs <;> rfl

@[simp] theorem hkg_pth_prev_press_to_pth_press_dur (s : PthState) (t : Nat) :
    (hk_update_global_flags s t).pth_prev_press_to_pth_press_dur = s.pth_prev_press_to_pth_press_dur :=
  by unfold hk_update_global_flags; dsimp only; split_ifs <;> rfl

@[simp] theorem hkg_pth_prev_prev_overlap_dur (s : PthState) (t : Nat) :
    (hk_update_global_flags s t).pth_prev_prev_overlap_dur = s.pth_prev_prev_overlap_dur :=
  by unfold hk_update_global_flags; dsimp only; split_ifs <;> rfl

@[simp] theorem hkg_pth_prev_overlap_dur (s : PthState) (t : Nat) :
    (hk_update_global_flags s t).pth_prev_overlap_dur = s.pth_prev_overlap_dur :=
  by unfold hk_update_global_flags; dsimp only; split_ifs <;> rfl

@[simp] theorem hkg_key_release_before_pth_to_pth_press_dur (s : PthState) (t : Nat) :
    (hk_update_global_flags s t).key_release_before_pth_to_pth_press_dur = s.key_release_before_pth_to_pth_press_dur :=
  by unfold hk_update_global_flags; dsimp only; split_ifs <;> rfl

@[simp] theorem hkg_prev_press_keycode (s : PthState) (t : Nat) :
    (hk_update_global_flags s t).prev_press_keycode = s.prev_press_keycode :=
  by unfold hk_update_global_flags; dsimp only; split_ifs <;> rfl

@[simp] theorem hkg_cur_press_keycode (s : PthState) (t : Nat) :
    (hk_update_global_flags s t).cur_press_keycode = s.cur_press_keycode :=
  by unfold hk_update_global_flags; dsimp only; split_ifs <;> rfl

@[simp] theorem hkg_down_count (s : PthState) (t : Nat) :
    (hk_update_global_flags s t).down_count = s.down_count :=
  by unfold hk_update_global_flags; dsimp only; split_ifs <;> rfl

@[simp] theorem hkg_overlap_timer (s : PthState) (t : Nat) :
    (hk_update_global_flags s t).overlap_timer = s.overlap_timer :=
  by unfold hk_update_global_flags; dsimp only; split_ifs <;> rfl

@[simp] theorem hkg_press_to_press_timer (s : PthState) (t : Nat) :
    (hk_update_global_flags s t).press_to_press_timer = s.press_to_press_timer :=
  by unfold hk_update_global_flags; dsimp only; split_ifs <;> rfl

@[simp] theorem hkg_release_timer (s : PthState) (t : Nat) :
    (hk_update_global_flags s t).release_timer = s.release_timer :=
  by unfold hk_update_global_flags; dsimp only; split_ifs <;> rfl

@[simp] theorem hkg_prev_press_to_press_dur (s : PthState) (t : Nat) :
    (hk_update_global_flags s t).prev_press_to_press_dur = s.prev_press_to_press_dur :=
  by unfold hk_update_global_flags; dsimp only; split_ifs <;> rfl

@[simp] theorem hkg_cur_press_to_press_dur (s : PthState) (t : Nat) :
    (hk_update_global_flags s t).cur_press_to_press_dur = s.cur_press_to_press_dur :=
  by unfold hk_update_global_flags; dsimp only; split_ifs <;> rfl

@[simp] theorem hkg_prev_overlap_dur (s : PthState) (t : Nat) :
    (hk_update_global_flags s t).prev_overlap_dur = s.prev_overlap_dur :=
  by unfold hk_update_global_flags; dsimp only; split_ifs <;> rfl

@[simp] theorem hkg_cur_overlap_dur (s : PthState) (t : Nat) :
    (hk_update_global_flags s t).cur_overlap_dur = s.cur_overlap_dur :=
  by unfold hk_update_global_flags; dsimp only; split_ifs <;> rfl

@[simp] theorem hkg_release_as_tap_positions (s : PthState) (t : Nat) :
    (hk_update_global_flags s t).release_as_tap_positions = s.release_as_tap_positions :=
  by unfold hk_update_global_flags; dsimp only; split_ifs <;> rfl

@[simp] theorem hkg_used_release_as_tap_positions_bitmask (s : PthState) (t : Nat) :
    (hk_update_global_flags s t).used_release_as_tap_positions_bitmask = s.used_release_as_tap_positions_bitmask :=
  by unfold hk_update_global_flags; dsimp only; split_ifs <;> rfl

@[simp] theorem hkg_release_records (s : PthState) (t : Nat) :
    (hk_update_global_flags s t).release_records = s.release_records :=
  by unfold hk_update_global_flags; dsimp only; split_ifs <;> rfl

@[simp] theorem hkg_is_before_second_bitmask (s : PthState) (t : Nat) :
    (hk_update_global_flags s t).is_before_second_bitmask = s.is_before_second_bitmask :=
  by unfold hk_update_global_flags; dsimp only; split_ifs <;> rfl

@[simp] theorem hkg_used_release_records_bitmask (s : PthState) (t : Nat) :
    (hk_update_global_flags s t).used_release_records_bitmask = s.used_release_records_bitmask :=
  by unfold hk_update_global_flags; dsimp only; split_ifs <;> rfl

@[simp] theorem hkg_is_processing_record_due_to_pth (s : PthState) (t : Nat) :
    (hk_update_global_flags s t).is_processing_record_due_to_pth = s.is_processing_record_due_to_pth :=
  by unfold hk_update_global_flags; dsimp only; split_ifs <;> rfl

-- Helpers for the decided statuses ----------------------------------------------

theorem statusVal_ge_three (st : PthStatus) (h : statusVal st ≥ statusVal .decidedTap) :
    st = .decidedTap ∨ st = .decidedHold := by
  cases st <;> simp_all [statusVal]

theorem hk_status_decided (cfg : PthConfig) (s : PthState) (now : Nat)
    (h : statusVal s.pth_status ≥ statusVal .decidedTap) :
    (housekeeping_task cfg s now).1.pth_status = s.pth_status := by
  unfold housekeeping_task
  dsimp only
  rw [if_pos (Or.inr (by rw [hkg_pth_status]; exact h))]
  exact hkg_pth_status s (now % 65536)

theorem dispatch_status_decided (cfg : PthConfig) (now kc : Nat) (record : KeyRecord)
    (th : Bool) (s : PthState) (b : Bool) (s2 : PthState) (ems : List Emission)
    (hst : s.pth_status = .decidedTap ∨ s.pth_status = .decidedHold)
    (h : dispatch_switch cfg now kc record th s = some (b, s2, ems)) :
    s2.pth_status = s.pth_status ∨ s2.pth_status = .idle := by
  rcases hst with hs | hs
  · rw [dispatch_switch, hs] at h
    unfold handle_decided_tap at h
    dsimp only at h
    split_ifs at h <;>
      simp_all [reset_pth_state] <;> simp [← h.2.1, hs]
  · rw [dispatch_switch, hs] at h
    unfold handle_decided_hold at h
    dsimp only at h
    obtain ⟨pr, hu, hk⟩ := uph_shape now s
    split_ifs at h <;>
      simp_all [reset_pth_state] <;> simp [← h.2.1, hs]

theorem prp_status_decided (cfg : PthConfig) (s : PthState) (now kc : Nat)
    (record : KeyRecord) (b : Bool) (s2 : PthState) (ems : List Emission)
    (hst : s.pth_status = .decidedTap ∨ s.pth_status = .decidedHold)
    (h : process_record_pth cfg s now kc record = some (b, s2, ems)) :
    s2.pth_status = s.pth_status ∨ s2.pth_status = .idle := by
  unfold process_record_pth at h
  by_cases hg : s.is_processing_record_due_to_pth = true ∨ record.event.isKey = false
  · rw [if_pos (by rcases hg with hg | hg <;> simp [hg])] at h
    simp only [Option.some.injEq, Prod.mk.injEq] at h
    left
    rw [← h.2.1]
  · rw [if_neg (by rcases Bool.eq_false_or_eq_true record.event.isKey with hk | hk <;>
        rcases Bool.eq_false_or_eq_true s.is_processing_record_due_to_pth with hp | hp <;>
        simp_all)] at h
    dsimp only at h
    have hcol : ∀ bb t, (collect_new_press_to_press_and_overlap_duration s bb t).pth_status
        = s.pth_status := by intro bb t; simp
    by_cases hp : record.event.pressed = true
    · rw [if_pos hp] at h
      have := dispatch_status_decided cfg (now % 65536) kc record
        (pth_is_tap_hold_keycode kc) _ b s2 ems (by simp_all) h
      simp_all
    · rw [if_neg hp] at h
      rcases hrm : remove_pos_from_tap_releases
          (collect_new_press_to_press_and_overlap_duration s record.event.pressed
            (now % 65536)) record.event.key with _ | s3
      · rw [hrm] at h
        dsimp only at h
        have := dispatch_status_decided cfg (now % 65536) kc record
          (pth_is_tap_hold_keycode kc) _ b s2 ems (by simp_all) h
        simp_all
      · rw [hrm] at h
        dsimp only at h
        obtain ⟨u, hs3⟩ := rpt_shape _ _ _ hrm
        have hs3st : s3.pth_status = s.pth_status := by rw [hs3]; simp
        by_cases hd : s3.pth_status = PthStatus.pressed ∨ s3.pth_status = PthStatus.secondPressed
        · rcases hst with hq | hq <;> simp_all
        · rw [if_neg hd] at h
          simp only [Option.some.injEq, Prod.mk.injEq] at h
          left
          rw [← h.2.1, hs3st]

/-- C10: once a decision has been made (status `DECIDED_TAP` or
`DECIDED_HOLD`), `make_decision_tap` and `make_decision_hold` return without
changing anything or emitting anything, and no dispatcher or housekeeping
step can move the status anywhere except back to `IDLE` (which only the
reset does) — a made decision is never flipped. -/
theorem decided_status_is_sticky :
    ∀ (cfg : PthConfig) (now : Nat) (s : PthState),
      (s.pth_status = .decidedTap ∨ s.pth_status = .decidedHold) →
      make_decision_tap cfg now s = (s, []) ∧
      make_decision_hold cfg now s = (s, []) ∧
      ∀ (input : PthInput) (s2 : PthState) (ems : List Emission),
        stepOpt cfg s input = some (s2, ems) →
        s2.pth_status = s.pth_status ∨ s2.pth_status = .idle := by
  intro cfg now s h
  have hv : statusVal s.pth_status ≥ statusVal .decidedTap := by
    rcases h with h | h <;> simp [h, statusVal]
  refine ⟨by rw [make_decision_tap, if_pos hv], by rw [make_decision_hold, if_pos hv], ?_⟩
  intro input s2 ems hstep
  cases input with
  | key t kc record =>
    unfold stepOpt at hstep
    dsimp only at hstep
    rcases hpr : process_record_pth cfg s t kc record with _ | ⟨b, s3, ems3⟩
    · rw [hpr] at hstep; simp at hstep
    · rw [hpr] at hstep
      simp only [Option.some.injEq, Prod.mk.injEq] at hstep
      rw [← hstep.1]
      exact prp_status_decided cfg s t kc record b s3 ems3 h hpr
  | tick t =>
    unfold stepOpt at hstep
    dsimp only at hstep
    simp only [Option.some.injEq] at hstep
    have h1 : s2 = (housekeeping_task cfg s t).1 := by rw [hstep]
    rw [h1]
    exact Or.inl (hk_status_decided cfg s t hv)

/-- Witness for C10 at a concrete decided state. -/
theorem decided_status_is_sticky_witness :
    (({ initState 0 with pth_status := PthStatus.decidedHold } : PthState).pth_status
        = PthStatus.decidedTap ∨
      ({ initState 0 with pth_status := PthStatus.decidedHold } : PthState).pth_status
        = PthStatus.decidedHold) ∧
    make_decision_tap testCfg 9 { initState 0 with pth_status := PthStatus.decidedHold } =
      ({ initState 0 with pth_status := PthStatus.decidedHold }, []) :=
  ⟨Or.inr rfl,
   (decided_status_is_sticky testCfg 9
      { initState 0 with pth_status := PthStatus.decidedHold } (Or.inr rfl)).1⟩

end PTH
namespace PTH

@[simp] theorem ips_pth_prev_status (cfg : PthConfig) (now kc : Nat) (record : KeyRecord) (s : PthState) :
    (idle_press_state cfg now kc record s).pth_prev_status = s.pth_prev_status :=
  by unfold idle_press_state; dsimp only; split_ifs <;> simp

@[simp] theorem ips_pth_press_timer_max_reached (cfg : PthConfig) (now kc : Nat) (record : KeyRecord) (s : PthState) :
    (idle_press_state cfg now kc record s).pth_press_timer_max_reached = s.pth_press_timer_max_reached :=
  by unfold idle_press_state; dsimp only; split_ifs <;> simp

@[simp] theorem ips_pth_was_held_instantly (cfg : PthConfig) (now kc : Nat) (record : KeyRecord) (s : PthState) :
    (idle_press_state cfg now kc record s).pth_was_held_instantly = s.pth_was_held_instantly :=
  by unfold idle_press_state; dsimp only; split_ifs <;> simp

@[simp] theorem ips_second_was_held_instantly (cfg : PthConfig) (now kc : Nat) (record : KeyRecord) (s : PthState) :
    (idle_press_state cfg now kc record s).second_was_held_instantly = s.second_was_held_instantly :=
  by unfold idle_press_state; dsimp only; split_ifs <;> simp

@[simp] theorem ips_instant_layer_was_active (cfg : PthConfig) (now kc : Nat) (record : KeyRecord) (s : PthState) :
    (idle_press_state cfg now kc record s).instant_layer_was_active = s.instant_layer_was_active :=
  by unfold idle_press_state; dsimp only; split_ifs <;> simp

@[simp] theorem ips_layer_before_instant_layer_tap (cfg : PthConfig) (now kc : Nat) (record : KeyRecord) (s : PthState) :
    (idle_press_state cfg now kc record s).layer_before_instant_layer_tap = s.layer_before_instant_layer_tap :=
  by unfold idle_press_state; dsimp only; split_ifs <;> simp

@[simp] theorem ips_has_second (cfg : PthConfig) (now kc : Nat) (record : KeyRecord) (s : PthState) :
    (idle_press_state cfg now kc record s).has_second = s.has_second :=
  by unfold idle_press_state; dsimp only; split_ifs <;> simp

@[simp] theorem ips_second_record (cfg : PthConfig) (now kc : Nat) (record : KeyRecord) (s : PthState) :
    (idle_press_state cfg now kc record s).second_record = s.second_record :=
  by unfold idle_press_state; dsimp only; split_ifs <;> simp

@[simp] theorem ips_second_keycode (cfg : PthConfig) (now kc : Nat) (record : KeyRecord) (s : PthState) :
    (idle_press_state cfg now kc record s).second_keycode = s.second_keycode :=
  by unfold idle_press_state; dsimp only; split_ifs <;> simp

@[simp] theorem ips_second_press_timer (cfg : PthConfig) (now kc : Nat) (record : KeyRecord) (s : PthState) :
    (idle_press_state cfg now kc record s).second_press_timer = s.second_press_timer :=
  by unfold idle_press_state; dsimp only; split_ifs <;> simp

@[simp] theorem ips_second_press_timer_max_reached (cfg : PthConfig) (now kc : Nat) (record : KeyRecord) (s : PthState) :
    (idle_press_state cfg now kc record s).second_press_timer_max_reached = s.second_press_timer_max_reached :=
  by unfold idle_press_state; dsimp only; split_ifs <;> simp

@[simp] theorem ips_second_is_tap_hold (cfg : PthConfig) (now kc : Nat) (record : KeyRecord) (s : PthState) :
    (idle_press_state cfg now kc record s).second_is_tap_hold = s.second_is_tap_hold :=
  by unfold idle_press_state; dsimp only; split_ifs <;> simp

@[simp] theorem ips_second_is_same_side_as_pth (cfg : PthConfig) (now kc : Nat) (record : KeyRecord) (s : PthState) :
    (idle_press_state cfg now kc record s).second_is_same_side_as_pth = s.second_is_same_side_as_pth :=
  by unfold idle_press_state; dsimp only; split_ifs <;> simp

@[simp] theorem ips_second_to_be_released (cfg : PthConfig) (now kc : Nat) (record : KeyRecord) (s : PthState) :
    (idle_press_state cfg now kc record s).second_to_be_released = s.second_to_be_released :=
  by unfold idle_press_state; dsimp only; split_ifs <;> simp

@[simp] theorem ips_has_chosen_after_timeout_reached (cfg : PthConfig) (now kc : Nat) (record : KeyRecord) (s : PthState) :
    (idle_press_state cfg now kc record s).has_chosen_after_timeout_reached = s.has_chosen_after_timeout_reached :=
  by unfold idle_press_state; dsimp only; split_ifs <;> simp

@[simp] theorem ips_min_overlap_dur_for_hold (cfg : PthConfig) (now kc : Nat) (record : KeyRecord) (s : PthState) :
    (idle_press_state cfg now kc record s).min_overlap_dur_for_hold = s.min_overlap_dur_for_hold :=
  by unfold idle_press_state; dsimp only; split_ifs <;> simp

@[simp] theorem ips_pth_press_to_second_press_dur (cfg : PthConfig) (now kc : Nat) (record : KeyRecord) (s : PthState) :
    (idle_press_state cfg now kc record s).pth_press_to_second_press_dur = s.pth_press_to_second_press_dur :=
  by unfold idle_press_state; dsimp only; split_ifs <;> simp

@[simp] theorem ips_pth_press_to_second_release_dur (cfg : PthConfig) (now kc : Nat) (record : KeyRecord) (s : PthState) :
    (idle_press_state cfg now kc record s).pth_press_to_second_release_dur = s.pth_press_to_second_release_dur :=
  by unfold idle_press_state; dsimp only; split_ifs <;> simp

@[simp] theorem ips_pth_second_dur (cfg : PthConfig) (now kc : Nat) (record : KeyRecord) (s : PthState) :
    (idle_press_state cfg now kc record s).pth_second_dur = s.pth_second_dur :=
  by unfold idle_press_state; dsimp only; split_ifs <;> simp

@[simp] theorem ips_pth_second_press_to_third_press_dur (cfg : PthConfig) (now kc : Nat) (record : KeyRecord) (s : PthState) :
    (idle_press_state cfg now kc record s).pth_second_press_to_third_press_dur = s.pth_second_press_to_third_press_dur :=
  by unfold idle_press_state; dsimp only; split_ifs <;> simp

@[simp] theorem ips_prev_press_keycode (cfg : PthConfig) (now kc : Nat) (record : KeyRecord) (s : PthState) :
    (idle_press_state cfg now kc record s).prev_press_keycode = s.prev_press_keycode :=
  by unfold idle_press_state; dsimp only; split_ifs <;> simp

@[simp] theorem ips_cur_press_keycode (cfg : PthConfig) (now kc : Nat) (record : KeyRecord) (s : PthState) :
    (idle_press_state cfg now kc record s).cur_press_keycode = s.cur_press_keycode :=
  by unfold idle_press_state; dsimp only; split_ifs <;> simp

@[simp] theorem ips_down_count (cfg : PthConfig) (now kc : Nat) (record : KeyRecord) (s : PthState) :
    (idle_press_state cfg now kc record s).down_count = s.down_count :=
  by unfold idle_press_state; dsimp only; split_ifs <;> simp

@[simp] theorem ips_overlap_timer (cfg : PthConfig) (now kc : Nat) (record : KeyRecord) (s : PthState) :
    (idle_press_state cfg now kc record s).overlap_timer = s.overlap_timer :=
  by unfold idle_press_state; dsimp only; split_ifs <;> simp

@[simp] theorem ips_overlap_timer_max_reached (cfg : PthConfig) (now kc : Nat) (record : KeyRecord) (s : PthState) :
    (idle_press_state cfg now kc record s).overlap_timer_max_reached = s.overlap_timer_max_reached :=
  by unfold idle_press_state; dsimp only; split_ifs <;> simp

@[simp] theorem ips_press_to_press_timer (cfg : PthConfig) (now kc : Nat) (record : KeyRecord) (s : PthState) :
    (idle_press_state cfg now kc record s).press_to_press_timer = s.press_to_press_timer :=
  by unfold idle_press_state; dsimp only; split_ifs <;> simp

@[simp] theorem ips_press_to_press_timer_max_reached (cfg : PthConfig) (now kc : Nat) (record : KeyRecord) (s : PthState) :
    (idle_press_state cfg now kc record s).press_to_press_timer_max_reached = s.press_to_press_timer_max_reached :=
  by unfold idle_press_state; dsimp only; split_ifs <;> simp

@[simp] theorem ips_release_timer (cfg : PthConfig) (now kc : Nat) (record : KeyRecord) (s : PthState) :
    (idle_press_state cfg now kc record s).release_timer = s.release_timer :=
  by unfold idle_press_state; dsimp only; split_ifs <;> simp

@[simp] theorem ips_release_timer_max_reached (cfg : PthConfig) (now kc : Nat) (record : KeyRecord) (s : PthState) :
    (idle_press_state cfg now kc record s).release_timer_max_reached = s.release_timer_max_reached :=
  by unfold idle_press_state; dsimp only; split_ifs <;> simp

@[simp] theorem ips_prev_press_to_press_dur (cfg : PthConfig) (now kc : Nat) (record : KeyRecord) (s : PthState) :
    (idle_press_state cfg now kc record s).prev_press_to_press_dur = s.prev_press_to_press_dur :=
  by unfold idle_press_state; dsimp only; split_ifs <;> simp

@[simp] theorem ips_cur_press_to_press_dur (cfg : PthConfig) (now kc : Nat) (record : KeyRecord) (s : PthState) :
    (idle_press_state cfg now kc record s).cur_press_to_press_dur = s.cur_press_to_press_dur :=
  by unfold idle_press_state; dsimp only; split_ifs <;> simp

@[simp] theorem ips_prev_overlap_dur (cfg : PthConfig) (now kc : Nat) (record : KeyRecord) (s : PthState) :
    (idle_press_state cfg now kc record s).prev_overlap_dur = s.prev_overlap_dur :=
  by unfold idle_press_state; dsimp only; split_ifs <;> simp

@[simp] theorem ips_cur_overlap_dur (cfg : PthConfig) (now kc : Nat) (record : KeyRecord) (s : PthState) :
    (idle_press_state cfg now kc record s).cur_overlap_dur = s.cur_overlap_dur :=
  by unfold idle_press_state; dsimp only; split_ifs <;> simp

@[simp] theorem ips_release_as_tap_positions (cfg : PthConfig) (now kc : Nat) (record : KeyRecord) (s : PthState) :
    (idle_press_state cfg now kc record s).release_as_tap_positions = s.release_as_tap_positions :=
  by unfold idle_press_state; dsimp only; split_ifs <;> simp

@[simp] theorem ips_used_release_as_tap_positions_bitmask (cfg : PthConfig) (now kc : Nat) (record : KeyRecord) (s : PthState) :
    (idle_press_state cfg now kc record s).used_release_as_tap_positions_bitmask = s.used_release_as_tap_positions_bitmask :=
  by unfold idle_press_state; dsimp only; split_ifs <;> simp

@[simp] theorem ips_release_records (cfg : PthConfig) (now kc : Nat) (record : KeyRecord) (s : PthState) :
    (idle_press_state cfg now kc record s).release_records = s.release_records :=
  by unfold idle_press_state; dsimp only; split_ifs <;> simp

@[simp] theorem ips_is_before_second_bitmask (cfg : PthConfig) (now kc : Nat) (record : KeyRecord) (s : PthState) :
    (idle_press_state cfg now kc record s).is_before_second_bitmask = s.is_before_second_bitmask :=
  by unfold idle_press_state; dsimp only; split_ifs <;> simp

@[simp] theorem ips_used_release_records_bitmask (cfg : PthConfig) (now kc : Nat) (record : KeyRecord) (s : PthState) :
    (idle_press_state cfg now kc record s).used_release_records_bitmask = s.used_release_records_bitmask :=
  by unfold idle_press_state; dsimp only; split_ifs <;> simp

@[simp] theorem ips_is_processing_record_due_to_pth (cfg : PthConfig) (now kc : Nat) (record : KeyRecord) (s : PthState) :
    (idle_press_state cfg now kc record s).is_processing_record_due_to_pth = s.is_processing_record_due_to_pth :=
  by unfold idle_press_state; dsimp only; split_ifs <;> simp

@[simp] theorem ips_pth_status (cfg : PthConfig) (now kc : Nat) (record : KeyRecord) (s : PthState) :
    (idle_press_state cfg now kc record s).pth_status = PthStatus.pressed :=
  by unfold idle_press_state; dsimp only; split_ifs <;> simp

@[simp] theorem ips_pth_keycode (cfg : PthConfig) (now kc : Nat) (record : KeyRecord) (s : PthState) :
    (idle_press_state cfg now kc record s).pth_keycode = kc :=
  by unfold idle_press_state; dsimp only; split_ifs <;> simp

@[simp] theorem ips_pth_record (cfg : PthConfig) (now kc : Nat) (record : KeyRecord) (s : PthState) :
    (idle_press_state cfg now kc record s).pth_record = record :=
  by unfold idle_press_state; dsimp only; split_ifs <;> simp

@[simp] theorem ips_pth_press_timer (cfg : PthConfig) (now kc : Nat) (record : KeyRecord) (s : PthState) :
    (idle_press_state cfg now kc record s).pth_press_timer = now :=
  by unfold idle_press_state; dsimp only; split_ifs <;> simp

-- The idle-press path, characterized ---------------------------------------------

/-- The instant-hold tail of the idle-press arm always returns `ret false`,
appends at most one register-as-hold emission (tap count 0), and changes
nothing the later claims depend on except `pth_was_held_instantly`, the
instant-layer fields and the PTH record's tap/pressed/time bits. -/
theorem ipt_shape (cfg : PthConfig) (now kc : Nat) (record : KeyRecord)
    (s : PthState) (ems : List Emission) :
    ∃ (s2 : PthState) (e2 : List Emission),
      idle_press_tail cfg now kc record s ems = .ret false s2 (ems ++ e2) ∧
      (∀ e ∈ e2, ∃ r, e = Emission.record r ∧ r.tap.count = 0) ∧
      s2.pth_status = s.pth_status ∧
      s2.pth_keycode = s.pth_keycode ∧
      s2.pth_record.event.key = s.pth_record.event.key ∧
      s2.pth_press_timer = s.pth_press_timer ∧
      s2.pth_press_timer_max_reached = s.pth_press_timer_max_reached ∧
      s2.second_was_held_instantly = s.second_was_held_instantly ∧
      s2.has_second = s.has_second ∧
      s2.second_record = s.second_record ∧
      s2.has_chosen_after_timeout_reached = s.has_chosen_after_timeout_reached ∧
      s2.min_overlap_dur_for_hold = s.min_overlap_dur_for_hold ∧
      s2.used_release_records_bitmask = s.used_release_records_bitmask ∧
      s2.is_before_second_bitmask = s.is_before_second_bitmask ∧
      s2.used_release_as_tap_positions_bitmask = s.used_release_as_tap_positions_bitmask ∧
      s2.release_as_tap_positions = s.release_as_tap_positions ∧
      s2.is_processing_record_due_to_pth = s.is_processing_record_due_to_pth ∧
      s2.timeout_for_forcing_choice = s.timeout_for_forcing_choice := by
  unfold idle_press_tail
  dsimp only
  split_ifs with h1 h2
  · refine ⟨_, _, rfl, fun e he => ⟨_, by simpa using he, by simp⟩,
      ?_, ?_, ?_, ?_, ?_, ?_, ?_, ?_, ?_, ?_, ?_, ?_, ?_, ?_, ?_, ?_⟩ <;> first | rfl | simp
  · refine ⟨_, _, rfl, fun e he => ⟨_, by simpa using he, by simp⟩,
      ?_, ?_, ?_, ?_, ?_, ?_, ?_, ?_, ?_, ?_, ?_, ?_, ?_, ?_, ?_, ?_⟩ <;> first | rfl | simp
  · refine ⟨_, [], by rw [List.append_nil], fun e he => absurd he (by simp),
      ?_, ?_, ?_, ?_, ?_, ?_, ?_, ?_, ?_, ?_, ?_, ?_, ?_, ?_, ?_, ?_⟩ <;> first | rfl | simp

end PTH
namespace PTH

theorem muc_has_chosen (cfg : PthConfig) (now : Nat) (s : PthState) :
    (make_user_choice_or_not cfg now s).1.has_chosen_after_timeout_reached = true := by
  unfold make_user_choice_or_not
  dsimp only
  cases cfg.get_forced_choice_after_timeout
      { s with has_chosen_after_timeout_reached := true } <;> simp

/-- C3 counterexample configuration: the forced-choice timeout policy
returns -1. -/
def cfgNegTimeout : PthConfig :=
  { testCfg with get_timeout_for_forcing_choice := fun _ => -1 }

/-- C3 counterexample: with a forced-choice timeout of -1 (≤ 0), a tap-hold
press from Idle does NOT invoke the forced-choice policy: the
`has_chosen_after_timeout_reached` flag (set by `make_user_choice_or_not`
as its first action, and nowhere else) stays false, and the machine simply
moves to `PRESSED`. -/
theorem forced_choice_negative_timeout_counterexample :
    cfgNegTimeout.get_timeout_for_forcing_choice (initState 0) = -1 ∧
    ((-1 : Int) ≤ 0) ∧
    (process_record_pth cfgNegTimeout (initState 0) 0 KC_MT_CTL_A
        (pressRec posL 0)).map
      (fun r => (r.2.1.has_chosen_after_timeout_reached, r.2.1.pth_status)) =
      some (false, PthStatus.pressed) := by
  refine ⟨rfl, by norm_num, by decide⟩

theorem ips_timeout_const (cfg : PthConfig) (now kc : Nat) (record : KeyRecord)
    (s : PthState) (τ : Int) (hcfg : cfg.get_timeout_for_forcing_choice = (fun _ => τ)) :
    (idle_press_state cfg now kc record s).timeout_for_forcing_choice = τ := by
  unfold idle_press_state
  dsimp only
  rw [hcfg]

theorem dispatch_idle_press_has_chosen (cfg : PthConfig) (now kc : Nat)
    (record : KeyRecord) (s1 : PthState) (τ : Int) (b : Bool) (s2 : PthState)
    (ems : List Emission)
    (hcfg : cfg.get_timeout_for_forcing_choice = (fun _ => τ))
    (hp : record.event.pressed = true)
    (hidle : s1.pth_status = .idle)
    (hth : pth_is_tap_hold_keycode kc = true)
    (hch : s1.has_chosen_after_timeout_reached = false)
    (h : dispatch_switch cfg now kc record (pth_is_tap_hold_keycode kc) s1 =
      some (b, s2, ems)) :
    s2.has_chosen_after_timeout_reached = true ↔ τ = 0 := by
  unfold dispatch_switch at h
  rw [hidle] at h
  dsimp only at h
  unfold handle_idle at h
  rw [if_pos (by simp [hp, hth])] at h
  dsimp only at h
  rw [ips_timeout_const cfg now kc record s1 τ hcfg] at h
  by_cases hτ0 : τ = 0
  · rw [if_pos hτ0] at h
    have hret : ∃ (sF : PthState) (emsF : List Emission),
        (if statusVal (make_user_choice_or_not cfg now
              (idle_press_state cfg now kc record s1)).1.pth_status ≥
            statusVal PthStatus.decidedTap then
          HandlerOut.ret false
            (make_user_choice_or_not cfg now (idle_press_state cfg now kc record s1)).1
            (make_user_choice_or_not cfg now (idle_press_state cfg now kc record s1)).2
        else
          idle_press_tail cfg now kc record
            (make_user_choice_or_not cfg now (idle_press_state cfg now kc record s1)).1
            (make_user_choice_or_not cfg now (idle_press_state cfg now kc record s1)).2) =
          .ret false sF emsF ∧
        sF.has_chosen_after_timeout_reached = true := by
      split_ifs
      · exact ⟨_, _, rfl, muc_has_chosen cfg now (idle_press_state cfg now kc record s1)⟩
      · obtain ⟨s3, e3, heq, _, _, _, _, _, _, _, _, _, hchosen, _⟩ :=
          ipt_shape cfg now kc record
            (make_user_choice_or_not cfg now (idle_press_state cfg now kc record s1)).1
            (make_user_choice_or_not cfg now (idle_press_state cfg now kc record s1)).2
        exact ⟨s3, _, heq, by rw [hchosen, muc_has_chosen]⟩
    obtain ⟨sF, emsF, heqF, hFch⟩ := hret
    rw [heqF] at h
    dsimp only at h
    simp only [Option.some.injEq, Prod.mk.injEq] at h
    rw [← h.2.1, hFch]
    simp [hτ0]
  · rw [if_neg hτ0] at h
    obtain ⟨s3, e3, heq, _, _, _, _, _, _, _, _, _, hchosen, _⟩ :=
      ipt_shape cfg now kc record (idle_press_state cfg now kc record s1) []
    rw [heq] at h
    dsimp only at h
    simp only [Option.some.injEq, Prod.mk.injEq] at h
    have h2 := h.2.1
    rw [← h2, hchosen]
    simp only [ips_has_chosen_after_timeout_reached]
    simp [hch, hτ0]

/-- C3 (amended): from Idle, on press of a tap-hold keycode, the forced
choice (`make_user_choice_or_not`, observable as the only writer of
`has_chosen_after_timeout_reached`) is invoked at press time exactly when
the looked-up timeout equals 0; and with a non-positive stored timeout the
housekeeping task never invokes it either (its guard requires a strictly
positive timeout). -/
theorem forced_choice_at_press_iff_timeout_zero :
    (∀ (cfg : PthConfig) (s : PthState) (now kc : Nat) (record : KeyRecord) (τ : Int)
       (b : Bool) (s2 : PthState) (ems : List Emission),
      cfg.get_timeout_for_forcing_choice = (fun _ => τ) →
      s.is_processing_record_due_to_pth = false →
      record.event.isKey = true → record.event.pressed = true →
      s.pth_status = .idle → pth_is_tap_hold_keycode kc = true →
      s.has_chosen_after_timeout_reached = false →
      process_record_pth cfg s now kc record = some (b, s2, ems) →
      (s2.has_chosen_after_timeout_reached = true ↔ τ = 0)) ∧
    (∀ (cfg : PthConfig) (s : PthState) (now : Nat),
      s.timeout_for_forcing_choice ≤ 0 →
      (housekeeping_task cfg s now).1.has_chosen_after_timeout_reached =
        s.has_chosen_after_timeout_reached) := by
  constructor
  · intro cfg s now kc record τ b s2 ems hcfg hflag hkey hp hidle hth hch h
    unfold process_record_pth at h
    rw [if_neg (by simp [hflag, hkey])] at h
    dsimp only at h
    rw [hp] at h
    rw [if_pos rfl] at h
    exact dispatch_idle_press_has_chosen cfg (now % 65536) kc record _ τ b s2 ems hcfg hp
      (by simp [hidle]) hth (by simp [hch]) h
  · intro cfg s now hτ
    unfold housekeeping_task
    dsimp only
    split_ifs with h1
    · simp
    · unfold hk_pending_part hk_pth_press_part
      dsimp only
      split_ifs <;> try simp
      all_goals
        exfalso
        rename_i hguard
        simp only [Bool.and_eq_true, decide_eq_true_eq] at hguard
        have ht := hguard.1.2
        simp only [hkg_timeout_for_forcing_choice] at ht
        omega

/-- Witness for C3 at a concrete press with the default 700 ms timeout. -/
theorem forced_choice_at_press_iff_timeout_zero_witness :
    (process_record_pth testCfg (initState 0) 5 KC_MT_CTL_A (pressRec posL 5)).map
      (fun r => r.2.1.has_chosen_after_timeout_reached) = some false := by
  rcases hpr : process_record_pth testCfg (initState 0) 5 KC_MT_CTL_A (pressRec posL 5)
    with _ | ⟨b, s2, ems⟩
  · exact absurd hpr (by decide)
  · have hiff := forced_choice_at_press_iff_timeout_zero.1 testCfg (initState 0) 5
      KC_MT_CTL_A (pressRec posL 5) 700 b s2 ems rfl rfl rfl rfl rfl (by decide) rfl hpr
    rcases Bool.eq_false_or_eq_true s2.has_chosen_after_timeout_reached with hb | hb
    · exact absurd (hiff.mp hb) (by norm_num)
    · simp [hb]

end PTH
namespace PTH

theorem dispatch_pressed_press_min_overlap (cfg : PthConfig) (now kc : Nat)
    (record : KeyRecord) (s1 : PthState) (v : Nat) (b : Bool) (s2 : PthState)
    (ems : List Emission)
    (hv : cfg.predict_min_overlap_for_hold_in_ms = (fun _ => v))
    (hp : record.event.pressed = true)
    (hst : s1.pth_status = .pressed)
    (hno : ¬(s1.pth_was_held_instantly = true ∧ s1.instant_layer_was_active = true ∧
      kc = KC_NO))
    (hcond : pth_is_tap_hold_keycode kc = true ∨
      is_record_same_side_as_pth cfg s1 record = false)
    (h : dispatch_switch cfg now kc record (pth_is_tap_hold_keycode kc) s1 =
      some (b, s2, ems)) :
    s2.min_overlap_dur_for_hold =
      min PTH_MS_MAX_OVERLAP (max PTH_MS_MIN_OVERLAP (v % 65536)) := by
  unfold dispatch_switch at h
  rw [hst] at h
  dsimp only at h
  unfold handle_pressed at h
  rw [hp] at h
  rw [if_pos rfl] at h
  rw [hv] at h
  dsimp only at h
  rw [if_neg (c := (s1.pth_was_held_instantly && s1.instant_layer_was_active &&
      decide (kc = KC_NO)) = true)
    (by simp only [Bool.and_eq_true, decide_eq_true_eq]
        intro hc
        exact hno ⟨hc.1.1, hc.1.2, hc.2⟩)] at h
  rw [if_pos (c := (pth_is_tap_hold_keycode kc ||
      !is_record_same_side_as_pth cfg s1 record) = true)
    (by rcases hcond with hc | hc <;> simp [hc])] at h
  dsimp only at h
  by_cases hss : is_record_same_side_as_pth cfg s1 record = true
  · rw [if_neg (by simp [hss])] at h
    split_ifs at h
    all_goals simp only [Option.some.injEq, Prod.mk.injEq] at h
    all_goals rw [← h.2.1]
    all_goals simp
  · simp only [Bool.not_eq_true] at hss
    rw [if_pos (by simp [hss])] at h
    simp only [Option.some.injEq, Prod.mk.injEq] at h
    rw [← h.2.1]
    try simp

/-- C6 (amended): in the transition from `Pressed` on a second key press,
whenever the second key is tap-hold or not on the same side as the PTH —
and the instant-layer no-op early tap commit does not apply (PTH held
instantly with an active instant layer and the second keycode resolving to
`KC_NO`) — the stored `min_overlap_dur_for_hold` is the predictor output
clamped to `[PTH_MS_MIN_OVERLAP, PTH_MS_MAX_OVERLAP] = [39, 232]`:
for every predictor output `v` it equals `min 232 (max 39 v)`. -/
theorem min_overlap_is_clamped_prediction :
    ∀ (cfg : PthConfig) (s : PthState) (now kc : Nat) (record : KeyRecord) (v : Nat)
      (b : Bool) (s2 : PthState) (ems : List Emission),
      cfg.predict_min_overlap_for_hold_in_ms = (fun _ => v) →
      v < 65536 →
      s.is_processing_record_due_to_pth = false →
      record.event.isKey = true → record.event.pressed = true →
      s.pth_status = .pressed →
      ¬(s.pth_was_held_instantly = true ∧ s.instant_layer_was_active = true ∧
        kc = KC_NO) →
      (pth_is_tap_hold_keycode kc = true ∨
        is_record_same_side_as_pth cfg s record = false) →
      process_record_pth cfg s now kc record = some (b, s2, ems) →
      s2.min_overlap_dur_for_hold = min PTH_MS_MAX_OVERLAP (max PTH_MS_MIN_OVERLAP v) := by
  intro cfg s now kc record v b s2 ems hv hv65 hflag hkey hp hst hno hcond h
  unfold process_record_pth at h
  rw [if_neg (by simp [hflag, hkey])] at h
  dsimp only at h
  rw [hp] at h
  rw [if_pos rfl] at h
  have := dispatch_pressed_press_min_overlap cfg (now % 65536) kc record _ v b s2 ems hv hp
    (by simp [hst]) (by simpa using hno)
    (by rcases hcond with hc | hc
        · exact Or.inl hc
        · refine Or.inr ?_
          rw [← hc]
          unfold is_record_same_side_as_pth
          simp) h
  rwa [Nat.mod_eq_of_lt hv65] at this

/-- C6 counterexample: an instantly-held layer-tap PTH whose instant layer
resolves the second (opposite-side, hence in the claim's scope) key to
`KC_NO` commits tap early and leaves `min_overlap_dur_for_hold` at 0 — not
the clamped predictor output (the configured predictor returns 100, whose
clamp is 100). -/
theorem min_overlap_counterexample :
    (runOpt testCfg (initState 0)
        [PthInput.tick 0, PthInput.key 0 KC_LT_1_A (pressRec posL 0),
         PthInput.tick 10, PthInput.key 10 KC_NO (pressRec posR 10)]).map
        (fun p => (p.1.min_overlap_dur_for_hold, p.1.pth_status,
          p.1.pth_was_held_instantly, p.1.instant_layer_was_active,
          p.1.second_is_tap_hold, p.1.second_is_same_side_as_pth)) =
      some (0, PthStatus.decidedTap, true, true, false, false) ∧
    testCfg.predict_min_overlap_for_hold_in_ms (initState 0) = 100 ∧
    (0 : Nat) ≠ min PTH_MS_MAX_OVERLAP (max PTH_MS_MIN_OVERLAP 100) := by
  refine ⟨by decide, rfl, by decide⟩

/-- A concrete `PRESSED` state: the mod-tap was pressed at `posL`, nothing
else happened yet. -/
def pressedStateW : PthState := { initState 0 with
  pth_status := PthStatus.pressed
  pth_keycode := KC_MT_CTL_A
  pth_record := pressRec posL 0 }

/-- Witness for C6: a plain opposite-side second press stores the clamp of
the configured predictor output 100, i.e. 100. -/
theorem min_overlap_is_clamped_prediction_witness :
    (process_record_pth testCfgNoInstant pressedStateW 50 KC_A (pressRec posR 50)).map
      (fun r => r.2.1.min_overlap_dur_for_hold) = some 100 := by
  rcases hpr : process_record_pth testCfgNoInstant pressedStateW 50 KC_A (pressRec posR 50)
    with _ | ⟨b, s2, ems⟩
  · exact absurd hpr (by decide)
  · have hm := min_overlap_is_clamped_prediction testCfgNoInstant pressedStateW 50 KC_A
      (pressRec posR 50) 100 b s2 ems rfl (by decide) rfl rfl rfl rfl
      (fun hq => absurd hq.1 (by decide)) (by right; decide) hpr
    simp [hm]
    decide

end PTH
namespace PTH

-- Claim C5: the Idle/active invariant --------------------------------------------

/-- The Idle/active invariant: in `PTH_IDLE` the (single) PTH slot is cleared
(`pth_keycode = KC_NO`, record at the empty position); outside `PTH_IDLE` the
PTH keycode is a real tap-hold keycode, never `KC_NO`. -/
def IdleInv (s : PthState) : Prop :=
  (s.pth_status = .idle → s.pth_keycode = KC_NO ∧ s.pth_record.event.key = EMPTY_KEYPOS) ∧
  (s.pth_status ≠ .idle → s.pth_keycode ≠ KC_NO)

/-- The invariant lifted to the result of one dispatcher arm (undefined
behavior is excluded separately). -/
def OutInv : HandlerOut → Prop
  | .ret _ s _ => IdleInv s
  | .fallthrough s _ => IdleInv s
  | .undef => True

theorem idleInv_of_ne (s : PthState) (h1 : s.pth_status ≠ .idle)
    (h2 : s.pth_keycode ≠ KC_NO) : IdleInv s :=
  ⟨fun h => absurd h h1, fun _ => h2⟩

theorem idleInv_init (t0 : Nat) : IdleInv (initState t0) :=
  ⟨fun _ => ⟨rfl, rfl⟩, fun h => absurd rfl h⟩

theorem idleInv_reset (s : PthState) : IdleInv (reset_pth_state s) :=
  ⟨fun _ => ⟨rfl, rfl⟩, fun h => absurd rfl h⟩

theorem idleInv_apt (s : PthState) (pos : KeyPos) (h : IdleInv s) :
    IdleInv (add_pos_to_tap_releases s pos) := by
  obtain ⟨a, u, heq⟩ := apt_shape s pos
  rw [heq]
  exact h

theorem idleInv_collect (s : PthState) (b : Bool) (t : Nat) (h : IdleInv s) :
    IdleInv (collect_new_press_to_press_and_overlap_duration s b t) := by
  constructor
  · intro hi
    rw [collect_pth_status] at hi
    rw [collect_pth_keycode, collect_pth_record]
    exact h.1 hi
  · intro hi
    rw [collect_pth_status] at hi
    rw [collect_pth_keycode]
    exact h.2 hi

theorem idleInv_hkg (s : PthState) (t : Nat) (h : IdleInv s) :
    IdleInv (hk_update_global_flags s t) := by
  constructor
  · intro hi
    rw [hkg_pth_status] at hi
    rw [hkg_pth_keycode, hkg_pth_record]
    exact h.1 hi
  · intro hi
    rw [hkg_pth_status] at hi
    rw [hkg_pth_keycode]
    exact h.2 hi

theorem tap_hold_keycode_ne_no (kc : Nat) (h : pth_is_tap_hold_keycode kc = true) :
    kc ≠ KC_NO := by
  intro hk
  rw [hk] at h
  exact absurd h (by decide)

theorem mdt_idleInv (cfg : PthConfig) (now : Nat) (s : PthState)
    (hk : s.pth_keycode ≠ KC_NO) : IdleInv (make_decision_tap cfg now s).1 := by
  constructor
  · intro hi
    exfalso
    rw [mdt_status] at hi
    by_cases hv : statusVal s.pth_status ≥ statusVal PthStatus.decidedTap
    · rw [if_pos hv] at hi
      rw [hi] at hv
      exact absurd hv (by decide)
    · rw [if_neg hv] at hi
      exact absurd hi (by simp)
  · intro _
    rw [mdt_pth_keycode]
    exact hk

theorem mdh_idleInv (cfg : PthConfig) (now : Nat) (s : PthState)
    (hk : s.pth_keycode ≠ KC_NO) : IdleInv (make_decision_hold cfg now s).1 := by
  constructor
  · intro hi
    exfalso
    rw [mdh_status] at hi
    by_cases hv : statusVal s.pth_status ≥ statusVal PthStatus.decidedTap
    · rw [if_pos hv] at hi
      rw [hi] at hv
      exact absurd hv (by decide)
    · rw [if_neg hv] at hi
      exact absurd hi (by simp)
  · intro _
    rw [mdh_pth_keycode]
    exact hk

theorem muc_idleInv (cfg : PthConfig) (now : Nat) (s : PthState)
    (hst : s.pth_status ≠ .idle) (hk : s.pth_keycode ≠ KC_NO) :
    IdleInv (make_user_choice_or_not cfg now s).1 := by
  refine idleInv_of_ne _ ?_ ?_
  · rcases muc_status cfg now s with h | h | h <;> rw [h]
    · exact hst
    · simp
    · simp
  · rw [muc_pth_keycode]
    exact hk

theorem ipt_idleInv (cfg : PthConfig) (now kc : Nat) (record : KeyRecord)
    (s : PthState) (ems : List Emission)
    (hst : s.pth_status ≠ .idle) (hk : s.pth_keycode ≠ KC_NO) :
    OutInv (idle_press_tail cfg now kc record s ems) := by
  obtain ⟨s2, e2, heq, -, hstat, hkc, -⟩ := ipt_shape cfg now kc record s ems
  rw [heq]
  dsimp only [OutInv]
  refine idleInv_of_ne _ ?_ ?_
  · rw [hstat]
    exact hst
  · rw [hkc]
    exact hk

end PTH
namespace PTH

theorem handle_idle_inv (cfg : PthConfig) (now kc : Nat) (record : KeyRecord)
    (s : PthState) (hInv : IdleInv s) :
    OutInv (handle_idle cfg now kc record (pth_is_tap_hold_keycode kc) s) := by
  unfold handle_idle
  dsimp only
  split_ifs with h1 h2 h3
  · have hth : pth_is_tap_hold_keycode kc = true := by
      have h1c := h1
      simp only [Bool.and_eq_true] at h1c
      exact h1c.2
    dsimp only [OutInv]
    exact muc_idleInv cfg now _ (by rw [ips_pth_status]; simp)
      (by rw [ips_pth_keycode]; exact tap_hold_keycode_ne_no kc hth)
  · have hth : pth_is_tap_hold_keycode kc = true := by
      have h1c := h1
      simp only [Bool.and_eq_true] at h1c
      exact h1c.2
    refine ipt_idleInv cfg now kc record _ _ ?_ ?_
    · rcases muc_status cfg now (idle_press_state cfg now kc record s) with hq | hq | hq <;>
        rw [hq]
      · rw [ips_pth_status]
        simp
      · simp
      · simp
    · rw [muc_pth_keycode, ips_pth_keycode]
      exact tap_hold_keycode_ne_no kc hth
  · have hth : pth_is_tap_hold_keycode kc = true := by
      have h1c := h1
      simp only [Bool.and_eq_true] at h1c
      exact h1c.2
    refine ipt_idleInv cfg now kc record _ _ ?_ ?_
    · rw [ips_pth_status]
      simp
    · rw [ips_pth_keycode]
      exact tap_hold_keycode_ne_no kc hth
  · dsimp only [OutInv]
    exact hInv

theorem handle_pressed_inv (cfg : PthConfig) (now kc : Nat) (record : KeyRecord)
    (th : Bool) (s : PthState) (hst : s.pth_status = PthStatus.pressed)
    (hk : s.pth_keycode ≠ KC_NO) :
    OutInv (handle_pressed cfg now kc record th s) := by
  unfold handle_pressed
  dsimp only
  by_cases hp : record.event.pressed = true
  · rw [if_pos hp]
    split_ifs <;> dsimp only [OutInv] <;>
      first
        | exact mdt_idleInv cfg now _ hk
        | exact idleInv_of_ne _ (fun hcon => nomatch hcon) hk
  · rw [if_neg hp]
    by_cases hr : record.event.key = s.pth_record.event.key
    · rw [if_pos hr]
      dsimp only [OutInv]
      exact idleInv_reset _
    · rw [if_neg hr]
      rcases harr : add_release_record s record .beforeSecond with ⟨e, os⟩
      rcases os with _ | s4
      · try rw [harr]
        simp only [OutInv]
      · try rw [harr]
        dsimp only [OutInv]
        obtain ⟨a, b, u, hs4⟩ := arr_shape s record .beforeSecond s4 e harr
        rw [hs4]
        exact idleInv_of_ne _ (by simp [hst]) hk

theorem handle_second_pressed_inv (cfg : PthConfig) (now kc : Nat)
    (record : KeyRecord) (th : Bool) (s : PthState)
    (hst : s.pth_status = PthStatus.secondPressed) (hk : s.pth_keycode ≠ KC_NO) :
    OutInv (handle_second_pressed cfg now kc record th s) := by
  unfold handle_second_pressed
  dsimp only
  by_cases hp : record.event.pressed = true
  · rw [if_pos hp]
    split_ifs <;> dsimp only [OutInv] <;>
      first
        | exact mdh_idleInv cfg now _ hk
        | exact mdt_idleInv cfg now _ hk
        | exact idleInv_apt _ _ (mdh_idleInv cfg now _ hk)
        | exact idleInv_apt _ _ (mdt_idleInv cfg now _ hk)
  · rw [if_neg hp]
    by_cases hr : record.event.key = s.pth_record.event.key
    · rw [if_pos hr]
      split_ifs <;> dsimp only [OutInv] <;> exact idleInv_reset _
    · rw [if_neg hr]
      by_cases hr2 : record.event.key = s.second_record.event.key
      · rw [if_pos hr2]
        split_ifs <;> dsimp only [OutInv] <;>
          first
            | exact mdt_idleInv cfg now _ hk
            | exact idleInv_of_ne _ (fun hcon => nomatch hst.symm.trans hcon) hk
      · rw [if_neg hr2]
        rcases harr : add_release_record s record .afterSecond with ⟨e, os⟩
        rcases os with _ | s4
        · try rw [harr]
          simp only [OutInv]
        · try rw [harr]
          dsimp only [OutInv]
          obtain ⟨a, b, u, hs4⟩ := arr_shape s record .afterSecond s4 e harr
          rw [hs4]
          exact idleInv_of_ne _ (by simp [hst]) hk

theorem handle_decided_tap_inv (now : Nat) (record : KeyRecord) (th : Bool)
    (s : PthState) (hInv : IdleInv s) (hst : s.pth_status = PthStatus.decidedTap) :
    OutInv (handle_decided_tap now record th s) := by
  have hk : s.pth_keycode ≠ KC_NO := hInv.2 (by rw [hst]; simp)
  unfold handle_decided_tap
  dsimp only
  split_ifs <;> dsimp only [OutInv] <;>
    first
      | exact idleInv_reset _
      | exact idleInv_apt _ _ (idleInv_of_ne _ (by simp [hst]) hk)
      | exact hInv

theorem handle_decided_hold_inv (cfg : PthConfig) (now kc : Nat)
    (record : KeyRecord) (th : Bool) (s : PthState) (hInv : IdleInv s)
    (hst : s.pth_status = PthStatus.decidedHold) :
    OutInv (handle_decided_hold cfg now kc record th s) := by
  have hk : s.pth_keycode ≠ KC_NO := hInv.2 (by rw [hst]; simp)
  unfold handle_decided_hold
  dsimp only
  split_ifs <;> dsimp only [OutInv] <;>
    first
      | exact idleInv_reset _
      | exact idleInv_apt _ _ (idleInv_of_ne _ (by simp [hst]) hk)
      | exact idleInv_of_ne _ (by simp [hst]) hk

end PTH
namespace PTH

theorem dispatch_idleInv (cfg : PthConfig) (now kc : Nat) (record : KeyRecord)
    (s : PthState) (b : Bool) (s2 : PthState) (ems : List Emission)
    (hInv : IdleInv s)
    (h : dispatch_switch cfg now kc record (pth_is_tap_hold_keycode kc) s =
      some (b, s2, ems)) :
    IdleInv s2 := by
  unfold dispatch_switch at h
  dsimp only at h
  cases hst : s.pth_status with
  | idle =>
    rw [hst] at h
    dsimp only at h
    have hout := handle_idle_inv cfg now kc record s hInv
    rcases hh : handle_idle cfg now kc record (pth_is_tap_hold_keycode kc) s with
      ⟨b', s', e'⟩ | ⟨s', e'⟩ | _
    · rw [hh] at h hout
      dsimp only at h
      dsimp only [OutInv] at hout
      simp only [Option.some.injEq, Prod.mk.injEq] at h
      rw [← h.2.1]
      exact hout
    · rw [hh] at h hout
      dsimp only at h
      dsimp only [OutInv] at hout
      simp only [Option.some.injEq, Prod.mk.injEq] at h
      rw [← h.2.1]
      exact hout
    · rw [hh] at h
      dsimp only at h
      simp at h
  | pressed =>
    rw [hst] at h
    dsimp only at h
    have hout := handle_pressed_inv cfg now kc record (pth_is_tap_hold_keycode kc) s
      hst (hInv.2 (by rw [hst]; simp))
    rcases hh : handle_pressed cfg now kc record (pth_is_tap_hold_keycode kc) s with
      ⟨b', s', e'⟩ | ⟨s', e'⟩ | _
    · rw [hh] at h hout
      dsimp only at h
      dsimp only [OutInv] at hout
      simp only [Option.some.injEq, Prod.mk.injEq] at h
      rw [← h.2.1]
      exact hout
    · rw [hh] at h hout
      dsimp only at h
      dsimp only [OutInv] at hout
      simp only [Option.some.injEq, Prod.mk.injEq] at h
      rw [← h.2.1]
      exact hout
    · rw [hh] at h
      dsimp only at h
      simp at h
  | secondPressed =>
    rw [hst] at h
    dsimp only at h
    have hout := handle_second_pressed_inv cfg now kc record (pth_is_tap_hold_keycode kc)
      s hst (hInv.2 (by rw [hst]; simp))
    rcases hh : handle_second_pressed cfg now kc record (pth_is_tap_hold_keycode kc) s with
      ⟨b', s', e'⟩ | ⟨s', e'⟩ | _
    · rw [hh] at h hout
      dsimp only at h
      dsimp only [OutInv] at hout
      simp only [Option.some.injEq, Prod.mk.injEq] at h
      rw [← h.2.1]
      exact hout
    · rw [hh] at h hout
      dsimp only at h
      dsimp only [OutInv] at hout
      simp only [Option.some.injEq, Prod.mk.injEq] at h
      rw [← h.2.1]
      exact hout
    · rw [hh] at h
      dsimp only at h
      simp at h
  | decidedTap =>
    rw [hst] at h
    dsimp only at h
    have hout := handle_decided_tap_inv now record (pth_is_tap_hold_keycode kc) s hInv hst
    rcases hh : handle_decided_tap now record (pth_is_tap_hold_keycode kc) s with
      ⟨b', s', e'⟩ | ⟨s', e'⟩ | _
    · rw [hh] at h hout
      dsimp only at h
      dsimp only [OutInv] at hout
      simp only [Option.some.injEq, Prod.mk.injEq] at h
      rw [← h.2.1]
      exact hout
    · rw [hh] at h hout
      dsimp only at h
      dsimp only [OutInv] at hout
      simp only [Option.some.injEq, Prod.mk.injEq] at h
      rw [← h.2.1]
      exact hout
    · rw [hh] at h
      dsimp only at h
      simp at h
  | decidedHold =>
    rw [hst] at h
    dsimp only at h
    have hout := handle_decided_hold_inv cfg now kc record (pth_is_tap_hold_keycode kc)
      s hInv hst
    rcases hh : handle_decided_hold cfg now kc record (pth_is_tap_hold_keycode kc) s with
      ⟨b', s', e'⟩ | ⟨s', e'⟩ | _
    · rw [hh] at h hout
      dsimp only at h
      dsimp only [OutInv] at hout
      simp only [Option.some.injEq, Prod.mk.injEq] at h
      rw [← h.2.1]
      exact hout
    · rw [hh] at h hout
      dsimp only at h
      dsimp only [OutInv] at hout
      simp only [Option.some.injEq, Prod.mk.injEq] at h
      rw [← h.2.1]
      exact hout
    · rw [hh] at h
      dsimp only at h
      simp at h

end PTH
namespace PTH

theorem prp_idleInv (cfg : PthConfig) (s : PthState) (now kc : Nat)
    (record : KeyRecord) (b : Bool) (s2 : PthState) (ems : List Emission)
    (hInv : IdleInv s)
    (h : process_record_pth cfg s now kc record = some (b, s2, ems)) :
    IdleInv s2 := by
  unfold process_record_pth at h
  by_cases hg : s.is_processing_record_due_to_pth = true ∨ record.event.isKey = false
  · rw [if_pos (by rcases hg with hg | hg <;> simp [hg])] at h
    simp only [Option.some.injEq, Prod.mk.injEq] at h
    rw [← h.2.1]
    exact hInv
  · rw [if_neg (by rcases Bool.eq_false_or_eq_true record.event.isKey with hk | hk <;>
        rcases Bool.eq_false_or_eq_true s.is_processing_record_due_to_pth with hq | hq <;>
        simp_all)] at h
    dsimp only at h
    have hc : IdleInv (collect_new_press_to_press_and_overlap_duration s
        record.event.pressed (now % 65536)) := idleInv_collect _ _ _ hInv
    by_cases hp : record.event.pressed = true
    · rw [if_pos hp] at h
      exact dispatch_idleInv cfg (now % 65536) kc record _ b s2 ems
        (by exact ⟨hc.1, hc.2⟩) h
    · rw [if_neg hp] at h
      rcases hrm : remove_pos_from_tap_releases
          (collect_new_press_to_press_and_overlap_duration s record.event.pressed
            (now % 65536)) record.event.key with _ | s3
      · rw [hrm] at h
        dsimp only at h
        exact dispatch_idleInv cfg (now % 65536) kc record _ b s2 ems hc h
      · rw [hrm] at h
        dsimp only at h
        obtain ⟨u, hs3⟩ := rpt_shape _ _ _ hrm
        have hc3 : IdleInv s3 := by
          rw [hs3]
          exact hc
        by_cases hd : s3.pth_status = PthStatus.pressed ∨
            s3.pth_status = PthStatus.secondPressed
        · rw [if_pos hd] at h
          exact dispatch_idleInv cfg (now % 65536) kc (set_record_to_tap record) _
            b s2 ems hc3 h
        · rw [if_neg hd] at h
          simp only [Option.some.injEq, Prod.mk.injEq] at h
          rw [← h.2.1]
          exact hc3

theorem hk_pth_press_part_idleInv (cfg : PthConfig) (s : PthState) (t : Nat)
    (hst : s.pth_status ≠ .idle) (hk : s.pth_keycode ≠ KC_NO) :
    IdleInv (hk_pth_press_part cfg s t).1 := by
  unfold hk_pth_press_part
  split_ifs <;>
    first
      | exact muc_idleInv cfg t s hst hk
      | exact idleInv_of_ne _ hst hk

theorem hk_pending_part_idleInv (cfg : PthConfig) (s : PthState) (t : Nat)
    (hst : s.pth_status ≠ .idle) (hk : s.pth_keycode ≠ KC_NO) :
    IdleInv (hk_pending_part cfg s t).1 := by
  unfold hk_pending_part
  dsimp only
  split_ifs with h1 h2
  · exact mdh_idleInv cfg t s hk
  · exact hk_pth_press_part_idleInv cfg _ t hst hk
  · exact hk_pth_press_part_idleInv cfg s t hst hk

theorem hk_idleInv (cfg : PthConfig) (s : PthState) (now : Nat) (hInv : IdleInv s) :
    IdleInv (housekeeping_task cfg s now).1 := by
  unfold housekeeping_task
  dsimp only
  split_ifs with h1
  · exact idleInv_hkg s _ hInv
  · have hsg := idleInv_hkg s (now % 65536) hInv
    rw [not_or] at h1
    exact hk_pending_part_idleInv cfg _ (now % 65536) h1.1 (hsg.2 h1.1)

theorem step_idleInv (cfg : PthConfig) (s : PthState) (input : PthInput)
    (s2 : PthState) (ems : List Emission) (hInv : IdleInv s)
    (h : stepOpt cfg s input = some (s2, ems)) : IdleInv s2 := by
  cases input with
  | key t kc record =>
    unfold stepOpt at h
    dsimp only at h
    rcases hpr : process_record_pth cfg s t kc record with _ | ⟨b, s3, ems3⟩
    · rw [hpr] at h
      simp at h
    · rw [hpr] at h
      dsimp only at h
      simp only [Option.some.injEq, Prod.mk.injEq] at h
      rw [← h.1]
      exact prp_idleInv cfg s t kc record b s3 ems3 hInv hpr
  | tick t =>
    unfold stepOpt at h
    simp only [Option.some.injEq] at h
    have hs2 : s2 = (housekeeping_task cfg s t).1 := by rw [h]
    rw [hs2]
    exact hk_idleInv cfg s t hInv

theorem run_idleInv (cfg : PthConfig) (inputs : List PthInput) :
    ∀ (s s2 : PthState) (ems : List Emission), IdleInv s →
      runOpt cfg s inputs = some (s2, ems) → IdleInv s2 := by
  induction inputs with
  | nil =>
    intro s s2 ems hInv h
    unfold runOpt at h
    simp only [Option.some.injEq, Prod.mk.injEq] at h
    rw [← h.1]
    exact hInv
  | cons input rest ih =>
    intro s s2 ems hInv h
    unfold runOpt at h
    rcases hs : stepOpt cfg s input with _ | ⟨s3, ems3⟩
    · rw [hs] at h
      simp at h
    · rw [hs] at h
      dsimp only at h
      rcases hr : runOpt cfg s3 rest with _ | ⟨s4, ems4⟩
      · rw [hr] at h
        simp at h
      · rw [hr] at h
        dsimp only at h
        simp only [Option.some.injEq, Prod.mk.injEq] at h
        rw [← h.1]
        exact ih s3 s4 ems4 (step_idleInv cfg s input s3 ems3 hInv hs) hr

/-- C5: after any sequence of matrix events and housekeeping ticks from the
initial state, `pth_status = PTH_IDLE` holds exactly when there is no active
PTH record: `pth_keycode = KC_NO` and the PTH record's key position is the
empty sentinel.  (The "at most one active PTH" half of the claim is
structural: the module keeps a single `pth_keycode`/`pth_record` slot.) -/
theorem idle_status_iff_no_active_pth :
    ∀ (cfg : PthConfig) (t0 : Nat) (inputs : List PthInput) (s : PthState)
      (ems : List Emission),
      runOpt cfg (initState t0) inputs = some (s, ems) →
      (s.pth_status = PthStatus.idle ↔
        (s.pth_keycode = KC_NO ∧ s.pth_record.event.key = EMPTY_KEYPOS)) := by
  intro cfg t0 inputs s ems h
  have hInv := run_idleInv cfg inputs (initState t0) s ems (idleInv_init t0) h
  constructor
  · exact hInv.1
  · intro hno
    by_contra hne
    exact hInv.2 hne hno.1

/-- Witness for C5 at a concrete one-tick run (the tick only sets the
press-to-press saturation flag). -/
theorem idle_status_iff_no_active_pth_witness :
    ({ initState 0 with press_to_press_timer_max_reached := true } : PthState).pth_status
        = PthStatus.idle ↔
      (({ initState 0 with press_to_press_timer_max_reached := true } :
          PthState).pth_keycode = KC_NO ∧
        ({ initState 0 with press_to_press_timer_max_reached := true } :
            PthState).pth_record.event.key = EMPTY_KEYPOS) :=
  idle_status_iff_no_active_pth testCfg 0 [PthInput.tick 5]
    { initState 0 with press_to_press_timer_max_reached := true } [] (by decide)

end PTH
namespace PTH

-- Claim C1: lone-tap invariance ----------------------------------------------------

/-- `true` exactly on a synthetic event that registers or unregisters the
position `pos` as a tap (tap count 1). -/
def isTapOf (pos : KeyPos) : Emission → Bool
  | .record r => decide (r.event.key = pos) && decide (r.tap.count = 1)
  | _ => false

theorem filter_isTapOf_count0 (pos : KeyPos) (l : List Emission)
    (h : ∀ e ∈ l, ∃ r, e = Emission.record r ∧ r.tap.count = 0) :
    List.filter (isTapOf pos) l = [] := by
  rw [List.filter_eq_nil_iff]
  intro e he
  obtain ⟨r, hr, hcnt⟩ := h e he
  rw [hr]
  simp [isTapOf, hcnt]

theorem filter_isTapOf_ite_tapcode (pos : KeyPos) (p : Prop) [Decidable p] (k : Nat) :
    List.filter (isTapOf pos) (if p then [Emission.tapCode16 k] else []) = [] := by
  split_ifs <;> simp [isTapOf]

theorem mui_ems_count0 (cfg : PthConfig) (now : Nat) (s : PthState) :
    ∀ e ∈ (mdt_undo_instant cfg now s).2,
      ∃ r, e = Emission.record r ∧ r.tap.count = 0 := by
  unfold mdt_undo_instant
  dsimp only
  split_ifs <;> intro e he <;>
    simp only [unregisterPthAsHold_snd, unregisterSecondAsHold_snd, List.mem_append,
      List.mem_singleton, List.not_mem_nil, or_false, false_or] at he <;>
    first
      | (rcases he with he | he <;> exact ⟨_, he, by simp⟩)
      | exact ⟨_, he, by simp⟩

theorem filter_isTapOf_mui (pos : KeyPos) (cfg : PthConfig) (now : Nat) (s : PthState) :
    List.filter (isTapOf pos) (mdt_undo_instant cfg now s).2 = [] :=
  filter_isTapOf_count0 pos _ (mui_ems_count0 cfg now s)

theorem prr_empty (s : PthState) (rt : ReleaseTime) (w : Bool) (now : Nat)
    (h : s.used_release_records_bitmask = 0) :
    process_release_records s rt w now = (s, false, []) := by
  unfold process_release_records
  dsimp only
  rw [if_pos (show get_to_be_released_bitmask s rt = 0 by
    unfold get_to_be_released_bitmask
    dsimp only
    rw [h]
    exact Nat.zero_and _)]

theorem prr_ems_of_zero (s : PthState) (rt : ReleaseTime) (w : Bool) (now : Nat)
    (h : s.used_release_records_bitmask = 0) :
    (process_release_records s rt w now).2.2 = [] := by
  rw [prr_empty s rt w now h]

theorem rpt_empty (s : PthState) (pos : KeyPos)
    (h : s.used_release_as_tap_positions_bitmask = 0) :
    remove_pos_from_tap_releases s pos = none := by
  unfold remove_pos_from_tap_releases
  rw [h]
  rfl

/-- The state shape while a lone tap-hold press is pending: `PRESSED`, the
press snapshot stored, and nothing else outstanding. -/
def LonePressed (pos : KeyPos) (τ : Int) (t1 : Nat) (s : PthState) : Prop :=
  s.pth_status = PthStatus.pressed ∧
  s.pth_record.event.key = pos ∧
  s.pth_press_timer = t1 ∧
  s.timeout_for_forcing_choice = τ ∧
  s.has_second = false ∧
  s.second_was_held_instantly = false ∧
  s.used_release_records_bitmask = 0 ∧
  s.used_release_as_tap_positions_bitmask = 0 ∧
  s.is_processing_record_due_to_pth = false

end PTH
namespace PTH

theorem dispatch_idle_press_lone (cfg : PthConfig) (now kc : Nat) (record : KeyRecord)
    (s1 : PthState) (τ : Int)
    (hcfg : cfg.get_timeout_for_forcing_choice = (fun _ => τ))
    (hτ : τ ≠ 0)
    (hp : record.event.pressed = true)
    (hidle : s1.pth_status = .idle)
    (hth : pth_is_tap_hold_keycode kc = true)
    (hh : s1.has_second = false) (hsh : s1.second_was_held_instantly = false)
    (hc : s1.used_release_records_bitmask = 0)
    (hct : s1.used_release_as_tap_positions_bitmask = 0)
    (hpr : s1.is_processing_record_due_to_pth = false) :
    ∃ (s2 : PthState) (e2 : List Emission),
      dispatch_switch cfg now kc record (pth_is_tap_hold_keycode kc) s1 =
        some (false, s2, e2) ∧
      (∀ e ∈ e2, ∃ r, e = Emission.record r ∧ r.tap.count = 0) ∧
      LonePressed record.event.key τ now s2 := by
  unfold dispatch_switch
  rw [hidle]
  dsimp only
  unfold handle_idle
  rw [if_pos (by simp [hp, hth])]
  dsimp only
  rw [ips_timeout_const cfg now kc record s1 τ hcfg]
  rw [if_neg hτ]
  obtain ⟨s2, e2, heq, hrec, hstat, hkc2, hkey, htimer, hflag, hswh, hhs, hsrec, hch,
    hmo, hurr, hibs, hutp, hpos2, hproc, hto⟩ :=
    ipt_shape cfg now kc record (idle_press_state cfg now kc record s1) []
  rw [heq]
  dsimp only
  refine ⟨s2, [] ++ e2, rfl, ?_, ?_⟩
  · intro e he
    rw [List.nil_append] at he
    exact hrec e he
  · refine ⟨?_, ?_, ?_, ?_, ?_, ?_, ?_, ?_, ?_⟩
    · rw [hstat, ips_pth_status]
    · rw [hkey, ips_pth_record]
    · rw [htimer, ips_pth_press_timer]
    · rw [hto, ips_timeout_const cfg now kc record s1 τ hcfg]
    · rw [hhs, ips_has_second]
      exact hh
    · rw [hswh, ips_second_was_held_instantly]
      exact hsh
    · rw [hurr, ips_used_release_records_bitmask]
      exact hc
    · rw [hutp, ips_used_release_as_tap_positions_bitmask]
      exact hct
    · rw [hproc, ips_is_processing_record_due_to_pth]
      exact hpr

theorem lone_press_step (cfg : PthConfig) (τ : Int) (s : PthState) (kc t1 : Nat)
    (rP : KeyRecord)
    (hcfg : cfg.get_timeout_for_forcing_choice = (fun _ => τ))
    (hτ : τ ≠ 0)
    (hidle : s.pth_status = PthStatus.idle)
    (hh : s.has_second = false) (hsh : s.second_was_held_instantly = false)
    (hc : s.used_release_records_bitmask = 0)
    (hct : s.used_release_as_tap_positions_bitmask = 0)
    (hpr : s.is_processing_record_due_to_pth = false)
    (hth : pth_is_tap_hold_keycode kc = true)
    (hPp : rP.event.pressed = true) (hPk : rP.event.isKey = true) :
    ∃ (s1 : PthState) (ems1 : List Emission),
      stepOpt cfg s (PthInput.key t1 kc rP) = some (s1, ems1) ∧
      LonePressed rP.event.key τ (t1 % 65536) s1 ∧
      List.filter (isTapOf rP.event.key) ems1 = [] := by
  obtain ⟨s2, e2, hd, hrec, hLP⟩ :=
    dispatch_idle_press_lone cfg (t1 % 65536) kc rP
      { collect_new_press_to_press_and_overlap_duration s rP.event.pressed (t1 % 65536) with
        prev_press_keycode := (collect_new_press_to_press_and_overlap_duration s
          rP.event.pressed (t1 % 65536)).cur_press_keycode
        cur_press_keycode := kc }
      τ hcfg hτ hPp (by simp [hidle]) hth (by simp [hh]) (by simp [hsh]) (by simp [hc])
      (by simp [hct]) (by simp [hpr])
  refine ⟨s2, e2, ?_, hLP, filter_isTapOf_count0 _ _ hrec⟩
  unfold stepOpt
  dsimp only
  unfold process_record_pth
  rw [if_neg (by simp [hpr, hPk])]
  dsimp only
  rw [if_pos hPp]
  rw [hd]

theorem lone_tick_step (cfg : PthConfig) (pos : KeyPos) (τ : Int) (t1 t : Nat)
    (s : PthState) (hL : LonePressed pos τ t1 s)
    (hcond : τ < 0 ∨ (timerDiff16 (t % 65536) t1 : Int) < τ) :
    ∃ s2, housekeeping_task cfg s t = (s2, []) ∧ LonePressed pos τ t1 s2 := by
  obtain ⟨h1, h2, h3, h4, h5, h6, h7, h8, h9⟩ := hL
  have hLg : LonePressed pos τ t1 (hk_update_global_flags s (t % 65536)) :=
    ⟨by simp [h1], by simp [h2], by simp [h3], by simp [h4], by simp [h5],
     by simp [h6], by simp [h7], by simp [h8], by simp [h9]⟩
  unfold housekeeping_task
  dsimp only
  rw [if_neg (by rw [hkg_pth_status, h1]; decide)]
  unfold hk_pending_part
  dsimp only
  rw [if_neg (by simp [hkg_pth_status, h1])]
  rw [if_neg (by simp [hkg_pth_status, h1])]
  unfold hk_pth_press_part
  split_ifs with ha hb hg
  · exact ⟨_, rfl, hLg⟩
  · exfalso
    simp only [Bool.and_eq_true, decide_eq_true_eq, Bool.not_eq_true'] at hg
    obtain ⟨⟨hch, hτpos⟩, hge⟩ := hg
    rw [hkg_timeout_for_forcing_choice, h4] at hτpos hge
    rw [hkg_pth_press_timer, h3] at hge
    rcases hcond with hneg | hlt
    · omega
    · omega
  · exact ⟨_, rfl, hLg⟩
  · exact ⟨_, rfl, hLg⟩

theorem lone_ticks_run (cfg : PthConfig) (pos : KeyPos) (τ : Int) (t1 : Nat) :
    ∀ (ticks : List Nat),
      (∀ t ∈ ticks, τ < 0 ∨ (timerDiff16 (t % 65536) t1 : Int) < τ) →
      ∀ s, LonePressed pos τ t1 s →
        ∃ s2, runOpt cfg s (ticks.map PthInput.tick) = some (s2, []) ∧
          LonePressed pos τ t1 s2 := by
  intro ticks
  induction ticks with
  | nil =>
    intro _ s hL
    exact ⟨s, rfl, hL⟩
  | cons t rest ih =>
    intro hcond s hL
    obtain ⟨s2, hhk, hL2⟩ := lone_tick_step cfg pos τ t1 t s hL (hcond t (by simp))
    obtain ⟨s3, hrun, hL3⟩ :=
      ih (fun u hu => hcond u (List.mem_cons_of_mem _ hu)) s2 hL2
    refine ⟨s3, ?_, hL3⟩
    show runOpt cfg s (PthInput.tick t :: rest.map PthInput.tick) = some (s3, [])
    unfold runOpt
    rw [show stepOpt cfg s (PthInput.tick t) = some (s2, []) by
      unfold stepOpt
      dsimp only
      rw [hhk]]
    dsimp only
    rw [hrun]
    dsimp only
    rw [List.nil_append]

end PTH
namespace PTH

theorem mdt_shape_lone (cfg : PthConfig) (now : Nat) (s : PthState)
    (hst : s.pth_status = PthStatus.pressed)
    (hh : s.has_second = false)
    (hc : s.used_release_records_bitmask = 0) :
    ∃ (sT : PthState) (emsT : List Emission) (r1 : KeyRecord),
      make_decision_tap cfg now s = (sT, emsT) ∧
      sT.pth_record = r1 ∧
      sT.pth_status = PthStatus.decidedTap ∧
      r1.event.key = s.pth_record.event.key ∧
      r1.tap.count = 1 ∧
      r1.event.pressed = true ∧
      List.filter (isTapOf s.pth_record.event.key) emsT = [Emission.record r1] := by
  rw [make_decision_tap]
  rw [if_neg (by rw [hst]; decide)]
  dsimp only
  rw [if_pos (show (!(process_release_records_and_wait_before_first
      (registerPthAsTap now (mdt_undo_instant cfg now
        { s with pth_status := PthStatus.decidedTap }).1).1
      ReleaseTime.beforeSecond now).1.has_second) = true from by simp [hh])]
  refine ⟨_, _, _, rfl, rfl, ?_, ?_, ?_, ?_, ?_⟩
  · simp
  · simp
  · simp
  · simp
  · simp only [List.filter_append]
    rw [filter_isTapOf_ite_tapcode, filter_isTapOf_mui]
    simp [isTapOf, hc, prr_ems_of_zero]

theorem dispatch_pressed_release_lone (cfg : PthConfig) (now kc : Nat)
    (record : KeyRecord) (s1 : PthState) (pos : KeyPos)
    (hp : record.event.pressed = false)
    (hkey : record.event.key = pos)
    (hst : s1.pth_status = PthStatus.pressed)
    (hrk : s1.pth_record.event.key = pos)
    (hh : s1.has_second = false)
    (hc : s1.used_release_records_bitmask = 0) :
    ∃ (sF : PthState) (ems : List Emission) (r1 r2 : KeyRecord),
      dispatch_switch cfg now kc record (pth_is_tap_hold_keycode kc) s1 =
        some (false, sF, ems) ∧
      sF.pth_status = PthStatus.idle ∧
      sF.pth_prev_status = PthStatus.decidedTap ∧
      List.filter (isTapOf pos) ems = [Emission.record r1, Emission.record r2] ∧
      r1.event.key = pos ∧ r1.tap.count = 1 ∧ r1.event.pressed = true ∧
      r2.event.key = pos ∧ r2.tap.count = 1 ∧ r2.event.pressed = false := by
  obtain ⟨sT, emsT, r1, hmdt, hrecT, hstT, hkey1, hcnt1, hprs1, hfilt⟩ :=
    mdt_shape_lone cfg now s1 hst hh hc
  rw [hrk] at hkey1 hfilt
  unfold dispatch_switch
  rw [hst]
  dsimp only
  unfold handle_pressed
  rw [if_neg (by simp [hp])]
  rw [if_pos (by rw [hkey, hrk])]
  dsimp only
  rw [hmdt]
  dsimp only
  refine ⟨_, _, r1, withNewTime now (withPressed false (set_record_to_tap sT.pth_record)),
    rfl, ?_, ?_, ?_, ?_, ?_, ?_, ?_, ?_, ?_⟩
  · simp [reset_pth_state]
  · simp [reset_pth_state, hstT]
  · simp only [List.filter_append, unregisterPthAsTap_snd]
    rw [hfilt]
    simp [isTapOf, hrecT, hkey1]
  · exact hkey1
  · exact hcnt1
  · exact hprs1
  · simp [hrecT, hkey1]
  · simp [hrecT]
  · simp

theorem lone_release_step (cfg : PthConfig) (pos : KeyPos) (τ : Int) (t1 t2 kc : Nat)
    (s : PthState) (rR : KeyRecord) (hL : LonePressed pos τ t1 s)
    (hRp : rR.event.pressed = false) (hRk : rR.event.isKey = true)
    (hRpos : rR.event.key = pos) :
    ∃ (sF : PthState) (ems : List Emission) (r1 r2 : KeyRecord),
      stepOpt cfg s (PthInput.key t2 kc rR) = some (sF, ems) ∧
      sF.pth_status = PthStatus.idle ∧
      sF.pth_prev_status = PthStatus.decidedTap ∧
      List.filter (isTapOf pos) ems = [Emission.record r1, Emission.record r2] ∧
      r1.event.key = pos ∧ r1.tap.count = 1 ∧ r1.event.pressed = true ∧
      r2.event.key = pos ∧ r2.tap.count = 1 ∧ r2.event.pressed = false := by
  obtain ⟨h1, h2, h3, h4, h5, h6, h7, h8, h9⟩ := hL
  obtain ⟨sF, ems, r1, r2, hd, hidleF, hprevF, hfiltF, hk1, hc1, hp1, hk2, hc2, hp2⟩ :=
    dispatch_pressed_release_lone cfg (t2 % 65536) kc rR
      (collect_new_press_to_press_and_overlap_duration s rR.event.pressed (t2 % 65536))
      pos hRp hRpos (by simp [h1]) (by simp [h2]) (by simp [h5]) (by simp [h7])
  refine ⟨sF, ems, r1, r2, ?_, hidleF, hprevF, hfiltF, hk1, hc1, hp1, hk2, hc2, hp2⟩
  unfold stepOpt
  dsimp only
  unfold process_record_pth
  rw [if_neg (by simp [h9, hRk])]
  dsimp only
  rw [if_neg (by simp [hRp])]
  have hrm : remove_pos_from_tap_releases (collect_new_press_to_press_and_overlap_duration
      s rR.event.pressed (t2 % 65536)) rR.event.key = none :=
    rpt_empty _ _ (by simp [h8])
  rw [hrm]
  dsimp only
  rw [hd]

theorem runOpt_append_some (cfg : PthConfig) :
    ∀ (l1 l2 : List PthInput) (s s1 s2 : PthState) (e1 e2 : List Emission),
      runOpt cfg s l1 = some (s1, e1) →
      runOpt cfg s1 l2 = some (s2, e2) →
      runOpt cfg s (l1 ++ l2) = some (s2, e1 ++ e2) := by
  intro l1
  induction l1 with
  | nil =>
    intro l2 s s1 s2 e1 e2 h1 h2
    unfold runOpt at h1
    simp only [Option.some.injEq, Prod.mk.injEq] at h1
    rw [List.nil_append, h1.1, ← h1.2]
    simpa using h2
  | cons i t ih =>
    intro l2 s s1 s2 e1 e2 h1 h2
    rw [List.cons_append]
    unfold runOpt at h1 ⊢
    rcases hs : stepOpt cfg s i with _ | ⟨sa, ea⟩
    · rw [hs] at h1
      exact Option.noConfusion h1
    · rw [hs] at h1
      dsimp only at h1 ⊢
      rcases hr : runOpt cfg sa t with _ | ⟨sb, eb⟩
      · rw [hr] at h1
        exact Option.noConfusion h1
      · rw [hr] at h1
        dsimp only at h1
        simp only [Option.some.injEq, Prod.mk.injEq] at h1
        have h2b : runOpt cfg sb l2 = some (s2, e2) := by
          rw [h1.1]
          exact h2
        rw [ih l2 sa sb s2 eb e2 hr h2b]
        dsimp only
        rw [← h1.2, List.append_assoc]

/-- C1: a tap-hold key pressed from Idle and released with no other key event
in between — housekeeping ticks staying below the forced-choice timeout —
commits tap: the run emits exactly one tap of the key (a register-as-tap
followed by an unregister-as-tap at the key's position, tap count 1), and
the machine returns to `IDLE` (recording `DECIDED_TAP`), regardless of the
hold duration. -/
theorem lone_tap_emits_single_tap :
    ∀ (cfg : PthConfig) (τ : Int) (s : PthState) (kc t1 t2 : Nat) (pos : KeyPos)
      (rP rR : KeyRecord) (ticks : List Nat),
      cfg.get_timeout_for_forcing_choice = (fun _ => τ) →
      τ ≠ 0 →
      s.pth_status = PthStatus.idle →
      s.has_second = false →
      s.second_was_held_instantly = false →
      s.used_release_records_bitmask = 0 →
      s.used_release_as_tap_positions_bitmask = 0 →
      s.is_processing_record_due_to_pth = false →
      pth_is_tap_hold_keycode kc = true →
      rP.event.pressed = true → rP.event.isKey = true → rP.event.key = pos →
      rR.event.pressed = false → rR.event.isKey = true → rR.event.key = pos →
      (∀ t ∈ ticks, τ < 0 ∨ (timerDiff16 (t % 65536) (t1 % 65536) : Int) < τ) →
      ∃ (sF : PthState) (ems : List Emission) (r1 r2 : KeyRecord),
        runOpt cfg s ([PthInput.key t1 kc rP] ++ ticks.map PthInput.tick ++
          [PthInput.key t2 kc rR]) = some (sF, ems) ∧
        sF.pth_status = PthStatus.idle ∧
        sF.pth_prev_status = PthStatus.decidedTap ∧
        List.filter (isTapOf pos) ems = [Emission.record r1, Emission.record r2] ∧
        r1.event.key = pos ∧ r1.tap.count = 1 ∧ r1.event.pressed = true ∧
        r2.event.key = pos ∧ r2.tap.count = 1 ∧ r2.event.pressed = false := by
  intro cfg τ s kc t1 t2 pos rP rR ticks hcfg hτ hidle hh hsh hc hct hpr hth hPp hPk
    hPpos hRp hRk hRpos hticks
  obtain ⟨s1, ems1, hstep1, hL1, hf1⟩ :=
    lone_press_step cfg τ s kc t1 rP hcfg hτ hidle hh hsh hc hct hpr hth hPp hPk
  rw [hPpos] at hL1 hf1
  obtain ⟨s2, hrun2, hL2⟩ := lone_ticks_run cfg pos τ (t1 % 65536) ticks hticks s1 hL1
  obtain ⟨sF, emsF, r1, r2, hstep3, hidleF, hprevF, hfiltF, hk1, hc1, hp1, hk2, hc2, hp2⟩ :=
    lone_release_step cfg pos τ (t1 % 65536) t2 kc s2 rR hL2 hRp hRk hRpos
  have hrun1 : runOpt cfg s [PthInput.key t1 kc rP] = some (s1, ems1) := by
    unfold runOpt
    rw [hstep1]
    dsimp only
    rw [show runOpt cfg s1 ([] : List PthInput) = some (s1, []) from rfl]
    dsimp only
    rw [List.append_nil]
  have hrun3 : runOpt cfg s2 [PthInput.key t2 kc rR] = some (sF, emsF) := by
    unfold runOpt
    rw [hstep3]
    dsimp only
    rw [show runOpt cfg sF ([] : List PthInput) = some (sF, []) from rfl]
    dsimp only
    rw [List.append_nil]
  have hrun12 : runOpt cfg s ([PthInput.key t1 kc rP] ++ ticks.map PthInput.tick) =
      some (s2, ems1 ++ []) :=
    runOpt_append_some cfg _ _ s s1 s2 ems1 [] hrun1 hrun2
  have hrunAll : runOpt cfg s ([PthInput.key t1 kc rP] ++ ticks.map PthInput.tick ++
      [PthInput.key t2 kc rR]) = some (sF, (ems1 ++ []) ++ emsF) :=
    runOpt_append_some cfg _ _ s s2 sF (ems1 ++ []) emsF hrun12 hrun3
  refine ⟨sF, (ems1 ++ []) ++ emsF, r1, r2, hrunAll, hidleF, hprevF, ?_,
    hk1, hc1, hp1, hk2, hc2, hp2⟩
  simp only [List.filter_append, hf1, hfiltF, List.filter_nil, List.nil_append]

/-- Witness for C1 at a concrete run: `LCTL_T(KC_A)` pressed at 100 ms and
released at 180 ms with a housekeeping tick at 150 ms, under `testCfg`
(default 700 ms forced-choice timeout). -/
theorem lone_tap_emits_single_tap_witness :
    testCfg.get_timeout_for_forcing_choice = (fun _ => (700 : Int)) ∧
    ∃ (sF : PthState) (ems : List Emission) (r1 r2 : KeyRecord),
      runOpt testCfg (initState 0) ([PthInput.key 100 KC_MT_CTL_A (pressRec posL 100)] ++
        [(150 : Nat)].map PthInput.tick ++
        [PthInput.key 180 KC_MT_CTL_A (releaseRec posL 180)]) = some (sF, ems) ∧
      sF.pth_status = PthStatus.idle ∧
      sF.pth_prev_status = PthStatus.decidedTap ∧
      List.filter (isTapOf posL) ems = [Emission.record r1, Emission.record r2] ∧
      r1.event.key = posL ∧ r1.tap.count = 1 ∧ r1.event.pressed = true ∧
      r2.event.key = posL ∧ r2.tap.count = 1 ∧ r2.event.pressed = false :=
  ⟨rfl,
   lone_tap_emits_single_tap testCfg 700 (initState 0) KC_MT_CTL_A 100 180 posL
     (pressRec posL 100) (releaseRec posL 180) [150] rfl (by decide) rfl rfl rfl rfl rfl
     rfl (by decide) rfl rfl rfl rfl rfl rfl
     (by intro t ht
         right
         simp only [List.mem_singleton] at ht
         rw [ht]
         decide)⟩

end PTH


namespace PTH

-- Claim C7: duration saturation -----------------------------------------------------

/-- The prediction calls recorded in an emission trace. -/
def predCalls (l : List Emission) : List PredInputs :=
  l.filterMap fun e => match e with | .predCall i => some i | _ => none

@[simp] theorem predCalls_nil : predCalls [] = [] := rfl

@[simp] theorem predCalls_append (l1 l2 : List Emission) :
    predCalls (l1 ++ l2) = predCalls l1 ++ predCalls l2 := by
  simp [predCalls]

@[simp] theorem predCalls_cons_record (r : KeyRecord) (l : List Emission) :
    predCalls (Emission.record r :: l) = predCalls l := rfl

@[simp] theorem predCalls_cons_sendWait (l : List Emission) :
    predCalls (Emission.sendWait :: l) = predCalls l := rfl

@[simp] theorem predCalls_cons_reg (k : Nat) (l : List Emission) :
    predCalls (Emission.regCode16 k :: l) = predCalls l := rfl

@[simp] theorem predCalls_cons_unreg (k : Nat) (l : List Emission) :
    predCalls (Emission.unregCode16 k :: l) = predCalls l := rfl

@[simp] theorem predCalls_cons_tapcode (k : Nat) (l : List Emission) :
    predCalls (Emission.tapCode16 k :: l) = predCalls l := rfl

@[simp] theorem predCalls_cons_pred (i : PredInputs) (l : List Emission) :
    predCalls (Emission.predCall i :: l) = i :: predCalls l := rfl

@[simp] theorem predCalls_ite (p : Prop) [Decidable p] (l1 l2 : List Emission) :
    predCalls (if p then l1 else l2) = if p then predCalls l1 else predCalls l2 := by
  split_ifs <;> rfl

theorem release_loop_no_pred (now : Nat) :
    ∀ (fuel mask : Nat) (w : Bool) (arr : Array KeyRecord),
      predCalls (release_loop now fuel mask w arr).2.2 = [] := by
  intro fuel
  induction fuel with
  | zero =>
    intro mask w arr
    rfl
  | succ n ih =>
    intro mask w arr
    unfold release_loop
    dsimp only
    split_ifs <;> first | rfl | simp [ih]

theorem prr_no_pred (s : PthState) (rt : ReleaseTime) (w : Bool) (now : Nat) :
    predCalls (process_release_records s rt w now).2.2 = [] := by
  unfold process_release_records
  dsimp only
  split_ifs with h
  · rfl
  · rcases hr : release_loop now 8 (get_to_be_released_bitmask s rt) (!w)
        s.release_records with ⟨arr2, w2, ems2⟩
    have hrl := release_loop_no_pred now 8 (get_to_be_released_bitmask s rt) (!w)
      s.release_records
    rw [hr] at hrl
    dsimp only at hrl
    dsimp only
    exact hrl

theorem prr_wait_no_pred (s : PthState) (rt : ReleaseTime) (now : Nat) :
    predCalls (process_release_records_and_wait_before_first s rt now).2.2 = [] := by
  rw [prr_wait_eq]
  exact prr_no_pred s rt true now

theorem mui_no_pred (cfg : PthConfig) (now : Nat) (s : PthState) :
    predCalls (mdt_undo_instant cfg now s).2 = [] := by
  unfold mdt_undo_instant
  dsimp only
  split_ifs <;> simp

theorem msp_no_pred (now : Nat) (s : PthState) :
    predCalls (mdt_second_part now s).2 = [] := by
  unfold mdt_second_part
  dsimp only
  split_ifs <;> simp [prr_no_pred, prr_wait_no_pred]

theorem mdt_no_pred (cfg : PthConfig) (now : Nat) (s : PthState) :
    predCalls (make_decision_tap cfg now s).2 = [] := by
  rw [make_decision_tap]
  dsimp only
  split_ifs <;> simp [mui_no_pred, msp_no_pred, prr_no_pred, prr_wait_no_pred]

theorem rph_no_pred (cfg : PthConfig) (now : Nat) (s : PthState) :
    predCalls (register_pth_hold cfg now s).2 = [] := by
  unfold register_pth_hold
  dsimp only
  split_ifs <;> simp

theorem uph_no_pred (now : Nat) (s : PthState) :
    predCalls (unregister_pth_hold now s).2 = [] := by
  unfold unregister_pth_hold
  split_ifs <;> simp

theorem mhp_no_pred (cfg : PthConfig) (now : Nat) (s : PthState) :
    predCalls (mdh_second_part cfg now s).2 = [] := by
  unfold mdh_second_part
  dsimp only
  split_ifs <;> simp [prr_no_pred]

theorem mdh_no_pred (cfg : PthConfig) (now : Nat) (s : PthState) :
    predCalls (make_decision_hold cfg now s).2 = [] := by
  rw [make_decision_hold]
  dsimp only
  split_ifs <;> simp [rph_no_pred, prr_no_pred, mhp_no_pred]

theorem muc_no_pred (cfg : PthConfig) (now : Nat) (s : PthState) :
    predCalls (make_user_choice_or_not cfg now s).2 = [] := by
  unfold make_user_choice_or_not
  dsimp only
  cases cfg.get_forced_choice_after_timeout
      { s with has_chosen_after_timeout_reached := true } <;>
    simp [mdt_no_pred, mdh_no_pred]

end PTH
namespace PTH

/-- A signed duration in the sentinel range `[-1, MS_MAX_DUR]`. -/
def inI (x : Int) : Prop := -1 ≤ x ∧ x ≤ (MS_MAX_DUR_FOR_TIMERS : Int)

/-- All duration fields the prediction functions can read are saturated:
unsigned ones in `[0, MS_MAX_DUR]`, signed ones in `[-1, MS_MAX_DUR]`
(-1 is the "unknown" sentinel); `down_count` fits its `uint8_t`. -/
def DurOk (s : PthState) : Prop :=
  s.pth_press_to_second_press_dur ≤ MS_MAX_DUR_FOR_TIMERS ∧
  s.pth_press_to_second_release_dur ≤ MS_MAX_DUR_FOR_TIMERS ∧
  s.pth_second_dur ≤ MS_MAX_DUR_FOR_TIMERS ∧
  s.pth_second_press_to_third_press_dur ≤ MS_MAX_DUR_FOR_TIMERS ∧
  s.key_release_before_pth_to_pth_press_dur ≤ MS_MAX_DUR_FOR_TIMERS ∧
  inI s.pth_prev_prev_press_to_prev_press_dur ∧
  inI s.pth_prev_press_to_pth_press_dur ∧
  inI s.pth_prev_prev_overlap_dur ∧
  inI s.pth_prev_overlap_dur ∧
  inI s.prev_press_to_press_dur ∧
  inI s.cur_press_to_press_dur ∧
  inI s.prev_overlap_dur ∧
  inI s.cur_overlap_dur ∧
  s.down_count ≤ 255

/-- The inputs of one prediction call are saturated. -/
def PredOk (i : PredInputs) : Prop :=
  i.pth_press_to_second_press_dur ≤ MS_MAX_DUR_FOR_TIMERS ∧
  i.pth_press_to_second_release_dur ≤ MS_MAX_DUR_FOR_TIMERS ∧
  i.pth_second_dur ≤ MS_MAX_DUR_FOR_TIMERS ∧
  i.pth_second_press_to_third_press_dur ≤ MS_MAX_DUR_FOR_TIMERS ∧
  i.key_release_before_pth_to_pth_press_dur ≤ MS_MAX_DUR_FOR_TIMERS ∧
  inI i.pth_prev_prev_press_to_prev_press_dur ∧
  inI i.pth_prev_press_to_pth_press_dur ∧
  inI i.pth_prev_prev_overlap_dur ∧
  inI i.pth_prev_overlap_dur

theorem predOk_of_durOk (s : PthState) (h : DurOk s) : PredOk (predInputsOf s) := by
  obtain ⟨h1, h2, h3, h4, h5, h6, h7, h8, h9, -, -, -, -, -⟩ := h
  exact ⟨h1, h2, h3, h4, h5, h6, h7, h8, h9⟩

theorem mdt_durOk (cfg : PthConfig) (now : Nat) (s : PthState) (h : DurOk s) :
    DurOk (make_decision_tap cfg now s).1 := by
  obtain ⟨h1, h2, h3, h4, h5, h6, h7, h8, h9, h10, h11, h12, h13, h14⟩ := h
  refine ⟨?_, ?_, ?_, ?_, ?_, ?_, ?_, ?_, ?_, ?_, ?_, ?_, ?_, ?_⟩ <;>
    simp only [mdt_pth_press_to_second_press_dur, mdt_pth_press_to_second_release_dur,
      mdt_pth_second_dur, mdt_pth_second_press_to_third_press_dur,
      mdt_key_release_before_pth_to_pth_press_dur,
      mdt_pth_prev_prev_press_to_prev_press_dur, mdt_pth_prev_press_to_pth_press_dur,
      mdt_pth_prev_prev_overlap_dur, mdt_pth_prev_overlap_dur,
      mdt_prev_press_to_press_dur, mdt_cur_press_to_press_dur,
      mdt_prev_overlap_dur, mdt_cur_overlap_dur, mdt_down_count] <;>
    assumption

theorem mdh_durOk (cfg : PthConfig) (now : Nat) (s : PthState) (h : DurOk s) :
    DurOk (make_decision_hold cfg now s).1 := by
  obtain ⟨h1, h2, h3, h4, h5, h6, h7, h8, h9, h10, h11, h12, h13, h14⟩ := h
  refine ⟨?_, ?_, ?_, ?_, ?_, ?_, ?_, ?_, ?_, ?_, ?_, ?_, ?_, ?_⟩ <;>
    simp only [mdh_pth_press_to_second_press_dur, mdh_pth_press_to_second_release_dur,
      mdh_pth_second_dur, mdh_pth_second_press_to_third_press_dur,
      mdh_key_release_before_pth_to_pth_press_dur,
      mdh_pth_prev_prev_press_to_prev_press_dur, mdh_pth_prev_press_to_pth_press_dur,
      mdh_pth_prev_prev_overlap_dur, mdh_pth_prev_overlap_dur,
      mdh_prev_press_to_press_dur, mdh_cur_press_to_press_dur,
      mdh_prev_overlap_dur, mdh_cur_overlap_dur, mdh_down_count] <;>
    assumption

theorem muc_durOk (cfg : PthConfig) (now : Nat) (s : PthState) (h : DurOk s) :
    DurOk (make_user_choice_or_not cfg now s).1 := by
  obtain ⟨h1, h2, h3, h4, h5, h6, h7, h8, h9, h10, h11, h12, h13, h14⟩ := h
  refine ⟨?_, ?_, ?_, ?_, ?_, ?_, ?_, ?_, ?_, ?_, ?_, ?_, ?_, ?_⟩ <;>
    simp only [muc_pth_press_to_second_press_dur, muc_pth_press_to_second_release_dur,
      muc_pth_second_dur, muc_pth_second_press_to_third_press_dur,
      muc_key_release_before_pth_to_pth_press_dur,
      muc_pth_prev_prev_press_to_prev_press_dur, muc_pth_prev_press_to_pth_press_dur,
      muc_pth_prev_prev_overlap_dur, muc_pth_prev_overlap_dur,
      muc_prev_press_to_press_dur, muc_cur_press_to_press_dur,
      muc_prev_overlap_dur, muc_cur_overlap_dur, muc_down_count] <;>
    assumption

end PTH

namespace PTH

/-- The saturation promises housekeeping makes about each timer at time `t`:
either the maxed-out flag is set or the timer is within range. -/
def relGuar (t : Nat) (s : PthState) : Prop :=
  s.release_timer_max_reached = true ∨
    timerDiff16 t s.release_timer < MS_MAX_DUR_FOR_TIMERS

def ovlGuar (t : Nat) (s : PthState) : Prop :=
  2 ≤ s.down_count →
    (s.overlap_timer_max_reached = true ∨
      timerDiff16 t s.overlap_timer < MS_MAX_DUR_FOR_TIMERS)

def p2pGuar (t : Nat) (s : PthState) : Prop :=
  s.press_to_press_timer_max_reached = true ∨
    timerDiff16 t s.press_to_press_timer < MS_MAX_DUR_FOR_TIMERS

def pthGuar (t : Nat) (s : PthState) : Prop :=
  (s.pth_status = PthStatus.pressed ∨ s.pth_status = PthStatus.secondPressed) →
    (s.pth_press_timer_max_reached = true ∨
      timerDiff16 t s.pth_press_timer < MS_MAX_DUR_FOR_TIMERS)

def secGuar (t : Nat) (s : PthState) : Prop :=
  s.pth_status = PthStatus.secondPressed →
    (s.second_press_timer_max_reached = true ∨
      timerDiff16 t s.second_press_timer < MS_MAX_DUR_FOR_TIMERS)

/-- The full post-housekeeping saturation promise. -/
def TickedG (t : Nat) (s : PthState) : Prop :=
  relGuar t s ∧ ovlGuar t s ∧ p2pGuar t s ∧ pthGuar t s ∧ secGuar t s

theorem hkg_rel_guar (s : PthState) (t : Nat) : relGuar t (hk_update_global_flags s t) := by
  unfold relGuar
  rcases Bool.eq_false_or_eq_true s.release_timer_max_reached with hf | hf
  · left
    unfold hk_update_global_flags
    dsimp only
    simp only [apply_ite (fun st : PthState => st.release_timer_max_reached), ite_self]
    simp [hf]
  · by_cases hge : MS_MAX_DUR_FOR_TIMERS ≤ timerDiff16 t s.release_timer
    · left
      unfold hk_update_global_flags
      dsimp only
      simp only [apply_ite (fun st : PthState => st.release_timer_max_reached), ite_self]
      simp [hf, ge_iff_le, hge]
    · right
      rw [hkg_release_timer]
      omega

theorem hkg_ovl_guar (s : PthState) (t : Nat) : ovlGuar t (hk_update_global_flags s t) := by
  unfold ovlGuar
  intro hdc
  rw [hkg_down_count] at hdc
  rcases Bool.eq_false_or_eq_true s.overlap_timer_max_reached with hf | hf
  · left
    unfold hk_update_global_flags
    dsimp only
    simp only [apply_ite (fun st : PthState => st.overlap_timer_max_reached), ite_self]
    simp [hf]
  · by_cases hge : MS_MAX_DUR_FOR_TIMERS ≤ timerDiff16 t s.overlap_timer
    · left
      unfold hk_update_global_flags
      dsimp only
      simp only [apply_ite (fun st : PthState => st.overlap_timer_max_reached),
        apply_ite (fun st : PthState => st.down_count),
        apply_ite (fun st : PthState => st.overlap_timer), ite_self]
      simp [hf, ge_iff_le, hge, hdc]
    · right
      rw [hkg_overlap_timer]
      omega

theorem hkg_p2p_guar (s : PthState) (t : Nat) : p2pGuar t (hk_update_global_flags s t) := by
  unfold p2pGuar
  rcases Bool.eq_false_or_eq_true s.press_to_press_timer_max_reached with hf | hf
  · left
    unfold hk_update_global_flags
    dsimp only
    simp only [apply_ite (fun st : PthState => st.press_to_press_timer_max_reached), ite_self]
    simp [hf]
  · by_cases hge : MS_MAX_DUR_FOR_TIMERS ≤ timerDiff16 t s.press_to_press_timer
    · left
      unfold hk_update_global_flags
      dsimp only
      simp only [apply_ite (fun st : PthState => st.press_to_press_timer_max_reached),
        apply_ite (fun st : PthState => st.press_to_press_timer), ite_self]
      simp [hf, ge_iff_le, hge]
    · right
      rw [hkg_press_to_press_timer]
      omega

theorem pth_part_tickedG (cfg : PthConfig) (s2 : PthState) (t : Nat)
    (hrel : relGuar t s2) (hovl : ovlGuar t s2) (hp2p : p2pGuar t s2)
    (hsec : secGuar t s2) :
    TickedG t (hk_pth_press_part cfg s2 t).1 := by
  unfold hk_pth_press_part
  split_ifs with ha hb hgd
  · exact ⟨hrel, fun hdc => hovl hdc, hp2p, fun _ => Or.inl rfl, fun hsp => hsec hsp⟩
  · refine ⟨?_, ?_, ?_, ?_, ?_⟩
    · unfold relGuar
      rw [muc_release_timer, muc_release_timer_max_reached]
      exact hrel
    · unfold ovlGuar
      rw [muc_down_count, muc_overlap_timer, muc_overlap_timer_max_reached]
      exact hovl
    · unfold p2pGuar
      rw [muc_press_to_press_timer, muc_press_to_press_timer_max_reached]
      exact hp2p
    · intro _
      right
      rw [muc_pth_press_timer]
      omega
    · intro hsp
      have hs2sp : s2.pth_status = PthStatus.secondPressed := by
        rcases muc_status cfg t s2 with h | h | h
        · rw [← h]
          exact hsp
        · rw [h] at hsp
          exact absurd hsp (by simp)
        · rw [h] at hsp
          exact absurd hsp (by simp)
      rw [muc_second_press_timer, muc_second_press_timer_max_reached]
      exact hsec hs2sp
  · refine ⟨hrel, hovl, hp2p, ?_, hsec⟩
    intro _
    right
    dsimp only
    omega
  · refine ⟨hrel, hovl, hp2p, ?_, hsec⟩
    intro _
    left
    simp only [Bool.not_eq_true', Bool.not_eq_false] at ha
    exact ha

theorem pending_tickedG (cfg : PthConfig) (sg : PthState) (t : Nat)
    (hnd : statusVal sg.pth_status < statusVal PthStatus.decidedTap)
    (hrel : relGuar t sg) (hovl : ovlGuar t sg) (hp2p : p2pGuar t sg) :
    TickedG t (hk_pending_part cfg sg t).1 := by
  unfold hk_pending_part
  dsimp only
  split_ifs with h1 h2
  · refine ⟨?_, ?_, ?_, ?_, ?_⟩
    · unfold relGuar
      rw [mdh_release_timer, mdh_release_timer_max_reached]
      exact hrel
    · unfold ovlGuar
      rw [mdh_down_count, mdh_overlap_timer, mdh_overlap_timer_max_reached]
      exact hovl
    · unfold p2pGuar
      rw [mdh_press_to_press_timer, mdh_press_to_press_timer_max_reached]
      exact hp2p
    · intro hps
      exfalso
      rw [mdh_status, if_neg (by omega)] at hps
      rcases hps with hps | hps <;> exact absurd hps (by simp)
    · intro hsp
      exfalso
      rw [mdh_status, if_neg (by omega)] at hsp
      exact absurd hsp (by simp)
  · refine pth_part_tickedG cfg _ t hrel hovl hp2p ?_
    intro _
    exact Or.inl rfl
  · refine pth_part_tickedG cfg sg t hrel hovl hp2p ?_
    intro hsp
    rcases Bool.eq_false_or_eq_true sg.second_press_timer_max_reached with hf | hf
    · left
      exact hf
    · by_cases hge : MS_MAX_DUR_FOR_TIMERS ≤ timerDiff16 t sg.second_press_timer
      · exfalso
        have hmo : ¬(0 < sg.min_overlap_dur_for_hold ∧
            sg.min_overlap_dur_for_hold ≤ timerDiff16 t sg.second_press_timer) := by
          intro hmo
          apply h1
          simp only [Bool.and_eq_true, Bool.not_eq_true', decide_eq_true_eq, gt_iff_lt,
            ge_iff_le]
          exact ⟨⟨⟨hf, hsp⟩, hmo.1⟩, hmo.2⟩
        apply h2
        simp only [Bool.and_eq_true, Bool.not_eq_true', decide_eq_true_eq, gt_iff_lt,
          ge_iff_le, Bool.and_eq_false_iff, decide_eq_false_iff_not, not_lt, not_le]
        refine ⟨⟨⟨hf, hsp⟩, ?_⟩, hge⟩
        omega
      · right
        omega

theorem hk_tickedG (cfg : PthConfig) (s : PthState) (now : Nat) :
    TickedG (now % 65536) (housekeeping_task cfg s now).1 := by
  unfold housekeeping_task
  dsimp only
  split_ifs with hg
  · refine ⟨hkg_rel_guar s (now % 65536), hkg_ovl_guar s (now % 65536),
      hkg_p2p_guar s (now % 65536), ?_, ?_⟩
    · intro hps
      exfalso
      rcases hg with hg | hg
      · rcases hps with hps | hps <;> exact absurd (hps.symm.trans hg) (by simp)
      · rcases hps with hps | hps <;> (rw [hps] at hg; exact absurd hg (by decide))
    · intro hsp
      exfalso
      rcases hg with hg | hg
      · exact absurd (hsp.symm.trans hg) (by simp)
      · rw [hsp] at hg
        exact absurd hg (by decide)
  · rw [not_or] at hg
    refine pending_tickedG cfg _ (now % 65536) (by
      have := hg.2
      omega) (hkg_rel_guar s (now % 65536)) (hkg_ovl_guar s (now % 65536))
      (hkg_p2p_guar s (now % 65536))

theorem hkg_durOk (s : PthState) (t : Nat) (h : DurOk s) :
    DurOk (hk_update_global_flags s t) := by
  obtain ⟨h1, h2, h3, h4, h5, h6, h7, h8, h9, h10, h11, h12, h13, h14⟩ := h
  refine ⟨?_, ?_, ?_, ?_, ?_, ?_, ?_, ?_, ?_, ?_, ?_, ?_, ?_, ?_⟩ <;>
    simp only [hkg_pth_press_to_second_press_dur, hkg_pth_press_to_second_release_dur,
      hkg_pth_second_dur, hkg_pth_second_press_to_third_press_dur,
      hkg_key_release_before_pth_to_pth_press_dur,
      hkg_pth_prev_prev_press_to_prev_press_dur, hkg_pth_prev_press_to_pth_press_dur,
      hkg_pth_prev_prev_overlap_dur, hkg_pth_prev_overlap_dur,
      hkg_prev_press_to_press_dur, hkg_cur_press_to_press_dur,
      hkg_prev_overlap_dur, hkg_cur_overlap_dur, hkg_down_count] <;>
    assumption

theorem hk_durOk (cfg : PthConfig) (s : PthState) (now : Nat) (h : DurOk s) :
    DurOk (housekeeping_task cfg s now).1 := by
  have hg := hkg_durOk s (now % 65536) h
  unfold housekeeping_task hk_pending_part hk_pth_press_part
  dsimp only
  split_ifs <;>
    first
      | exact mdh_durOk cfg _ _ hg
      | exact muc_durOk cfg _ _ hg
      | exact hg

theorem hk_no_pred (cfg : PthConfig) (s : PthState) (now : Nat) :
    predCalls (housekeeping_task cfg s now).2 = [] := by
  unfold housekeeping_task hk_pending_part hk_pth_press_part
  dsimp only
  split_ifs <;> simp [mdh_no_pred, muc_no_pred]

end PTH


namespace PTH

/-- A 16-bit duration below the saturation bound reads back unchanged (and in
particular in range) through the `int16_t` reinterpretation. -/
theorem toInt16_inI (n : Nat) (h : n ≤ MS_MAX_DUR_FOR_TIMERS) : inI (toInt16 n) := by
  have h4 : n ≤ 4096 := by
    simpa [MS_MAX_DUR_FOR_TIMERS] using h
  unfold toInt16 inI
  rw [Nat.mod_eq_of_lt (by omega), if_pos (by omega)]
  simp only [MS_MAX_DUR_FOR_TIMERS]
  omega

/-- `DurOk` transports along field-wise equal states. -/
theorem durOk_transport (a : PthState) (h : DurOk a) (b : PthState)
    (e1 : b.pth_press_to_second_press_dur = a.pth_press_to_second_press_dur)
    (e2 : b.pth_press_to_second_release_dur = a.pth_press_to_second_release_dur)
    (e3 : b.pth_second_dur = a.pth_second_dur)
    (e4 : b.pth_second_press_to_third_press_dur = a.pth_second_press_to_third_press_dur)
    (e5 : b.key_release_before_pth_to_pth_press_dur = a.key_release_before_pth_to_pth_press_dur)
    (e6 : b.pth_prev_prev_press_to_prev_press_dur = a.pth_prev_prev_press_to_prev_press_dur)
    (e7 : b.pth_prev_press_to_pth_press_dur = a.pth_prev_press_to_pth_press_dur)
    (e8 : b.pth_prev_prev_overlap_dur = a.pth_prev_prev_overlap_dur)
    (e9 : b.pth_prev_overlap_dur = a.pth_prev_overlap_dur)
    (e10 : b.prev_press_to_press_dur = a.prev_press_to_press_dur)
    (e11 : b.cur_press_to_press_dur = a.cur_press_to_press_dur)
    (e12 : b.prev_overlap_dur = a.prev_overlap_dur)
    (e13 : b.cur_overlap_dur = a.cur_overlap_dur)
    (e14 : b.down_count = a.down_count) :
    DurOk b := by
  obtain ⟨h1, h2, h3, h4, h5, h6, h7, h8, h9, h10, h11, h12, h13, h14⟩ := h
  exact ⟨e1.symm ▸ h1, e2.symm ▸ h2, e3.symm ▸ h3, e4.symm ▸ h4, e5.symm ▸ h5,
    e6.symm ▸ h6, e7.symm ▸ h7, e8.symm ▸ h8, e9.symm ▸ h9, e10.symm ▸ h10,
    e11.symm ▸ h11, e12.symm ▸ h12, e13.symm ▸ h13, e14.symm ▸ h14⟩

/-- The overlap-timer promise as `store_press_to_press_and_overlap_for_pth`
needs it: phrased via the down count *before* the current press. -/
def OvlB (t : Nat) (s : PthState) : Prop :=
  (s.down_count + 255) % 256 ≥ 2 →
    (s.overlap_timer_max_reached = true ∨
      timerDiff16 t s.overlap_timer < MS_MAX_DUR_FOR_TIMERS)

theorem collect_durOk (s : PthState) (b : Bool) (t : Nat) (hD : DurOk s)
    (hovl : ovlGuar t s) (hp2p : p2pGuar t s) :
    DurOk (collect_new_press_to_press_and_overlap_duration s b t) := by
  obtain ⟨h1, h2, h3, h4, h5, h6, h7, h8, h9, h10, h11, h12, h13, h14⟩ := hD
  unfold collect_new_press_to_press_and_overlap_duration
  dsimp only
  split_ifs <;>
    refine ⟨?_, ?_, ?_, ?_, ?_, ?_, ?_, ?_, ?_, ?_, ?_, ?_, ?_, ?_⟩ <;>
      (try dsimp only) <;>
      first
        | assumption
        | omega
        | exact toInt16_inI _ (le_refl _)
        | exact toInt16_inI _ (Nat.zero_le _)
        | (exact toInt16_inI _ (le_of_lt (by
            first
              | (rcases hp2p with hq | hq
                 · exact absurd hq (by assumption)
                 · exact hq)
              | (rcases hovl (by assumption) with hq | hq
                 · exact absurd hq (by assumption)
                 · exact hq))))

theorem store_durOk (s : PthState) (t : Nat) (hD : DurOk s) (hovlB : OvlB t s) :
    DurOk (store_press_to_press_and_overlap_for_pth s t) := by
  obtain ⟨h1, h2, h3, h4, h5, h6, h7, h8, h9, h10, h11, h12, h13, h14⟩ := hD
  unfold store_press_to_press_and_overlap_for_pth
  dsimp only
  split_ifs with hc1 hc2 hc3 <;>
    refine ⟨?_, ?_, ?_, ?_, ?_, ?_, ?_, ?_, ?_, ?_, ?_, ?_, ?_, ?_⟩ <;>
      (try dsimp only) <;>
      first
        | assumption
        | exact ⟨by omega, by omega⟩
        | (exact toInt16_inI _ (le_of_lt (by
            rcases hovlB hc2 with hq | hq
            · exact absurd hq hc3
            · exact hq)))

theorem collect_true_release_timer (s : PthState) (t : Nat) :
    (collect_new_press_to_press_and_overlap_duration s true t).release_timer =
      s.release_timer := by
  unfold collect_new_press_to_press_and_overlap_duration
  rw [if_pos rfl]
  dsimp only
  split_ifs <;> rfl

theorem collect_true_release_flag (s : PthState) (t : Nat) :
    (collect_new_press_to_press_and_overlap_duration s true t).release_timer_max_reached =
      s.release_timer_max_reached := by
  unfold collect_new_press_to_press_and_overlap_duration
  rw [if_pos rfl]
  dsimp only
  split_ifs <;> rfl

theorem collect_true_relGuar (s : PthState) (t : Nat) (h : relGuar t s) :
    relGuar t (collect_new_press_to_press_and_overlap_duration s true t) := by
  unfold relGuar
  rw [collect_true_release_timer, collect_true_release_flag]
  exact h

theorem collect_true_ovlB (s : PthState) (t : Nat) (h14 : s.down_count ≤ 255)
    (hovl : ovlGuar t s) :
    OvlB t (collect_new_press_to_press_and_overlap_duration s true t) := by
  unfold OvlB
  unfold collect_new_press_to_press_and_overlap_duration
  rw [if_pos rfl]
  dsimp only
  split_ifs <;>
    first
      | (intro hge
         right
         show timerDiff16 t t < MS_MAX_DUR_FOR_TIMERS
         unfold timerDiff16 MS_MAX_DUR_FOR_TIMERS
         omega)
      | (intro hge
         have hge2 : ((s.down_count + 1) % 256 + 255) % 256 ≥ 2 := hge
         exact hovl (by omega))

theorem collect_pthGuar (s : PthState) (b : Bool) (t : Nat) (h : pthGuar t s) :
    pthGuar t (collect_new_press_to_press_and_overlap_duration s b t) := by
  unfold pthGuar
  rw [collect_pth_status, collect_pth_press_timer, collect_pth_press_timer_max_reached]
  exact h

theorem collect_secGuar (s : PthState) (b : Bool) (t : Nat) (h : secGuar t s) :
    secGuar t (collect_new_press_to_press_and_overlap_duration s b t) := by
  unfold secGuar
  rw [collect_pth_status, collect_second_press_timer, collect_second_press_timer_max_reached]
  exact h

theorem ips_durOk (cfg : PthConfig) (now kc : Nat) (record : KeyRecord) (s : PthState)
    (hD : DurOk s) (hrel : relGuar now s) (hovlB : OvlB now s) :
    DurOk (idle_press_state cfg now kc record s) := by
  obtain ⟨h1, h2, h3, h4, h5, h6, h7, h8, h9, h10, h11, h12, h13, h14⟩ := hD
  unfold idle_press_state
  dsimp only
  refine durOk_transport _ (store_durOk _ now ?_ ?_) _ rfl rfl rfl rfl rfl rfl rfl rfl
    rfl rfl rfl rfl rfl rfl
  · refine ⟨h1, h2, h3, h4, ?_, h6, h7, h8, h9, h10, h11, h12, h13, h14⟩
    show (if s.release_timer_max_reached = true then MS_MAX_DUR_FOR_TIMERS
      else timerDiff16 now s.release_timer) ≤ MS_MAX_DUR_FOR_TIMERS
    split_ifs with hf
    · exact le_refl _
    · rcases hrel with hq | hq
      · exact absurd hq hf
      · exact le_of_lt hq
  · exact hovlB

/-- The per-arm saturation promise: the successor state keeps `DurOk` and
every prediction call of the arm receives saturated inputs. -/
def OutDur : HandlerOut → Prop
  | .ret _ s ems => DurOk s ∧ ∀ i ∈ predCalls ems, PredOk i
  | .fallthrough s ems => DurOk s ∧ ∀ i ∈ predCalls ems, PredOk i
  | .undef => True

theorem ipt_outDur (cfg : PthConfig) (now kc : Nat) (record : KeyRecord)
    (s : PthState) (ems : List Emission) (hD : DurOk s)
    (hemp : predCalls ems = []) :
    OutDur (idle_press_tail cfg now kc record s ems) := by
  obtain ⟨h1, h2, h3, h4, h5, h6, h7, h8, h9, h10, h11, h12, h13, h14⟩ := hD
  unfold idle_press_tail
  dsimp only
  split_ifs <;> dsimp only [OutDur] <;>
    refine ⟨⟨?_, ?_, ?_, ?_, ?_, ?_, ?_, ?_, ?_, ?_, ?_, ?_, ?_, ?_⟩, ?_⟩ <;>
      first
        | assumption
        | (intro i hi
           simp only [predCalls_append, hemp, registerPthAsHold, predCalls_cons_record,
             predCalls_nil, List.append_nil, List.nil_append, List.not_mem_nil] at hi)

theorem handle_idle_outDur (cfg : PthConfig) (now kc : Nat) (record : KeyRecord)
    (th : Bool) (s : PthState) (hD : DurOk s)
    (hpg : record.event.pressed = true → relGuar now s ∧ OvlB now s) :
    OutDur (handle_idle cfg now kc record th s) := by
  unfold handle_idle
  by_cases hpr : (record.event.pressed && th) = true
  · rw [if_pos hpr]
    have hp : record.event.pressed = true := by
      have hc := hpr
      simp only [Bool.and_eq_true] at hc
      exact hc.1
    obtain ⟨hrel, hovlB⟩ := hpg hp
    have hips : DurOk (idle_press_state cfg now kc record s) :=
      ips_durOk cfg now kc record s hD hrel hovlB
    dsimp only
    split_ifs with h0 hval
    · dsimp only [OutDur]
      refine ⟨muc_durOk cfg now _ hips, ?_⟩
      intro i hi
      rw [muc_no_pred] at hi
      exact absurd hi (List.not_mem_nil i)
    · exact ipt_outDur cfg now kc record _ _ (muc_durOk cfg now _ hips)
        (muc_no_pred cfg now _)
    · exact ipt_outDur cfg now kc record _ [] hips rfl
  · rw [if_neg hpr]
    dsimp only [OutDur]
    refine ⟨hD, ?_⟩
    intro i hi
    simp at hi

set_option maxHeartbeats 1000000 in
theorem handle_pressed_outDur (cfg : PthConfig) (now kc : Nat) (record : KeyRecord)
    (th : Bool) (s : PthState) (hst : s.pth_status = PthStatus.pressed)
    (hD : DurOk s)
    (hpth : s.pth_press_timer_max_reached = true ∨
      timerDiff16 now s.pth_press_timer < MS_MAX_DUR_FOR_TIMERS) :
    OutDur (handle_pressed cfg now kc record th s) := by
  obtain ⟨h1, h2, h3, h4, h5, h6, h7, h8, h9, h10, h11, h12, h13, h14⟩ := hD
  unfold handle_pressed
  dsimp only
  by_cases hp : record.event.pressed = true
  · rw [if_pos hp]
    split_ifs <;> dsimp only [OutDur] <;>
      refine ⟨⟨?_, ?_, ?_, ?_, ?_, ?_, ?_, ?_, ?_, ?_, ?_, ?_, ?_, ?_⟩, ?_⟩ <;>
        first
          | (intro i hi
             simp only [predCalls_append, predCalls_cons_pred, predCalls_cons_record,
               predCalls_nil, mdt_no_pred, registerSecondAsHold, List.append_nil,
               List.nil_append, List.mem_singleton, List.not_mem_nil, List.mem_cons,
               or_false, false_or] at hi <;>
               (rw [hi]
                refine ⟨?_, h2, h3, h4, h5, h6, h7, h8, h9⟩
                first
                  | exact le_refl _
                  | (exact le_of_lt (by
                      rcases hpth with hq | hq
                      · exact absurd hq (by assumption)
                      · exact hq))))
          | (simp only [mdt_pth_press_to_second_press_dur, mdt_pth_press_to_second_release_dur,
              mdt_pth_second_dur, mdt_pth_second_press_to_third_press_dur,
              mdt_key_release_before_pth_to_pth_press_dur,
              mdt_pth_prev_prev_press_to_prev_press_dur, mdt_pth_prev_press_to_pth_press_dur,
              mdt_pth_prev_prev_overlap_dur, mdt_pth_prev_overlap_dur,
              mdt_prev_press_to_press_dur, mdt_cur_press_to_press_dur,
              mdt_prev_overlap_dur, mdt_cur_overlap_dur, mdt_down_count,
              registerSecondAsHold] <;>
             first
               | assumption
               | exact le_refl _
               | (exact le_of_lt (by
                   rcases hpth with hq | hq
                   · exact absurd hq (by assumption)
                   · exact hq)))
  · rw [if_neg hp]
    by_cases hr : record.event.key = s.pth_record.event.key
    · rw [if_pos hr]
      dsimp only [OutDur]
      refine ⟨?_, ?_⟩
      · exact durOk_transport _
          (mdt_durOk cfg now s ⟨h1, h2, h3, h4, h5, h6, h7, h8, h9, h10, h11, h12, h13, h14⟩)
          _ rfl rfl rfl rfl rfl rfl rfl rfl rfl rfl rfl rfl rfl rfl
      · intro i hi
        simp only [predCalls_append, mdt_no_pred, unregisterPthAsTap,
          predCalls_cons_record, predCalls_cons_sendWait, predCalls_nil,
          List.append_nil, List.nil_append, List.not_mem_nil] at hi
    · rw [if_neg hr]
      rcases harr : add_release_record s record .beforeSecond with ⟨e, os⟩
      rcases os with _ | s4
      · try rw [harr]
        simp only [OutDur]
      · try rw [harr]
        dsimp only [OutDur]
        obtain ⟨a, bb, u, hs4⟩ := arr_shape s record .beforeSecond s4 e harr
        refine ⟨?_, ?_⟩
        · rw [hs4]
          exact ⟨h1, h2, h3, h4, h5, h6, h7, h8, h9, h10, h11, h12, h13, h14⟩
        · intro i hi
          simp at hi

set_option maxHeartbeats 1000000 in
theorem handle_second_pressed_outDur (cfg : PthConfig) (now kc : Nat)
    (record : KeyRecord) (th : Bool) (s : PthState)
    (hst : s.pth_status = PthStatus.secondPressed) (hD : DurOk s)
    (hpth : s.pth_press_timer_max_reached = true ∨
      timerDiff16 now s.pth_press_timer < MS_MAX_DUR_FOR_TIMERS)
    (hsec : s.second_press_timer_max_reached = true ∨
      timerDiff16 now s.second_press_timer < MS_MAX_DUR_FOR_TIMERS) :
    OutDur (handle_second_pressed cfg now kc record th s) := by
  obtain ⟨h1, h2, h3, h4, h5, h6, h7, h8, h9, h10, h11, h12, h13, h14⟩ := hD
  obtain ⟨prh, huh, -⟩ := uph_shape now (make_decision_hold cfg now s).1
  unfold handle_second_pressed
  dsimp only
  by_cases hp : record.event.pressed = true
  · rw [if_pos hp]
    split_ifs <;> dsimp only [OutDur] <;>
      refine ⟨⟨?_, ?_, ?_, ?_, ?_, ?_, ?_, ?_, ?_, ?_, ?_, ?_, ?_, ?_⟩, ?_⟩ <;>
        first
          | (intro i hi
             simp only [predCalls_append, predCalls_cons_pred, predCalls_cons_record,
               predCalls_nil, mdh_no_pred, mdt_no_pred, List.append_nil,
               List.nil_append, List.mem_singleton, List.not_mem_nil, List.mem_cons,
               or_false, false_or] at hi <;>
               (rw [hi]
                refine ⟨h1, h2, h3, ?_, h5, h6, h7, h8, h9⟩
                first
                  | exact le_refl _
                  | (exact le_of_lt (by
                      rcases hsec with hq | hq
                      · exact absurd hq (by assumption)
                      · exact hq))))
          | (simp only [mdh_pth_press_to_second_press_dur, mdh_pth_press_to_second_release_dur,
              mdh_pth_second_dur, mdh_pth_second_press_to_third_press_dur,
              mdh_key_release_before_pth_to_pth_press_dur,
              mdh_pth_prev_prev_press_to_prev_press_dur, mdh_pth_prev_press_to_pth_press_dur,
              mdh_pth_prev_prev_overlap_dur, mdh_pth_prev_overlap_dur,
              mdh_prev_press_to_press_dur, mdh_cur_press_to_press_dur,
              mdh_prev_overlap_dur, mdh_cur_overlap_dur, mdh_down_count,
              mdt_pth_press_to_second_press_dur, mdt_pth_press_to_second_release_dur,
              mdt_pth_second_dur, mdt_pth_second_press_to_third_press_dur,
              mdt_key_release_before_pth_to_pth_press_dur,
              mdt_pth_prev_prev_press_to_prev_press_dur, mdt_pth_prev_press_to_pth_press_dur,
              mdt_pth_prev_prev_overlap_dur, mdt_pth_prev_overlap_dur,
              mdt_prev_press_to_press_dur, mdt_cur_press_to_press_dur,
              mdt_prev_overlap_dur, mdt_cur_overlap_dur, mdt_down_count,
              apt_pth_press_to_second_press_dur, apt_pth_press_to_second_release_dur,
              apt_pth_second_dur, apt_pth_second_press_to_third_press_dur,
              apt_key_release_before_pth_to_pth_press_dur,
              apt_pth_prev_prev_press_to_prev_press_dur, apt_pth_prev_press_to_pth_press_dur,
              apt_pth_prev_prev_overlap_dur, apt_pth_prev_overlap_dur,
              apt_prev_press_to_press_dur, apt_cur_press_to_press_dur,
              apt_prev_overlap_dur, apt_cur_overlap_dur, apt_down_count] <;>
             first
               | assumption
               | exact le_refl _
               | (exact le_of_lt (by
                   rcases hsec with hq | hq
                   · exact absurd hq (by assumption)
                   · exact hq)))
  · rw [if_neg hp]
    by_cases hr : record.event.key = s.pth_record.event.key
    · rw [if_pos hr]
      split_ifs <;> dsimp only [OutDur] <;>
        refine ⟨?_, ?_⟩ <;>
          first
            | (rw [huh]
               exact durOk_transport _
                 (mdh_durOk cfg now s
                   ⟨h1, h2, h3, h4, h5, h6, h7, h8, h9, h10, h11, h12, h13, h14⟩)
                 _ rfl rfl rfl rfl rfl rfl rfl rfl rfl rfl rfl rfl rfl rfl)
            | (exact durOk_transport _
                (mdt_durOk cfg now s
                  ⟨h1, h2, h3, h4, h5, h6, h7, h8, h9, h10, h11, h12, h13, h14⟩)
                _ rfl rfl rfl rfl rfl rfl rfl rfl rfl rfl rfl rfl rfl rfl)
            | (intro i hi
               simp only [predCalls_append, predCalls_cons_pred, predCalls_cons_record,
                 predCalls_cons_sendWait, predCalls_nil, mdh_no_pred, mdt_no_pred,
                 uph_no_pred, unregisterPthAsTap, List.append_nil, List.nil_append,
                 List.mem_singleton, List.not_mem_nil, List.mem_cons, or_false,
                 false_or] at hi <;>
                 (rw [hi]
                  exact ⟨h1, h2, h3, h4, h5, h6, h7, h8, h9⟩))
    · rw [if_neg hr]
      by_cases hr2 : record.event.key = s.second_record.event.key
      · rw [if_pos hr2]
        split_ifs <;> dsimp only [OutDur] <;>
          refine ⟨⟨?_, ?_, ?_, ?_, ?_, ?_, ?_, ?_, ?_, ?_, ?_, ?_, ?_, ?_⟩, ?_⟩ <;>
            first
              | (intro i hi
                 simp only [mdt_no_pred, predCalls_nil, List.not_mem_nil] at hi)
              | (simp only [mdt_pth_press_to_second_press_dur,
                  mdt_pth_press_to_second_release_dur, mdt_pth_second_dur,
                  mdt_pth_second_press_to_third_press_dur,
                  mdt_key_release_before_pth_to_pth_press_dur,
                  mdt_pth_prev_prev_press_to_prev_press_dur,
                  mdt_pth_prev_press_to_pth_press_dur, mdt_pth_prev_prev_overlap_dur,
                  mdt_pth_prev_overlap_dur, mdt_prev_press_to_press_dur,
                  mdt_cur_press_to_press_dur, mdt_prev_overlap_dur,
                  mdt_cur_overlap_dur, mdt_down_count] <;>
                 first
                   | assumption
                   | exact le_refl _
                   | (exact le_of_lt (by
                       first
                         | (rcases hpth with hq | hq
                            · exact absurd hq (by assumption)
                            · exact hq)
                         | (rcases hsec with hq | hq
                            · exact absurd hq (by assumption)
                            · exact hq))))
      · rw [if_neg hr2]
        rcases harr : add_release_record s record .afterSecond with ⟨e, os⟩
        rcases os with _ | s4
        · try rw [harr]
          simp only [OutDur]
        · try rw [harr]
          dsimp only [OutDur]
          obtain ⟨a, bb, u, hs4⟩ := arr_shape s record .afterSecond s4 e harr
          refine ⟨?_, ?_⟩
          · rw [hs4]
            exact ⟨h1, h2, h3, h4, h5, h6, h7, h8, h9, h10, h11, h12, h13, h14⟩
          · intro i hi
            simp at hi

theorem handle_decided_tap_outDur (now : Nat) (record : KeyRecord) (th : Bool)
    (s : PthState) (hD : DurOk s) : OutDur (handle_decided_tap now record th s) := by
  obtain ⟨h1, h2, h3, h4, h5, h6, h7, h8, h9, h10, h11, h12, h13, h14⟩ := hD
  unfold handle_decided_tap
  dsimp only
  split_ifs <;> dsimp only [OutDur] <;>
    refine ⟨?_, ?_⟩ <;>
      first
        | exact ⟨h1, h2, h3, h4, h5, h6, h7, h8, h9, h10, h11, h12, h13, h14⟩
        | (exact durOk_transport _
            ⟨h1, h2, h3, h4, h5, h6, h7, h8, h9, h10, h11, h12, h13, h14⟩ _
            (apt_pth_press_to_second_press_dur _ _) (apt_pth_press_to_second_release_dur _ _)
            (apt_pth_second_dur _ _) (apt_pth_second_press_to_third_press_dur _ _)
            (apt_key_release_before_pth_to_pth_press_dur _ _)
            (apt_pth_prev_prev_press_to_prev_press_dur _ _)
            (apt_pth_prev_press_to_pth_press_dur _ _)
            (apt_pth_prev_prev_overlap_dur _ _) (apt_pth_prev_overlap_dur _ _)
            (apt_prev_press_to_press_dur _ _) (apt_cur_press_to_press_dur _ _)
            (apt_prev_overlap_dur _ _) (apt_cur_overlap_dur _ _) (apt_down_count _ _))
        | (exact durOk_transport _
            ⟨h1, h2, h3, h4, h5, h6, h7, h8, h9, h10, h11, h12, h13, h14⟩ _
            rfl rfl rfl rfl rfl rfl rfl rfl rfl rfl rfl rfl rfl rfl)
        | (intro i hi
           simp only [predCalls_cons_record, predCalls_cons_sendWait, predCalls_nil,
             predCalls_append, unregisterPthAsTap, List.append_nil, List.nil_append,
             List.not_mem_nil] at hi)

theorem handle_decided_hold_outDur (cfg : PthConfig) (now kc : Nat)
    (record : KeyRecord) (th : Bool) (s : PthState) (hD : DurOk s) :
    OutDur (handle_decided_hold cfg now kc record th s) := by
  obtain ⟨h1, h2, h3, h4, h5, h6, h7, h8, h9, h10, h11, h12, h13, h14⟩ := hD
  obtain ⟨pr2, hu2, -⟩ := uph_shape now s
  unfold handle_decided_hold
  dsimp only
  split_ifs <;> dsimp only [OutDur] <;>
    refine ⟨?_, ?_⟩ <;>
      first
        | exact ⟨h1, h2, h3, h4, h5, h6, h7, h8, h9, h10, h11, h12, h13, h14⟩
        | (exact durOk_transport _
            ⟨h1, h2, h3, h4, h5, h6, h7, h8, h9, h10, h11, h12, h13, h14⟩ _
            (apt_pth_press_to_second_press_dur _ _) (apt_pth_press_to_second_release_dur _ _)
            (apt_pth_second_dur _ _) (apt_pth_second_press_to_third_press_dur _ _)
            (apt_key_release_before_pth_to_pth_press_dur _ _)
            (apt_pth_prev_prev_press_to_prev_press_dur _ _)
            (apt_pth_prev_press_to_pth_press_dur _ _)
            (apt_pth_prev_prev_overlap_dur _ _) (apt_pth_prev_overlap_dur _ _)
            (apt_prev_press_to_press_dur _ _) (apt_cur_press_to_press_dur _ _)
            (apt_prev_overlap_dur _ _) (apt_cur_overlap_dur _ _) (apt_down_count _ _))
        | (rw [hu2]
           exact durOk_transport _
             ⟨h1, h2, h3, h4, h5, h6, h7, h8, h9, h10, h11, h12, h13, h14⟩ _
             rfl rfl rfl rfl rfl rfl rfl rfl rfl rfl rfl rfl rfl rfl)
        | (intro i hi
           simp only [predCalls_cons_record, predCalls_cons_sendWait, predCalls_nil,
             predCalls_append, uph_no_pred, List.append_nil, List.nil_append,
             List.not_mem_nil] at hi)

end PTH

namespace PTH

theorem dispatch_durOk (cfg : PthConfig) (now kc : Nat) (record : KeyRecord)
    (th : Bool) (s : PthState) (hD : DurOk s)
    (hpg : record.event.pressed = true → relGuar now s ∧ OvlB now s)
    (hpth : pthGuar now s) (hsec : secGuar now s) :
    ∀ b s2 ems, dispatch_switch cfg now kc record th s = some (b, s2, ems) →
      DurOk s2 ∧ ∀ i ∈ predCalls ems, PredOk i := by
  intro b s2 ems h
  unfold dispatch_switch at h
  dsimp only at h
  cases hst : s.pth_status with
  | idle =>
    rw [hst] at h
    dsimp only at h
    have hout := handle_idle_outDur cfg now kc record th s hD hpg
    rcases hh : handle_idle cfg now kc record th s with ⟨b', s', e'⟩ | ⟨s', e'⟩ | _
    · rw [hh] at h hout
      dsimp only at h
      dsimp only [OutDur] at hout
      simp only [Option.some.injEq, Prod.mk.injEq] at h
      rw [← h.2.1, ← h.2.2]
      exact hout
    · rw [hh] at h hout
      dsimp only at h
      dsimp only [OutDur] at hout
      simp only [Option.some.injEq, Prod.mk.injEq] at h
      rw [← h.2.1, ← h.2.2]
      refine ⟨hout.1, ?_⟩
      intro i hi
      rw [predCalls_append] at hi
      rcases List.mem_append.mp hi with hi2 | hi2
      · exact hout.2 i hi2
      · rw [predCalls_ite] at hi2
        split_ifs at hi2 <;> simp at hi2
    · rw [hh] at h
      dsimp only at h
      simp at h
  | pressed =>
    rw [hst] at h
    dsimp only at h
    have hout := handle_pressed_outDur cfg now kc record th s hst hD (hpth (Or.inl hst))
    rcases hh : handle_pressed cfg now kc record th s with ⟨b', s', e'⟩ | ⟨s', e'⟩ | _
    · rw [hh] at h hout
      dsimp only at h
      dsimp only [OutDur] at hout
      simp only [Option.some.injEq, Prod.mk.injEq] at h
      rw [← h.2.1, ← h.2.2]
      exact hout
    · rw [hh] at h hout
      dsimp only at h
      dsimp only [OutDur] at hout
      simp only [Option.some.injEq, Prod.mk.injEq] at h
      rw [← h.2.1, ← h.2.2]
      refine ⟨hout.1, ?_⟩
      intro i hi
      rw [predCalls_append] at hi
      rcases List.mem_append.mp hi with hi2 | hi2
      · exact hout.2 i hi2
      · rw [predCalls_ite] at hi2
        split_ifs at hi2 <;> simp at hi2
    · rw [hh] at h
      dsimp only at h
      simp at h
  | secondPressed =>
    rw [hst] at h
    dsimp only at h
    have hout := handle_second_pressed_outDur cfg now kc record th s hst hD
      (hpth (Or.inr hst)) (hsec hst)
    rcases hh : handle_second_pressed cfg now kc record th s with
      ⟨b', s', e'⟩ | ⟨s', e'⟩ | _
    · rw [hh] at h hout
      dsimp only at h
      dsimp only [OutDur] at hout
      simp only [Option.some.injEq, Prod.mk.injEq] at h
      rw [← h.2.1, ← h.2.2]
      exact hout
    · rw [hh] at h hout
      dsimp only at h
      dsimp only [OutDur] at hout
      simp only [Option.some.injEq, Prod.mk.injEq] at h
      rw [← h.2.1, ← h.2.2]
      refine ⟨hout.1, ?_⟩
      intro i hi
      rw [predCalls_append] at hi
      rcases List.mem_append.mp hi with hi2 | hi2
      · exact hout.2 i hi2
      · rw [predCalls_ite] at hi2
        split_ifs at hi2 <;> simp at hi2
    · rw [hh] at h
      dsimp only at h
      simp at h
  | decidedTap =>
    rw [hst] at h
    dsimp only at h
    have hout := handle_decided_tap_outDur now record th s hD
    rcases hh : handle_decided_tap now record th s with ⟨b', s', e'⟩ | ⟨s', e'⟩ | _
    · rw [hh] at h hout
      dsimp only at h
      dsimp only [OutDur] at hout
      simp only [Option.some.injEq, Prod.mk.injEq] at h
      rw [← h.2.1, ← h.2.2]
      exact hout
    · rw [hh] at h hout
      dsimp only at h
      dsimp only [OutDur] at hout
      simp only [Option.some.injEq, Prod.mk.injEq] at h
      rw [← h.2.1, ← h.2.2]
      refine ⟨hout.1, ?_⟩
      intro i hi
      rw [predCalls_append] at hi
      rcases List.mem_append.mp hi with hi2 | hi2
      · exact hout.2 i hi2
      · rw [predCalls_ite] at hi2
        split_ifs at hi2 <;> simp at hi2
    · rw [hh] at h
      dsimp only at h
      simp at h
  | decidedHold =>
    rw [hst] at h
    dsimp only at h
    have hout := handle_decided_hold_outDur cfg now kc record th s hD
    rcases hh : handle_decided_hold cfg now kc record th s with
      ⟨b', s', e'⟩ | ⟨s', e'⟩ | _
    · rw [hh] at h hout
      dsimp only at h
      dsimp only [OutDur] at hout
      simp only [Option.some.injEq, Prod.mk.injEq] at h
      rw [← h.2.1, ← h.2.2]
      exact hout
    · rw [hh] at h hout
      dsimp only at h
      dsimp only [OutDur] at hout
      simp only [Option.some.injEq, Prod.mk.injEq] at h
      rw [← h.2.1, ← h.2.2]
      refine ⟨hout.1, ?_⟩
      intro i hi
      rw [predCalls_append] at hi
      rcases List.mem_append.mp hi with hi2 | hi2
      · exact hout.2 i hi2
      · rw [predCalls_ite] at hi2
        split_ifs at hi2 <;> simp at hi2
    · rw [hh] at h
      dsimp only at h
      simp at h

theorem prp_durOk (cfg : PthConfig) (s : PthState) (now kc : Nat)
    (record : KeyRecord) (hD : DurOk s) (hT : TickedG (now % 65536) s) :
    ∀ b s2 ems, process_record_pth cfg s now kc record = some (b, s2, ems) →
      DurOk s2 ∧ ∀ i ∈ predCalls ems, PredOk i := by
  obtain ⟨hTrel, hTovl, hTp2p, hTpth, hTsec⟩ := hT
  obtain ⟨g1, g2, g3, g4, g5, g6, g7, g8, g9, g10, g11, g12, g13, g14⟩ := hD
  intro b s2 ems h
  unfold process_record_pth at h
  by_cases hg : s.is_processing_record_due_to_pth = true ∨ record.event.isKey = false
  · rw [if_pos (by rcases hg with hg | hg <;> simp [hg])] at h
    simp only [Option.some.injEq, Prod.mk.injEq] at h
    rw [← h.2.1, ← h.2.2]
    refine ⟨⟨g1, g2, g3, g4, g5, g6, g7, g8, g9, g10, g11, g12, g13, g14⟩, ?_⟩
    intro i hi
    simp at hi
  · rw [if_neg (by rcases Bool.eq_false_or_eq_true record.event.isKey with hk | hk <;>
        rcases Bool.eq_false_or_eq_true s.is_processing_record_due_to_pth with hq | hq <;>
        simp_all)] at h
    dsimp only at h
    have hc : DurOk (collect_new_press_to_press_and_overlap_duration s
        record.event.pressed (now % 65536)) :=
      collect_durOk s record.event.pressed (now % 65536)
        ⟨g1, g2, g3, g4, g5, g6, g7, g8, g9, g10, g11, g12, g13, g14⟩ hTovl hTp2p
    have hcp : pthGuar (now % 65536) (collect_new_press_to_press_and_overlap_duration s
        record.event.pressed (now % 65536)) :=
      collect_pthGuar s record.event.pressed (now % 65536) hTpth
    have hcs : secGuar (now % 65536) (collect_new_press_to_press_and_overlap_duration s
        record.event.pressed (now % 65536)) :=
      collect_secGuar s record.event.pressed (now % 65536) hTsec
    by_cases hp : record.event.pressed = true
    · rw [if_pos hp] at h
      rw [hp] at hc hcp hcs
      have hrelP : relGuar (now % 65536)
          (collect_new_press_to_press_and_overlap_duration s true (now % 65536)) :=
        collect_true_relGuar s (now % 65536) hTrel
      have hovlP : OvlB (now % 65536)
          (collect_new_press_to_press_and_overlap_duration s true (now % 65536)) :=
        collect_true_ovlB s (now % 65536) g14 hTovl
      rw [hp] at h
      exact dispatch_durOk cfg (now % 65536) kc record (pth_is_tap_hold_keycode kc) _
        (by exact hc) (fun _ => by exact ⟨hrelP, hovlP⟩) (by exact hcp) (by exact hcs)
        b s2 ems h
    · rw [if_neg hp] at h
      rcases hrm : remove_pos_from_tap_releases
          (collect_new_press_to_press_and_overlap_duration s record.event.pressed
            (now % 65536)) record.event.key with _ | s3
      · rw [hrm] at h
        dsimp only at h
        exact dispatch_durOk cfg (now % 65536) kc record (pth_is_tap_hold_keycode kc) _
          hc (fun hcon => absurd hcon hp) hcp hcs b s2 ems h
      · rw [hrm] at h
        dsimp only at h
        obtain ⟨u, hs3⟩ := rpt_shape _ _ _ hrm
        by_cases hd : s3.pth_status = PthStatus.pressed ∨
            s3.pth_status = PthStatus.secondPressed
        · rw [if_pos hd] at h
          refine dispatch_durOk cfg (now % 65536) kc (set_record_to_tap record)
            (pth_is_tap_hold_keycode kc) s3 ?_ ?_ ?_ ?_ b s2 ems h
          · rw [hs3]
            exact (by exact hc)
          · exact fun hcon => absurd hcon hp
          · rw [hs3]
            exact (by exact hcp)
          · rw [hs3]
            exact (by exact hcs)
        · rw [if_neg hd] at h
          simp only [Option.some.injEq, Prod.mk.injEq] at h
          refine ⟨?_, ?_⟩
          · rw [← h.2.1, hs3]
            exact (by exact hc)
          · intro i hi
            rw [← h.2.2] at hi
            simp at hi

end PTH

namespace PTH

theorem initState_durOk (t0 : Nat) : DurOk (initState t0) := by
  unfold DurOk inI initState
  dsimp only
  decide

/-- Input sequences in which every key event is immediately preceded by a
housekeeping tick carrying the same clock value (QMK runs the housekeeping
task once per scan cycle, before the cycle's key events are processed). -/
inductive WellTicked : List PthInput → Prop
  | nil : WellTicked []
  | tick (t : Nat) (rest : List PthInput) (h : WellTicked rest) :
      WellTicked (PthInput.tick t :: rest)
  | tickKey (t kc : Nat) (r : KeyRecord) (rest : List PthInput) (h : WellTicked rest) :
      WellTicked (PthInput.tick t :: PthInput.key t kc r :: rest)

theorem run_predOk (cfg : PthConfig) :
    ∀ inputs : List PthInput, WellTicked inputs →
      ∀ s : PthState, DurOk s →
        ∀ s2 ems, runOpt cfg s inputs = some (s2, ems) →
          DurOk s2 ∧ ∀ i ∈ predCalls ems, PredOk i := by
  intro inputs hwt
  induction hwt with
  | nil =>
    intro s hD s2 ems h
    unfold runOpt at h
    simp only [Option.some.injEq, Prod.mk.injEq] at h
    rw [← h.1, ← h.2]
    refine ⟨hD, ?_⟩
    intro i hi
    simp at hi
  | tick t rest hrest ih =>
    intro s hD s2 ems h
    unfold runOpt at h
    rcases hs : stepOpt cfg s (PthInput.tick t) with _ | ⟨sa, ea⟩
    · rw [hs] at h
      exact Option.noConfusion h
    · rw [hs] at h
      dsimp only at h
      unfold stepOpt at hs
      dsimp only at hs
      simp only [Option.some.injEq] at hs
      have hs1 : (housekeeping_task cfg s t).1 = sa := by rw [hs]
      have hs2 : (housekeeping_task cfg s t).2 = ea := by rw [hs]
      have hDa : DurOk sa := by
        rw [← hs1]
        exact hk_durOk cfg s t hD
      rcases hr : runOpt cfg sa rest with _ | ⟨sb, eb⟩
      · rw [hr] at h
        exact Option.noConfusion h
      · rw [hr] at h
        dsimp only at h
        simp only [Option.some.injEq, Prod.mk.injEq] at h
        obtain ⟨hDb, hPb⟩ := ih sa hDa sb eb hr
        rw [← h.1, ← h.2]
        refine ⟨hDb, ?_⟩
        intro i hi
        rw [predCalls_append] at hi
        rcases List.mem_append.mp hi with hi2 | hi2
        · rw [← hs2, hk_no_pred] at hi2
          exact absurd hi2 (List.not_mem_nil i)
        · exact hPb i hi2
  | tickKey t kc r rest hrest ih =>
    intro s hD s2 ems h
    unfold runOpt at h
    rcases hs : stepOpt cfg s (PthInput.tick t) with _ | ⟨sa, ea⟩
    · rw [hs] at h
      exact Option.noConfusion h
    · rw [hs] at h
      dsimp only at h
      unfold stepOpt at hs
      dsimp only at hs
      simp only [Option.some.injEq] at hs
      have hs1 : (housekeeping_task cfg s t).1 = sa := by rw [hs]
      have hs2 : (housekeeping_task cfg s t).2 = ea := by rw [hs]
      have hDa : DurOk sa := by
        rw [← hs1]
        exact hk_durOk cfg s t hD
      have hTa : TickedG (t % 65536) sa := by
        rw [← hs1]
        exact hk_tickedG cfg s t
      unfold runOpt at h
      rcases hk2 : stepOpt cfg sa (PthInput.key t kc r) with _ | ⟨sk, ek⟩
      · rw [hk2] at h
        exact Option.noConfusion h
      · rw [hk2] at h
        dsimp only at h
        unfold stepOpt at hk2
        dsimp only at hk2
        rcases hpr : process_record_pth cfg sa t kc r with _ | ⟨bq, sq, eq2⟩
        · rw [hpr] at hk2
          exact Option.noConfusion hk2
        · rw [hpr] at hk2
          dsimp only at hk2
          simp only [Option.some.injEq, Prod.mk.injEq] at hk2
          obtain ⟨hDk, hPk⟩ := prp_durOk cfg sa t kc r hDa hTa bq sq eq2 hpr
          rcases hr : runOpt cfg sk rest with _ | ⟨sb, eb⟩
          · rw [hr] at h
            exact Option.noConfusion h
          · rw [hr] at h
            dsimp only at h
            simp only [Option.some.injEq, Prod.mk.injEq] at h
            obtain ⟨hDb, hPb⟩ := ih sk (by rw [← hk2.1]; exact hDk) sb eb hr
            rw [← h.1, ← h.2]
            refine ⟨hDb, ?_⟩
            intro i hi
            rw [predCalls_append] at hi
            rcases List.mem_append.mp hi with hi2 | hi3
            · rw [← hs2, hk_no_pred] at hi2
              exact absurd hi2 (List.not_mem_nil i)
            · rw [predCalls_append] at hi3
              rcases List.mem_append.mp hi3 with hi4 | hi4
              · rw [← hk2.2] at hi4
                exact hPk i hi4
              · exact hPb i hi4

/-- C7 (amended): when every key event is immediately preceded by a
housekeeping tick at the same clock value — the situation the saturating
timer flags are maintained for — every duration handed to a prediction
function is saturated: the five unsigned durations lie in
`[0, MS_MAX_DUR_FOR_TIMERS]` and the four signed previous-press/overlap
durations lie in `[-1, MS_MAX_DUR_FOR_TIMERS]` (`-1` is the initial
"unknown" sentinel).  Without the interleaved housekeeping the original
claim fails (see the counterexample): durations such as
`key_release_before_pth_to_pth_press_dur` can exceed the bound. -/
theorem pred_inputs_saturated_under_housekeeping (cfg : PthConfig) (t0 : Nat)
    (inputs : List PthInput) (hwt : WellTicked inputs) (s2 : PthState)
    (ems : List Emission)
    (h : runOpt cfg (initState t0) inputs = some (s2, ems)) :
    ∀ i ∈ predCalls ems, PredOk i :=
  (run_predOk cfg inputs hwt (initState t0) (initState_durOk t0) s2 ems h).2

/-- C7 counterexample: with no housekeeping tick between events the
saturating flags are never raised, and the prediction call made for a
second press reads `key_release_before_pth_to_pth_press_dur = 5000`, above
`MS_MAX_DUR_FOR_TIMERS = 4096` — refuting the claim for arbitrary event
sequences. -/
theorem pred_inputs_exceed_max_counterexample :
    (runOpt testCfgNoInstant (initState 0)
        [PthInput.key 0 KC_A (pressRec posL2 0),
         PthInput.key 0 KC_A (releaseRec posL2 0),
         PthInput.key 5000 KC_MT_CTL_A (pressRec posL 5000),
         PthInput.key 5010 KC_A (pressRec posR 5010)]).map
        (fun p => (predCalls p.2).map
          (fun i => i.key_release_before_pth_to_pth_press_dur)) =
      some [5000] ∧ MS_MAX_DUR_FOR_TIMERS < 5000 := by
  exact ⟨by decide, by decide⟩

/-- Witness for the amended C7 at a concrete well-ticked run: a tick and a
press of `LCTL_T(KC_A)` at 0 ms, then a tick and an opposite-side press of
`KC_A` at 10 ms, under `testCfgNoInstant`; the run makes one prediction
call and all its inputs are saturated. -/
theorem pred_inputs_saturated_under_housekeeping_witness :
    ∃ s2 ems, runOpt testCfgNoInstant (initState 0)
        [PthInput.tick 0, PthInput.key 0 KC_MT_CTL_A (pressRec posL 0),
         PthInput.tick 10, PthInput.key 10 KC_A (pressRec posR 10)] = some (s2, ems) ∧
      ∀ i ∈ predCalls ems, PredOk i := by
  have hwt : WellTicked [PthInput.tick 0, PthInput.key 0 KC_MT_CTL_A (pressRec posL 0),
      PthInput.tick 10, PthInput.key 10 KC_A (pressRec posR 10)] :=
    WellTicked.tickKey 0 KC_MT_CTL_A (pressRec posL 0) _
      (WellTicked.tickKey 10 KC_A (pressRec posR 10) _ WellTicked.nil)
  rcases hrun : runOpt testCfgNoInstant (initState 0)
      [PthInput.tick 0, PthInput.key 0 KC_MT_CTL_A (pressRec posL 0),
       PthInput.tick 10, PthInput.key 10 KC_A (pressRec posR 10)] with _ | ⟨s2c, emsc⟩
  · have hsome : (runOpt testCfgNoInstant (initState 0)
        [PthInput.tick 0, PthInput.key 0 KC_MT_CTL_A (pressRec posL 0),
         PthInput.tick 10, PthInput.key 10 KC_A (pressRec posR 10)]).isSome = true := by
      decide
    rw [hrun] at hsome
    exact Bool.noConfusion hsome
  · exact ⟨s2c, emsc, rfl,
      pred_inputs_saturated_under_housekeeping testCfgNoInstant 0 _ hwt s2c emsc hrun⟩

end PTH
